import Mathlib

/-!
# Apollo Generalized Optics Program (AGOP)

A shallow embedding of `ApolloGeneralizedOpticsProgram.cpp` (Project Apollo - NASSP,
`src_rtccmfd`).  The C++ `double` is idealised as an arbitrary linearly ordered field `K`;
the C math library, the Orbiter SDK constants, the `OrbMech` helpers and the `RTCC`
services the program calls are collaborators that the definitions take as arguments.
Where the number of passes of a loop depends on a rounded result (the accumulated sample
time `GMT = GMT + in.DeltaT` and the bracket arithmetic of `FindLandmarkAOS`), the
operation is the machine operation `DoubleArith`, a collaborator as well; `roundDouble`
gives the arithmetic of IEEE 754 binary64 over `ℚ`.
Concrete evaluations are carried out over `ℚ` (with stand-in collaborators) or over `ℝ`
(with the real elementary functions).
-/

namespace AGOP

/-! ## Orbiter SDK vector algebra -/

/-- Orbiter SDK `VECTOR3`. -/
structure VECTOR3 (K : Type) where
  x : K
  y : K
  z : K
deriving DecidableEq

/-- Orbiter SDK `MATRIX3` (row major: `m11 m12 m13` is the first row). -/
structure MATRIX3 (K : Type) where
  m11 : K
  m12 : K
  m13 : K
  m21 : K
  m22 : K
  m23 : K
  m31 : K
  m32 : K
  m33 : K
deriving DecidableEq

section Algebra

variable {K : Type} [LinearOrderedField K]

/-- Orbiter SDK `_V(x, y, z)`. -/
def _V (x y z : K) : VECTOR3 K := ⟨x, y, z⟩

/-- Orbiter SDK `_M(...)`. -/
def _M (m11 m12 m13 m21 m22 m23 m31 m32 m33 : K) : MATRIX3 K :=
  ⟨m11, m12, m13, m21, m22, m23, m31, m32, m33⟩

/-- Orbiter SDK `operator+` on vectors. -/
def VECTOR3.add (a b : VECTOR3 K) : VECTOR3 K := _V (a.x + b.x) (a.y + b.y) (a.z + b.z)

/-- Orbiter SDK `operator-` on vectors. -/
def VECTOR3.sub (a b : VECTOR3 K) : VECTOR3 K := _V (a.x - b.x) (a.y - b.y) (a.z - b.z)

/-- Orbiter SDK unary `operator-` on vectors. -/
def VECTOR3.neg (a : VECTOR3 K) : VECTOR3 K := _V (-a.x) (-a.y) (-a.z)

/-- Orbiter SDK `operator*` (vector times scalar). -/
def VECTOR3.smul (a : VECTOR3 K) (f : K) : VECTOR3 K := _V (a.x * f) (a.y * f) (a.z * f)

/-- Orbiter SDK `operator/` (vector by scalar). -/
def VECTOR3.sdiv (a : VECTOR3 K) (f : K) : VECTOR3 K := _V (a.x / f) (a.y / f) (a.z / f)

instance : Add (VECTOR3 K) := ⟨VECTOR3.add⟩
instance : Sub (VECTOR3 K) := ⟨VECTOR3.sub⟩
instance : Neg (VECTOR3 K) := ⟨VECTOR3.neg⟩

/-- Orbiter SDK `dotp`. -/
def dotp (a b : VECTOR3 K) : K := a.x * b.x + a.y * b.y + a.z * b.z

/-- Orbiter SDK `crossp`. -/
def crossp (a b : VECTOR3 K) : VECTOR3 K :=
  _V (a.y * b.z - b.y * a.z) (a.z * b.x - b.z * a.x) (a.x * b.y - b.x * a.y)

/-- Orbiter SDK `mul(MATRIX3, VECTOR3)`. -/
def mul (A : MATRIX3 K) (b : VECTOR3 K) : VECTOR3 K :=
  _V (A.m11 * b.x + A.m12 * b.y + A.m13 * b.z)
     (A.m21 * b.x + A.m22 * b.y + A.m23 * b.z)
     (A.m31 * b.x + A.m32 * b.y + A.m33 * b.z)

/-- Orbiter SDK `tmul(MATRIX3, VECTOR3)`: the transpose of `A` applied to `b`. -/
def tmul (A : MATRIX3 K) (b : VECTOR3 K) : VECTOR3 K :=
  _V (A.m11 * b.x + A.m21 * b.y + A.m31 * b.z)
     (A.m12 * b.x + A.m22 * b.y + A.m32 * b.z)
     (A.m13 * b.x + A.m23 * b.y + A.m33 * b.z)

/-- Orbiter SDK `mul(MATRIX3, MATRIX3)`. -/
def mulM (A B : MATRIX3 K) : MATRIX3 K :=
  _M (A.m11 * B.m11 + A.m12 * B.m21 + A.m13 * B.m31)
     (A.m11 * B.m12 + A.m12 * B.m22 + A.m13 * B.m32)
     (A.m11 * B.m13 + A.m12 * B.m23 + A.m13 * B.m33)
     (A.m21 * B.m11 + A.m22 * B.m21 + A.m23 * B.m31)
     (A.m21 * B.m12 + A.m22 * B.m22 + A.m23 * B.m32)
     (A.m21 * B.m13 + A.m22 * B.m23 + A.m23 * B.m33)
     (A.m31 * B.m11 + A.m32 * B.m21 + A.m33 * B.m31)
     (A.m31 * B.m12 + A.m32 * B.m22 + A.m33 * B.m32)
     (A.m31 * B.m13 + A.m32 * B.m23 + A.m33 * B.m33)

end Algebra

/-! ## Data model -/

/-- Central body tag of a state vector (`BODY_EARTH`, `BODY_MOON`). -/
inductive Body where
  | BODY_EARTH
  | BODY_MOON
deriving DecidableEq

/-- State vector `EphemerisData`. -/
structure EphemerisData (K : Type) where
  R : VECTOR3 K
  V : VECTOR3 K
  GMT : K
  RBI : Body

/-- Header of an ephemeris table: coordinate system indicator and time span. -/
structure EphemerisHeader (K : Type) where
  CSI : Int
  TL : K
  TR : K

/-- Ephemeris table `EphemerisDataTable2`. -/
structure EphemerisDataTable2 (K : Type) where
  Header : EphemerisHeader K
  table : List (EphemerisData K)

/-- Request: `AGOPInputs`.  A fixed-size C array is a function of its index;
`startable` is the star catalog (a list, so that a read outside it is visible) and
`StarIDs` holds the input star numbers (`unsigned`). -/
structure AGOPInputs (K : Type) where
  Option : Int
  Mode : Int
  AdditionalOption : Int
  ephem : EphemerisDataTable2 K
  DeltaT : K
  CSM_REFSMMAT : MATRIX3 K
  LM_REFSMMAT : MATRIX3 K
  IMUAttitude : Nat → VECTOR3 K
  AttIsCSM : Bool
  AttIsFDAI : Bool
  HeadsUp : Bool
  DockingAngle : K
  Instrument : Int
  LMCOASAxis : Bool
  AOTDetent : Nat
  AOTLineID : Nat → Int
  AOTReticleAngle : Nat → K
  AOTSpiraleAngle : Nat → K
  COASElevationAngle : Nat → K
  COASPositionAngle : Nat → K
  SextantShaftAngles : Nat → K
  SextantTrunnionAngles : Nat → K
  StarIDs : Nat → Nat
  StartingStar : Nat
  startable : List (VECTOR3 K)
  StarDeclination : K
  StarRightAscension : K
  TimeOfSighting : Nat → K
  AntennaPitch : K
  AntennaYaw : K
  ElevationAngle : K
  GroundStationID : String
  LSLat : K
  LSLng : K
  lmk_lat : K
  lmk_lng : K
  lmk_alt : K

/-- Report: `AGOPOutputs`. -/
structure AGOPOutputs (K : Type) where
  output_text : List String
  errormessage : String
  IMUAttitude : VECTOR3 K
  bIsNearHorizon : Bool
  pitch : K
  yaw : K
  REFSMMAT : MATRIX3 K
  REFSMMAT_Vehicle : Int

/-! ## Collaborators -/

/-- The C math library on `double`, and the Orbiter SDK constant `PI`. -/
structure CMath (K : Type) where
  sqrt : K → K
  sin : K → K
  cos : K → K
  asin : K → K
  acos : K → K
  atan : K → K
  atan2 : K → K → K
  PI : K

/-- Output of the ephemeris interpolation `RTCC::ELVCTR`: error code and state vector. -/
structure ELVCTROutputTable2 (K : Type) where
  ErrorCode : Int
  SV : EphemerisData K

/-- Output arguments of `RTCC::PLEFEM` together with its error return. -/
structure PLEFEMOutput (K : Type) where
  err : Bool
  R_EM : VECTOR3 K
  V_EM : VECTOR3 K
  R_ES : VECTOR3 K

/-- Station characteristics `StationData` (the fields the program reads). -/
structure StationData (K : Type) where
  lng : K
  R_E_sin_lat : K
  R_E_cos_lat : K
  sin_lng : K
  cos_lng : K

/-- One entry of the acquisition table computed by `RTCC::EMXING`. -/
structure StationContact (K : Type) where
  GMTAOS : K
  GMTEMAX : K
  MAXELEV : K

/-- The `OrbMech` helpers and constants the program calls; their code is not part of the
translated file, so they are arguments of the embedding. -/
structure OrbMechLib (K : Type) where
  CALCGAR : MATRIX3 K → MATRIX3 K → VECTOR3 K
  CALCSMSC : VECTOR3 K → MATRIX3 K
  AXISGEN : VECTOR3 K → VECTOR3 K → VECTOR3 K → VECTOR3 K → MATRIX3 K
  CSMBodyToLMBody : K → MATRIX3 K
  SXTNB : K → K → VECTOR3 K
  SBNBMatrix : MATRIX3 K
  CALCSXA : MATRIX3 K → VECTOR3 K → K × K
  r_from_latlong : K → K → VECTOR3 K
  r_from_latlong3 : K → K → K → VECTOR3 K
  EMXINGElev : VECTOR3 K → VECTOR3 K → K
  R_Earth : K
  R_Moon : K
  w_Earth : K
  format_time_HHMMSS : K → String
  AOTNavigationBase : K → K → VECTOR3 K
  sign : K → K
  latlong_from_r : VECTOR3 K → K × K
  atan3 : K → K → K
  RotateVector : VECTOR3 K → K → VECTOR3 K → VECTOR3 K
  _MRx : K → MATRIX3 K
  _MRy : K → MATRIX3 K
  _MRz : K → MATRIX3 K

/-- One entry `pRTCC->GZSTCH[j].data` of the ground station table (the fields the program
reads). -/
structure StationRecord (K : Type) where
  code : String
  lat_geoc : K
  lng : K
  H : K

/-- Input table `RTCC::EMMENVInputTable` of the line-of-sight search `RTCC::EMMENV` (the
fields the program assigns). -/
structure EMMENVInputTable (K : Type) where
  GMT : K
  option : Int
  terminator : Bool
  present : Bool
  u_vec : VECTOR3 K

/-- Output table `RTCC::EMMENVOutputTable` of `RTCC::EMMENV` (the fields the program
reads). -/
structure EMMENVOutputTable (K : Type) where
  err : Int
  IsActualChange : Bool
  T_Change : K

/-- The services of the `RTCC` object (`pRTCC->...`) and its header constants.  `EMMENV`
and `EMXING` are called with the class member `mantimes`, which this file never assigns;
`EMMENVInputTable_u_vec` is the value the constructor of the input table gives `u_vec`. -/
structure RTCCServices (K : Type) where
  ELVCTR : K → EphemerisDataTable2 K → ELVCTROutputTable2 K
  PLEFEM : Int → K → Int → PLEFEMOutput K
  ELVCNV : VECTOR3 K → K → Int → Int → Int → Int × VECTOR3 K
  ELVCNVTable : List (EphemerisData K) → Int → Int → List (EphemerisData K)
  EMGGPCHR : K → K → K → Body → K → StationData K
  EMXING : EphemerisDataTable2 K → StationData K → Body → Int × List (StationContact K)
  GETfromGMT : K → K
  BZLAND_rad0 : K
  MCGHZA : K
  MDGTCD : Nat → K
  MDGETA : Nat → K
  RTCC_MPT_CSM : Int
  RTCC_MPT_LM : Int
  RTCC_COORDINATES_ECI : Int
  RTCC_COORDINATES_ECT : Int
  RTCC_COORDINATES_MCI : Int
  RTCC_COORDINATES_MCT : Int
  GZSTCH : Nat → StationRecord K
  MKRBKS : Nat
  EMMGFDAI : VECTOR3 K → Bool → VECTOR3 K
  EMMENV : EphemerisDataTable2 K → EMMENVInputTable K → EMMENVOutputTable K
  EMMENVInputTable_u_vec : VECTOR3 K
  ELVCNVMatrix : K → Int → Int → MATRIX3 K
  GMTfromGET : K → K

/-- The C formatting function `sprintf`: a format string applied to numeric arguments
(`sprintf` for `double` arguments, `sprintfInt` for integer arguments). -/
structure CFormat (K : Type) where
  sprintf : String → List K → String
  sprintfInt : String → List Int → String

/-- The arithmetic of the C type `double` at the places where the control flow of the
program depends on a rounded result, namely the accumulation `GMT = GMT + in.DeltaT` of
the sample loops and the bracket arithmetic `TR - TL` and `(TL + TR) / 2.0` of
`FindLandmarkAOS`: `add a b`, `sub a b` and `div a b` are the values the machine gives
for `a + b`, `a - b` and `a / b`. -/
structure DoubleArith (K : Type) where
  add : K → K → K
  sub : K → K → K
  div : K → K → K

/-- Arithmetic without rounding. -/
def exactArith {K : Type} [LinearOrderedField K] : DoubleArith K :=
  { add := fun a b => a + b, sub := fun a b => a - b, div := fun a b => a / b }

/-- Everything outside the translated file that a computation depends on. -/
structure Collab (K : Type) where
  cm : CMath K
  om : OrbMechLib K
  rtcc : RTCCServices K
  fmt : CFormat K
  fp : DoubleArith K

section Units

variable {K : Type} [LinearOrderedField K]

/-- Orbiter SDK `RAD = PI/180.0`, the factor from degrees to radians (the source writes
its angles in degrees as `45.0*RAD`, `270.0*RAD`, `70.0*RAD`). -/
def RAD (cm : CMath K) : K := cm.PI / 180

/-- Orbiter SDK `DEG = 180.0/PI`, the factor from radians to degrees. -/
def DEG (cm : CMath K) : K := 180 / cm.PI

/-- Orbiter SDK `length`. -/
def length (cm : CMath K) (a : VECTOR3 K) : K := cm.sqrt (a.x * a.x + a.y * a.y + a.z * a.z)

/-- Orbiter SDK `unit`: `a / length(a)`. -/
def unit (cm : CMath K) (a : VECTOR3 K) : VECTOR3 K := a.sdiv (length cm a)

end Units

section Program

variable {K : Type} [LinearOrderedField K]

/-- The constructor `AGOPOutputs::AGOPOutputs()` (lines 27-34). -/
def AGOPOutputs.init : AGOPOutputs K :=
  { output_text := [], errormessage := "", IMUAttitude := _V 0 0 0, bIsNearHorizon := false,
    pitch := 0, yaw := 0, REFSMMAT := _M 1 0 0 0 1 0 0 0 1, REFSMMAT_Vehicle := 0 }

/-- The function `AGOP::WriteError` (lines 2152-2178). -/
def WriteError (out : AGOPOutputs K) (err : Int) : AGOPOutputs K :=
  if err = 1 then { out with errormessage := "UNABLE TO CONVERT VECTORS" }
  else if err = 2 then { out with errormessage := "EPHEMERIDES NOT AVAILABLE" }
  else if err = 3 then { out with errormessage := "GROUND STATION NOT FOUND" }
  else if err = 4 then { out with errormessage := "INTERPOLATION FAILURE" }
  else if err = 5 then { out with errormessage := "LANDMARK NOT IN SIGHT" }
  else if err = 6 then { out with errormessage := "NO AOS IN TIMESPAN" }
  else if err = 7 then { out with errormessage := "STARS TOO CLOSE TO EACH OTHER" }
  else out

/-- The function `AGOP::Interpolation` (lines 2921-2941): `none` is the error return
`true`; otherwise the interpolated state vector, tagged with the central body of the
ephemeris. -/
def Interpolation (c : Collab K) (ephemeris : EphemerisDataTable2 K) (GMT : K) :
    Option (EphemerisData K) :=
  let outtab := c.rtcc.ELVCTR GMT ephemeris
  if outtab.ErrorCode > 2 then none
  else
    some { R := outtab.SV.R, V := outtab.SV.V, GMT := outtab.SV.GMT,
           RBI := if ephemeris.Header.CSI = 0 then Body.BODY_EARTH else Body.BODY_MOON }

/-! ### Option 5: passive thermal control -/

/-- What one pass through the loop body of `PassiveThermalControl` computes: the attitude
matrix, the gimbal angles and the report line. -/
structure PTCSample (K : Type) where
  M_NB : MATRIX3 K
  IMUAttitude : VECTOR3 K
  line : String

/-- The computations of one pass of the loop body of `AGOP::PassiveThermalControl`
(lines 890-932) at sample time `GMT`: `Except.error e` when the body leaves through
`WriteError(out, e); return;`. -/
def PassiveThermalControl_sample (c : Collab K) (inp : AGOPInputs K)
    (ephemeris : EphemerisDataTable2 K) (GMT : K) : Except Int (PTCSample K) :=
  match Interpolation c ephemeris GMT with
  | none => Except.error 4
  | some sv =>
    let pl := c.rtcc.PLEFEM 1 (sv.GMT / 3600) 0
    if pl.err then Except.error 2
    else
      let R_EV := if sv.RBI = Body.BODY_EARTH then sv.R else pl.R_EM + sv.R
      let u_VE := -(unit c.cm R_EV)
      let u_VS := unit c.cm (pl.R_ES - R_EV)
      let X_NB := unit c.cm (crossp u_VE u_VS)
      let Y_NB := -(crossp X_NB u_VE)
      let Z_NB := crossp X_NB Y_NB
      let M_NB := _M X_NB.x X_NB.y X_NB.z Y_NB.x Y_NB.y Y_NB.z Z_NB.x Z_NB.y Z_NB.z
      let att := c.om.CALCGAR inp.CSM_REFSMMAT M_NB
      let line := c.om.format_time_HHMMSS (c.rtcc.GETfromGMT sv.GMT) ++ " " ++
        c.fmt.sprintf "%+07.2lf %+07.2lf %+07.2lf"
          [att.x * DEG c.cm, att.y * DEG c.cm, att.z * DEG c.cm]
      Except.ok { M_NB := M_NB, IMUAttitude := att, line := line }

/-- The `do ... while (i < 10)` loop of `AGOP::PassiveThermalControl` (lines 888-940),
entered with loop counter `i`, sample time `GMT` and report `out`.  The first argument
bounds the number of passes; ten are enough because the loop leaves once `i` reaches 10.
The accumulation `GMT = GMT + in.DeltaT` is the machine addition `c.fp.add`. -/
def PassiveThermalControl_loop (c : Collab K) (inp : AGOPInputs K)
    (ephemeris : EphemerisDataTable2 K) : Nat → Nat → K → AGOPOutputs K → AGOPOutputs K
  | 0, _, _, out => out
  | fuel + 1, i, GMT, out =>
    match PassiveThermalControl_sample c inp ephemeris GMT with
    | Except.error e => WriteError out e
    | Except.ok s =>
      let out1 : AGOPOutputs K :=
        { out with IMUAttitude := s.IMUAttitude, REFSMMAT := s.M_NB,
                   REFSMMAT_Vehicle := c.rtcc.RTCC_MPT_CSM,
                   output_text := out.output_text ++ [s.line] }
      let i1 := i + 1
      let GMT1 := c.fp.add GMT inp.DeltaT
      if GMT1 > ephemeris.Header.TR then out1
      else if i1 < 10 then PassiveThermalControl_loop c inp ephemeris fuel i1 GMT1 out1
      else out1

/-- The time of sample `k` of a sample loop: `GMT = TL` at entry and
`GMT = GMT + in.DeltaT`, in machine arithmetic, after each pass. -/
def sampleTime (fp : DoubleArith K) (TL DeltaT : K) : Nat → K
  | 0 => TL
  | k + 1 => fp.add (sampleTime fp TL DeltaT k) DeltaT

/-- The three header lines of the passive thermal control report. -/
def PassiveThermalControl_header : List String :=
  ["     PASSIVE THERMAL CONTROL     ",
   "   GET            ATTITUDE       ",
   "HR:MIN:SEC  OGA     IGA     MGA  "]

/-- The function `AGOP::PassiveThermalControl` (lines 869-941); `ephemeris` is the class
member that `Calc` sets from the request. -/
def PassiveThermalControl (c : Collab K) (ephemeris : EphemerisDataTable2 K)
    (inp : AGOPInputs K) (out : AGOPOutputs K) : AGOPOutputs K :=
  let out0 : AGOPOutputs K :=
    { out with output_text := out.output_text ++ PassiveThermalControl_header }
  PassiveThermalControl_loop c inp ephemeris 10 0 ephemeris.Header.TL out0

/-! ### Star catalog and instrument line-of-sight vectors -/

/-- Orbiter SDK `PI2` (two pi). -/
def PI2 (cm : CMath K) : K := 2 * cm.PI

/-- The function `AGOP::GetStarUnitVector` (lines 2423-2433).  `star` is `unsigned`, so
`star - 1` wraps modulo `2^32`; `none` is a read outside the catalog. -/
def GetStarUnitVector (c : Collab K) (inp : AGOPInputs K) (star : Nat) :
    Option (VECTOR3 K) :=
  if star ≤ 400 then
    inp.startable[(star + 4294967296 - 1) % 4294967296]?
  else
    some (c.om.r_from_latlong inp.StarDeclination inp.StarRightAscension)

/-- The function `AGOP::GetCSMCOASVector` (lines 2469-2473). -/
def GetCSMCOASVector (cm : CMath K) (SPA SXP : K) : VECTOR3 K :=
  unit cm (_V (cm.cos SPA * cm.cos SXP) (cm.sin SXP) (cm.sin SPA * cm.cos SXP))

/-- The function `AGOP::GetLMCOASVector` (lines 2475-2485). -/
def GetLMCOASVector (cm : CMath K) (EL SXP : K) (IsZAxis : Bool) : VECTOR3 K :=
  if IsZAxis then
    unit cm (_V (cm.sin SXP) (-(cm.sin EL) * cm.cos SXP) (cm.cos EL * cm.cos SXP))
  else
    unit cm (_V (cm.cos EL * cm.cos SXP) (cm.sin SXP) (cm.sin EL * cm.cos SXP))

/-- The function `AGOP::GetAOTNBVector` (lines 2487-2536). -/
def GetAOTNBVector (cm : CMath K) (EL AZ ReticleAngle SpiraleAngle : K) (axis : Int) :
    VECTOR3 K :=
  let u_OAN := _V (cm.sin EL) (cm.cos EL * cm.sin AZ) (cm.cos EL * cm.cos AZ)
  let u_YPN_apo := _V 0 (cm.cos AZ) (-(cm.sin AZ))
  let u_XPN_apo := crossp u_YPN_apo u_OAN
  let RN := 0 - AZ
  let u_XPN := u_XPN_apo.smul (cm.cos RN) + u_YPN_apo.smul (cm.sin RN)
  let u_YPN := (-u_XPN_apo).smul (cm.sin RN) + u_YPN_apo.smul (cm.cos RN)
  if ReticleAngle = 0 ∧ SpiraleAngle = 0 then
    unit cm (crossp u_XPN u_YPN)
  else
    let YROT :=
      if axis = 2 then ReticleAngle + 270 * RAD cm
      else if axis = 3 then ReticleAngle + 180 * RAD cm
      else if axis = 4 then ReticleAngle + 90 * RAD cm
      else ReticleAngle
    let SROT := SpiraleAngle
    let SEP := (PI2 cm + SROT - YROT) / 12
    let u_YPN_aapo := (-u_XPN).smul (cm.sin YROT) + u_YPN.smul (cm.cos YROT)
    u_OAN.smul (cm.cos SEP) + (crossp u_YPN_aapo u_OAN).smul (cm.sin SEP)

/-- The function `AGOP::GetAOTNBAngle` (lines 3044-3048): azimuth and elevation of a
detent. -/
def GetAOTNBAngle (c : Collab K) (Detent : Nat) : K × K :=
  (c.rtcc.MDGTCD Detent, c.rtcc.MDGETA Detent)

/-- The function `AGOP::GetNBUnitVectorFromInstrument` (lines 2435-2461). -/
def GetNBUnitVectorFromInstrument (c : Collab K) (inp : AGOPInputs K) (set : Nat) :
    VECTOR3 K :=
  if inp.Instrument = 0 then
    c.om.SXTNB (inp.SextantTrunnionAngles set) (inp.SextantShaftAngles set)
  else if inp.Instrument = 1 then
    GetLMCOASVector c.cm (inp.COASElevationAngle 0) (inp.COASPositionAngle 0) inp.LMCOASAxis
  else if inp.Instrument = 2 then
    let AZ := (GetAOTNBAngle c inp.AOTDetent).1
    let EL := (GetAOTNBAngle c inp.AOTDetent).2
    GetAOTNBVector c.cm EL AZ (inp.AOTReticleAngle 0) (inp.AOTSpiraleAngle 0) (inp.AOTLineID 0)
  else
    GetCSMCOASVector c.cm (inp.COASElevationAngle 0) (inp.COASPositionAngle 0)

/-- The function `AGOP::PointInstrumentOfOtherVehicle` (lines 3020-3042). -/
def PointInstrumentOfOtherVehicle (inp : AGOPInputs K) : Bool :=
  if inp.Instrument = 0 ∨ inp.Instrument = 3 then
    (if inp.AttIsCSM = false then true else false)
  else
    (if inp.AttIsCSM = true then true else false)

/-! ### Option 7, mode 3: REFSMMAT from two sightings -/

/-- The four directions `OSTComputeREFSMMAT` works with: the two reference star directions
and the two measured directions rotated to the stable member. -/
structure SightingVectors (K : Type) where
  U_CBA : VECTOR3 K
  U_CBB : VECTOR3 K
  U_CBA_apo : VECTOR3 K
  U_CBB_apo : VECTOR3 K

/-- Lines 1405-1437 of `AGOP::OSTComputeREFSMMAT`: the reference and measured directions.
`none` when a star number reads outside the catalog. -/
def OSTComputeREFSMMAT_vectors (c : Collab K) (inp : AGOPInputs K) :
    Option (SightingVectors K) :=
  let M_SM_NB_A := c.om.CALCSMSC (inp.IMUAttitude 0)
  let M_SM_NB_B := c.om.CALCSMSC (inp.IMUAttitude 1)
  match GetStarUnitVector c inp (inp.StarIDs 0), GetStarUnitVector c inp (inp.StarIDs 1) with
  | some U_CBA, some U_CBB =>
    let U_NBA_apo := GetNBUnitVectorFromInstrument c inp 0
    let U_NBB_apo := GetNBUnitVectorFromInstrument c inp 1
    let conv := PointInstrumentOfOtherVehicle inp
    let M_NBCSM_NBLM := c.om.CSMBodyToLMBody inp.DockingAngle
    let U_NBA_apo1 :=
      if conv then
        (if inp.AttIsCSM then tmul M_NBCSM_NBLM U_NBA_apo else mul M_NBCSM_NBLM U_NBA_apo)
      else U_NBA_apo
    let U_NBB_apo1 :=
      if conv then
        (if inp.AttIsCSM then tmul M_NBCSM_NBLM U_NBB_apo else mul M_NBCSM_NBLM U_NBB_apo)
      else U_NBB_apo
    some { U_CBA := U_CBA, U_CBB := U_CBB,
           U_CBA_apo := tmul M_SM_NB_A U_NBA_apo1, U_CBB_apo := tmul M_SM_NB_B U_NBB_apo1 }
  | _, _ => none

/-- The threshold `eps = 0.01*RAD` of `OSTComputeREFSMMAT` (line 1440). -/
def OSTComputeREFSMMAT_eps (cm : CMath K) : K := (1 / 100) * RAD cm

/-- The function `AGOP::OSTComputeREFSMMAT` (lines 1399-1483). -/
def OSTComputeREFSMMAT (c : Collab K) (inp : AGOPInputs K) (out : AGOPOutputs K) :
    Option (AGOPOutputs K) :=
  match OSTComputeREFSMMAT_vectors c inp with
  | none => none
  | some v =>
    let eps := OSTComputeREFSMMAT_eps c.cm
    let arc1 := c.cm.acos (dotp v.U_CBA v.U_CBB)
    let arc2 := c.cm.acos (dotp v.U_CBA_apo v.U_CBB_apo)
    if arc1 < eps ∨ arc2 < eps then
      some (WriteError out 7)
    else
      let REFSMMAT := c.om.AXISGEN v.U_CBA_apo v.U_CBB_apo v.U_CBA v.U_CBB
      let starang := |arc1 - arc2|
      let line := "MODE 3  OPTICAL SIGHTING TABLE  VEH " ++ (if inp.AttIsCSM then "CSM" else "LEM")
      some { out with
        REFSMMAT := REFSMMAT,
        REFSMMAT_Vehicle := if inp.AttIsCSM then c.rtcc.RTCC_MPT_CSM else c.rtcc.RTCC_MPT_LM,
        output_text := out.output_text ++
          [line, "",
           c.fmt.sprintf "XIXE %+.8lf XIYE %+0.8lf XIZE %+0.8lf"
             [REFSMMAT.m11, REFSMMAT.m12, REFSMMAT.m13],
           c.fmt.sprintf "YIXE %+.8lf YIYE %+0.8lf YIZE %+0.8lf"
             [REFSMMAT.m21, REFSMMAT.m22, REFSMMAT.m23],
           c.fmt.sprintf "ZIXE %+.8lf ZIYE %+0.8lf ZIZE %+0.8lf"
             [REFSMMAT.m31, REFSMMAT.m32, REFSMMAT.m33],
           "",
           c.fmt.sprintf "Star angle difference: %.3lf°" [starang * DEG c.cm]] }

/-! ### Option 1: cislunar navigation -/

/-- The function `AGOP::GetInertialLandmarkVector` (lines 2199-2220): the error return
and the vector that `ELVCNV` leaves in `R_LMK`. -/
def GetInertialLandmarkVector (c : Collab K) (lat lng alt GMT : K) (isEarth : Bool) :
    Bool × VECTOR3 K :=
  if isEarth then
    let R_L_equ := c.om.r_from_latlong3 lat (lng + c.om.w_Earth * GMT) (c.om.R_Earth + alt)
    let r := c.rtcc.ELVCNV R_L_equ GMT 1 c.rtcc.RTCC_COORDINATES_ECT c.rtcc.RTCC_COORDINATES_ECI
    (decide (r.1 ≠ 0), r.2)
  else
    let R_L_equ := c.om.r_from_latlong3 lat lng (c.rtcc.BZLAND_rad0 + alt)
    let r := c.rtcc.ELVCNV R_L_equ GMT 1 c.rtcc.RTCC_COORDINATES_MCT c.rtcc.RTCC_COORDINATES_MCI
    (decide (r.1 ≠ 0), r.2)

/-- Local variables of the horizon block of `CislunarNavigation` (lines 144-191): the
horizon frame `M`, the body semi-axes, the spacecraft position `R_H` in that frame, and
the two candidate tangent points `t[0]`, `t[1]`. -/
structure HorizonTangents (K : Type) where
  M : MATRIX3 K
  a_H : K
  b_H : K
  R_H : VECTOR3 K
  U_sH : VECTOR3 K
  t0 : VECTOR3 K
  t1 : VECTOR3 K

/-- Lines 144-188 of `AGOP::CislunarNavigation`: the two candidate horizon tangent points
for star direction `U_S` and spacecraft position `R_ZC` (mode 1: Earth, mode 2: Moon). -/
def CislunarNavigation_tangents (c : Collab K) (Mode : Int) (U_S R_ZC : VECTOR3 K) :
    HorizonTangents K :=
  let U_Z : VECTOR3 K := _V 0 0 1
  let u2 := unit c.cm (crossp U_S R_ZC)
  let u0 := unit c.cm (crossp U_Z u2)
  let u1 := crossp u2 u0
  let M := _M u0.x u0.y u0.z u1.x u1.y u1.z u2.x u2.y u2.z
  let a_H := if Mode = 1 then c.om.R_Earth + 28000 else c.om.R_Moon
  let b_H := if Mode = 1 then c.om.R_Earth + 28000 else c.om.R_Moon
  let R_H := mul M R_ZC
  let U_sH := mul M U_S
  let x_H := R_H.x
  let y_H := R_H.y
  let A := x_H * x_H / a_H / a_H + y_H * y_H / b_H / b_H
  let alpha := a_H / b_H * y_H * c.cm.sqrt (A - 1)
  let beta := b_H / a_H * x_H * c.cm.sqrt (A - 1)
  { M := M, a_H := a_H, b_H := b_H, R_H := R_H, U_sH := U_sH,
    t0 := (_V (x_H + alpha) (y_H - beta) 0).sdiv A,
    t1 := (_V (x_H - alpha) (y_H + beta) 0).sdiv A }

/-- Local variables of the near/far selection of `CislunarNavigation` (lines 190-260):
the candidates `R_L_v[0]` (near) and `R_L_v[1]` (far), their solar elevation values
`sinang[0]`, `sinang[1]`, the flag and the landmark vector that is used. -/
structure HorizonSelection (K : Type) where
  R_L_v0 : VECTOR3 K
  R_L_v1 : VECTOR3 K
  sinang0 : K
  sinang1 : K
  bIsNearHorizon : Bool
  R_L : VECTOR3 K

/-- Lines 190-260 of `AGOP::CislunarNavigation`: near/far ordering of the two tangent
points and the choice between them by solar elevation.  `R_EM` and `R_ES` are the outputs
of `PLEFEM`. -/
def CislunarNavigation_select (c : Collab K) (Mode : Int) (T : HorizonTangents K)
    (R_EM R_ES : VECTOR3 K) : HorizonSelection K :=
  let AA0 := dotp T.U_sH (unit c.cm (T.t0 - T.R_H))
  let AA1 := dotp T.U_sH (unit c.cm (T.t1 - T.R_H))
  let t_n := if AA1 > AA0 then T.t1 else T.t0
  let t_f := if AA1 > AA0 then T.t0 else T.t1
  let R_L_v0 := tmul T.M t_n
  let R_L_v1 := tmul T.M t_f
  let sinang (R_L_vi : VECTOR3 K) : K :=
    let N := unit c.cm R_L_vi
    let rho := if Mode = 1 ∨ Mode = 3 then R_ES - R_L_vi else (R_ES - R_EM) - R_L_vi
    let rho_apo := unit c.cm rho
    dotp rho_apo N
  let bIsNearHorizon : Bool := if sinang R_L_v0 > sinang R_L_v1 then true else false
  { R_L_v0 := R_L_v0, R_L_v1 := R_L_v1, sinang0 := sinang R_L_v0, sinang1 := sinang R_L_v1,
    bIsNearHorizon := bIsNearHorizon,
    R_L := if bIsNearHorizon then R_L_v0 else R_L_v1 }

/-- What one pass through the loop body of `CislunarNavigation` computes: the near
horizon flag when the mode sets it, the gimbal angles and the report line. -/
structure CislunarSample (K : Type) where
  bIsNearHorizon : Option Bool
  IMUAttitude : VECTOR3 K
  line : String

/-- The computations of one pass of the loop body of `AGOP::CislunarNavigation`
(lines 102-328) at sample time `GMT`; `Except.error e` when the body leaves through
`WriteError(out, e); return;`.  `bNear` is the flag in the report at entry. -/
def CislunarNavigation_sample (c : Collab K) (inp : AGOPInputs K)
    (ephemeris : EphemerisDataTable2 K) (U_S : VECTOR3 K) (bNear : Bool) (GMT : K) :
    Except Int (CislunarSample K) :=
  match Interpolation c ephemeris GMT with
  | none => Except.error 4
  | some sv =>
    let conv : Int × VECTOR3 K :=
      if inp.Mode = 1 ∨ inp.Mode = 3 then
        (if sv.RBI ≠ Body.BODY_EARTH then
          c.rtcc.ELVCNV sv.R sv.GMT 1 c.rtcc.RTCC_COORDINATES_MCI c.rtcc.RTCC_COORDINATES_ECI
         else (0, sv.R))
      else
        (if sv.RBI ≠ Body.BODY_MOON then
          c.rtcc.ELVCNV sv.R sv.GMT 1 c.rtcc.RTCC_COORDINATES_ECI c.rtcc.RTCC_COORDINATES_MCI
         else (0, sv.R))
    if conv.1 ≠ 0 then Except.error 1
    else
      let R_ZC := conv.2
      let lmk : Bool × Option Bool × VECTOR3 K :=
        if inp.Mode = 1 ∨ inp.Mode = 2 then
          let pl := c.rtcc.PLEFEM 1 (sv.GMT / 3600) 0
          let S := CislunarNavigation_select c inp.Mode
            (CislunarNavigation_tangents c inp.Mode U_S R_ZC) pl.R_EM pl.R_ES
          (false, some S.bIsNearHorizon, S.R_L)
        else if inp.Mode = 3 then
          let g := GetInertialLandmarkVector c inp.lmk_lat inp.lmk_lng inp.lmk_alt sv.GMT true
          (g.1, none, g.2)
        else
          let g := GetInertialLandmarkVector c inp.lmk_lat inp.lmk_lng inp.lmk_alt sv.GMT false
          (g.1, none, g.2)
      if lmk.1 then Except.error 1
      else
        let R_L := lmk.2.2
        let flag : Bool := match lmk.2.1 with
          | some b => b
          | none => bNear
        let R_CL := R_L - R_ZC
        let U_CL := unit c.cm R_CL
        let Vec3 := U_CL
        let Vec2 := unit c.cm (crossp U_S U_CL)
        let Vec1 := unit c.cm (crossp Vec2 U_CL)
        let SMNB := mulM c.om.SBNBMatrix
          (_M Vec1.x Vec1.y Vec1.z Vec2.x Vec2.y Vec2.z Vec3.x Vec3.y Vec3.z)
        let att := c.om.CALCGAR inp.CSM_REFSMMAT SMNB
        let TA := (c.om.CALCSXA SMNB U_S).1
        let SA := (c.om.CALCSXA SMNB U_S).2
        let line := c.om.format_time_HHMMSS (c.rtcc.GETfromGMT sv.GMT) ++
          c.fmt.sprintfInt " %03d/%03o " [(inp.StarIDs 0 : Int), (inp.StarIDs 0 : Int)] ++
          (if inp.Mode = 1 ∨ inp.Mode = 2 then (if flag then "NEAR " else " FAR ")
           else "     ") ++
          c.fmt.sprintf "%+07.2lf %+07.3lf %06.2lf %06.2lf %06.2lf"
            [SA * DEG c.cm, TA * DEG c.cm, att.x * DEG c.cm, att.y * DEG c.cm,
             att.z * DEG c.cm]
        Except.ok { bIsNearHorizon := lmk.2.1, IMUAttitude := att, line := line }

/-- The `do ... while (i < 10)` loop of `AGOP::CislunarNavigation` (lines 100-334); the
first argument bounds the number of passes (ten are enough). -/
def CislunarNavigation_loop (c : Collab K) (inp : AGOPInputs K)
    (ephemeris : EphemerisDataTable2 K) (U_S : VECTOR3 K) :
    Nat → Nat → K → AGOPOutputs K → AGOPOutputs K
  | 0, _, _, out => out
  | fuel + 1, i, GMT, out =>
    match CislunarNavigation_sample c inp ephemeris U_S out.bIsNearHorizon GMT with
    | Except.error e => WriteError out e
    | Except.ok s =>
      let out1 : AGOPOutputs K :=
        { out with
          bIsNearHorizon := (match s.bIsNearHorizon with
            | some b => b
            | none => out.bIsNearHorizon),
          IMUAttitude := s.IMUAttitude,
          output_text := out.output_text ++ [s.line] }
      let i1 := i + 1
      let GMT1 := c.fp.add GMT inp.DeltaT
      if GMT1 > ephemeris.Header.TR then out1
      else if i1 < 10 then CislunarNavigation_loop c inp ephemeris U_S fuel i1 GMT1 out1
      else out1

/-- The function `AGOP::CislunarNavigation` (lines 80-335); `none` when the star number
reads outside the catalog. -/
def CislunarNavigation (c : Collab K) (ephemeris : EphemerisDataTable2 K)
    (inp : AGOPInputs K) (out : AGOPOutputs K) : Option (AGOPOutputs K) :=
  match GetStarUnitVector c inp (inp.StarIDs 0) with
  | none => none
  | some U_S =>
    let out0 : AGOPOutputs K :=
      { out with output_text := out.output_text ++
          ["                  OST CISLUNAR NAVIGATION",
           "   GET STAR ID HORZ OPTICS ANGLES INERTIAL ATTITUDE",
           "HR:MIN:SEC DEC/OCT N-F   SFT     TRN     R      P      Y"] }
    some (CislunarNavigation_loop c inp ephemeris U_S 10 0 ephemeris.Header.TL out0)

/-! ### Landmark elevation search -/

/-- The function `Station_ECT` (lines 2803-2807). -/
def Station_ECT (c : Collab K) (GMT R_E_sin_lat R_E_cos_lat stat_lng : K) : VECTOR3 K :=
  let lng := stat_lng + c.om.w_Earth * GMT
  _V (R_E_cos_lat * c.cm.cos lng) (R_E_cos_lat * c.cm.sin lng) R_E_sin_lat

/-- The station vector `R_S` as `FindLandmarkAOS` uses it at time `GMT`: reassigned from
`Station_ECT` before every use when the ephemeris is in ECT coordinates (lines 2852,
2890), assigned once before the loops when it is in MCT coordinates (line 2823), and
otherwise the value `R_S0` of the uninitialised local. -/
def FindLandmarkAOS_R_S (c : Collab K) (ephemeris : EphemerisDataTable2 K)
    (station : StationData K) (R_S0 : VECTOR3 K) (GMT : K) : VECTOR3 K :=
  if ephemeris.Header.CSI = c.rtcc.RTCC_COORDINATES_ECT then
    Station_ECT c GMT station.R_E_sin_lat station.R_E_cos_lat station.lng
  else if ephemeris.Header.CSI = c.rtcc.RTCC_COORDINATES_MCT then
    _V (station.R_E_cos_lat * station.cos_lng) (station.R_E_cos_lat * station.sin_lng)
      station.R_E_sin_lat
  else R_S0

/-- The elevation measure `sinang` that `FindLandmarkAOS` computes at time `GMT`
(lines 2845-2853 and 2883-2891): `none` when the interpolation fails. -/
def FindLandmarkAOS_sinang (c : Collab K) (ephemeris : EphemerisDataTable2 K)
    (station : StationData K) (R_S0 : VECTOR3 K) (GMT : K) : Option K :=
  match Interpolation c ephemeris GMT with
  | none => none
  | some sv => some (c.om.EMXINGElev sv.R (FindLandmarkAOS_R_S c ephemeris station R_S0 GMT))

/-- The first loop of `FindLandmarkAOS` (lines 2827-2836), entered with index `i`:
`Except.error 1` is `return 1`, `Except.ok i` the index at which the loop stops, and
`none` a read of `table[i]` outside the table.  The first argument bounds the number of
passes; the table length is enough. -/
def FindLandmarkAOS_firstScan (table : List (EphemerisData K)) (GMT_start : K) :
    Nat → Nat → Option (Except Int Nat)
  | 0, _ => none
  | fuel + 1, i =>
    match table[i]? with
    | none => none
    | some e =>
      if GMT_start ≤ e.GMT then
        let i1 := i + 1
        if i1 ≥ table.length then some (Except.error 1)
        else FindLandmarkAOS_firstScan table GMT_start fuel i1
      else some (Except.ok i)

/-- The second loop of `FindLandmarkAOS` with the check that follows it (lines 2841-2875),
entered with index `i` and left end `TL`: `Except.ok (TL, TR)` is the bracket with which
the interval halving starts, `Except.error 4` the interpolation failure and
`Except.error 1` the exit `return 1` when no sample exceeds the target.  (The value
`table[i].GMT` given to `TR` on line 2839 is overwritten by the `break` branch before `TR`
is read, so the loop state is the index and the left end.) -/
def FindLandmarkAOS_sampleScan (sinangAt : K → Option K) (sinang_desired : K)
    (table : List (EphemerisData K)) : Nat → Nat → K → Option (Except Int (K × K))
  | 0, _, _ => none
  | fuel + 1, i, TL =>
    match table[i]? with
    | none => none
    | some e =>
      let GMT := e.GMT
      match sinangAt GMT with
      | none => some (Except.error 4)
      | some sinang =>
        if sinang > sinang_desired then some (Except.ok (TL, GMT))
        else
          let i1 := i + 1
          if i1 < table.length then
            FindLandmarkAOS_sampleScan sinangAt sinang_desired table fuel i1 GMT
          else some (Except.error 1)

/-- Lines 2825-2875 of `FindLandmarkAOS`: both scans, giving the bracket `(TL, TR)` with
which the interval halving starts. -/
def FindLandmarkAOS_bracket (sinangAt : K → Option K) (sinang_desired : K)
    (table : List (EphemerisData K)) (GMT_start : K) : Option (Except Int (K × K)) :=
  match FindLandmarkAOS_firstScan table GMT_start table.length 0 with
  | none => none
  | some (Except.error e) => some (Except.error e)
  | some (Except.ok i) =>
    FindLandmarkAOS_sampleScan sinangAt sinang_desired table table.length i GMT_start

/-- The interval halving loop of `FindLandmarkAOS` (lines 2878-2909), entered with
bracket `(TL, TR)` and counter `j`: `Except.ok (TL, TR, j)` is the state when the loop is
left (by its condition or by the `break` at `j >= limit`), `Except.error 4` the
interpolation failure.  The difference `TR - TL` and the midpoint `(TL + TR) / 2.0`
are the machine values given by `fp`.  The first natural-number argument bounds the
number of passes; `limit` is enough because the loop breaks once `j` reaches `limit`. -/
def FindLandmarkAOS_halving (fp : DoubleArith K) (sinangAt : K → Option K)
    (sinang_desired eps : K) (limit : Nat) :
    Nat → K → K → Nat → Option (Except Int (K × K × Nat))
  | 0, _, _, _ => none
  | fuel + 1, TL, TR, j =>
    if fp.sub TR TL > eps then
      let GMT := fp.div (fp.add TL TR) 2
      match sinangAt GMT with
      | none => some (Except.error 4)
      | some sinang =>
        let TR1 := if sinang > sinang_desired then GMT else TR
        let TL1 := if sinang > sinang_desired then TL else GMT
        let j1 := j + 1
        if j1 ≥ limit then some (Except.ok (TL1, TR1, j1))
        else FindLandmarkAOS_halving fp sinangAt sinang_desired eps limit fuel TL1 TR1 j1
    else some (Except.ok (TL, TR, j))

/-- Result of a call of `FindLandmarkAOS`: the report, the return code, and the value
assigned to the reference argument `GMT_elev` (`none` when nothing is assigned). -/
structure AOSResult (K : Type) where
  out : AGOPOutputs K
  code : Int
  GMT_elev : Option K

/-- The function `AGOP::FindLandmarkAOS` (lines 2809-2919), with `limit = 100` and
`eps = 1.0`; `none` when the ephemeris table is empty (the first loop reads `table[0]`). -/
def FindLandmarkAOS (c : Collab K) (ephemeris : EphemerisDataTable2 K) (R_S0 : VECTOR3 K)
    (out : AGOPOutputs K) (station : StationData K) (GMT_start ElevationAngle : K) :
    Option (AOSResult K) :=
  let sinang_desired := c.cm.sin ElevationAngle
  let limit : Nat := 100
  let eps : K := 1
  let sinangAt := FindLandmarkAOS_sinang c ephemeris station R_S0
  match FindLandmarkAOS_bracket sinangAt sinang_desired ephemeris.table GMT_start with
  | none => none
  | some (Except.error e) =>
    if e = 4 then some { out := WriteError out 4, code := 4, GMT_elev := none }
    else some { out := out, code := e, GMT_elev := none }
  | some (Except.ok (TL, TR)) =>
    match FindLandmarkAOS_halving c.fp sinangAt sinang_desired eps limit limit TL TR 0 with
    | none => none
    | some (Except.error _) => some { out := WriteError out 4, code := 4, GMT_elev := none }
    | some (Except.ok (TL1, TR1, j)) =>
      if j = limit then some { out := WriteError out 4, code := 4, GMT_elev := none }
      else some { out := out, code := 0, GMT_elev := some (c.fp.div (c.fp.add TL1 TR1) 2) }

/-! ### Option 8: star sighting table, landmark search -/

/-- The station characteristics table that `StarSightingTable` creates for the landmark
(lines 1721-1725). -/
def StarSightingTable_station (c : Collab K) (inp : AGOPInputs K) : StationData K :=
  let body := if inp.ephem.Header.CSI = 0 then Body.BODY_EARTH else Body.BODY_MOON
  c.rtcc.EMGGPCHR inp.lmk_lat inp.lmk_lng inp.lmk_alt body 0

/-- The acquisitions that `StarSightingTable` computes for the landmark (lines 1721-1731):
the error return of `EMXING` and its acquisition table. -/
def StarSightingTable_acquisitions (c : Collab K) (ephemeris : EphemerisDataTable2 K)
    (inp : AGOPInputs K) : Int × List (StationContact K) :=
  let body := if inp.ephem.Header.CSI = 0 then Body.BODY_EARTH else Body.BODY_MOON
  let csi_out := inp.ephem.Header.CSI + 1
  let ephemeris_true : EphemerisDataTable2 K :=
    { Header := { ephemeris.Header with CSI := csi_out },
      table := c.rtcc.ELVCNVTable ephemeris.table inp.ephem.Header.CSI csi_out }
  c.rtcc.EMXING ephemeris_true (StarSightingTable_station c inp) body

/-- Lines 1708-1758 of `AGOP::StarSightingTable` (modes 1 and 3): the search for the time
at which the landmark reaches the elevation angle.  `Except.error out` is the report with
which the function returns on failure, `Except.ok (out, GMT)` the report and the time
found with which it goes on. -/
def StarSightingTable_landmark (c : Collab K) (ephemeris : EphemerisDataTable2 K)
    (R_S0 : VECTOR3 K) (inp : AGOPInputs K) (out : AGOPOutputs K) :
    Option (Except (AGOPOutputs K) (AGOPOutputs K × K)) :=
  match (StarSightingTable_acquisitions c ephemeris inp).2 with
  | [] => some (Except.error (WriteError out 5))
  | acquisition :: _ =>
    if (StarSightingTable_acquisitions c ephemeris inp).1 ≠ 0 then
      some (Except.error (WriteError out 5))
    else if inp.ElevationAngle > acquisition.MAXELEV then
      some (Except.error (WriteError out 5))
    else
      match FindLandmarkAOS c ephemeris R_S0 out (StarSightingTable_station c inp)
          acquisition.GMTAOS inp.ElevationAngle with
      | none => none
      | some r =>
        if r.code ≠ 0 then some (Except.error (WriteError r.out 5))
        else
          match r.GMT_elev with
          | some GMT => some (Except.ok (r.out, GMT))
          | none => none

/-! ### Instrument forward models and limit check -/

/-- Orbiter SDK `PI05` (half pi). -/
def PI05 (cm : CMath K) : K := cm.PI / 2

/-- The helper `OrbMech::tmat`: the transposed matrix. -/
def tmat (A : MATRIX3 K) : MATRIX3 K :=
  _M A.m11 A.m21 A.m31 A.m12 A.m22 A.m32 A.m13 A.m23 A.m33

/-- The function `AGOP::InstrumentLimitCheck` (lines 2576-2657). -/
def InstrumentLimitCheck (c : Collab K) (inp : AGOPInputs K) (u_NB : VECTOR3 K) : Bool :=
  if inp.Instrument = 0 then
    let u_LOS := mul c.om.SBNBMatrix (_V 0 0 1)
    if c.cm.acos (dotp u_NB u_LOS) < 38 * RAD c.cm then true else false
  else if inp.Instrument = 1 then
    if inp.LMCOASAxis then
      if |u_NB.x| < c.cm.cos (85 * RAD c.cm) then
        if u_NB.y < 0 then
          (if c.cm.acos u_NB.z < 70 * RAD c.cm then true else false)
        else
          (if c.cm.acos u_NB.z < 10 * RAD c.cm then true else false)
      else false
    else
      if c.cm.asin |u_NB.y| < 5 * RAD c.cm then
        if u_NB.z < 0 then
          (if c.cm.acos u_NB.x ≤ 5 * RAD c.cm then true else false)
        else
          (if c.cm.acos u_NB.x ≤ 35 * RAD c.cm then true else false)
      else false
  else if inp.Instrument = 2 then
    let AZ := (GetAOTNBAngle c inp.AOTDetent).1
    let EL := (GetAOTNBAngle c inp.AOTDetent).2
    let u_LOS := c.om.AOTNavigationBase AZ EL
    if c.cm.acos (dotp u_NB u_LOS) < 30 * RAD c.cm then true else false
  else
    if c.cm.asin |u_NB.y| < 5 * RAD c.cm then
      if u_NB.z < 0 then
        (if c.cm.acos u_NB.x ≤ 15 * RAD c.cm then true else false)
      else
        (if c.cm.acos u_NB.x ≤ (73 / 2) * RAD c.cm then true else false)
    else false

/-- The loop `while (x >= PI2) x -= PI2;` of `AOTAngles` (lines 2717-2720, 2722-2725).
The first argument bounds the number of passes; `none` when it is used up. -/
def subtractWhileGE (PI2v : K) : Nat → K → Option K
  | 0, _ => none
  | fuel + 1, x => if x ≥ PI2v then subtractWhileGE PI2v fuel (x - PI2v) else some x

/-- The function `AGOP::AOTAngles` (lines 2697-2726): the pair `(YROT, SROT)`.  The first
argument bounds the number of passes of each of the two `while` loops. -/
def AOTAngles (c : Collab K) (fuel : Nat) (Detent : Nat) (u_NB : VECTOR3 K) :
    Option (K × K) :=
  let AZ := (GetAOTNBAngle c Detent).1
  let EL := (GetAOTNBAngle c Detent).2
  let u_OAN := _V (c.cm.sin EL) (c.cm.cos EL * c.cm.sin AZ) (c.cm.cos EL * c.cm.cos AZ)
  let C1 := dotp u_OAN u_NB
  let UNITX : VECTOR3 K := _V 1 0 0
  let TS2 := unit c.cm (crossp u_OAN UNITX)
  let TS4 := unit c.cm (crossp u_OAN u_NB)
  let theta0 := c.cm.acos (dotp TS4 TS2)
  let C2 := dotp TS4 (unit c.cm (crossp u_OAN TS2))
  let theta := if C2 < 0 then PI2 c.cm - theta0 else theta0
  match subtractWhileGE (PI2 c.cm) fuel (PI2 c.cm + theta + AZ) with
  | none => none
  | some YROT =>
    match subtractWhileGE (PI2 c.cm) fuel (YROT + 12 * c.cm.acos C1) with
    | none => none
    | some SROT => some (YROT, SROT)

/-- The function `AGOP::CSMCOASAngles` (lines 2728-2732): the pair `(SPA, SXP)`. -/
def CSMCOASAngles (cm : CMath K) (u_NB : VECTOR3 K) : K × K :=
  (-(cm.atan (u_NB.z / u_NB.x)), cm.asin u_NB.y)

/-- The function `AGOP::LMCOASAngles` (lines 2734-2800): the pair `(EL, SXP)`. -/
def LMCOASAngles (cm : CMath K) (Axis : Bool) (u_NB : VECTOR3 K) : K × K :=
  if Axis then
    let EPS := cm.acos u_NB.z
    let GAM := cm.acos u_NB.x
    let HYP := cm.sqrt (u_NB.x * u_NB.x + u_NB.y * u_NB.y)
    let ALP := cm.atan (HYP / u_NB.z)
    let SCV := PI05 cm - |cm.asin (cm.sin GAM * cm.sin ALP / cm.sin EPS)|
    let R := u_NB.x * |cm.asin (cm.sin SCV * cm.sin EPS) / u_NB.x|
    let SXP := if u_NB.x < 0 then -|R| else |R|
    let EL0 := u_NB.y * |cm.acos (cm.cos EPS / cm.cos SXP) / u_NB.y|
    let EL1 := if u_NB.y < 0 then |EL0| else -|EL0|
    (EL1 - 30 * RAD cm, SXP)
  else
    let EPS := cm.acos u_NB.x
    let GAM := cm.acos u_NB.z
    let ALP := cm.atan (u_NB.y / u_NB.x)
    let ARG1 := cm.sin GAM * cm.sin ALP / cm.sin EPS
    let SCV := PI05 cm - |cm.asin ARG1|
    let ARG2 := cm.sin SCV * cm.sin EPS
    let R := u_NB.z * |cm.asin ARG2 / u_NB.z|
    let ARG3 := cm.cos EPS / cm.cos R
    let SXP0 := u_NB.y * |cm.acos ARG3 / u_NB.y|
    let SXP := if u_NB.y < 0 then -|SXP0| else |SXP0|
    let EL := R
    (if u_NB.z < 0 then |EL| else -|EL|, SXP)

/-! ### Antenna models -/

/-- The function `AGOP::CSMHGAngles` (lines 2222-2246): the pair `(pitch, yaw)`. -/
def CSMHGAngles (cm : CMath K) (R : VECTOR3 K) (SMNB REFSMMAT : MATRIX3 K) : K × K :=
  let Rb := mul SMNB (mul REFSMMAT R)
  let U_R := unit cm Rb
  let U_X : VECTOR3 K := _V 1 0 0
  let U_Y : VECTOR3 K := _V 0 1 0
  let U_Z : VECTOR3 K := _V 0 0 1
  let RP := Rb - U_Z.smul (dotp Rb U_Z)
  let U_RP := unit cm RP
  let yaw0 := cm.acos (dotp U_RP U_X)
  let x := dotp U_RP U_Y
  let yaw := if x < 0 then PI2 cm - yaw0 else yaw0
  (cm.acos (dotp U_R U_Z) - PI05 cm, yaw)

/-- The matrix `NBSA` of the steerable antenna frame (lines 2256 and 2410): a rotation by
45 degrees about the z axis. -/
def NBSA (cm : CMath K) : MATRIX3 K :=
  _M (cm.cos (45 * RAD cm)) (cm.sin (45 * RAD cm)) 0
     (-(cm.sin (45 * RAD cm))) (cm.cos (45 * RAD cm)) 0
     0 0 1

/-- The function `AGOP::LMSteerableAngles` (lines 2248-2279): the pair `(pitch, yaw)`. -/
def LMSteerableAngles (c : Collab K) (R : VECTOR3 K) (SMNB REFSMMAT : MATRIX3 K) : K × K :=
  let Rb := mul (NBSA c.cm) (mul SMNB (mul REFSMMAT R))
  let U_R := unit c.cm Rb
  let U_X : VECTOR3 K := _V 1 0 0
  let U_Y : VECTOR3 K := _V 0 1 0
  let U_Z : VECTOR3 K := _V 0 0 1
  let RP := Rb - U_Y.smul (dotp Rb U_Y)
  let U_RP := unit c.cm RP
  let X := crossp U_Z U_RP
  let pitch0 := c.cm.asin (length c.cm X * c.om.sign (dotp X U_Y))
  let Y := dotp U_RP U_Z
  let pitch := if Y < 0 then c.cm.PI - pitch0 else pitch0
  let Z := crossp U_R U_RP
  let YAW := U_X.smul (c.cm.cos pitch) - U_Z.smul (c.cm.sin pitch)
  (pitch, c.cm.asin (length c.cm Z * c.om.sign (dotp YAW Z)))

/-- The function `AGOP::RRAngles` (lines 2281-2304): the pair `(trunnion, shaft)`. -/
def RRAngles (cm : CMath K) (R : VECTOR3 K) (SMNB REFSMMAT : MATRIX3 K) : K × K :=
  let u_D := mul SMNB (mul REFSMMAT (unit cm R))
  let u_P := unit cm (_V u_D.x 0 u_D.z)
  let trunnion0 := -(cm.asin u_D.y)
  let trunnion1 := if trunnion0 < 0 then trunnion0 + PI2 cm else trunnion0
  let trunnion := PI2 cm - trunnion1
  let shaft0 := cm.atan2 u_P.x u_P.z
  let shaft := if shaft0 < 0 then shaft0 + PI2 cm else shaft0
  (trunnion, shaft)

/-- The function `AGOP::CSMIMUtoLMIMUAngles` (lines 2306-2317). -/
def CSMIMUtoLMIMUAngles (c : Collab K) (CSM_REFSMMAT LM_REFSMMAT : MATRIX3 K)
    (CSMIMUAngles : VECTOR3 K) (DockingAngle : K) : VECTOR3 K :=
  let M_NBCSM_NBLM := c.om.CSMBodyToLMBody DockingAngle
  let M_SMCSM_NBCSM := c.om.CALCSMSC CSMIMUAngles
  let M_BRCS_SMCSM := CSM_REFSMMAT
  let M_BRCS_SMLM := LM_REFSMMAT
  let M_BRCS_NBLM := mulM (mulM M_NBCSM_NBLM M_SMCSM_NBCSM) M_BRCS_SMCSM
  c.om.CALCGAR M_BRCS_SMLM M_BRCS_NBLM

/-- The function `AGOP::LMIMUtoCMIMUAngles` (lines 2319-2330). -/
def LMIMUtoCMIMUAngles (c : Collab K) (CSM_REFSMMAT LM_REFSMMAT : MATRIX3 K)
    (LMIMUAngles : VECTOR3 K) (DockingAngle : K) : VECTOR3 K :=
  let M_NBCSM_NBLM := c.om.CSMBodyToLMBody DockingAngle
  let M_SMLM_NBLM := c.om.CALCSMSC LMIMUAngles
  let M_BRCS_SMCSM := CSM_REFSMMAT
  let M_BRCS_SMLM := LM_REFSMMAT
  let M_BRCS_NBCSM := mulM (tmat M_NBCSM_NBLM) (mulM M_SMLM_NBLM M_BRCS_SMLM)
  c.om.CALCGAR M_BRCS_SMCSM M_BRCS_NBCSM

/-- The function `AGOP::ThreeAxisPointing` (lines 2368-2399). -/
def ThreeAxisPointing (c : Collab K) (SCAXIS U_LOS R V : VECTOR3 K) (OMICRON : K) :
    MATRIX3 K :=
  let unitY : VECTOR3 K := _V 0 1 0
  let UTSB := U_LOS
  let UTSBP := SCAXIS
  let UTSAP := unit c.cm (crossp UTSBP unitY)
  let POINTVSM0 := unit c.cm (crossp V R)
  let POINTVSM := unit c.cm (crossp UTSB POINTVSM0)
  let UTSA := POINTVSM.smul (c.cm.cos OMICRON) +
    (unit c.cm (crossp UTSB POINTVSM)).smul (c.cm.sin OMICRON)
  let UTUYP := unit c.cm (crossp UTSAP UTSBP)
  let UTUZP := crossp UTSAP UTUYP
  let UTUY := unit c.cm (crossp UTSA UTSB)
  let UTUZ := crossp UTSA UTUY
  c.om.AXISGEN UTUYP UTUZP UTUY UTUZ

/-- The function `AGOP::GetBodyFixedHGAVector` (lines 2401-2404). -/
def GetBodyFixedHGAVector (cm : CMath K) (pitch yaw : K) : VECTOR3 K :=
  _V (cm.cos yaw * cm.cos pitch) (cm.sin yaw * cm.cos pitch) (-(cm.sin pitch))

/-- The function `AGOP::GetBodyFixedSteerableAntennaVector` (lines 2406-2413). -/
def GetBodyFixedSteerableAntennaVector (cm : CMath K) (pitch yaw : K) : VECTOR3 K :=
  tmul (NBSA cm) (_V (cm.cos yaw * cm.cos pitch) (cm.sin yaw * cm.cos pitch) (-(cm.sin pitch)))

/-- The function `AGOP::GetBodyFixedRRVector` (lines 2415-2421). -/
def GetBodyFixedRRVector (cm : CMath K) (trunnion shaft : K) : VECTOR3 K :=
  let trunnion1 := PI2 cm - trunnion
  _V (cm.sin shaft * cm.cos trunnion1) (-(cm.sin trunnion1)) (cm.cos shaft * cm.cos trunnion1)

/-! ### Option 4: antenna pointing -/

/-- The ground station search of `AntennaPointing` (lines 654-684): latitude, longitude
and altitude of the station, or `none` when the station is not found. -/
def AntennaPointing_station (c : Collab K) (inp : AGOPInputs K) : Option (K × K × K) :=
  if inp.GroundStationID = "" then some (inp.lmk_lat, inp.lmk_lng, inp.lmk_alt)
  else
    match (List.range c.rtcc.MKRBKS).find?
        (fun j => inp.GroundStationID = (c.rtcc.GZSTCH j).code) with
    | none => none
    | some j => some ((c.rtcc.GZSTCH j).lat_geoc, (c.rtcc.GZSTCH j).lng, (c.rtcc.GZSTCH j).H)

/-- What one pass through the loop body of `AntennaPointing` computes: the antenna angles
stored in the report when the mode stores them, and the report line. -/
structure AntennaSample (K : Type) where
  pitchyaw : Option (K × K)
  line : String

/-- The antenna angles and gimbal angles a pass of the loop body of `AntennaPointing`
prints. -/
structure AntennaAngles (K : Type) where
  CSM_PCH : K
  CSM_YAW : K
  LM_PCH : K
  LM_YAW : K
  CSM_Att : VECTOR3 K
  LM_Att : VECTOR3 K
  pitchyaw : Option (K × K)

/-- Lines 721-849 of `AGOP::AntennaPointing`: the angles of one pass for the vector `R`
from the spacecraft to the ground station and the state vector `sv`.  The locals
`CSM_PCH`, ..., `LM_Att` are declared before the loop and zero there; a mode assigns a
local in every pass or in none, so a local not assigned in this pass is still zero. -/
def AntennaPointing_angles (c : Collab K) (inp : AGOPInputs K) (R : VECTOR3 K)
    (sv : EphemerisData K) : AntennaAngles K :=
  let zero : VECTOR3 K := _V 0 0 0
  let CSM_Att0 := if inp.Mode ≤ 3 ∧ inp.AttIsCSM then inp.IMUAttitude 0 else zero
  let LM_Att0 := if inp.Mode ≤ 3 ∧ ¬ inp.AttIsCSM then inp.IMUAttitude 0 else zero
  if inp.Mode = 1 then
    let CSM_Att := if ¬ inp.AttIsCSM then
        LMIMUtoCMIMUAngles c inp.CSM_REFSMMAT inp.LM_REFSMMAT (inp.IMUAttitude 0)
          inp.DockingAngle
      else CSM_Att0
    let SMNB := if ¬ inp.AttIsCSM then c.om.CALCSMSC CSM_Att
      else c.om.CALCSMSC (inp.IMUAttitude 0)
    let a := CSMHGAngles c.cm R SMNB inp.CSM_REFSMMAT
    { CSM_PCH := a.1, CSM_YAW := a.2, LM_PCH := 0, LM_YAW := 0, CSM_Att := CSM_Att,
      LM_Att := LM_Att0, pitchyaw := some (a.1, a.2) }
  else if inp.Mode = 2 then
    let LM_Att := if inp.AttIsCSM then
        CSMIMUtoLMIMUAngles c inp.CSM_REFSMMAT inp.LM_REFSMMAT (inp.IMUAttitude 0)
          inp.DockingAngle
      else LM_Att0
    let SMNB := if inp.AttIsCSM then c.om.CALCSMSC LM_Att
      else c.om.CALCSMSC (inp.IMUAttitude 0)
    let a := LMSteerableAngles c R SMNB inp.LM_REFSMMAT
    { CSM_PCH := 0, CSM_YAW := 0, LM_PCH := a.1, LM_YAW := a.2, CSM_Att := CSM_Att0,
      LM_Att := LM_Att, pitchyaw := some (a.1, a.2) }
  else if inp.Mode = 3 then
    let LM_Att := if inp.AttIsCSM then
        CSMIMUtoLMIMUAngles c inp.CSM_REFSMMAT inp.LM_REFSMMAT (inp.IMUAttitude 0)
          inp.DockingAngle
      else LM_Att0
    let SMNB := if inp.AttIsCSM then c.om.CALCSMSC LM_Att
      else c.om.CALCSMSC (inp.IMUAttitude 0)
    let a := RRAngles c.cm R SMNB inp.LM_REFSMMAT
    { CSM_PCH := 0, CSM_YAW := 0, LM_PCH := a.1, LM_YAW := a.2, CSM_Att := CSM_Att0,
      LM_Att := LM_Att, pitchyaw := none }
  else if inp.Mode = 4 then
    let CSM_PCH := inp.AntennaPitch
    let CSM_YAW := inp.AntennaYaw
    let SCAXIS := GetBodyFixedHGAVector c.cm CSM_PCH CSM_YAW
    let SMNB := ThreeAxisPointing c SCAXIS (unit c.cm R) sv.R sv.V
      (if inp.HeadsUp then 0 else c.cm.PI)
    let CSM_Att := c.om.CALCGAR inp.CSM_REFSMMAT SMNB
    let LM_Att := if inp.AttIsCSM = false then
        CSMIMUtoLMIMUAngles c inp.CSM_REFSMMAT inp.LM_REFSMMAT CSM_Att inp.DockingAngle
      else LM_Att0
    { CSM_PCH := CSM_PCH, CSM_YAW := CSM_YAW, LM_PCH := 0, LM_YAW := 0, CSM_Att := CSM_Att,
      LM_Att := LM_Att, pitchyaw := none }
  else if inp.Mode = 5 then
    let LM_PCH := inp.AntennaPitch
    let LM_YAW := inp.AntennaYaw
    let SCAXIS := GetBodyFixedSteerableAntennaVector c.cm LM_PCH LM_YAW
    let SMNB := ThreeAxisPointing c SCAXIS (unit c.cm R) sv.R sv.V
      (if inp.HeadsUp then 0 else c.cm.PI)
    let LM_Att := c.om.CALCGAR inp.LM_REFSMMAT SMNB
    let CSM_Att := if inp.AttIsCSM then
        LMIMUtoCMIMUAngles c inp.CSM_REFSMMAT inp.LM_REFSMMAT LM_Att inp.DockingAngle
      else CSM_Att0
    { CSM_PCH := 0, CSM_YAW := 0, LM_PCH := LM_PCH, LM_YAW := LM_YAW, CSM_Att := CSM_Att,
      LM_Att := LM_Att, pitchyaw := none }
  else
    let LM_PCH := inp.AntennaPitch
    let LM_YAW := inp.AntennaYaw
    let SCAXIS := GetBodyFixedRRVector c.cm LM_YAW LM_PCH
    let SMNB := ThreeAxisPointing c SCAXIS (unit c.cm R) sv.R sv.V
      (if inp.HeadsUp then 0 else c.cm.PI)
    let LM_Att := c.om.CALCGAR inp.LM_REFSMMAT SMNB
    let CSM_Att := if inp.AttIsCSM then
        LMIMUtoCMIMUAngles c inp.CSM_REFSMMAT inp.LM_REFSMMAT LM_Att inp.DockingAngle
      else CSM_Att0
    { CSM_PCH := 0, CSM_YAW := 0, LM_PCH := LM_PCH, LM_YAW := LM_YAW, CSM_Att := CSM_Att,
      LM_Att := LM_Att, pitchyaw := none }

/-- The computations of one pass of the loop body of `AGOP::AntennaPointing`
(lines 691-859) at sample time `GMT` for the station at `lat`, `lng`, `alt`;
`Except.error e` when the body leaves through `WriteError(out, e); return;`.  The return
value of `GetInertialLandmarkVector` (line 698) is not read. -/
def AntennaPointing_sample (c : Collab K) (inp : AGOPInputs K)
    (ephemeris : EphemerisDataTable2 K) (lat lng alt GMT : K) :
    Except Int (AntennaSample K) :=
  match Interpolation c ephemeris GMT with
  | none => Except.error 4
  | some sv =>
    let R_LMK := (GetInertialLandmarkVector c lat lng alt sv.GMT true).2
    let pl := c.rtcc.PLEFEM 4 (sv.GMT / 3600) 0
    if sv.RBI ≠ Body.BODY_EARTH ∧ pl.err then Except.error 2
    else
      let R := if sv.RBI = Body.BODY_EARTH then R_LMK - sv.R else R_LMK - (pl.R_EM + sv.R)
      let a := AntennaPointing_angles c inp R sv
      let line := c.om.format_time_HHMMSS (c.rtcc.GETfromGMT sv.GMT) ++ " " ++
        c.fmt.sprintf
          "%03.0lf %03.0lf %03.0lf %03.0lf %03.0lf  %03.0lf %03.0lf %03.0lf %03.0lf %03.0lf"
          [a.CSM_PCH * DEG c.cm, a.CSM_YAW * DEG c.cm, a.CSM_Att.x * DEG c.cm,
           a.CSM_Att.y * DEG c.cm, a.CSM_Att.z * DEG c.cm, a.LM_PCH * DEG c.cm,
           a.LM_YAW * DEG c.cm, a.LM_Att.x * DEG c.cm, a.LM_Att.y * DEG c.cm,
           a.LM_Att.z * DEG c.cm]
      Except.ok { pitchyaw := a.pitchyaw, line := line }

/-- The `do ... while (i < 10)` loop of `AGOP::AntennaPointing` (lines 689-866); the
first argument bounds the number of passes (ten are enough). -/
def AntennaPointing_loop (c : Collab K) (inp : AGOPInputs K)
    (ephemeris : EphemerisDataTable2 K) (lat lng alt : K) :
    Nat → Nat → K → AGOPOutputs K → AGOPOutputs K
  | 0, _, _, out => out
  | fuel + 1, i, GMT, out =>
    match AntennaPointing_sample c inp ephemeris lat lng alt GMT with
    | Except.error e => WriteError out e
    | Except.ok s =>
      let out1 : AGOPOutputs K :=
        { out with
          pitch := (match s.pitchyaw with
            | some a => a.1
            | none => out.pitch),
          yaw := (match s.pitchyaw with
            | some a => a.2
            | none => out.yaw),
          output_text := out.output_text ++ [s.line] }
      let i1 := i + 1
      let GMT1 := c.fp.add GMT inp.DeltaT
      if GMT1 > ephemeris.Header.TR then out1
      else if i1 < 10 then AntennaPointing_loop c inp ephemeris lat lng alt fuel i1 GMT1 out1
      else out1

/-- The header lines of the antenna pointing report (lines 624-647). -/
def AntennaPointing_header (c : Collab K) (inp : AGOPInputs K) : List String :=
  ["    STEERABLE ANTENNA POINTING PROGRAM",
   c.fmt.sprintfInt "MODE %d " [inp.Mode] ++
     (if inp.Mode = 1 ∨ inp.Mode = 4 then "ACTIVE VEH CSM " else "ACTIVE VEH LEM ") ++
     (if inp.AttIsCSM then "POINTING VEH CSM" else "POINTING VEH LEM"),
   "          ********CSM********  *********LM********",
   "    GET   PCH YAW OGA IGA MGA  PCH YAW OGA IGA MGA"]

/-- The function `AGOP::AntennaPointing` (lines 613-867). -/
def AntennaPointing (c : Collab K) (ephemeris : EphemerisDataTable2 K)
    (inp : AGOPInputs K) (out : AGOPOutputs K) : AGOPOutputs K :=
  let out0 : AGOPOutputs K :=
    { out with output_text := out.output_text ++ AntennaPointing_header c inp }
  match AntennaPointing_station c inp with
  | none => WriteError out0 3
  | some (lat, lng, alt) =>
    AntennaPointing_loop c inp ephemeris lat lng alt 10 0 ephemeris.Header.TL out0

/-! ### Option 3: star catalog -/

/-- The C library function `round`: the nearest integer, halves away from zero. -/
def round_c [FloorRing K] (x : K) : K :=
  if 0 ≤ x then ((⌊x + 1 / 2⌋ : Int) : K) else -((⌊-x + 1 / 2⌋ : Int) : K)

/-- The C library function `fmod`: `x - y * trunc (x / y)`. -/
def fmod_c [FloorRing K] (x y : K) : K :=
  if 0 ≤ x / y then x - y * ((⌊x / y⌋ : Int) : K) else x - y * ((⌈x / y⌉ : Int) : K)

/-- The C library function `floor`. -/
def floor_c [FloorRing K] (x : K) : K := ((⌊x⌋ : Int) : K)

/-- The function `AGOP::RightAscension_Display` (lines 2180-2184). -/
def RightAscension_Display [FloorRing K] (c : Collab K) (angle : K) : String :=
  let angle2 := |round_c (angle * 3600)|
  c.fmt.sprintf "%03.0f:%02.0f:%02.0f"
    [floor_c (angle2 / 3600), floor_c (fmod_c angle2 3600 / 60), fmod_c angle2 60]

/-- The function `AGOP::Declination_Display` (lines 2186-2197). -/
def Declination_Display [FloorRing K] (c : Collab K) (angle : K) : String :=
  let angle2 := |round_c (angle * 3600)|
  if angle ≥ 0 then
    c.fmt.sprintf "+%02.0f:%02.0f:%02.0f"
      [floor_c (angle2 / 3600), floor_c (fmod_c angle2 3600 / 60), fmod_c angle2 60]
  else
    c.fmt.sprintf "-%02.0f:%02.0f:%02.0f"
      [floor_c (angle2 / 3600), floor_c (fmod_c angle2 3600 / 60), fmod_c angle2 60]

/-- The function `AGOP::StarCatalog` (lines 579-611).  The star number is `unsigned`, so
`in.StarIDs[0] - 1` wraps modulo `2^32`; `none` is a read outside the catalog. -/
def StarCatalog [FloorRing K] (c : Collab K) (inp : AGOPInputs K) (out : AGOPOutputs K) :
    Option (AGOPOutputs K) :=
  match inp.startable[(inp.StarIDs 0 + 4294967296 - 1) % 4294967296]? with
  | none => none
  | some u =>
    let decl := (c.om.latlong_from_r u).1
    let ra := (c.om.latlong_from_r u).2
    let line := c.fmt.sprintfInt "%03d/%03o " [(inp.StarIDs 0 : Int), (inp.StarIDs 0 : Int)] ++
      RightAscension_Display c (ra * DEG c.cm) ++ "  " ++
      Declination_Display c (decl * DEG c.cm) ++ "  " ++
      c.fmt.sprintf "%+.5lf " [u.x] ++ c.fmt.sprintf "%+.5lf " [u.y] ++
      c.fmt.sprintf "%+.5lf " [u.z]
    some { out with output_text := out.output_text ++
      ["                 STAR CATALOG",
       "STAR ID     RA        DEC            UNIT VECTOR",
       "DEC/OCT HR:MIN:SEC HR:MIN:SEC",
       line] }

/-! ### Option 7, mode 5: point the AOT with the CSM -/

/-- The function `AGOP::SingleStateVector` (lines 2943-2953); `none` when the ephemeris
table is empty. -/
def SingleStateVector (ephemeris : EphemerisDataTable2 K) : Option (EphemerisData K) :=
  match ephemeris.table[0]? with
  | none => none
  | some e =>
    some { R := e.R, V := e.V, GMT := e.GMT,
           RBI := if ephemeris.Header.CSI = 0 then Body.BODY_EARTH else Body.BODY_MOON }

/-- State of the attitude loop of `PointAOTWithCSM`: the locals `OMICRON` and `CSM_Att`,
and the `OMICRON` arguments of the calls of `ThreeAxisPointing` made so far, in order. -/
structure PointAOTState (K : Type) where
  OMICRON : K
  CSM_Att : VECTOR3 K
  calls : List K

/-- The loop `for (int i = 0; i < 2; i++)` of `AGOP::PointAOTWithCSM` (lines 1636-1645);
the first argument is the number of passes left, `2 - i`. -/
def PointAOTWithCSM_loop (c : Collab K) (inp : AGOPInputs K) (u_ANB u_LOS : VECTOR3 K)
    (sv : EphemerisData K) : Nat → PointAOTState K → PointAOTState K
  | 0, st => st
  | n + 1, st =>
    let OMICRON : K := 0
    let SMNB := ThreeAxisPointing c u_ANB u_LOS sv.R sv.V OMICRON
    let CSM_Att := c.om.CALCGAR inp.CSM_REFSMMAT SMNB
    let calls := st.calls ++ [OMICRON]
    if c.cm.cos CSM_Att.z > 1 / 5 then
      { OMICRON := OMICRON, CSM_Att := CSM_Att, calls := calls }
    else
      PointAOTWithCSM_loop c inp u_ANB u_LOS sv n
        { OMICRON := OMICRON + 90 * RAD c.cm, CSM_Att := CSM_Att, calls := calls }

/-- Lines 1621-1645 of `AGOP::PointAOTWithCSM`: the attitude loop entered with the locals
`OMICRON` and `CSM_Att` not yet assigned (`OMICRON0`, `CSM_Att0`) and no call made;
`none` when the star number reads outside the catalog or the ephemeris is empty. -/
def PointAOTWithCSM_attitude (c : Collab K) (ephemeris : EphemerisDataTable2 K)
    (inp : AGOPInputs K) (OMICRON0 : K) (CSM_Att0 : VECTOR3 K) : Option (PointAOTState K) :=
  match SingleStateVector ephemeris with
  | none => none
  | some sv =>
    let AZ := (GetAOTNBAngle c inp.AOTDetent).1
    let EL := (GetAOTNBAngle c inp.AOTDetent).2
    let SCAXIS := c.om.AOTNavigationBase AZ EL
    match GetStarUnitVector c inp (inp.StarIDs 0) with
    | none => none
    | some u_LOS =>
      let M_NBCSM_NBLM := c.om.CSMBodyToLMBody inp.DockingAngle
      let u_ANB := tmul M_NBCSM_NBLM SCAXIS
      some (PointAOTWithCSM_loop c inp u_ANB u_LOS sv 2
        { OMICRON := OMICRON0, CSM_Att := CSM_Att0, calls := [] })

/-- The function `AGOP::PointAOTWithCSM` (lines 1613-1657). -/
def PointAOTWithCSM (c : Collab K) (ephemeris : EphemerisDataTable2 K)
    (inp : AGOPInputs K) (OMICRON0 : K) (CSM_Att0 : VECTOR3 K) (out : AGOPOutputs K) :
    Option (AGOPOutputs K) :=
  match PointAOTWithCSM_attitude c ephemeris inp OMICRON0 CSM_Att0 with
  | none => none
  | some st =>
    some { out with output_text := out.output_text ++
      ["POINT AOT WITH CSM", "",
       "CSM Gimbal Angles: " ++
         c.fmt.sprintf "%06.2lf %06.2lf %06.2lf"
           [st.CSM_Att.x * DEG c.cm, st.CSM_Att.y * DEG c.cm, st.CSM_Att.z * DEG c.cm]] }

/-! ### Local-vertical attitude and option 6: horizon alignment -/

/-- The function `AGOP::LVLHAttitude` (lines 2332-2366). -/
def LVLHAttitude (cm : CMath K) (LVLHAtt R V : VECTOR3 K) : MATRIX3 K :=
  let SINP := cm.sin LVLHAtt.y
  let SINY := cm.sin LVLHAtt.z
  let SINR := cm.sin LVLHAtt.x
  let COSP := cm.cos LVLHAtt.y
  let COSY := cm.cos LVLHAtt.z
  let COSR := cm.cos LVLHAtt.x
  let Z_P := -(unit cm R)
  let Y_P := -(unit cm (crossp R V))
  let X_P := crossp Y_P Z_P
  let AL := SINP * SINR
  let BE := SINP * COSR
  let a1 := COSY * COSP
  let a2 := SINY * COSP
  let a3 := -SINP
  let b1 := AL * COSY - SINY * COSR
  let b2 := AL * SINY + COSY * COSR
  let b3 := COSP * SINR
  let c1 := BE * COSY + SINY * SINR
  let c2 := BE * SINY - COSY * SINR
  let c3 := COSP * COSR
  let X_B := X_P.smul a1 + Y_P.smul a2 + Z_P.smul a3
  let Y_B := X_P.smul b1 + Y_P.smul b2 + Z_P.smul b3
  let Z_B := X_P.smul c1 + Y_P.smul c2 + Z_P.smul c3
  _M X_B.x X_B.y X_B.z Y_B.x Y_B.y Y_B.z Z_B.x Z_B.y Z_B.z

/-- What one pass through the loop body of `HorizonAngles` computes: the gimbal angles
and the report line. -/
structure HorizonSample (K : Type) where
  IMUAttitude : VECTOR3 K
  line : String

/-- The computations of one pass of the loop body of `AGOP::HorizonAngles`
(lines 964-1012) at sample time `GMT`: `Except.error e` when the body leaves through
`WriteError(out, e); return;`. -/
def HorizonAngles_sample (c : Collab K) (inp : AGOPInputs K)
    (ephemeris : EphemerisDataTable2 K) (GMT : K) : Except Int (HorizonSample K) :=
  match Interpolation c ephemeris GMT with
  | none => Except.error 4
  | some sv =>
    let R := if sv.RBI = Body.BODY_EARTH then c.om.R_Earth else c.rtcc.BZLAND_rad0
    let y0 := -(c.cm.acos (R / length c.cm sv.R))
    let x := if inp.HeadsUp then 0 else c.cm.PI
    let y := if inp.HeadsUp then y0 - c.rtcc.MCGHZA else y0 + c.rtcc.MCGHZA
    let z := if inp.Mode = 1 then 0 else c.cm.PI
    let M_NB := LVLHAttitude c.cm (_V x y z) sv.R sv.V
    let att := c.om.CALCGAR inp.CSM_REFSMMAT M_NB
    let line := c.om.format_time_HHMMSS (c.rtcc.GETfromGMT sv.GMT) ++ " " ++
      c.fmt.sprintf "%+07.2lf %+07.2lf %+07.2lf"
        [att.x * DEG c.cm, att.y * DEG c.cm, att.z * DEG c.cm]
    Except.ok { IMUAttitude := att, line := line }

/-- The `do ... while (i < 10)` loop of `AGOP::HorizonAngles` (lines 962-1019); the first
argument bounds the number of passes (ten are enough). -/
def HorizonAngles_loop (c : Collab K) (inp : AGOPInputs K)
    (ephemeris : EphemerisDataTable2 K) : Nat → Nat → K → AGOPOutputs K → AGOPOutputs K
  | 0, _, _, out => out
  | fuel + 1, i, GMT, out =>
    match HorizonAngles_sample c inp ephemeris GMT with
    | Except.error e => WriteError out e
    | Except.ok s =>
      let out1 : AGOPOutputs K :=
        { out with IMUAttitude := s.IMUAttitude,
                   output_text := out.output_text ++ [s.line] }
      let i1 := i + 1
      let GMT1 := c.fp.add GMT inp.DeltaT
      if GMT1 > ephemeris.Header.TR then out1
      else if i1 < 10 then HorizonAngles_loop c inp ephemeris fuel i1 GMT1 out1
      else out1

/-- The function `AGOP::HorizonAngles` (lines 943-1020). -/
def HorizonAngles (c : Collab K) (ephemeris : EphemerisDataTable2 K)
    (inp : AGOPInputs K) (out : AGOPOutputs K) : AGOPOutputs K :=
  let out0 : AGOPOutputs K :=
    { out with output_text := out.output_text ++
        ["        HORIZON ALIGNMENT        ",
         "   GET            ATTITUDE       ",
         "HR:MIN:SEC  OGA     IGA     MGA  "] }
  HorizonAngles_loop c inp ephemeris 10 0 ephemeris.Header.TL out0

/-! ### Option 7: optical support table -/

/-- The function `AGOP::VectorPointingToHorizon` (lines 2538-2563). -/
def VectorPointingToHorizon (c : Collab K) (sv : EphemerisData K) (plane : VECTOR3 K)
    (sol : Bool) : VECTOR3 K :=
  let e := unit c.cm (-sv.R)
  let R_E := if sv.RBI = Body.BODY_EARTH then c.om.R_Earth else c.rtcc.BZLAND_rad0
  let alpha0 := c.cm.asin (R_E / length c.cm sv.R)
  let alpha := if sol = false then -alpha0 else alpha0
  c.om.RotateVector plane alpha e

/-- The function `AGOP::LMHorizonCheck` (lines 1054-1137); `none` when the ephemeris table
is empty. -/
def LMHorizonCheck (c : Collab K) (ephemeris : EphemerisDataTable2 K) (inp : AGOPInputs K)
    (out : AGOPOutputs K) : Option (AGOPOutputs K) :=
  let M_BRCS_SM := inp.LM_REFSMMAT
  let M_SM_NB := c.om.CALCSMSC (inp.IMUAttitude 0)
  let M_BRCS_NB := mulM M_SM_NB M_BRCS_SM
  let U_X := tmul M_BRCS_NB (_V 1 0 0)
  let U_Y := tmul M_BRCS_NB (_V 0 1 0)
  let U_Z := tmul M_BRCS_NB (_V 0 0 1)
  match SingleStateVector ephemeris with
  | none => none
  | some sv =>
    let R1 := VectorPointingToHorizon c sv U_X true
    let R2 := VectorPointingToHorizon c sv U_X false
    let R_horiz :=
      if dotp U_Z (unit c.cm R1) > dotp U_Z (unit c.cm R2) then R1 else R2
    let X_NB := U_X
    let Z_NB := unit c.cm R_horiz
    let Y_NB := crossp Z_NB X_NB
    let M_NB := _M X_NB.x X_NB.y X_NB.z Y_NB.x Y_NB.y Y_NB.z Z_NB.x Z_NB.y Z_NB.z
    let att := c.om.CALCGAR inp.LM_REFSMMAT M_NB
    let R1b := VectorPointingToHorizon c sv U_Y true
    let R2b := VectorPointingToHorizon c sv U_Y false
    let R_horizb :=
      if dotp U_Z (unit c.cm R1b) > dotp U_Z (unit c.cm R2b) then R1b else R2b
    let LPD := c.cm.asin (dotp (-R_horizb) U_X)
    let line := "GETHOR " ++ c.om.format_time_HHMMSS (c.rtcc.GETfromGMT sv.GMT) ++
      c.fmt.sprintf " IMU %05.1lf LPD " [att.x * DEG c.cm] ++
      (if LPD < 0 ∨ LPD > 70 * RAD c.cm then "N/A"
       else c.fmt.sprintf "%.1lf" [LPD * DEG c.cm])
    some { out with
      IMUAttitude := att,
      output_text := out.output_text ++
        [c.fmt.sprintfInt "MODE %d  OPTICAL SIGHTING TABLE  VEH LM" [inp.Mode],
         "***BURN HORIZON CHECK***", line] }

/-- The function `AGOP::BRCStoNBMatrix` (lines 2955-2995); the argument `set` is not
read. -/
def BRCStoNBMatrix (c : Collab K) (inp : AGOPInputs K) (_set : Nat) : MATRIX3 K :=
  let conv := PointInstrumentOfOtherVehicle inp
  let M_BRCS_SM := if inp.AttIsCSM then inp.CSM_REFSMMAT else inp.LM_REFSMMAT
  let M_SM_NB := c.om.CALCSMSC (inp.IMUAttitude 0)
  let M_BRCS_NB := mulM M_SM_NB M_BRCS_SM
  if conv then
    let M_NBCSM_NBLM := c.om.CSMBodyToLMBody inp.DockingAngle
    if inp.AttIsCSM then mulM M_NBCSM_NBLM M_BRCS_NB
    else mulM (tmat M_NBCSM_NBLM) M_BRCS_NB
  else M_BRCS_NB

/-- The function `AGOP::GetAttitudeMatrix` (lines 2997-3018): the pair `(GA, MAT)`. -/
def GetAttitudeMatrix (c : Collab K) (inp : AGOPInputs K) (set : Nat) :
    VECTOR3 K × MATRIX3 K :=
  let GA :=
    if inp.AttIsCSM then inp.IMUAttitude set
    else if inp.AttIsFDAI then c.rtcc.EMMGFDAI (inp.IMUAttitude set) false
    else inp.IMUAttitude set
  (GA, c.om.CALCSMSC GA)

/-- The function `AGOP::SextantAngles` (lines 2679-2695): the pair `(TA, SA)`. -/
def SextantAngles (c : Collab K) (u_NB : VECTOR3 K) : K × K :=
  let u_SB := tmul c.om.SBNBMatrix u_NB
  let X_SB : VECTOR3 K := _V 1 0 0
  let Y_SB : VECTOR3 K := _V 0 1 0
  let Z_SB : VECTOR3 K := _V 0 0 1
  let U_TPA := unit c.cm (crossp Z_SB u_SB)
  let sinSA := dotp U_TPA (-X_SB)
  let cosSA := dotp U_TPA Y_SB
  (c.cm.acos (dotp Z_SB u_SB), c.om.atan3 sinSA cosSA)

/-- The function `AGOP::InstrumentAngles` (lines 2659-2677): the pair `(pitch, yaw)`.  The
first argument bounds the passes of the `while` loops of `AOTAngles`; `none` when it is
used up. -/
def InstrumentAngles (c : Collab K) (fuel : Nat) (u_NB : VECTOR3 K) (Instrument : Int)
    (AOTDetent : Nat) (LMCOASAxis : Bool) : Option (K × K) :=
  if Instrument = 0 then some (SextantAngles c u_NB)
  else if Instrument = 1 then some (LMCOASAngles c.cm LMCOASAxis u_NB)
  else if Instrument = 2 then AOTAngles c fuel AOTDetent u_NB
  else some (CSMCOASAngles c.cm u_NB)

/-- The function `AGOP::DockingAlignment` (lines 1485-1611). -/
def DockingAlignment (c : Collab K) (inp : AGOPInputs K) (out : AGOPOutputs K) :
    AGOPOutputs K :=
  let GA_CSM0 := inp.IMUAttitude 0
  let GA_LM0 :=
    if inp.AttIsFDAI then c.rtcc.EMMGFDAI (inp.IMUAttitude 1) false else inp.IMUAttitude 1
  let M_NBCSM_NBLM := c.om.CSMBodyToLMBody inp.DockingAngle
  let out1 : AGOPOutputs K :=
    if inp.AdditionalOption = 0 then
      let M_SMCSM_NBCSM := c.om.CALCSMSC (inp.IMUAttitude 0)
      let M_SMLM_NBLM := c.om.CALCSMSC GA_LM0
      let M_BRCS_NBCSM := mulM M_SMCSM_NBCSM inp.CSM_REFSMMAT
      let M_BRCS_NBLM := mulM M_NBCSM_NBLM M_BRCS_NBCSM
      let M_BRCS_SMLM := mulM (tmat M_SMLM_NBLM) M_BRCS_NBLM
      { out with REFSMMAT := M_BRCS_SMLM, REFSMMAT_Vehicle := c.rtcc.RTCC_MPT_LM }
    else if inp.AdditionalOption = 1 then out
    else if inp.AdditionalOption = 2 then out
    else
      let M_SMCSM_NBCSM := c.om.CALCSMSC (inp.IMUAttitude 0)
      let M_SMLM_NBLM := c.om.CALCSMSC GA_LM0
      let M_BRCS_NBLM := mulM M_SMLM_NBLM inp.LM_REFSMMAT
      let M_BRCS_NBCSM := mulM (tmat M_NBCSM_NBLM) M_BRCS_NBLM
      let M_BRCS_SMCSM := mulM (tmat M_SMCSM_NBCSM) M_BRCS_NBCSM
      { out with REFSMMAT := M_BRCS_SMCSM, REFSMMAT_Vehicle := c.rtcc.RTCC_MPT_CSM }
  let GA_LM :=
    if inp.AdditionalOption = 1 then
      CSMIMUtoLMIMUAngles c inp.CSM_REFSMMAT inp.LM_REFSMMAT (inp.IMUAttitude 0)
        inp.DockingAngle
    else GA_LM0
  let GA_CSM :=
    if inp.AdditionalOption = 2 then
      LMIMUtoCMIMUAngles c inp.CSM_REFSMMAT inp.LM_REFSMMAT GA_LM0 inp.DockingAngle
    else GA_CSM0
  let line2 := "                   " ++
    (if inp.AdditionalOption = 0 then "LM REFSMMAT"
     else if inp.AdditionalOption = 1 then "LM ATTITUDE"
     else if inp.AdditionalOption = 2 then "CSM ATTITUDE"
     else "CSM REFSMMAT") ++ " IS COMPUTED"
  let line8 := "XXXXXX " ++
    c.fmt.sprintf "%06.2lf %06.2lf %06.2lf "
      [GA_CSM.x * DEG c.cm, GA_CSM.y * DEG c.cm, GA_CSM.z * DEG c.cm] ++
    "XXXXXX " ++
    c.fmt.sprintf "%06.2lf %06.2lf %06.2lf "
      [GA_LM.x * DEG c.cm, GA_LM.y * DEG c.cm, GA_LM.z * DEG c.cm]
  let text := out1.output_text ++
    ["                 DOCKING ALIGNMENT PROCESSOR", line2,
     "              *******                     *******",
     "              * CSM *                     * LEM *",
     "              *******                     *******",
     "         IMU GIMBAL ANGLES           IMU GIMBAL ANGLES",
     "REFSMMAT OGA    IGA    MGA REFSMMAT  OGA    IGA    MGA", line8]
  if inp.AdditionalOption = 0 ∨ inp.AdditionalOption = 3 then
    { out1 with output_text := text ++
        ["              CALCULATED REFSMMAT",
         c.fmt.sprintf "%010.7lf %010.7lf %010.7lf"
           [out1.REFSMMAT.m11, out1.REFSMMAT.m12, out1.REFSMMAT.m13],
         c.fmt.sprintf "%010.7lf %010.7lf %010.7lf"
           [out1.REFSMMAT.m21, out1.REFSMMAT.m22, out1.REFSMMAT.m23],
         c.fmt.sprintf "%010.7lf %010.7lf %010.7lf"
           [out1.REFSMMAT.m31, out1.REFSMMAT.m32, out1.REFSMMAT.m33]] }
  else { out1 with output_text := text }

/-- The function `AGOP::REFSMMAT2REFSMMAT` (lines 1659-1696). -/
def REFSMMAT2REFSMMAT (c : Collab K) (inp : AGOPInputs K) (out : AGOPOutputs K) :
    AGOPOutputs K :=
  let M_BRCS_SM := inp.LM_REFSMMAT
  let M_SM_NB := c.om.CALCSMSC (inp.IMUAttitude 0)
  let M_BRCS_NB := mulM M_SM_NB M_BRCS_SM
  let Att := c.om.CALCGAR inp.CSM_REFSMMAT M_BRCS_NB
  let FDAI_Att := if inp.AttIsCSM then Att else c.rtcc.EMMGFDAI Att true
  { out with output_text := out.output_text ++
      ["REFSMMAT TO REFSMMAT", "",
       "Gimbal Angles: " ++
         c.fmt.sprintf "%06.2lf %06.2lf %06.2lf"
           [Att.x * DEG c.cm, Att.y * DEG c.cm, Att.z * DEG c.cm],
       "FDAI Angles: " ++
         c.fmt.sprintf "%06.2lf %06.2lf %06.2lf"
           [FDAI_Att.x * DEG c.cm, FDAI_Att.y * DEG c.cm, FDAI_Att.z * DEG c.cm]] }


/-- Result of the body of the star search loop of `OSTAlignmentManeuverCheck` for one
star: the star number reads outside the catalog, no line is written, or the line. -/
inductive StarPass where
  | outside
  | skipped
  | line (text : String)

/-- Lines 1266-1381 of `AGOP::OSTAlignmentManeuverCheck`: the body of the star search loop
for the star number `star`.  The first argument bounds the passes of the `while` loops
of `AOTAngles`; `none` when it is used up. -/
def OSTAlignmentManeuverCheck_star (c : Collab K) (fuelA : Nat)
    (ephemeris : EphemerisDataTable2 K) (inp : AGOPInputs K) (M_BRCS_NB : MATRIX3 K)
    (star : Nat) : Option StarPass :=
  match GetStarUnitVector c inp star with
  | none => some StarPass.outside
  | some u_BRCS =>
    let S_NB := mul M_BRCS_NB u_BRCS
    let inLimit := InstrumentLimitCheck c inp S_NB
    if inLimit then
      let intab : EMMENVInputTable K :=
        { GMT := inp.ephem.Header.TL, option := 2, terminator := false, present := true,
          u_vec := u_BRCS }
      let outtab := c.rtcc.EMMENV ephemeris intab
      if outtab.err ≤ 1 then
        let AOSFlag := !outtab.IsActualChange
        let GMTAOS := outtab.T_Change
        let intab2 : EMMENVInputTable K :=
          { intab with GMT := outtab.T_Change + 1, present := false }
        let outtab2 := c.rtcc.EMMENV ephemeris intab2
        let LOSFlag := if outtab2.err ≤ 1 then false else true
        let GMTLOS := if outtab2.err ≤ 1 then outtab2.T_Change else ephemeris.Header.TR
        match InstrumentAngles c fuelA S_NB inp.Instrument inp.AOTDetent inp.LMCOASAxis with
        | none => none
        | some (pitch, yaw) =>
          let line :=
            (if inp.Instrument = 2 then c.fmt.sprintfInt "  %d" [(inp.AOTDetent : Int)]
             else "   ") ++ "/" ++ c.fmt.sprintfInt "%03d" [(star : Int)] ++ "   " ++
            (if star < 37 then c.fmt.sprintfInt "%03o   " [(star : Int)] else "      ") ++
            (if inp.Instrument = 0 then
               c.fmt.sprintf "%06.2lf %06.3lf" [yaw * DEG c.cm, pitch * DEG c.cm]
             else if inp.Instrument = 1 then
               c.fmt.sprintf " %+05.1lf  %+05.1lf" [yaw * DEG c.cm, pitch * DEG c.cm]
             else if inp.Instrument = 2 then
               c.fmt.sprintf "%06.2lf %06.2lf" [pitch * DEG c.cm, yaw * DEG c.cm]
             else
               c.fmt.sprintf " %+05.1lf   %+04.1lf" [pitch * DEG c.cm, yaw * DEG c.cm]) ++
            (if AOSFlag then " *" else "  ") ++
            c.om.format_time_HHMMSS (c.rtcc.GETfromGMT GMTAOS) ++
            (if LOSFlag then " *" else "  ") ++
            c.om.format_time_HHMMSS (c.rtcc.GETfromGMT GMTLOS)
          some (StarPass.line line)
      else some StarPass.skipped
    else some StarPass.skipped

/-- State of the star search loop of `OSTAlignmentManeuverCheck`: the report, the counter
`num` of lines written, and, for the record, the star numbers examined so far and the
star numbers for which a line was written, in order; `outside` is set when a star number
read outside the catalog, where the search is stopped. -/
structure StarSearchState (K : Type) where
  out : AGOPOutputs K
  num : Nat
  examined : List Nat
  written : List Nat
  outside : Bool

/-- The loop `do ... while (num < 10)` of `AGOP::OSTAlignmentManeuverCheck`
(lines 1261-1396), entered with the `unsigned` locals `star` and `search`.  The first
argument bounds the number of passes; `none` when it or the bound of `AOTAngles` is used
up. -/
def OSTAlignmentManeuverCheck_loop (c : Collab K) (fuelA : Nat)
    (ephemeris : EphemerisDataTable2 K) (inp : AGOPInputs K) (M_BRCS_NB : MATRIX3 K) :
    Nat → Nat → Nat → StarSearchState K → Option (StarSearchState K)
  | 0, _, _, _ => none
  | fuel + 1, star, search, st =>
    match OSTAlignmentManeuverCheck_star c fuelA ephemeris inp M_BRCS_NB star with
    | none => none
    | some StarPass.outside =>
      some { st with examined := st.examined ++ [star], outside := true }
    | some p =>
      let st1 : StarSearchState K :=
        match p with
        | StarPass.line text =>
          { st with
            out := { st.out with output_text := st.out.output_text ++ [text] },
            num := st.num + 1,
            examined := st.examined ++ [star],
            written := st.written ++ [star] }
        | _ => { st with examined := st.examined ++ [star] }
      if inp.AdditionalOption = 0 then
        let star1 := (star + 1) % 4294967296
        if star1 > 400 then some st1
        else if st1.num < 10 then
          OSTAlignmentManeuverCheck_loop c fuelA ephemeris inp M_BRCS_NB fuel star1 search st1
        else some st1
      else
        let search1 := (search + 1) % 4294967296
        if search1 > 10 then some st1
        else
          let star1 := inp.StarIDs (search1 - 1)
          if st1.num < 10 then
            OSTAlignmentManeuverCheck_loop c fuelA ephemeris inp M_BRCS_NB fuel star1 search1
              st1
          else some st1

/-- The header lines of the alignment and maneuver check (lines 1167-1242). -/
def OSTAlignmentManeuverCheck_header (c : Collab K) (inp : AGOPInputs K) : List String :=
  ["MODE 2  OPTICAL SIGHTING TABLE  VEH " ++ (if inp.AttIsCSM then "CSM" else "LEM"),
   "*******************BODY ATTITUDES*******************",
   "     OGA " ++ c.fmt.sprintf "%06.2lf" [(inp.IMUAttitude 0).x * DEG c.cm],
   "     IGA " ++ c.fmt.sprintf "%06.2lf" [(inp.IMUAttitude 0).y * DEG c.cm],
   "     MGA " ++ c.fmt.sprintf "%06.2lf" [(inp.IMUAttitude 0).z * DEG c.cm],
   "************ALIGNMENT AND MANEUVER CHECK************",
   "          " ++
     (if inp.Instrument = 0 then "SXT"
      else if inp.Instrument = 1 then
        (if inp.LMCOASAxis then "LM COAS +Z" else "LM COAS +X")
      else if inp.Instrument = 2 then "AOT"
      else "CSM COAS"),
   " STAR DEC OCT    " ++
     (if inp.Instrument = 0 then "SFT    TRN"
      else if inp.Instrument = 1 then " AZ     EL"
      else if inp.Instrument = 2 then " A1     A2"
      else "SPA    SXP") ++ "       AOS       LOS"]

/-- The star search of `AGOP::OSTAlignmentManeuverCheck` (lines 1244-1396) with its
record of the stars examined; the third argument bounds the number of passes of the
search loop. -/
def OSTAlignmentManeuverCheck_search (c : Collab K) (fuelA fuel : Nat)
    (ephemeris : EphemerisDataTable2 K) (inp : AGOPInputs K) (out : AGOPOutputs K) :
    Option (StarSearchState K) :=
  let M_BRCS_NB := BRCStoNBMatrix c inp 0
  let star := if inp.AdditionalOption = 0 then inp.StartingStar else inp.StarIDs 0
  OSTAlignmentManeuverCheck_loop c fuelA ephemeris inp M_BRCS_NB fuel star 1
    { out := out, num := 0, examined := [], written := [], outside := false }

/-- The function `AGOP::OSTAlignmentManeuverCheck` (lines 1139-1397); `none` when a bound
is used up or a star number reads outside the catalog. -/
def OSTAlignmentManeuverCheck (c : Collab K) (fuelA fuel : Nat)
    (ephemeris : EphemerisDataTable2 K) (inp : AGOPInputs K) (out : AGOPOutputs K) :
    Option (AGOPOutputs K) :=
  match OSTAlignmentManeuverCheck_search c fuelA fuel ephemeris inp
      { out with output_text := out.output_text ++ OSTAlignmentManeuverCheck_header c inp }
    with
  | none => none
  | some st => if st.outside then none else some st.out

/-- Values of the locals of the program that are read before anything is assigned to
them: `R_S` of `FindLandmarkAOS`, `GA` of `StarSightingTable`, and `OMICRON` and
`CSM_Att` of `PointAOTWithCSM` as declared. -/
structure Uninitialised (K : Type) where
  R_S : VECTOR3 K
  GA : VECTOR3 K
  OMICRON : K
  CSM_Att : VECTOR3 K

/-- The function `AGOP::OpticalSupportTable` (lines 1022-1052). -/
def OpticalSupportTable (c : Collab K) (u : Uninitialised K) (fuelA : Nat)
    (ephemeris : EphemerisDataTable2 K) (inp : AGOPInputs K) (out : AGOPOutputs K) :
    Option (AGOPOutputs K) :=
  if inp.Mode = 1 then LMHorizonCheck c ephemeris inp out
  else if inp.Mode = 2 then OSTAlignmentManeuverCheck c fuelA 402 ephemeris inp out
  else if inp.Mode = 3 then OSTComputeREFSMMAT c inp out
  else if inp.Mode = 4 then some (DockingAlignment c inp out)
  else if inp.Mode = 5 then PointAOTWithCSM c ephemeris inp u.OMICRON u.CSM_Att out
  else if inp.Mode = 6 then some (REFSMMAT2REFSMMAT c inp out)
  else some out

/-! ### Option 8: star sighting table -/

/-- Lines 1708-1817 of `AGOP::StarSightingTable`: `Except.error out` is the report with
which the function returns early, `Except.ok (out, GA, u_star)` the report, the local
`GA` and the local `u_star` with which it goes on to the display (`u_star` is assigned in
modes 2, 4 and 5 only); `none` when a read is outside a table. -/
def StarSightingTable_target (c : Collab K) (u : Uninitialised K)
    (ephemeris : EphemerisDataTable2 K) (inp : AGOPInputs K) (out : AGOPOutputs K) :
    Option (Except (AGOPOutputs K) (AGOPOutputs K × VECTOR3 K × Option (VECTOR3 K))) :=
  if inp.Mode = 1 ∨ inp.Mode = 3 then
    match StarSightingTable_landmark c ephemeris u.R_S inp out with
    | none => none
    | some (Except.error o) => some (Except.error o)
    | some (Except.ok (o, _)) => some (Except.ok (o, u.GA, none))
  else if inp.Mode = 2 ∨ inp.Mode = 4 then
    match GetStarUnitVector c inp (inp.StarIDs 0) with
    | none => none
    | some u_star =>
      let intab : EMMENVInputTable K :=
        { GMT := ephemeris.Header.TL, option := 2, terminator := false, present := true,
          u_vec := c.rtcc.EMMENVInputTable_u_vec }
      let outtab := c.rtcc.EMMENV ephemeris intab
      if outtab.err > 1 then some (Except.error (WriteError out 6))
      else some (Except.ok (out, u.GA, some u_star))
  else
    let u_NB := GetNBUnitVectorFromInstrument c inp 0
    let M_BRCS_SM := if inp.AttIsCSM then inp.CSM_REFSMMAT else inp.LM_REFSMMAT
    let GA := (GetAttitudeMatrix c inp 0).1
    let M_SM_NB := (GetAttitudeMatrix c inp 0).2
    let u_SM := tmul M_SM_NB u_NB
    let u_star := tmul M_BRCS_SM u_SM
    some (Except.ok (out, GA, some u_star))

/-- The function `AGOP::StarSightingTable` (lines 1699-1998). -/
def StarSightingTable [FloorRing K] (c : Collab K) (u : Uninitialised K)
    (ephemeris : EphemerisDataTable2 K) (inp : AGOPInputs K) (out : AGOPOutputs K) :
    Option (AGOPOutputs K) :=
  match StarSightingTable_target c u ephemeris inp out with
  | none => none
  | some (Except.error o) => some o
  | some (Except.ok (o, GA, u_star)) =>
    let TGT : K × K :=
      match u_star with
      | some v => if inp.Mode = 2 ∨ inp.Mode = 4 then c.om.latlong_from_r v else (0, 0)
      | none => (0, 0)
    let LOS : K × K :=
      match u_star with
      | some v =>
        if inp.Mode = 2 ∨ inp.Mode = 4 ∨ inp.Mode = 5 then c.om.latlong_from_r v else (0, 0)
      | none => (0, 0)
    let line3 := "               VEHICLE " ++ (if inp.AttIsCSM then "CSM" else "LEM") ++
      " MODE " ++ c.fmt.sprintfInt "%d" [inp.Mode]
    let line4 := "  TGTID " ++
      (if inp.Mode = 1 ∨ inp.Mode = 3 then "LMK"
       else if inp.Mode = 5 then "STAR"
       else c.fmt.sprintfInt "%03d" [(inp.StarIDs 0 : Int)])
    let line5 := "                       OG   " ++ c.fmt.sprintf "%06.2lf" [GA.x * DEG c.cm]
    let line6 := " TGT DEC   " ++
      (if inp.Mode = 2 ∨ inp.Mode = 4 then Declination_Display c (TGT.1 * DEG c.cm)
       else "         ") ++
      "   IG   " ++ c.fmt.sprintf "%06.2lf" [GA.y * DEG c.cm] ++ "     LOS DEC    " ++
      (if inp.Mode = 2 ∨ inp.Mode = 4 ∨ inp.Mode = 5 then
         Declination_Display c (LOS.1 * DEG c.cm)
       else "")
    let line7 := "TGT RT ASC " ++
      (if inp.Mode = 2 ∨ inp.Mode = 4 then RightAscension_Display c (TGT.2 * DEG c.cm)
       else "         ") ++
      "   MG   " ++ c.fmt.sprintf "%06.2lf" [GA.z * DEG c.cm] ++ "     LOS RT ASC " ++
      (if inp.Mode = 2 ∨ inp.Mode = 4 ∨ inp.Mode = 5 then
         RightAscension_Display c (LOS.2 * DEG c.cm)
       else "")
    let line11 := "  GND PT DATA          OPTICS " ++
      (if inp.Instrument = 0 then "SXT    "
       else if inp.Instrument = 1 then
         (if inp.AttIsCSM then "COAS   "
          else if inp.LMCOASAxis then "COAS +Z" else "COAS +X")
       else "AOT/" ++ c.fmt.sprintfInt "%d" [(inp.AOTDetent : Int)]) ++
      "  GETT " ++ c.om.format_time_HHMMSS (c.rtcc.GETfromGMT ephemeris.Header.TL)
    some { o with output_text := o.output_text ++
      ["                   STAR SIGHTING TABLE", "", line3, line4, line5, line6, line7,
       "", "", "", line11] }

/-! ### Option 9: lunar surface alignment display -/

/-- Lines 2005-2138 of `AGOP::LunarSurfaceAlignmentDisplay`: the matrix `M_NB_MCT`, whose
value the function does not use afterwards; `some none` when no mode assigns it, `none`
when a star number reads outside the catalog. -/
def LunarSurfaceAlignmentDisplay_matrix (c : Collab K) (inp : AGOPInputs K) :
    Option (Option (MATRIX3 K)) :=
  if inp.Mode = 1 then
    let U_NBA :=
      if inp.Instrument = 1 then
        GetLMCOASVector c.cm (inp.COASElevationAngle 0) (inp.COASPositionAngle 0)
          inp.LMCOASAxis
      else
        GetAOTNBVector c.cm (GetAOTNBAngle c inp.AOTDetent).2 (GetAOTNBAngle c inp.AOTDetent).1
          (inp.AOTReticleAngle 0) (inp.AOTSpiraleAngle 0) (inp.AOTLineID 0)
    let U_NBB :=
      if inp.Instrument = 1 then
        GetLMCOASVector c.cm (inp.COASElevationAngle 1) (inp.COASPositionAngle 1)
          inp.LMCOASAxis
      else
        GetAOTNBVector c.cm (GetAOTNBAngle c inp.AOTDetent).2 (GetAOTNBAngle c inp.AOTDetent).1
          (inp.AOTReticleAngle 1) (inp.AOTSpiraleAngle 1) (inp.AOTLineID 1)
    match GetStarUnitVector c inp (inp.StarIDs 0), GetStarUnitVector c inp (inp.StarIDs 1) with
    | some s_CBA, some s_CBB =>
      let M_MCI_MCT_1 := c.rtcc.ELVCNVMatrix (inp.TimeOfSighting 0)
        c.rtcc.RTCC_COORDINATES_MCI c.rtcc.RTCC_COORDINATES_MCT
      let M_MCI_MCT_2 := c.rtcc.ELVCNVMatrix (inp.TimeOfSighting 1)
        c.rtcc.RTCC_COORDINATES_MCI c.rtcc.RTCC_COORDINATES_MCT
      let U_CBA := mul M_MCI_MCT_1 s_CBA
      let U_CBB := mul M_MCI_MCT_2 s_CBB
      some (some (c.om.AXISGEN U_CBA U_CBB U_NBA U_NBB))
    | _, _ => none
  else if inp.Mode = 2 then
    let T_AOT := c.rtcc.GMTfromGET (inp.TimeOfSighting 0)
    let U_NBA :=
      if inp.Instrument = 1 then
        GetLMCOASVector c.cm (inp.COASElevationAngle 0) (inp.COASPositionAngle 0)
          inp.LMCOASAxis
      else
        GetAOTNBVector c.cm (GetAOTNBAngle c inp.AOTDetent).2 (GetAOTNBAngle c inp.AOTDetent).1
          (inp.AOTReticleAngle 0) (inp.AOTSpiraleAngle 0) (inp.AOTLineID 0)
    match GetStarUnitVector c inp (inp.StarIDs 1) with
    | none => none
    | some s_MCI =>
      let GA :=
        if inp.AttIsFDAI then c.rtcc.EMMGFDAI (inp.IMUAttitude 0) false
        else inp.IMUAttitude 0
      let SMNB := c.om.CALCSMSC GA
      let G_NB := mul SMNB (_V 1 0 0)
      let R_LS_MCT := c.om.r_from_latlong inp.LSLat inp.LSLng
      let M_MCI_MCT := c.rtcc.ELVCNVMatrix T_AOT
        c.rtcc.RTCC_COORDINATES_MCI c.rtcc.RTCC_COORDINATES_MCT
      let U_CBA := mul M_MCI_MCT s_MCI
      let U_CBB := unit c.cm R_LS_MCT
      some (some (c.om.AXISGEN U_CBA U_CBB U_NBA G_NB))
  else if inp.Mode = 3 then
    let M_LVLH_NB := mulM (c.om._MRz (inp.IMUAttitude 0).z)
      (mulM (c.om._MRy (inp.IMUAttitude 0).y) (c.om._MRx (inp.IMUAttitude 0).x))
    let M_MCT_LVLH :=
      _M (c.cm.cos inp.LSLat * c.cm.cos inp.LSLng) (c.cm.cos inp.LSLat * c.cm.sin inp.LSLng)
         (c.cm.sin inp.LSLat)
         (-(c.cm.sin inp.LSLng)) (c.cm.cos inp.LSLng) 0
         (-(c.cm.sin inp.LSLat) * c.cm.cos inp.LSLng)
         (-(c.cm.sin inp.LSLat) * c.cm.sin inp.LSLng) (c.cm.cos inp.LSLat)
    some (some (tmat (mulM M_MCT_LVLH M_LVLH_NB)))
  else if inp.Mode = 4 then
    let GA :=
      if inp.AttIsFDAI then c.rtcc.EMMGFDAI (inp.IMUAttitude 0) false
      else inp.IMUAttitude 0
    let SMNB := c.om.CALCSMSC GA
    let M_MCI_MCT := c.rtcc.ELVCNVMatrix (c.rtcc.GMTfromGET (inp.TimeOfSighting 0))
      c.rtcc.RTCC_COORDINATES_MCI c.rtcc.RTCC_COORDINATES_MCT
    let M_NB_MCI := tmat (mulM SMNB inp.LM_REFSMMAT)
    some (some (mulM M_MCI_MCT M_NB_MCI))
  else some none

/-- The function `AGOP::LunarSurfaceAlignmentDisplay` (lines 2001-2150). -/
def LunarSurfaceAlignmentDisplay (c : Collab K) (inp : AGOPInputs K)
    (out : AGOPOutputs K) : Option (AGOPOutputs K) :=
  match LunarSurfaceAlignmentDisplay_matrix c inp with
  | none => none
  | some _ =>
    some { out with output_text := out.output_text ++
      ["        LUNAR SURFACE ALIGN                         ",
       "CSM STA ID XXXXXXX  GETLO XXX:XX:XX                 ",
       "   GMTV  XXX:XX:XX    PLM  +XX.XXXX GETR XXX:XX:XX  ",
       "   GETV  XXX:XX:XX    LLM +XXX.XXXX L AZ XXX.X      ",
       "MODE XXXXXXXXXXXX                                   ",
       "PD XXX.X PA XXX.X PB XXX.X YH XXX.X  SINDL +X.XXXXXX",
       "YD XXX.X YA XXX.X YB XXX.X PH XXX.X   047  +XXXXX   ",
       "RD XXX.X RA XXX.X RB XXX.X RH XXX.X  SINDL +X.XXXXXX",
       "                                      053  +XXXXX   "] }

/-! ### Option 2: reference body computation -/

/-- The four unit vectors of mode 1 of `ReferenceBodyComputation`. -/
structure ReferenceBodyVectors (K : Type) where
  u_EV : VECTOR3 K
  u_VE : VECTOR3 K
  u_VM : VECTOR3 K
  u_VS : VECTOR3 K

/-- Lines 389-408 of `AGOP::ReferenceBodyComputation` (mode 1): the unit vectors of the
display.  The local `R_EV` (lines 395-402) is assigned and not read. -/
def ReferenceBodyComputation_mode1 (cm : CMath K) (sv : EphemerisData K)
    (R_EM R_ES : VECTOR3 K) : ReferenceBodyVectors K :=
  let u_EV := unit cm sv.R
  let u_VE := -u_EV
  let u_VM := unit cm (R_EM - sv.R)
  let u_VS := unit cm (R_ES - sv.R)
  { u_EV := u_EV, u_VE := u_VE, u_VM := u_VM, u_VS := u_VS }

/-- Lines 460-553 of `AGOP::ReferenceBodyComputation` (modes other than 1): the unit
vector `u` of the display; `Except.error 1` when the landmark vector cannot be
converted. -/
def ReferenceBodyComputation_u (c : Collab K) (inp : AGOPInputs K) (sv : EphemerisData K)
    (R_EM R_ES : VECTOR3 K) : Except Int (VECTOR3 K) :=
  if inp.Mode = 2 then
    let R_EV := if sv.RBI = Body.BODY_EARTH then sv.R else sv.R + R_EM
    Except.ok (-(unit c.cm R_EV))
  else if inp.Mode = 3 then
    let R_VM := if sv.RBI = Body.BODY_EARTH then R_EM - sv.R else -sv.R
    Except.ok (unit c.cm R_VM)
  else if inp.Mode = 4 then
    let R_VS := if sv.RBI = Body.BODY_EARTH then R_ES - sv.R else R_ES - (sv.R + R_EM)
    Except.ok (unit c.cm R_VS)
  else if inp.Mode = 5 then
    let r := GetInertialLandmarkVector c inp.lmk_lat inp.lmk_lng inp.lmk_alt sv.GMT true
    if r.1 then Except.error 1
    else if sv.RBI = Body.BODY_EARTH then Except.ok (unit c.cm (r.2 - sv.R))
    else Except.ok (unit c.cm (r.2 - (sv.R + R_EM)))
  else
    let r := GetInertialLandmarkVector c inp.lmk_lat inp.lmk_lng inp.lmk_alt sv.GMT false
    if r.1 then Except.error 1
    else if sv.RBI = Body.BODY_EARTH then Except.ok (unit c.cm (r.2 - (sv.R - R_EM)))
    else Except.ok (unit c.cm (r.2 - sv.R))

/-- The right ascension and declination fields of a unit vector as the displays of
`ReferenceBodyComputation` print them, separated and followed by `sep`. -/
def ReferenceBodyComputation_fields [FloorRing K] (c : Collab K) (u : VECTOR3 K)
    (sep : String) : String :=
  RightAscension_Display c ((c.om.latlong_from_r u).2 * DEG c.cm) ++ sep ++
    Declination_Display c ((c.om.latlong_from_r u).1 * DEG c.cm) ++ sep

/-- The computations of one pass of the loop body of `AGOP::ReferenceBodyComputation`
(lines 362-570) at sample time `GMT`: the lines the pass writes, or `Except.error e` when
the body leaves through `WriteError(out, e); return;`. -/
def ReferenceBodyComputation_sample [FloorRing K] (c : Collab K) (inp : AGOPInputs K)
    (ephemeris : EphemerisDataTable2 K) (GMT : K) : Except Int (List String) :=
  match Interpolation c ephemeris GMT with
  | none => Except.error 4
  | some sv =>
    let pl := c.rtcc.PLEFEM 1 (sv.GMT / 3600) 0
    if pl.err then Except.error 2
    else
      let line0 := c.om.format_time_HHMMSS (c.rtcc.GETfromGMT sv.GMT) ++ " "
      if inp.Mode = 1 then
        let v := ReferenceBodyComputation_mode1 c.cm sv pl.R_EM pl.R_ES
        let lineA := line0 ++ ReferenceBodyComputation_fields c v.u_EV " " ++
          ReferenceBodyComputation_fields c v.u_VE " "
        let lineB := "          " ++
          RightAscension_Display c ((c.om.latlong_from_r v.u_VM).2 * DEG c.cm) ++ " " ++
          Declination_Display c ((c.om.latlong_from_r v.u_VM).1 * DEG c.cm) ++ " " ++
          RightAscension_Display c ((c.om.latlong_from_r v.u_VS).2 * DEG c.cm) ++ " " ++
          Declination_Display c ((c.om.latlong_from_r v.u_VS).1 * DEG c.cm)
        Except.ok
          ["   GET         SPACECRAFT             EARTH    ",
           "HR:MIN:SEC    RA        DEC       RA        DEC",
           lineA, "",
           "                  MOON                 SUN       ",
           "              RA        DEC       RA        DEC  ",
           lineB]
      else
        match ReferenceBodyComputation_u c inp sv pl.R_EM pl.R_ES with
        | Except.error e => Except.error e
        | Except.ok u =>
          Except.ok
            [line0 ++ ReferenceBodyComputation_fields c u "  " ++
              c.fmt.sprintf "%+.5lf " [u.x] ++ c.fmt.sprintf "%+.5lf " [u.y] ++
              c.fmt.sprintf "%+.5lf " [u.z]]

/-- The `do ... while (i < 10)` loop of `AGOP::ReferenceBodyComputation` (lines 360-576);
mode 1 returns after the first state vector.  The first argument bounds the number of
passes (ten are enough). -/
def ReferenceBodyComputation_loop [FloorRing K] (c : Collab K) (inp : AGOPInputs K)
    (ephemeris : EphemerisDataTable2 K) : Nat → Nat → K → AGOPOutputs K → AGOPOutputs K
  | 0, _, _, out => out
  | fuel + 1, i, GMT, out =>
    match ReferenceBodyComputation_sample c inp ephemeris GMT with
    | Except.error e => WriteError out e
    | Except.ok lines =>
      let out1 : AGOPOutputs K := { out with output_text := out.output_text ++ lines }
      if inp.Mode = 1 then out1
      else
        let i1 := i + 1
        let GMT1 := c.fp.add GMT inp.DeltaT
        if GMT1 > ephemeris.Header.TR then out1
        else if i1 < 10 then ReferenceBodyComputation_loop c inp ephemeris fuel i1 GMT1 out1
        else out1

/-- The function `AGOP::ReferenceBodyComputation` (lines 337-577). -/
def ReferenceBodyComputation [FloorRing K] (c : Collab K)
    (ephemeris : EphemerisDataTable2 K) (inp : AGOPInputs K) (out : AGOPOutputs K) :
    AGOPOutputs K :=
  let out0 : AGOPOutputs K :=
    { out with output_text := out.output_text ++
        [c.fmt.sprintfInt "MODE %d   REFERENCE BODY COMPUTATION" [inp.Mode]] ++
        (if inp.Mode ≠ 1 then
           ["   GET         RA         DEC          UNIT VECTOR        ",
            "HR:MIN:SEC HR:MIN:SEC HR:MIN:SEC                          "]
         else []) }
  ReferenceBodyComputation_loop c inp ephemeris 10 0 ephemeris.Header.TL out0

/-! ### The dispatcher -/

/-- The function `AGOP::Calc` (lines 41-78).  `u` holds the values of the locals read
before they are assigned and `fuelA` bounds the passes of the `while` loops of
`AOTAngles`; `none` when a bound is used up or a read is outside a table. -/
def Calc [FloorRing K] (c : Collab K) (u : Uninitialised K) (fuelA : Nat)
    (inp : AGOPInputs K) (out : AGOPOutputs K) : Option (AGOPOutputs K) :=
  let out0 : AGOPOutputs K := { out with output_text := [], errormessage := "" }
  let ephemeris := inp.ephem
  if inp.Option = 1 then CislunarNavigation c ephemeris inp out0
  else if inp.Option = 2 then some (ReferenceBodyComputation c ephemeris inp out0)
  else if inp.Option = 3 then StarCatalog c inp out0
  else if inp.Option = 4 then some (AntennaPointing c ephemeris inp out0)
  else if inp.Option = 5 then some (PassiveThermalControl c ephemeris inp out0)
  else if inp.Option = 6 then some (HorizonAngles c ephemeris inp out0)
  else if inp.Option = 7 then OpticalSupportTable c u fuelA ephemeris inp out0
  else if inp.Option = 8 then StarSightingTable c u ephemeris inp out0
  else if inp.Option = 9 then LunarSurfaceAlignmentDisplay c inp out0
  else some out0

end Program

/-! ## Concrete collaborators and requests over the rationals

Stand-ins used to evaluate the embedding at concrete inputs: the interpolation always
succeeds and returns a state vector on the x axis at distance `GMT`, the elevation measure
is the x coordinate of the position, and the elementary functions are simple rational
stand-ins (none of the evaluations below depends on their values). -/

/-- Stand-in C math library over `ℚ`. -/
def ratCMath : CMath ℚ :=
  { sqrt := fun x => x, sin := fun x => x, cos := fun _ => 1, asin := fun x => x,
    acos := fun x => 1 - x, atan := fun x => x, atan2 := fun y _ => y, PI := 22 / 7 }

/-- Stand-in `OrbMech` helpers over `ℚ`. -/
def ratOrbMech : OrbMechLib ℚ :=
  { CALCGAR := fun _ M => _V M.m11 M.m22 M.m33,
    CALCSMSC := fun _ => _M 1 0 0 0 1 0 0 0 1,
    AXISGEN := fun _ _ _ _ => _M 1 0 0 0 1 0 0 0 1,
    CSMBodyToLMBody := fun _ => _M 1 0 0 0 1 0 0 0 1,
    SXTNB := fun _ _ => _V 0 0 1,
    SBNBMatrix := _M 1 0 0 0 1 0 0 0 1,
    CALCSXA := fun _ _ => (0, 0),
    r_from_latlong := fun lat lng => _V lat lng 0,
    r_from_latlong3 := fun lat lng r => _V lat lng r,
    EMXINGElev := fun R _ => R.x,
    R_Earth := 6378165,
    R_Moon := 1738090,
    w_Earth := 0,
    format_time_HHMMSS := fun t => if t < 10 then "000:00:0x" else "000:00:xx",
    AOTNavigationBase := fun _ _ => _V 0 0 1,
    sign := fun x => if x ≥ 0 then 1 else -1,
    latlong_from_r := fun u => (u.z, u.x),
    atan3 := fun s _ => s,
    RotateVector := fun v _ _ => v,
    _MRx := fun _ => _M 1 0 0 0 1 0 0 0 1,
    _MRy := fun _ => _M 1 0 0 0 1 0 0 0 1,
    _MRz := fun _ => _M 1 0 0 0 1 0 0 0 1 }

/-- Stand-in `RTCC` services over `ℚ`: every call succeeds. -/
def ratRTCC : RTCCServices ℚ :=
  { ELVCTR := fun GMT _ =>
      { ErrorCode := 0,
        SV := { R := _V GMT 0 0, V := _V 0 1 0, GMT := GMT, RBI := Body.BODY_EARTH } },
    PLEFEM := fun _ _ _ =>
      { err := false, R_EM := _V 0 0 384400000, V_EM := _V 0 1000 0,
        R_ES := _V 0 149600000000 0 },
    ELVCNV := fun v _ _ _ _ => (0, v),
    ELVCNVTable := fun t _ _ => t,
    EMGGPCHR := fun _ lng _ _ _ =>
      { lng := lng, R_E_sin_lat := 0, R_E_cos_lat := 1, sin_lng := 0, cos_lng := 1 },
    EMXING := fun _ _ _ => (0, [{ GMTAOS := 1, GMTEMAX := 2, MAXELEV := 1 }]),
    GETfromGMT := fun t => t,
    BZLAND_rad0 := 1738090,
    MCGHZA := 0,
    MDGTCD := fun _ => 0,
    MDGETA := fun _ => 0,
    RTCC_MPT_CSM := 1,
    RTCC_MPT_LM := 3,
    RTCC_COORDINATES_ECI := 0,
    RTCC_COORDINATES_ECT := 1,
    RTCC_COORDINATES_MCI := 2,
    RTCC_COORDINATES_MCT := 3,
    GZSTCH := fun _ => { code := "MAD", lat_geoc := 0, lng := 0, H := 0 },
    MKRBKS := 1,
    EMMGFDAI := fun a _ => a,
    EMMENV := fun _ intab => { err := 0, IsActualChange := true, T_Change := intab.GMT },
    EMMENVInputTable_u_vec := _V 0 0 0,
    ELVCNVMatrix := fun _ _ _ => _M 1 0 0 0 1 0 0 0 1,
    GMTfromGET := fun t => t }

/-- Stand-in formatting over `ℚ`: the format string itself. -/
def ratFormat : CFormat ℚ :=
  { sprintf := fun f _ => f, sprintfInt := fun f _ => f }

/-- The stand-in collaborators over `ℚ`.  The arithmetic is without rounding: the requests
evaluated with these collaborators have times that are small integers or powers of two,
on which the operations of `double` do not round either. -/
def ratCollab : Collab ℚ :=
  { cm := ratCMath, om := ratOrbMech, rtcc := ratRTCC, fmt := ratFormat, fp := exactArith }

/-- The stand-in collaborators over `ℚ` with the elevation measure shifted so that it is
zero at time `t0` (the elevation measure at time `t` is `t - t0`). -/
def ratCollabCrossing (t0 : ℚ) : Collab ℚ :=
  { ratCollab with om := { ratOrbMech with EMXINGElev := fun R _ => R.x - t0 } }

/-- An ephemeris over `ℚ` with header span `[TL, TR]` and the given sample times. -/
def ratEphemeris (TL TR : ℚ) (times : List ℚ) : EphemerisDataTable2 ℚ :=
  { Header := { CSI := 0, TL := TL, TR := TR },
    table := times.map (fun t =>
      { R := _V t 0 0, V := _V 0 1 0, GMT := t, RBI := Body.BODY_EARTH }) }

/-- A request over `ℚ` with step `DeltaT`, the given ephemeris, star catalog and star
numbers, and zero or identity for every other field. -/
def ratInputs (DeltaT : ℚ) (ephem : EphemerisDataTable2 ℚ) (startable : List (VECTOR3 ℚ))
    (StarIDs : Nat → Nat) : AGOPInputs ℚ :=
  { Option := 5, Mode := 1, AdditionalOption := 0, ephem := ephem, DeltaT := DeltaT,
    CSM_REFSMMAT := _M 1 0 0 0 1 0 0 0 1, LM_REFSMMAT := _M 1 0 0 0 1 0 0 0 1,
    IMUAttitude := fun _ => _V 0 0 0, AttIsCSM := true, AttIsFDAI := false,
    HeadsUp := true, DockingAngle := 0, Instrument := 0, LMCOASAxis := true,
    AOTDetent := 0, AOTLineID := fun _ => 1, AOTReticleAngle := fun _ => 0,
    AOTSpiraleAngle := fun _ => 0, COASElevationAngle := fun _ => 0,
    COASPositionAngle := fun _ => 0, SextantShaftAngles := fun _ => 0,
    SextantTrunnionAngles := fun _ => 0, StarIDs := StarIDs, StartingStar := 1,
    startable := startable, StarDeclination := 0, StarRightAscension := 0,
    TimeOfSighting := fun _ => 0, AntennaPitch := 0, AntennaYaw := 0, ElevationAngle := 0,
    GroundStationID := "", LSLat := 0, LSLng := 0, lmk_lat := 0, lmk_lng := 0,
    lmk_alt := 0 }

/-- The stand-in collaborators over `ℚ` with an ephemeris interpolation that fails (error
code 3) at the time `t` and succeeds at every other time. -/
def ratCollabInterpolationFails (t : ℚ) : Collab ℚ :=
  { ratCollab with
    rtcc := { ratRTCC with
      ELVCTR := fun GMT _ =>
        { ErrorCode := if GMT = t then 3 else 0,
          SV := { R := _V GMT 0 0, V := _V 0 1 0, GMT := GMT, RBI := Body.BODY_EARTH } } } }

/-- The stand-in collaborators over `ℚ` with a frame converter `ELVCNV` that fails
(returns the error code 1) on every call. -/
def ratCollabConversionFails : Collab ℚ :=
  { ratCollab with rtcc := { ratRTCC with ELVCNV := fun v _ _ _ _ => (1, v) } }

/-- A star catalog of 400 entries over `ℚ`. -/
def ratCatalog : List (VECTOR3 ℚ) := List.replicate 400 (_V 1 0 0)

/-- A station over `ℚ`. -/
def ratStation : StationData ℚ :=
  { lng := 0, R_E_sin_lat := 0, R_E_cos_lat := 1, sin_lng := 0, cos_lng := 1 }

/-- A landmark request of the star sighting table (option 8, mode 1) over `ℚ`. -/
def ratLandmarkRequest (ephem : EphemerisDataTable2 ℚ) : AGOPInputs ℚ :=
  { ratInputs 10 ephem [] (fun _ => 1) with Option := 8, Mode := 1 }

/-- The sample computed by the passive thermal control loop body at the `k`-th sample time
of the ephemeris `[0, 25]` with step 10. -/
def ratPTCSample (k : ℕ) : PTCSample ℚ :=
  match PassiveThermalControl_sample ratCollab (ratInputs 10 (ratEphemeris 0 25 []) [] (fun _ => 1))
      (ratEphemeris 0 25 []) (0 + (k : ℚ) * 10) with
  | Except.ok s => s
  | Except.error _ => { M_NB := _M 1 0 0 0 1 0 0 0 1, IMUAttitude := _V 0 0 0, line := "" }

/-! ## Double arithmetic over the rationals

The finite values of the C type `double` are rational numbers, and each arithmetic
operation of the machine returns the exact result rounded to the nearest `double`. -/

/-- IEEE 754 binary64 rounding of a rational number `x`, round to nearest, ties to even:
with `e = max (floor (log2 |x|)) (-1022)` the binary exponent of `x`, the result is the
multiple of the unit in the last place `2^(e - 52)` nearest to `x`, and the even multiple
of the two nearest ones when `x` is half way between them.  Overflow beyond the largest
finite `double` is not modelled. -/
def roundDouble (x : ℚ) : ℚ :=
  let ulp : ℚ := 2 ^ (max (Int.log 2 |x|) (-1022) - 52)
  let q := x / ulp
  let f := ⌊q⌋
  (if q - f < 1 / 2 then (f : ℚ) else if 1 / 2 < q - f then (f : ℚ) + 1
    else if f % 2 = 0 then (f : ℚ) else (f : ℚ) + 1) * ulp

/-- The arithmetic of `double` over `ℚ`: the exact result, rounded. -/
def doubleArith : DoubleArith ℚ :=
  { add := fun a b => roundDouble (a + b), sub := fun a b => roundDouble (a - b),
    div := fun a b => roundDouble (a / b) }

/-- The stand-in collaborators over `ℚ` with the elevation measure `t - t0` at time `t`
and the arithmetic of `double`. -/
def doubleCollabCrossing (t0 : ℚ) : Collab ℚ :=
  { ratCollabCrossing t0 with fp := doubleArith }

/-- Stand-in C math library over `ℚ` for a CSM COAS sighting at 4 degrees, with the values
of type `double` that the C library returns at the arguments used: `sin` and `cos` at the
angle `4.0*RAD = 5030569068109113 / 2^56` (and at every other angle their values at 0),
`sqrt` for an argument in the last place below 1, and `PI`.  `acos` is the stand-in
`1 - x` for `x <= 1`; for `x > 1` the C function returns NaN, for which every comparison
is false, and the stand-in returns 1, for which the comparison `arc < eps` of
`OSTComputeREFSMMAT` is false as well. -/
def coasCMath : CMath ℚ :=
  { sqrt := fun x =>
      if 1 - 1 / 2 ^ 52 ≤ x ∧ x < 1 then 9007199254740991 / 9007199254740992 else x,
    sin := fun x =>
      if x = 5030569068109113 / 72057594037927936 then 628310458321445 / 9007199254740992
      else 0,
    cos := fun x =>
      if x = 5030569068109113 / 72057594037927936 then 4492629085028347 / 4503599627370496
      else 1,
    asin := fun x => x,
    acos := fun x => if x > 1 then 1 else 1 - x,
    atan := fun x => x,
    atan2 := fun y _ => y,
    PI := 884279719003555 / 281474976710656 }

/-- The stand-in collaborators over `ℚ` with the math library `coasCMath`. -/
def coasCollab : Collab ℚ := { ratCollab with cm := coasCMath }

/-- A two-sighting request (option 7, mode 3) with the CSM COAS: catalog stars 1 and 2
are the perpendicular directions x and y, both sightings are made at the same platform
attitude, and the COAS angles are `SPA = 0` and `SXP = 4.0*RAD`. -/
def coasInputs : AGOPInputs ℚ :=
  { ratInputs 10 (ratEphemeris 0 25 []) [_V 1 0 0, _V 0 1 0] (fun n => n + 1) with
    Option := 7, Mode := 3, Instrument := 3,
    COASElevationAngle := fun _ => 0,
    COASPositionAngle := fun _ => 5030569068109113 / 72057594037927936 }

/-! ## Reference collaborators over an arbitrary math library

Used for evaluations over `ℝ` with the real elementary functions.  `CALCSMSC` is the Apollo
stable-member to navigation-base matrix of the gimbal angles (outer, inner, middle),
`r_from_latlong` the unit vector of a declination and right ascension,
`AOTNavigationBase` the boresight `(sin EL, cos EL sin AZ, cos EL cos AZ)` of an AOT
detent and `sign` the sign function with `sign(0) = 1`; the other helpers are stand-ins
whose values no evaluation below depends on. -/

section Reference

variable {K : Type} [LinearOrderedField K]

/-- Reference `OrbMech` helpers built from a math library. -/
def refOrbMech (cm : CMath K) : OrbMechLib K :=
  { CALCGAR := fun _ M => _V M.m11 M.m22 M.m33,
    CALCSMSC := fun GA =>
      _M (cm.cos GA.y * cm.cos GA.z) (cm.sin GA.z) (-(cm.sin GA.y) * cm.cos GA.z)
         (-(cm.cos GA.y) * cm.sin GA.z * cm.cos GA.x + cm.sin GA.y * cm.sin GA.x)
         (cm.cos GA.z * cm.cos GA.x)
         (cm.sin GA.y * cm.sin GA.z * cm.cos GA.x + cm.cos GA.y * cm.sin GA.x)
         (cm.cos GA.y * cm.sin GA.z * cm.sin GA.x + cm.sin GA.y * cm.cos GA.x)
         (-(cm.cos GA.z) * cm.sin GA.x)
         (-(cm.sin GA.y) * cm.sin GA.z * cm.sin GA.x + cm.cos GA.y * cm.cos GA.x),
    AXISGEN := fun _ _ _ _ => _M 1 0 0 0 1 0 0 0 1,
    CSMBodyToLMBody := fun _ => _M 1 0 0 0 1 0 0 0 1,
    SXTNB := fun _ _ => _V 0 0 1,
    SBNBMatrix := _M 1 0 0 0 1 0 0 0 1,
    CALCSXA := fun _ _ => (0, 0),
    r_from_latlong := fun lat lng =>
      _V (cm.cos lat * cm.cos lng) (cm.cos lat * cm.sin lng) (cm.sin lat),
    r_from_latlong3 := fun lat lng r =>
      _V (r * (cm.cos lat * cm.cos lng)) (r * (cm.cos lat * cm.sin lng)) (r * cm.sin lat),
    EMXINGElev := fun R _ => R.x,
    R_Earth := 6378165,
    R_Moon := 1738090,
    w_Earth := 0,
    format_time_HHMMSS := fun _ => "XXX:XX:XX",
    AOTNavigationBase := fun AZ EL =>
      _V (cm.sin EL) (cm.cos EL * cm.sin AZ) (cm.cos EL * cm.cos AZ),
    sign := fun x => if x ≥ 0 then 1 else -1,
    latlong_from_r := fun u => (cm.asin u.z, cm.atan2 u.y u.x),
    atan3 := fun s c => cm.atan2 s c,
    RotateVector := fun v _ _ => v,
    _MRx := fun a => _M 1 0 0 0 (cm.cos a) (cm.sin a) 0 (-(cm.sin a)) (cm.cos a),
    _MRy := fun a => _M (cm.cos a) 0 (-(cm.sin a)) 0 1 0 (cm.sin a) 0 (cm.cos a),
    _MRz := fun a => _M (cm.cos a) (cm.sin a) 0 (-(cm.sin a)) (cm.cos a) 0 0 0 1 }

/-- Reference `RTCC` services: every call succeeds. -/
def refRTCC : RTCCServices K :=
  { ELVCTR := fun GMT _ =>
      { ErrorCode := 0,
        SV := { R := _V GMT 0 0, V := _V 0 1 0, GMT := GMT, RBI := Body.BODY_EARTH } },
    PLEFEM := fun _ _ _ =>
      { err := false, R_EM := _V 0 0 384400000, V_EM := _V 0 1000 0,
        R_ES := _V 0 149600000000 0 },
    ELVCNV := fun v _ _ _ _ => (0, v),
    ELVCNVTable := fun t _ _ => t,
    EMGGPCHR := fun _ lng _ _ _ =>
      { lng := lng, R_E_sin_lat := 0, R_E_cos_lat := 1, sin_lng := 0, cos_lng := 1 },
    EMXING := fun _ _ _ => (0, [{ GMTAOS := 1, GMTEMAX := 2, MAXELEV := 1 }]),
    GETfromGMT := fun t => t,
    BZLAND_rad0 := 1738090,
    MCGHZA := 0,
    MDGTCD := fun _ => 0,
    MDGETA := fun _ => 0,
    RTCC_MPT_CSM := 1,
    RTCC_MPT_LM := 3,
    RTCC_COORDINATES_ECI := 0,
    RTCC_COORDINATES_ECT := 1,
    RTCC_COORDINATES_MCI := 2,
    RTCC_COORDINATES_MCT := 3,
    GZSTCH := fun _ => { code := "MAD", lat_geoc := 0, lng := 0, H := 0 },
    MKRBKS := 1,
    EMMGFDAI := fun a _ => a,
    EMMENV := fun _ intab => { err := 0, IsActualChange := true, T_Change := intab.GMT },
    EMMENVInputTable_u_vec := _V 0 0 0,
    ELVCNVMatrix := fun _ _ _ => _M 1 0 0 0 1 0 0 0 1,
    GMTfromGET := fun t => t }

/-- Reference collaborators built from a math library. -/
def refCollab (cm : CMath K) : Collab K :=
  { cm := cm, om := refOrbMech cm, rtcc := refRTCC,
    fmt := { sprintf := fun f _ => f, sprintfInt := fun f _ => f }, fp := exactArith }

/-- A two-sighting request: catalog stars 1 and 2 are `sep` radians apart in the x-y
plane, the instrument is the CSM COAS (instrument 3) sighted along its boresight, and
between the two sightings the CSM platform middle gimbal angle changes from 0 to `sep`. -/
def sightingInputs (cm : CMath K) (sep : K) : AGOPInputs K :=
  { Option := 7, Mode := 3, AdditionalOption := 0,
    ephem := { Header := { CSI := 0, TL := 0, TR := 0 }, table := [] }, DeltaT := 0,
    CSM_REFSMMAT := _M 1 0 0 0 1 0 0 0 1, LM_REFSMMAT := _M 1 0 0 0 1 0 0 0 1,
    IMUAttitude := fun set => if set = 0 then _V 0 0 0 else _V 0 0 sep,
    AttIsCSM := true, AttIsFDAI := false,
    HeadsUp := true, DockingAngle := 0, Instrument := 3, LMCOASAxis := true,
    AOTDetent := 0, AOTLineID := fun _ => 1, AOTReticleAngle := fun _ => 0,
    AOTSpiraleAngle := fun _ => 0, COASElevationAngle := fun _ => 0,
    COASPositionAngle := fun _ => 0, SextantShaftAngles := fun _ => 0,
    SextantTrunnionAngles := fun _ => 0,
    StarIDs := fun k => if k = 0 then 1 else 2, StartingStar := 1,
    startable := [_V 1 0 0, _V (cm.cos sep) (cm.sin sep) 0],
    StarDeclination := 0, StarRightAscension := 0,
    TimeOfSighting := fun _ => 0, AntennaPitch := 0, AntennaYaw := 0, ElevationAngle := 0,
    GroundStationID := "", LSLat := 0, LSLng := 0, lmk_lat := 0, lmk_lng := 0,
    lmk_alt := 0 }

/-- A state vector referenced to the Moon, 3 units from its centre along x. -/
def moonReferencedState : EphemerisData K :=
  { R := _V 3 0 0, V := _V 0 1 0, GMT := 0, RBI := Body.BODY_MOON }

/-- Rotation about the z axis by the angle whose half-angle tangent is `t`, over `ℚ`. -/
def planarRotation (t : ℚ) : MATRIX3 ℚ :=
  _M ((1 - t * t) / (1 + t * t)) (2 * t / (1 + t * t)) 0
     (-(2 * t / (1 + t * t))) ((1 - t * t) / (1 + t * t)) 0
     0 0 1

/-- Stand-in `OrbMech` helpers over `ℚ` for platforms that turn about the z axis only: a
gimbal-angle triple `(0, 0, t)` stands for the rotation `planarRotation t`, `CALCGAR`
reads the half-angle tangent back from the stable-member to navigation-base matrix
`M * REFSMMAT^T`, and the docking rotation is `planarRotation` of the docking angle. -/
def planarOrbMech : OrbMechLib ℚ :=
  { ratOrbMech with
    CALCSMSC := fun GA => planarRotation GA.z,
    CALCGAR := fun R M =>
      _V 0 0 ((mulM M (tmat R)).m12 / (1 + (mulM M (tmat R)).m11)),
    CSMBodyToLMBody := fun d => planarRotation d }

/-- The stand-in collaborators over `ℚ` with the planar `OrbMech` helpers. -/
def planarCollab : Collab ℚ := { ratCollab with om := planarOrbMech }

/-- A docking alignment request over `ℚ`: CSM gimbal angles `(0, 0, 1/2)`, LM gimbal
angles `(0, 0, 1/3)`, docking angle `1/5` and CSM REFSMMAT `planarRotation 2`. -/
def dockedInputs : AGOPInputs ℚ :=
  { ratInputs 1 (ratEphemeris 0 0 []) [] (fun _ => 1) with
    Option := 7, Mode := 4, AdditionalOption := 0,
    IMUAttitude := fun set => if set = 0 then _V 0 0 (1 / 2) else _V 0 0 (1 / 3),
    DockingAngle := 1 / 5,
    CSM_REFSMMAT := planarRotation 2 }

/-- The text part of a report: the lines and the error message, the two fields that
`Calc` clears before it dispatches. -/
def AGOPOutputs.report (o : AGOPOutputs K) : List String × String :=
  (o.output_text, o.errormessage)

/-- Values over `ℚ` for the locals that are read before they are assigned. -/
def ratUninitialised : Uninitialised ℚ :=
  { R_S := _V 0 0 0, GA := _V 0 0 0, OMICRON := 0, CSM_Att := _V 0 0 0 }

/-- A star catalog request over `ℚ` for star 1 of the 400-star stand-in catalog. -/
def starCatalogRequest : AGOPInputs ℚ :=
  { ratInputs 1 (ratEphemeris 0 10 [0, 10]) ratCatalog (fun _ => 1) with Option := 3 }

/-- A report object as an earlier call that derived a reference matrix leaves it: the
matrix of a quarter turn about z, tagged for vehicle 3, gimbal angles `(1, 2, 3)`,
antenna angles 4 and 5 and the near-horizon flag set. -/
def staleOutputs : AGOPOutputs ℚ :=
  { output_text := ["EARLIER REPORT"], errormessage := "EARLIER ERROR",
    IMUAttitude := _V 1 2 3, bIsNearHorizon := true, pitch := 4, yaw := 5,
    REFSMMAT := _M 0 1 0 (-1) 0 0 0 0 1, REFSMMAT_Vehicle := 3 }

/-- The part of the state of the star search that does not depend on the numeric fields
of the report: the text part of the report and the counters and records. -/
def StarSearchState.report (st : StarSearchState K) :
    (List String × String) × Nat × List Nat × List Nat × Bool :=
  (st.out.report, st.num, st.examined, st.written, st.outside)

/-- The part of a result of `FindLandmarkAOS` that does not depend on the numeric fields
of the report. -/
def AOSResult.report (r : AOSResult K) : (List String × String) × Int × Option K :=
  (r.out.report, r.code, r.GMT_elev)

/-- The text part of an intermediate result of `StarSightingTable`: of the report with
which the function returns early, or of the report with which it goes on, together with
the values computed so far. -/
def reportOfStep {β : Type} (x : Except (AGOPOutputs K) (AGOPOutputs K × β)) :
    Except (List String × String) ((List String × String) × β) :=
  match x with
  | Except.error o => Except.error o.report
  | Except.ok (o, b) => Except.ok (o.report, b)

/-- The reference matrix part of a report: the matrix and the vehicle it is tagged
for. -/
def AGOPOutputs.matrix (o : AGOPOutputs K) : MATRIX3 K × Int :=
  (o.REFSMMAT, o.REFSMMAT_Vehicle)

/-- The report carried by an intermediate result of `StarSightingTable`. -/
def outputsOfStep {β : Type} (x : Except (AGOPOutputs K) (AGOPOutputs K × β)) :
    AGOPOutputs K :=
  match x with
  | Except.error o => o
  | Except.ok (o, _) => o

end Reference

/-! ## Theorems -/

section Rounding

/-- The binary exponent that `roundDouble` uses for a number in `[2^e, 2^(e+1))`. -/
theorem binade_of_bounds (x : ℚ) (e : ℤ) (he : -1022 ≤ e) (h1 : 2 ^ e ≤ |x|)
    (h2 : |x| < 2 ^ (e + 1)) : max (Int.log 2 |x|) (-1022) = e := by
  have hpos : (0 : ℚ) < |x| := lt_of_lt_of_le (by positivity) h1
  have ha : e ≤ Int.log 2 |x| :=
    (Int.zpow_le_iff_le_log (by norm_num) hpos).mp (by exact_mod_cast h1)
  have hb : Int.log 2 |x| < e + 1 :=
    (Int.lt_zpow_iff_log_lt (by norm_num) hpos).mp (by exact_mod_cast h2)
  have : Int.log 2 |x| = e := by omega
  rw [this]
  exact max_eq_left he

/-- Rounding away from a tie: a number of binary exponent `e` that is less than half a
unit in the last place away from the multiple `r * 2^(e-52)` rounds to that multiple. -/
theorem roundDouble_of_near (x : ℚ) (e r : ℤ) (he : -1022 ≤ e) (h1 : 2 ^ e ≤ |x|)
    (h2 : |x| < 2 ^ (e + 1)) (hr : |x / 2 ^ (e - 52) - r| < 1 / 2) :
    roundDouble x = r * 2 ^ (e - 52) := by
  unfold roundDouble
  simp only
  rw [binade_of_bounds x e he h1 h2]
  have hf1 := Int.floor_le (x / 2 ^ (e - 52))
  have hf2 := Int.lt_floor_add_one (x / 2 ^ (e - 52))
  rw [abs_lt] at hr
  generalize ⌊x / (2 : ℚ) ^ (e - 52)⌋ = f at hf1 hf2
  generalize x / (2 : ℚ) ^ (e - 52) = q at hf1 hf2 hr
  by_cases c1 : q - f < 1 / 2
  · rw [if_pos c1]
    have h3 : ((r - f : ℤ) : ℚ) < 1 := by push_cast; linarith
    have h4 : (-1 : ℚ) < ((r - f : ℤ) : ℚ) := by push_cast; linarith
    have h5 : r - f < 1 := by exact_mod_cast h3
    have h6 : -1 < r - f := by exact_mod_cast h4
    have : f = r := by omega
    rw [this]
  · rw [if_neg c1]
    by_cases c2 : 1 / 2 < q - f
    · rw [if_pos c2]
      have h3 : ((r - f : ℤ) : ℚ) < 2 := by push_cast; linarith
      have h4 : (0 : ℚ) < ((r - f : ℤ) : ℚ) := by push_cast; linarith
      have h5 : r - f < 2 := by exact_mod_cast h3
      have h6 : 0 < r - f := by exact_mod_cast h4
      have : r = f + 1 := by omega
      rw [this]; push_cast; ring
    · exfalso
      have hq : q - f = 1 / 2 := le_antisymm (not_lt.mp c2) (not_lt.mp c1)
      have h3 : ((r - f : ℤ) : ℚ) < 1 := by push_cast; linarith
      have h4 : (0 : ℚ) < ((r - f : ℤ) : ℚ) := by push_cast; linarith
      have h5 : r - f < 1 := by exact_mod_cast h3
      have h6 : 0 < r - f := by exact_mod_cast h4
      omega

/-- Rounding at a tie: a number of binary exponent `e` half way between the multiples
`r` and `r + 1` of the unit in the last place rounds to the even one. -/
theorem roundDouble_of_tie (x : ℚ) (e r : ℤ) (he : -1022 ≤ e) (h1 : 2 ^ e ≤ |x|)
    (h2 : |x| < 2 ^ (e + 1)) (hr : x / 2 ^ (e - 52) = r + 1 / 2) :
    roundDouble x = (if r % 2 = 0 then (r : ℚ) else (r : ℚ) + 1) * 2 ^ (e - 52) := by
  unfold roundDouble
  simp only
  rw [binade_of_bounds x e he h1 h2, hr]
  have hf : ⌊(r : ℚ) + 1 / 2⌋ = r := by
    rw [Int.floor_eq_iff]
    constructor <;> norm_num
  rw [hf]
  have c1 : ¬ ((r : ℚ) + 1 / 2 - r < 1 / 2) := by norm_num
  have c2 : ¬ ((1 : ℚ) / 2 < (r : ℚ) + 1 / 2 - r) := by norm_num
  rw [if_neg c1, if_neg c2]

/-- The value `roundDouble x` is a multiple `r * ulp` of the unit in the last place, with
`r` within one half of the quotient `x / ulp` and on the same side of every integer as
the quotient. -/
theorem roundDouble_spec (x : ℚ) :
    ∃ r : ℤ, roundDouble x = r * 2 ^ (max (Int.log 2 |x|) (-1022) - 52) ∧
      |(r : ℚ) - x / 2 ^ (max (Int.log 2 |x|) (-1022) - 52)| ≤ 1 / 2 ∧
      (∀ k : ℤ, (k : ℚ) ≤ x / 2 ^ (max (Int.log 2 |x|) (-1022) - 52) → k ≤ r) ∧
      (∀ k : ℤ, x / 2 ^ (max (Int.log 2 |x|) (-1022) - 52) ≤ (k : ℚ) → r ≤ k) := by
  unfold roundDouble
  simp only
  generalize x / (2 : ℚ) ^ (max (Int.log 2 |x|) (-1022) - 52) = q
  have hf1 := Int.floor_le q
  have hf2 := Int.lt_floor_add_one q
  have hlow : ∀ k : ℤ, (k : ℚ) ≤ q → k ≤ ⌊q⌋ := fun k hk => Int.le_floor.mpr hk
  have hup : ∀ k : ℤ, q ≤ (k : ℚ) → ⌊q⌋ ≤ k := by
    intro k hk
    have : ((⌊q⌋ : ℤ) : ℚ) ≤ (k : ℚ) := le_trans hf1 hk
    exact_mod_cast this
  have hup1 : ∀ k : ℤ, q ≤ (k : ℚ) → 0 < q - ⌊q⌋ → ⌊q⌋ + 1 ≤ k := by
    intro k hk hpos
    have : ((⌊q⌋ : ℤ) : ℚ) < (k : ℚ) := by linarith
    have : ⌊q⌋ < k := by exact_mod_cast this
    omega
  by_cases c1 : q - ⌊q⌋ < 1 / 2
  · refine ⟨⌊q⌋, by rw [if_pos c1], ?_, hlow, hup⟩
    rw [abs_le]
    constructor <;> linarith
  · by_cases c2 : 1 / 2 < q - ⌊q⌋
    · refine ⟨⌊q⌋ + 1, by rw [if_neg c1, if_pos c2]; push_cast; ring, ?_,
        fun k hk => by have := hlow k hk; omega,
        fun k hk => hup1 k hk (by linarith)⟩
      rw [abs_le]
      push_cast
      constructor <;> linarith
    · have hq : q - ⌊q⌋ = 1 / 2 := le_antisymm (not_lt.mp c2) (not_lt.mp c1)
      by_cases c3 : ⌊q⌋ % 2 = 0
      · refine ⟨⌊q⌋, by rw [if_neg c1, if_neg c2, if_pos c3], ?_, hlow, hup⟩
        rw [abs_le]
        constructor <;> linarith
      · refine ⟨⌊q⌋ + 1, by rw [if_neg c1, if_neg c2, if_neg c3]; push_cast; ring, ?_,
          fun k hk => by have := hlow k hk; omega,
          fun k hk => hup1 k hk (by linarith)⟩
        rw [abs_le]
        push_cast
        constructor <;> linarith

/-- The binary exponent used for a number of absolute value at most `2^s`. -/
theorem binade_le (x : ℚ) (s : ℤ) (hs : -1022 ≤ s) (hx0 : x ≠ 0) (hx : |x| ≤ 2 ^ s) :
    max (Int.log 2 |x|) (-1022) ≤ s := by
  have hpos : (0 : ℚ) < |x| := abs_pos.mpr hx0
  have hlt : |x| < ((2 : ℕ) : ℚ) ^ (s + 1) := by
    have : (2 : ℚ) ^ s < 2 ^ (s + 1) := zpow_lt_zpow_right₀ (by norm_num) (by omega)
    exact_mod_cast lt_of_le_of_lt hx this
  have := (Int.lt_zpow_iff_log_lt (by norm_num) hpos).mp hlt
  exact max_le (by omega) hs

theorem roundDouble_zero : roundDouble 0 = 0 := by
  simp [roundDouble]

/-- The rounding error is at most half a unit in the last place. -/
theorem roundDouble_abs_sub_le (x : ℚ) (s : ℤ) (hs : -1022 ≤ s) (hx : |x| ≤ 2 ^ s) :
    |roundDouble x - x| ≤ 2 ^ (s - 53) := by
  by_cases hx0 : x = 0
  · rw [hx0, roundDouble_zero]
    simp only [sub_zero, abs_zero]
    positivity
  · obtain ⟨r, h1, h2, _, _⟩ := roundDouble_spec x
    have he := binade_le x s hs hx0 hx
    generalize max (Int.log 2 |x|) (-1022) = e at h1 h2 he
    have hu : (0 : ℚ) < 2 ^ (e - 52) := by positivity
    have h3 : roundDouble x - x = ((r : ℚ) - x / 2 ^ (e - 52)) * 2 ^ (e - 52) := by
      rw [h1]
      field_simp
    have h5 : (2 : ℚ) ^ (e - 52) = 2 * 2 ^ (e - 53) := by
      rw [show e - 52 = (e - 53) + 1 by ring, zpow_add_one₀ (by norm_num)]
      ring
    have h4 : (2 : ℚ) ^ (e - 53) ≤ 2 ^ (s - 53) :=
      zpow_le_zpow_right₀ (by norm_num) (by omega)
    rw [h3, abs_mul, abs_of_pos hu]
    calc |(r : ℚ) - x / 2 ^ (e - 52)| * 2 ^ (e - 52)
        ≤ 1 / 2 * 2 ^ (e - 52) := mul_le_mul_of_nonneg_right h2 hu.le
      _ = 2 ^ (e - 53) := by rw [h5]; ring
      _ ≤ 2 ^ (s - 53) := h4

/-- Rounding keeps a number that is not negative not negative. -/
theorem roundDouble_nonneg (x : ℚ) (hx : 0 ≤ x) : 0 ≤ roundDouble x := by
  obtain ⟨r, h1, _, h3, _⟩ := roundDouble_spec x
  generalize max (Int.log 2 |x|) (-1022) = e at h1 h3
  have hu : (0 : ℚ) < 2 ^ (e - 52) := by positivity
  have h0 : (0 : ℤ) ≤ r := h3 0 (by
    push_cast
    exact div_nonneg hx hu.le)
  rw [h1]
  have : (0 : ℚ) ≤ (r : ℚ) := by exact_mod_cast h0
  positivity

/-- Rounding does not take a number across a power of two. -/
theorem roundDouble_le_two_zpow (x : ℚ) (s : ℤ) (hs : -1022 ≤ s) (hx0 : 0 ≤ x)
    (hx : x ≤ 2 ^ s) : roundDouble x ≤ 2 ^ s := by
  by_cases hz : x = 0
  · rw [hz, roundDouble_zero]
    positivity
  · obtain ⟨r, h1, _, _, h4⟩ := roundDouble_spec x
    have he := binade_le x s hs hz (by rw [abs_of_nonneg hx0]; exact hx)
    generalize max (Int.log 2 |x|) (-1022) = e at h1 h4 he
    have hu : (0 : ℚ) < 2 ^ (e - 52) := by positivity
    obtain ⟨n, hn⟩ : ∃ n : ℕ, (n : ℤ) = s - (e - 52) := ⟨(s - (e - 52)).toNat, by omega⟩
    have hk : (((2 : ℤ) ^ n : ℤ) : ℚ) = 2 ^ s / 2 ^ (e - 52) := by
      rw [← zpow_sub₀ (by norm_num), ← hn]
      push_cast
      rw [zpow_natCast]
    have hr := h4 ((2 : ℤ) ^ n) (by
      rw [hk]
      exact div_le_div_of_nonneg_right hx hu.le)
    have hr2 : (r : ℚ) ≤ 2 ^ s / 2 ^ (e - 52) := by
      rw [← hk]
      exact_mod_cast hr
    rw [h1]
    calc (r : ℚ) * 2 ^ (e - 52) ≤ 2 ^ s / 2 ^ (e - 52) * 2 ^ (e - 52) :=
          mul_le_mul_of_nonneg_right hr2 hu.le
      _ = 2 ^ s := by field_simp

/-- A power of two is a value of type `double`. -/
theorem roundDouble_two_pow (k : ℕ) : roundDouble ((2 : ℚ) ^ k) = 2 ^ k := by
  have hq : (2 : ℚ) ^ k / 2 ^ ((k : ℤ) - 52) = ((2 ^ 52 : ℤ) : ℚ) := by
    rw [← zpow_natCast, ← zpow_sub₀ (by norm_num)]
    have : (k : ℤ) - ((k : ℤ) - 52) = 52 := by ring
    rw [this]
    norm_num
  have hpos : (0 : ℚ) < 2 ^ k := by positivity
  rw [roundDouble_of_near _ (k : ℤ) (2 ^ 52) (by omega)
    (by rw [abs_of_pos hpos, zpow_natCast])
    (by
      rw [abs_of_pos hpos, ← zpow_natCast]
      exact zpow_lt_zpow_right₀ (by norm_num) (by omega))
    (by rw [hq]; norm_num)]
  rw [← hq]
  field_simp

/-- In the arithmetic of `double` the midpoint computed for two times in `[0, 64]` is in
`[0, 64]` and within `2^-46` of the exact midpoint. -/
theorem doubleArith_midpoint (a b : ℚ) (ha : 0 ≤ a ∧ a ≤ 64) (hb : 0 ≤ b ∧ b ≤ 64) :
    (0 ≤ doubleArith.div (doubleArith.add a b) 2
      ∧ doubleArith.div (doubleArith.add a b) 2 ≤ 64)
    ∧ |doubleArith.div (doubleArith.add a b) 2 - (a + b) / 2| ≤ 1 / 2 ^ 46 := by
  show (0 ≤ roundDouble (roundDouble (a + b) / 2)
      ∧ roundDouble (roundDouble (a + b) / 2) ≤ 64)
    ∧ |roundDouble (roundDouble (a + b) / 2) - (a + b) / 2| ≤ 1 / 2 ^ 46
  have hs0 : 0 ≤ a + b := by linarith [ha.1, hb.1]
  have hs1 : a + b ≤ 2 ^ (7 : ℤ) := by norm_num; linarith [ha.2, hb.2]
  have hy0 := roundDouble_nonneg (a + b) hs0
  have hy1 := roundDouble_le_two_zpow (a + b) 7 (by norm_num) hs0 hs1
  have hye := roundDouble_abs_sub_le (a + b) 7 (by norm_num)
    (by rw [abs_of_nonneg hs0]; exact hs1)
  generalize roundDouble (a + b) = y at hy0 hy1 hye
  have hh0 : 0 ≤ y / 2 := by linarith
  have hh1 : y / 2 ≤ 2 ^ (6 : ℤ) := by norm_num at hy1 ⊢; linarith
  have hz0 := roundDouble_nonneg (y / 2) hh0
  have hz1 := roundDouble_le_two_zpow (y / 2) 6 (by norm_num) hh0 hh1
  have hze := roundDouble_abs_sub_le (y / 2) 6 (by norm_num)
    (by rw [abs_of_nonneg hh0]; exact hh1)
  generalize roundDouble (y / 2) = z at hz0 hz1 hze
  norm_num at hz1 hye hze
  rw [abs_le] at hye hze
  refine ⟨⟨hz0, hz1⟩, ?_⟩
  rw [abs_le]
  constructor <;> norm_num <;> linarith [hye.1, hye.2, hze.1, hze.2]

/-- In the arithmetic of `double` the width computed for two times in `[0, 64]` is within
`2^-46` of the exact width. -/
theorem doubleArith_width (a b : ℚ) (ha : 0 ≤ a ∧ a ≤ 64) (hb : 0 ≤ b ∧ b ≤ 64) :
    |doubleArith.sub b a - (b - a)| ≤ 1 / 2 ^ 46 := by
  show |roundDouble (b - a) - (b - a)| ≤ 1 / 2 ^ 46
  have h := roundDouble_abs_sub_le (b - a) 6 (by norm_num)
    (by
      rw [abs_le]
      constructor <;> norm_num <;> linarith [ha.1, ha.2, hb.1, hb.2])
  norm_num at h
  rw [abs_le] at h ⊢
  constructor <;> norm_num <;> linarith [h.1, h.2]

/-- Width of the bracket `(2^60, 2^60 + 1024)`. -/
theorem roundDouble_bracket_1 : roundDouble (2 ^ 60 + 1024 - 2 ^ 60) = 1024 := by
  rw [roundDouble_of_near (2 ^ 60 + 1024 - 2 ^ 60) 10 4503599627370496 (by norm_num)
    (by rw [abs_of_pos (by norm_num)]; norm_num)
    (by rw [abs_of_pos (by norm_num)]; norm_num)
    (by norm_num)]
  norm_num

/-- Sum of the ends of the bracket `(2^60, 2^60 + 1024)`. -/
theorem roundDouble_bracket_2 : roundDouble (2 ^ 60 + (2 ^ 60 + 1024)) = 2 ^ 61 + 1024 := by
  rw [roundDouble_of_near (2 ^ 60 + (2 ^ 60 + 1024)) 61 4503599627370498 (by norm_num)
    (by rw [abs_of_pos (by norm_num)]; norm_num)
    (by rw [abs_of_pos (by norm_num)]; norm_num)
    (by norm_num)]
  norm_num

/-- Midpoint of the bracket `(2^60, 2^60 + 1024)`. -/
theorem roundDouble_bracket_3 : roundDouble ((2 ^ 61 + 1024) / 2) = 2 ^ 60 + 512 := by
  rw [roundDouble_of_near ((2 ^ 61 + 1024) / 2) 60 4503599627370498 (by norm_num)
    (by rw [abs_of_pos (by norm_num)]; norm_num)
    (by rw [abs_of_pos (by norm_num)]; norm_num)
    (by norm_num)]
  norm_num

/-- Width of the bracket `(2^60 + 512, 2^60 + 1024)`. -/
theorem roundDouble_bracket_4 : roundDouble (2 ^ 60 + 1024 - (2 ^ 60 + 512)) = 512 := by
  rw [roundDouble_of_near (2 ^ 60 + 1024 - (2 ^ 60 + 512)) 9 4503599627370496 (by norm_num)
    (by rw [abs_of_pos (by norm_num)]; norm_num)
    (by rw [abs_of_pos (by norm_num)]; norm_num)
    (by norm_num)]
  norm_num

/-- Sum of the ends of the bracket `(2^60 + 512, 2^60 + 1024)`. -/
theorem roundDouble_bracket_5 : roundDouble (2 ^ 60 + 512 + (2 ^ 60 + 1024)) = 2 ^ 61 + 1536 := by
  rw [roundDouble_of_near (2 ^ 60 + 512 + (2 ^ 60 + 1024)) 61 4503599627370499 (by norm_num)
    (by rw [abs_of_pos (by norm_num)]; norm_num)
    (by rw [abs_of_pos (by norm_num)]; norm_num)
    (by norm_num)]
  norm_num

/-- Midpoint of the bracket `(2^60 + 512, 2^60 + 1024)`. -/
theorem roundDouble_bracket_6 : roundDouble ((2 ^ 61 + 1536) / 2) = 2 ^ 60 + 768 := by
  rw [roundDouble_of_near ((2 ^ 61 + 1536) / 2) 60 4503599627370499 (by norm_num)
    (by rw [abs_of_pos (by norm_num)]; norm_num)
    (by rw [abs_of_pos (by norm_num)]; norm_num)
    (by norm_num)]
  norm_num

/-- Width of the bracket `(2^60 + 768, 2^60 + 1024)`. -/
theorem roundDouble_bracket_7 : roundDouble (2 ^ 60 + 1024 - (2 ^ 60 + 768)) = 256 := by
  rw [roundDouble_of_near (2 ^ 60 + 1024 - (2 ^ 60 + 768)) 8 4503599627370496 (by norm_num)
    (by rw [abs_of_pos (by norm_num)]; norm_num)
    (by rw [abs_of_pos (by norm_num)]; norm_num)
    (by norm_num)]
  norm_num

/-- Sum of the ends of the bracket `(2^60 + 768, 2^60 + 1024)`: the exact sum
`2^61 + 1792` is half way between the multiples `2^61 + 1536` and `2^61 + 2048` of the unit
in the last place 512, and the even one is `2^61 + 2048`. -/
theorem roundDouble_bracket_8 : roundDouble (2 ^ 60 + 768 + (2 ^ 60 + 1024)) = 2 ^ 61 + 2048 := by
  rw [roundDouble_of_tie (2 ^ 60 + 768 + (2 ^ 60 + 1024)) 61 4503599627370499 (by norm_num)
    (by rw [abs_of_pos (by norm_num)]; norm_num)
    (by rw [abs_of_pos (by norm_num)]; norm_num)
    (by norm_num)]
  norm_num

/-- Midpoint computed for the bracket `(2^60 + 768, 2^60 + 1024)`: its right end. -/
theorem roundDouble_bracket_9 : roundDouble ((2 ^ 61 + 2048) / 2) = 2 ^ 60 + 1024 := by
  rw [roundDouble_of_near ((2 ^ 61 + 2048) / 2) 60 4503599627370500 (by norm_num)
    (by rw [abs_of_pos (by norm_num)]; norm_num)
    (by rw [abs_of_pos (by norm_num)]; norm_num)
    (by norm_num)]
  norm_num

end Rounding

section SampleTimes

end SampleTimes

section SampleLoopSteps

variable {K : Type} [LinearOrderedField K]

/-- With exact additions the time of sample `k` is `TL + k * DeltaT`. -/
theorem sampleTime_exact (fp : DoubleArith K) (hfp : ∀ a b, fp.add a b = a + b)
    (TL DT : K) (k : ℕ) : sampleTime fp TL DT k = TL + (k : K) * DT := by
  induction k with
  | zero => simp [sampleTime]
  | succ k ih =>
    rw [sampleTime, hfp, ih]
    push_cast
    ring

end SampleLoopSteps

section SampleLoop

variable {K : Type} [LinearOrderedField K] [FloorRing K]

end SampleLoop

section SampleLoopDouble

end SampleLoopDouble

theorem WriteError_seven {K : Type} (out : AGOPOutputs K) :
    WriteError out 7 = { out with errormessage := "STARS TOO CLOSE TO EACH OTHER" } := by
  simp [WriteError]

theorem WriteError_four {K : Type} (out : AGOPOutputs K) :
    WriteError out 4 = { out with errormessage := "INTERPOLATION FAILURE" } := by
  simp [WriteError]

theorem WriteError_five {K : Type} (out : AGOPOutputs K) :
    WriteError out 5 = { out with errormessage := "LANDMARK NOT IN SIGHT" } := by
  simp [WriteError]

section Sightings

variable {K : Type} [LinearOrderedField K]

/-- Once the four directions are known, `OSTComputeREFSMMAT` is the threshold test on the
two separations followed by either the error or the matrix and its report. -/
theorem OSTComputeREFSMMAT_of_vectors (c : Collab K) (inp : AGOPInputs K)
    (out : AGOPOutputs K) (v : SightingVectors K)
    (hv : OSTComputeREFSMMAT_vectors c inp = some v) :
    OSTComputeREFSMMAT c inp out =
      if c.cm.acos (dotp v.U_CBA v.U_CBB) < OSTComputeREFSMMAT_eps c.cm ∨
          c.cm.acos (dotp v.U_CBA_apo v.U_CBB_apo) < OSTComputeREFSMMAT_eps c.cm then
        some (WriteError out 7)
      else
        some { out with
          REFSMMAT := c.om.AXISGEN v.U_CBA_apo v.U_CBB_apo v.U_CBA v.U_CBB,
          REFSMMAT_Vehicle :=
            if inp.AttIsCSM then c.rtcc.RTCC_MPT_CSM else c.rtcc.RTCC_MPT_LM,
          output_text := out.output_text ++
            ["MODE 3  OPTICAL SIGHTING TABLE  VEH " ++ (if inp.AttIsCSM then "CSM" else "LEM"),
             "",
             c.fmt.sprintf "XIXE %+.8lf XIYE %+0.8lf XIZE %+0.8lf"
               [(c.om.AXISGEN v.U_CBA_apo v.U_CBB_apo v.U_CBA v.U_CBB).m11,
                (c.om.AXISGEN v.U_CBA_apo v.U_CBB_apo v.U_CBA v.U_CBB).m12,
                (c.om.AXISGEN v.U_CBA_apo v.U_CBB_apo v.U_CBA v.U_CBB).m13],
             c.fmt.sprintf "YIXE %+.8lf YIYE %+0.8lf YIZE %+0.8lf"
               [(c.om.AXISGEN v.U_CBA_apo v.U_CBB_apo v.U_CBA v.U_CBB).m21,
                (c.om.AXISGEN v.U_CBA_apo v.U_CBB_apo v.U_CBA v.U_CBB).m22,
                (c.om.AXISGEN v.U_CBA_apo v.U_CBB_apo v.U_CBA v.U_CBB).m23],
             c.fmt.sprintf "ZIXE %+.8lf ZIYE %+0.8lf ZIZE %+0.8lf"
               [(c.om.AXISGEN v.U_CBA_apo v.U_CBB_apo v.U_CBA v.U_CBB).m31,
                (c.om.AXISGEN v.U_CBA_apo v.U_CBB_apo v.U_CBA v.U_CBB).m32,
                (c.om.AXISGEN v.U_CBA_apo v.U_CBB_apo v.U_CBA v.U_CBB).m33],
             "",
             c.fmt.sprintf "Star angle difference: %.3lf°"
               [|c.cm.acos (dotp v.U_CBA v.U_CBB) - c.cm.acos (dotp v.U_CBA_apo v.U_CBB_apo)|
                 * DEG c.cm]] } := by
  rw [OSTComputeREFSMMAT, hv]

/-- With the real elementary functions as math library, the two-sighting request with
separation `sep` has reference directions `(1,0,0)` and `(cos sep, sin sep, 0)` and the
same two measured directions. -/
theorem sightingInputs_vectors (sep : ℝ) :
    OSTComputeREFSMMAT_vectors
      (refCollab ⟨Real.sqrt, Real.sin, Real.cos, Real.arcsin, Real.arccos, Real.arctan,
        fun y _ => y, Real.pi⟩)
      (sightingInputs ⟨Real.sqrt, Real.sin, Real.cos, Real.arcsin, Real.arccos, Real.arctan,
        fun y _ => y, Real.pi⟩ sep)
    = some { U_CBA := _V 1 0 0, U_CBB := _V (Real.cos sep) (Real.sin sep) 0,
             U_CBA_apo := _V 1 0 0, U_CBB_apo := _V (Real.cos sep) (Real.sin sep) 0 } := by
  have h1 : GetStarUnitVector
      (refCollab ⟨Real.sqrt, Real.sin, Real.cos, Real.arcsin, Real.arccos, Real.arctan,
        fun y _ => y, Real.pi⟩)
      (sightingInputs ⟨Real.sqrt, Real.sin, Real.cos, Real.arcsin, Real.arccos, Real.arctan,
        fun y _ => y, Real.pi⟩ sep) 1 = some (_V 1 0 0) := by
    simp [GetStarUnitVector, sightingInputs]
  have h2 : GetStarUnitVector
      (refCollab ⟨Real.sqrt, Real.sin, Real.cos, Real.arcsin, Real.arccos, Real.arctan,
        fun y _ => y, Real.pi⟩)
      (sightingInputs ⟨Real.sqrt, Real.sin, Real.cos, Real.arcsin, Real.arccos, Real.arctan,
        fun y _ => y, Real.pi⟩ sep) 2 = some (_V (Real.cos sep) (Real.sin sep) 0) := by
    simp [GetStarUnitVector, sightingInputs]
  have hs : ∀ k, (sightingInputs (⟨Real.sqrt, Real.sin, Real.cos, Real.arcsin, Real.arccos,
      Real.arctan, fun y _ => y, Real.pi⟩ : CMath ℝ) sep).StarIDs k
      = if k = 0 then 1 else 2 := fun _ => rfl
  have h3 : PointInstrumentOfOtherVehicle
      (sightingInputs (⟨Real.sqrt, Real.sin, Real.cos, Real.arcsin, Real.arccos, Real.arctan,
        fun y _ => y, Real.pi⟩ : CMath ℝ) sep) = false := by
    simp [PointInstrumentOfOtherVehicle, sightingInputs]
  have h4 : ∀ k, GetNBUnitVectorFromInstrument
      (refCollab ⟨Real.sqrt, Real.sin, Real.cos, Real.arcsin, Real.arccos, Real.arctan,
        fun y _ => y, Real.pi⟩)
      (sightingInputs ⟨Real.sqrt, Real.sin, Real.cos, Real.arcsin, Real.arccos, Real.arctan,
        fun y _ => y, Real.pi⟩ sep) k
    = (_V 1 0 0) := by
    intro k
    simp only [GetNBUnitVectorFromInstrument, sightingInputs, refCollab, GetCSMCOASVector]
    simp [unit, length, _V, VECTOR3.sdiv]
  rw [OSTComputeREFSMMAT_vectors, hs 0, hs 1]
  simp only [if_pos, one_ne_zero, if_false, h1, h2]
  simp only [h3, h4]
  simp [sightingInputs, refCollab, refOrbMech, tmul, _V, _M]

/-- The 0.2 degree separation `pi/900` lies between the threshold `0.01*RAD` of the code
and the 0.01 rad of the claim. -/
theorem two_tenths_degree_bounds :
    ¬ (Real.pi / 900 < (1 / 100) * (Real.pi / 180)) ∧ Real.pi / 900 < 1 / 100 ∧
      0 ≤ Real.pi / 900 ∧ Real.pi / 900 ≤ Real.pi := by
  have hpos := Real.pi_pos
  have h4 := Real.pi_le_four
  refine ⟨?_, ?_, ?_, ?_⟩
  · rw [not_lt]; linarith
  · linarith
  · positivity
  · linarith

/-- Claim C2, as the code has it: the threshold of `OSTComputeREFSMMAT` is
`eps = 0.01*RAD`, that is 0.01 degrees (`pi/18000` rad), not 0.01 rad.  For reference
directions `U_CBA`, `U_CBB` and measured directions `U_CBA_apo`, `U_CBB_apo`, the call
ends with error 7 ('STARS TOO CLOSE TO EACH OTHER') and the matrix untouched when one of
the two separations is below `0.01*RAD`, and otherwise writes no error and stores the
matrix `AXISGEN(U_CBA_apo, U_CBB_apo, U_CBA, U_CBB)`. -/
theorem C2_OSTComputeREFSMMAT_threshold (c : Collab K) (inp : AGOPInputs K)
    (out : AGOPOutputs K) (v : SightingVectors K)
    (hv : OSTComputeREFSMMAT_vectors c inp = some v) :
    ((c.cm.acos (dotp v.U_CBA v.U_CBB) < (1 / 100) * (c.cm.PI / 180) ∨
        c.cm.acos (dotp v.U_CBA_apo v.U_CBB_apo) < (1 / 100) * (c.cm.PI / 180)) →
      ∃ r, OSTComputeREFSMMAT c inp out = some r ∧
        r.errormessage = "STARS TOO CLOSE TO EACH OTHER" ∧ r.REFSMMAT = out.REFSMMAT) ∧
    (¬ (c.cm.acos (dotp v.U_CBA v.U_CBB) < (1 / 100) * (c.cm.PI / 180) ∨
        c.cm.acos (dotp v.U_CBA_apo v.U_CBB_apo) < (1 / 100) * (c.cm.PI / 180)) →
      ∃ r, OSTComputeREFSMMAT c inp out = some r ∧
        r.errormessage = out.errormessage ∧
        r.REFSMMAT = c.om.AXISGEN v.U_CBA_apo v.U_CBB_apo v.U_CBA v.U_CBB) := by
  constructor
  · intro h
    exact ⟨_, (OSTComputeREFSMMAT_of_vectors c inp out v hv).trans
      ((if_pos h).trans (congrArg some (WriteError_seven out))), rfl, rfl⟩
  · intro h
    exact ⟨_, (OSTComputeREFSMMAT_of_vectors c inp out v hv).trans (if_neg h), rfl, rfl⟩

/-- Witness for C2: the two-sighting request with separation 0.2 degrees, evaluated with
the real elementary functions. -/
theorem C2_OSTComputeREFSMMAT_threshold_witness :
    ∃ r, OSTComputeREFSMMAT
        (refCollab ⟨Real.sqrt, Real.sin, Real.cos, Real.arcsin, Real.arccos, Real.arctan,
          fun y _ => y, Real.pi⟩)
        (sightingInputs ⟨Real.sqrt, Real.sin, Real.cos, Real.arcsin, Real.arccos, Real.arctan,
          fun y _ => y, Real.pi⟩ (Real.pi / 900)) AGOPOutputs.init = some r ∧
      r.errormessage = "" ∧ r.REFSMMAT = _M 1 0 0 0 1 0 0 0 1 := by
  have hd : Real.arccos (dotp (K := ℝ) (_V 1 0 0)
      (_V (Real.cos (Real.pi / 900)) (Real.sin (Real.pi / 900)) 0)) = Real.pi / 900 := by
    have : dotp (K := ℝ) (_V 1 0 0)
        (_V (Real.cos (Real.pi / 900)) (Real.sin (Real.pi / 900)) 0)
        = Real.cos (Real.pi / 900) := by simp [dotp, _V]
    rw [this]
    exact Real.arccos_cos two_tenths_degree_bounds.2.2.1 two_tenths_degree_bounds.2.2.2
  exact (C2_OSTComputeREFSMMAT_threshold _ _ AGOPOutputs.init _
    (sightingInputs_vectors (Real.pi / 900))).2 (by
      show ¬ (Real.arccos _ < (1 / 100) * (Real.pi / 180) ∨
        Real.arccos _ < (1 / 100) * (Real.pi / 180))
      rw [hd, or_self]
      exact two_tenths_degree_bounds.1)

/-- Counterexample to C2 as stated: two catalog stars 0.2 degrees apart (`pi/900` rad,
below 0.01 rad), sighted with the CSM COAS at platform attitudes 0.2 degrees apart.  The
reference separation computed by the code is `pi/900 < 0.01`, yet `OSTComputeREFSMMAT`
reports no error and returns the matrix for the CSM. -/
theorem C2_counterexample :
    Real.arccos (dotp (K := ℝ) (_V 1 0 0)
        (_V (Real.cos (Real.pi / 900)) (Real.sin (Real.pi / 900)) 0)) < 1 / 100 ∧
    OSTComputeREFSMMAT_vectors
        (refCollab ⟨Real.sqrt, Real.sin, Real.cos, Real.arcsin, Real.arccos, Real.arctan,
          fun y _ => y, Real.pi⟩)
        (sightingInputs ⟨Real.sqrt, Real.sin, Real.cos, Real.arcsin, Real.arccos, Real.arctan,
          fun y _ => y, Real.pi⟩ (Real.pi / 900))
      = some { U_CBA := _V 1 0 0,
               U_CBB := _V (Real.cos (Real.pi / 900)) (Real.sin (Real.pi / 900)) 0,
               U_CBA_apo := _V 1 0 0,
               U_CBB_apo := _V (Real.cos (Real.pi / 900)) (Real.sin (Real.pi / 900)) 0 } ∧
    (OSTComputeREFSMMAT
        (refCollab ⟨Real.sqrt, Real.sin, Real.cos, Real.arcsin, Real.arccos, Real.arctan,
          fun y _ => y, Real.pi⟩)
        (sightingInputs ⟨Real.sqrt, Real.sin, Real.cos, Real.arcsin, Real.arccos, Real.arctan,
          fun y _ => y, Real.pi⟩ (Real.pi / 900)) AGOPOutputs.init).map
      (fun r => (r.errormessage, r.REFSMMAT_Vehicle, r.output_text.length))
      = some ("", 1, 7) := by
  have hd : Real.arccos (dotp (K := ℝ) (_V 1 0 0)
      (_V (Real.cos (Real.pi / 900)) (Real.sin (Real.pi / 900)) 0)) = Real.pi / 900 := by
    have : dotp (K := ℝ) (_V 1 0 0)
        (_V (Real.cos (Real.pi / 900)) (Real.sin (Real.pi / 900)) 0)
        = Real.cos (Real.pi / 900) := by simp [dotp, _V]
    rw [this]
    exact Real.arccos_cos two_tenths_degree_bounds.2.2.1 two_tenths_degree_bounds.2.2.2
  refine ⟨?_, sightingInputs_vectors _, ?_⟩
  · rw [hd]; exact two_tenths_degree_bounds.2.1
  · have hne : ¬ (Real.arccos (dotp (K := ℝ) (_V 1 0 0)
          (_V (Real.cos (Real.pi / 900)) (Real.sin (Real.pi / 900)) 0))
            < (1 / 100) * (Real.pi / 180) ∨
        Real.arccos (dotp (K := ℝ) (_V 1 0 0)
          (_V (Real.cos (Real.pi / 900)) (Real.sin (Real.pi / 900)) 0))
            < (1 / 100) * (Real.pi / 180)) := by
      rw [hd, or_self]
      exact two_tenths_degree_bounds.1
    rw [(OSTComputeREFSMMAT_of_vectors _ _ _ _ (sightingInputs_vectors _)).trans (if_neg hne)]
    simp [AGOPOutputs.init, sightingInputs, refCollab, refRTCC]

/-- Claim C3: when `OSTComputeREFSMMAT` takes the ill-conditioned-sighting exit (one of
the two separations is below the threshold `eps`), the report it returns is the report it
was given with only `errormessage` replaced by 'STARS TOO CLOSE TO EACH OTHER': the
matrix `REFSMMAT`, `REFSMMAT_Vehicle` and `output_text` are what they were before. -/
theorem C3_OSTComputeREFSMMAT_error_returns_no_matrix (c : Collab K) (inp : AGOPInputs K)
    (out : AGOPOutputs K) (v : SightingVectors K)
    (hv : OSTComputeREFSMMAT_vectors c inp = some v)
    (hclose : c.cm.acos (dotp v.U_CBA v.U_CBB) < OSTComputeREFSMMAT_eps c.cm ∨
      c.cm.acos (dotp v.U_CBA_apo v.U_CBB_apo) < OSTComputeREFSMMAT_eps c.cm) :
    ∃ r, OSTComputeREFSMMAT c inp out = some r ∧
      r = { out with errormessage := "STARS TOO CLOSE TO EACH OTHER" } ∧
      r.REFSMMAT = out.REFSMMAT ∧ r.REFSMMAT_Vehicle = out.REFSMMAT_Vehicle ∧
      r.output_text = out.output_text ∧
      r.errormessage = "STARS TOO CLOSE TO EACH OTHER" ∧
      r.IMUAttitude = out.IMUAttitude ∧ r.bIsNearHorizon = out.bIsNearHorizon ∧
      r.pitch = out.pitch ∧ r.yaw = out.yaw :=
  ⟨_, (OSTComputeREFSMMAT_of_vectors c inp out v hv).trans
      ((if_pos hclose).trans (congrArg some (WriteError_seven out))),
    rfl, rfl, rfl, rfl, rfl, rfl, rfl, rfl, rfl⟩

/-- Witness for C3: the two-sighting request with both stars in the same direction
(separation 0), evaluated with the real elementary functions. -/
theorem C3_OSTComputeREFSMMAT_error_returns_no_matrix_witness :
    ∃ r, OSTComputeREFSMMAT
        (refCollab ⟨Real.sqrt, Real.sin, Real.cos, Real.arcsin, Real.arccos, Real.arctan,
          fun y _ => y, Real.pi⟩)
        (sightingInputs ⟨Real.sqrt, Real.sin, Real.cos, Real.arcsin, Real.arccos, Real.arctan,
          fun y _ => y, Real.pi⟩ 0) AGOPOutputs.init = some r ∧
      r = { (AGOPOutputs.init : AGOPOutputs ℝ) with
            errormessage := "STARS TOO CLOSE TO EACH OTHER" } := by
  obtain ⟨r, h1, h2, _⟩ := C3_OSTComputeREFSMMAT_error_returns_no_matrix _ _
    (AGOPOutputs.init : AGOPOutputs ℝ) _ (sightingInputs_vectors 0) (by
      left
      show Real.arccos _ < (1 / 100) * (Real.pi / 180)
      have : dotp (K := ℝ) (_V 1 0 0) (_V (Real.cos 0) (Real.sin 0) 0) = 1 := by
        simp [dotp, _V]
      rw [this, Real.arccos_one]
      have := Real.pi_pos
      positivity)
  exact ⟨r, h1, h2⟩

end Sightings

section Horizon

variable {K : Type} [LinearOrderedField K]

end Horizon

section StarCatalogLookup

variable {K : Type}

/-- Claim C10: with a 400-entry catalog, `GetStarUnitVector` returns for a star number
`1 <= ID <= 400` the catalog entry at the in-range index `ID - 1`, whatever the
caller-supplied declination and right ascension (and whatever the collaborators); for a
star number above 400 it returns `r_from_latlong(StarDeclination, StarRightAscension)`,
whatever the catalog. -/
theorem C10_GetStarUnitVector (c : Collab K) (inp : AGOPInputs K) (star : Nat)
    (hlen : inp.startable.length = 400) :
    (1 ≤ star → star ≤ 400 →
      ∃ h : star - 1 < inp.startable.length,
        GetStarUnitVector c inp star = some (inp.startable.get ⟨star - 1, h⟩) ∧
        ∀ (c2 : Collab K) (inp2 : AGOPInputs K), inp2.startable = inp.startable →
          GetStarUnitVector c2 inp2 star = GetStarUnitVector c inp star) ∧
    (400 < star →
      GetStarUnitVector c inp star
        = some (c.om.r_from_latlong inp.StarDeclination inp.StarRightAscension) ∧
      ∀ inp2 : AGOPInputs K, inp2.StarDeclination = inp.StarDeclination →
        inp2.StarRightAscension = inp.StarRightAscension →
        GetStarUnitVector c inp2 star = GetStarUnitVector c inp star) := by
  constructor
  · intro h1 h400
    have hidx : (star + 4294967296 - 1) % 4294967296 = star - 1 := by omega
    have hlt : star - 1 < inp.startable.length := by omega
    refine ⟨hlt, ?_, ?_⟩
    · simp only [GetStarUnitVector, if_pos h400, hidx]
      exact List.getElem?_eq_getElem hlt
    · intro c2 inp2 heq
      simp only [GetStarUnitVector, if_pos h400, heq]
  · intro h400
    have hn : ¬ star ≤ 400 := by omega
    refine ⟨?_, ?_⟩
    · simp only [GetStarUnitVector, if_neg hn]
    · intro inp2 hd hr
      simp only [GetStarUnitVector, if_neg hn, hd, hr]

/-- Witness for C10: a 400-entry catalog over `ℚ`; star 400 is the last catalog entry
and star 401 is the caller-supplied direction. -/
theorem C10_GetStarUnitVector_witness :
    (∃ h : 400 - 1 < (ratInputs 10 (ratEphemeris 0 25 [])
          (List.replicate 399 (_V 1 0 0) ++ [_V 0 0 1]) (fun _ => 400)).startable.length,
      GetStarUnitVector ratCollab
          (ratInputs 10 (ratEphemeris 0 25 [])
            (List.replicate 399 (_V 1 0 0) ++ [_V 0 0 1]) (fun _ => 400)) 400
        = some ((ratInputs 10 (ratEphemeris 0 25 [])
            (List.replicate 399 (_V 1 0 0) ++ [_V 0 0 1]) (fun _ => 400)).startable.get
              ⟨400 - 1, h⟩)) ∧
    GetStarUnitVector ratCollab
        (ratInputs 10 (ratEphemeris 0 25 [])
          (List.replicate 399 (_V 1 0 0) ++ [_V 0 0 1]) (fun _ => 400)) 401
      = some (ratCollab.om.r_from_latlong 0 0) :=
  ⟨(((C10_GetStarUnitVector ratCollab
        (ratInputs 10 (ratEphemeris 0 25 [])
          (List.replicate 399 (_V 1 0 0) ++ [_V 0 0 1]) (fun _ => 400)) 400
        (by simp only [ratInputs, List.length_append, List.length_replicate,
          List.length_singleton])).1 (by norm_num) (by norm_num)).imp fun _ h => h.1),
   ((C10_GetStarUnitVector ratCollab
        (ratInputs 10 (ratEphemeris 0 25 [])
          (List.replicate 399 (_V 1 0 0) ++ [_V 0 0 1]) (fun _ => 400)) 401
        (by simp only [ratInputs, List.length_append, List.length_replicate,
          List.length_singleton])).2 (by norm_num)).1⟩

end StarCatalogLookup

section AOS
variable {K : Type} [LinearOrderedField K]

/-- Behaviour of the interval halving loop in arithmetic without rounding, when every
elevation evaluation inside the bracket succeeds. -/
theorem FindLandmarkAOS_halving_spec (sinangAt : K → Option K) (elev : K → K)
    (sd eps : K) (limit : Nat) (heps : 0 ≤ eps) :
    ∀ (fuel : Nat) (TL TR : K) (j : Nat),
      (∀ t, TL ≤ t → t ≤ TR → sinangAt t = some (elev t)) →
      j < limit → limit ≤ fuel + j →
      ∃ TLf TRf jf,
        FindLandmarkAOS_halving exactArith sinangAt sd eps limit fuel TL TR j
          = some (Except.ok (TLf, TRf, jf)) ∧
        j ≤ jf ∧ jf ≤ limit ∧
        (TRf - TLf) * 2 ^ (jf - j) = TR - TL ∧
        (jf < limit → TRf - TLf ≤ eps) ∧
        (jf = limit ↔ TR - TL > 2 ^ (limit - 1 - j) * eps) ∧
        (TL ≤ TR → TL ≤ TLf ∧ TLf ≤ TRf ∧ TRf ≤ TR) ∧
        (¬ (elev TL > sd) → ¬ (elev TLf > sd)) ∧
        (elev TR > sd → elev TRf > sd) := by
  intro fuel
  induction fuel with
  | zero => intro TL TR j _ hj hf; omega
  | succ fuel ih =>
    intro TL TR j helev hj hf
    by_cases hw : TR - TL > eps
    · have hlt : TL < TR := by linarith
      have hmid1 : TL ≤ (TL + TR) / 2 := by linarith
      have hmid2 : (TL + TR) / 2 ≤ TR := by linarith
      have hs := helev _ hmid1 hmid2
      by_cases hcap : j + 1 ≥ limit
      · have hjl : j + 1 = limit := by omega
        refine ⟨if elev ((TL + TR) / 2) > sd then TL else (TL + TR) / 2,
          if elev ((TL + TR) / 2) > sd then (TL + TR) / 2 else TR, j + 1, ?_, by omega,
          by omega, ?_, by omega, ?_, ?_, ?_, ?_⟩
        · simp only [FindLandmarkAOS_halving, exactArith, if_pos hw, hs, if_pos hcap]
        · have : j + 1 - j = 1 := by omega
          rw [this]
          split_ifs <;> ring
        · have : limit - 1 - j = 0 := by omega
          rw [this, pow_zero, one_mul]
          exact ⟨fun _ => hw, fun _ => hjl⟩
        · intro _
          split_ifs <;> refine ⟨?_, ?_, ?_⟩ <;> linarith
        · intro h
          split_ifs with hc
          · exact h
          · exact hc
        · intro h
          split_ifs with hc
          · exact hc
          · exact h
      · have hcap2 : j + 1 < limit := by omega
        obtain ⟨TLf, TRf, jf, h1, h2, h3, h4, h5, h6, h7, h8, h9⟩ :=
          ih (if elev ((TL + TR) / 2) > sd then TL else (TL + TR) / 2)
            (if elev ((TL + TR) / 2) > sd then (TL + TR) / 2 else TR) (j + 1)
            (by
              intro t ht1 ht2
              apply helev
              · split_ifs at ht1 <;> linarith
              · split_ifs at ht2 <;> linarith)
            hcap2 (by omega)
        refine ⟨TLf, TRf, jf, ?_, by omega, h3, ?_, h5, ?_, ?_, ?_, ?_⟩
        · simp only [FindLandmarkAOS_halving, exactArith, if_pos hw, hs, if_neg hcap]
          exact h1
        · have hj2 : jf - j = (jf - (j + 1)) + 1 := by omega
          rw [hj2, pow_succ, ← mul_assoc, h4]
          split_ifs <;> ring
        · rw [h6]
          have hp : limit - 1 - j = (limit - 1 - (j + 1)) + 1 := by omega
          rw [hp, pow_succ]
          constructor
          · intro h
            split_ifs at h <;> linarith
          · intro h
            split_ifs <;> linarith
        · intro _
          have := h7 (by split_ifs <;> linarith)
          split_ifs at this <;> refine ⟨?_, ?_, ?_⟩ <;> linarith
        · intro h
          apply h8
          split_ifs with hc
          · exact h
          · exact hc
        · intro h
          apply h9
          split_ifs with hc
          · exact hc
          · exact h
    · refine ⟨TL, TR, j, ?_, le_refl _, by omega, ?_, ?_, ?_, ?_, ?_, ?_⟩
      · simp only [FindLandmarkAOS_halving, exactArith, if_neg hw]
      · simp
      · intro _; exact not_lt.mp hw
      · constructor
        · intro h; omega
        · intro h
          exfalso
          have h1 : (1 : K) ≤ 2 ^ (limit - 1 - j) := one_le_pow₀ (by norm_num)
          have : eps ≤ 2 ^ (limit - 1 - j) * eps := by nlinarith
          linarith
      · intro h; exact ⟨le_refl _, h, le_refl _⟩
      · exact id
      · exact id


/-- One pass of the interval halving loop that does not reach the cap. -/
theorem FindLandmarkAOS_halving_step (fp : DoubleArith K) (sinangAt : K → Option K)
    (sd eps : K) (limit fuel : Nat) (TL TR : K) (j : Nat) (s : K) (hf : 0 < fuel)
    (hw : fp.sub TR TL > eps) (hs : sinangAt (fp.div (fp.add TL TR) 2) = some s)
    (hj : j + 1 < limit) :
    FindLandmarkAOS_halving fp sinangAt sd eps limit fuel TL TR j
      = FindLandmarkAOS_halving fp sinangAt sd eps limit (fuel - 1)
          (if s > sd then TL else fp.div (fp.add TL TR) 2)
          (if s > sd then fp.div (fp.add TL TR) 2 else TR) (j + 1) := by
  obtain ⟨fuel, rfl⟩ : ∃ f, fuel = f + 1 := ⟨fuel - 1, by omega⟩
  have hcap : ¬ (j + 1 ≥ limit) := by omega
  simp only [FindLandmarkAOS_halving, if_pos hw, hs, if_neg hcap, Nat.add_sub_cancel]

/-- The pass of the interval halving loop that reaches the cap. -/
theorem FindLandmarkAOS_halving_last (fp : DoubleArith K) (sinangAt : K → Option K)
    (sd eps : K) (limit fuel : Nat) (TL TR : K) (j : Nat) (s : K)
    (hf : 0 < fuel) (hw : fp.sub TR TL > eps)
    (hs : sinangAt (fp.div (fp.add TL TR) 2) = some s) (hj : j + 1 ≥ limit) :
    FindLandmarkAOS_halving fp sinangAt sd eps limit fuel TL TR j
      = some (Except.ok (if s > sd then TL else fp.div (fp.add TL TR) 2,
          if s > sd then fp.div (fp.add TL TR) 2 else TR, j + 1)) := by
  obtain ⟨fuel, rfl⟩ : ∃ f, fuel = f + 1 := ⟨fuel - 1, by omega⟩
  simp only [FindLandmarkAOS_halving, if_pos hw, hs, if_pos hj]

/-- A bracket whose computed midpoint is the end that the pass replaces is not narrowed:
when it is wider than `eps`, the loop runs to the cap and is left with this bracket. -/
theorem FindLandmarkAOS_halving_stall (fp : DoubleArith K) (sinangAt : K → Option K)
    (sd eps : K) (limit : Nat) (TL TR s : K)
    (hw : fp.sub TR TL > eps) (hs : sinangAt (fp.div (fp.add TL TR) 2) = some s)
    (h : (s > sd ∧ fp.div (fp.add TL TR) 2 = TR) ∨
      (¬ (s > sd) ∧ fp.div (fp.add TL TR) 2 = TL)) :
    ∀ (fuel j : Nat), j < limit → limit ≤ fuel + j →
      FindLandmarkAOS_halving fp sinangAt sd eps limit fuel TL TR j
        = some (Except.ok (TL, TR, limit)) := by
  have hTR : (if s > sd then fp.div (fp.add TL TR) 2 else TR) = TR := by
    rcases h with ⟨h1, h2⟩ | ⟨h1, _⟩
    · rw [if_pos h1, h2]
    · rw [if_neg h1]
  have hTL : (if s > sd then TL else fp.div (fp.add TL TR) 2) = TL := by
    rcases h with ⟨h1, _⟩ | ⟨h1, h2⟩
    · rw [if_pos h1]
    · rw [if_neg h1, h2]
  intro fuel
  induction fuel with
  | zero => intro j hj hf; omega
  | succ fuel ih =>
    intro j hj hf
    by_cases hcap : j + 1 ≥ limit
    · have hjl : j + 1 = limit := by omega
      simp only [FindLandmarkAOS_halving, if_pos hw, hs, if_pos hcap, hTR, hTL]
      rw [hjl]
    · simp only [FindLandmarkAOS_halving, if_pos hw, hs, if_neg hcap, hTR, hTL]
      exact ih (j + 1) (by omega) (by omega)

/-- The interval halving loop returns, in any arithmetic, when the elevation is evaluated
successfully at the times it meets (the times with the property `P`, which the bracket
ends have and the computed midpoints keep): it is left either by its condition, the
computed width being at most `eps`, or at the cap, and the final bracket has the target
between the elevations at its ends when the initial one has. -/
theorem FindLandmarkAOS_halving_total (fp : DoubleArith K) (sinangAt : K → Option K)
    (elev : K → K) (sd eps : K) (limit : Nat) (P : K → Prop)
    (hP : ∀ a b, P a → P b → P (fp.div (fp.add a b) 2))
    (helev : ∀ t, P t → sinangAt t = some (elev t)) :
    ∀ (fuel : Nat) (TL TR : K) (j : Nat), P TL → P TR → j < limit → limit ≤ fuel + j →
      ∃ TLf TRf jf,
        FindLandmarkAOS_halving fp sinangAt sd eps limit fuel TL TR j
          = some (Except.ok (TLf, TRf, jf)) ∧
        j ≤ jf ∧ jf ≤ limit ∧
        (jf < limit → fp.sub TRf TLf ≤ eps) ∧
        P TLf ∧ P TRf ∧
        (¬ (elev TL > sd) → ¬ (elev TLf > sd)) ∧
        (elev TR > sd → elev TRf > sd) := by
  intro fuel
  induction fuel with
  | zero => intro TL TR j _ _ hj hf; omega
  | succ fuel ih =>
    intro TL TR j hPL hPR hj hf
    by_cases hw : fp.sub TR TL > eps
    · have hPm := hP TL TR hPL hPR
      have hs := helev _ hPm
      have hP1 : P (if elev (fp.div (fp.add TL TR) 2) > sd then TL
          else fp.div (fp.add TL TR) 2) := by
        split_ifs
        · exact hPL
        · exact hPm
      have hP2 : P (if elev (fp.div (fp.add TL TR) 2) > sd then fp.div (fp.add TL TR) 2
          else TR) := by
        split_ifs
        · exact hPm
        · exact hPR
      have hb1 : ¬ (elev TL > sd) →
          ¬ (elev (if elev (fp.div (fp.add TL TR) 2) > sd then TL
            else fp.div (fp.add TL TR) 2) > sd) := by
        intro h
        split_ifs with hc
        · exact h
        · exact hc
      have hb2 : elev TR > sd →
          elev (if elev (fp.div (fp.add TL TR) 2) > sd then fp.div (fp.add TL TR) 2
            else TR) > sd := by
        intro h
        split_ifs with hc
        · exact hc
        · exact h
      by_cases hcap : j + 1 ≥ limit
      · have hjl : j + 1 = limit := by omega
        refine ⟨_, _, j + 1, ?_, by omega, by omega, by omega, hP1, hP2, hb1, hb2⟩
        simp only [FindLandmarkAOS_halving, if_pos hw, hs, if_pos hcap]
      · obtain ⟨TLf, TRf, jf, h1, h2, h3, h4, h5, h6, h7, h8⟩ :=
          ih _ _ (j + 1) hP1 hP2 (by omega) (by omega)
        refine ⟨TLf, TRf, jf, ?_, by omega, h3, h4, h5, h6, fun h => h7 (hb1 h),
          fun h => h8 (hb2 h)⟩
        simp only [FindLandmarkAOS_halving, if_pos hw, hs, if_neg hcap]
        exact h1
    · refine ⟨TL, TR, j, ?_, le_refl _, by omega, fun _ => not_lt.mp hw, hPL, hPR, id, id⟩
      simp only [FindLandmarkAOS_halving, if_neg hw]

/-- Convergence of the interval halving loop in an arithmetic whose computed midpoints
and widths are within `δ` of the exact ones (at the times with the property `P`): each
pass takes the width `w` to at most `w / 2 + δ`, so that `(w - 2 δ) * 2^j` does not grow,
and a bracket with `(w - 2 δ) * 2^j <= (eps - 3 δ) * 2^(limit - 1)` at pass `j` is left
by the loop condition before the cap. -/
theorem FindLandmarkAOS_halving_converges (fp : DoubleArith K) (sinangAt : K → Option K)
    (elev : K → K) (sd eps δ : K) (limit : Nat) (P : K → Prop)
    (hP : ∀ a b, P a → P b → P (fp.div (fp.add a b) 2))
    (hmid : ∀ a b, P a → P b → |fp.div (fp.add a b) 2 - (a + b) / 2| ≤ δ)
    (hsub : ∀ a b, P a → P b → |fp.sub b a - (b - a)| ≤ δ)
    (helev : ∀ t, P t → sinangAt t = some (elev t)) :
    ∀ (fuel : Nat) (TL TR : K) (j : Nat), P TL → P TR → j < limit → limit ≤ fuel + j →
      (TR - TL - 2 * δ) * 2 ^ j ≤ (eps - 3 * δ) * 2 ^ (limit - 1) →
      ∃ TLf TRf jf,
        FindLandmarkAOS_halving fp sinangAt sd eps limit fuel TL TR j
          = some (Except.ok (TLf, TRf, jf)) ∧
        jf < limit ∧ fp.sub TRf TLf ≤ eps ∧ P TLf ∧ P TRf ∧
        (¬ (elev TL > sd) → ¬ (elev TLf > sd)) ∧
        (elev TR > sd → elev TRf > sd) := by
  intro fuel
  induction fuel with
  | zero => intro TL TR j _ _ hj hf; omega
  | succ fuel ih =>
    intro TL TR j hPL hPR hj hf hinv
    by_cases hw : fp.sub TR TL > eps
    · have hPm := hP TL TR hPL hPR
      have hs := helev _ hPm
      have hm := abs_le.mp (hmid TL TR hPL hPR)
      have hd := abs_le.mp (hsub TL TR hPL hPR)
      have hpow : (0 : K) < 2 ^ j := by positivity
      have hcap : ¬ (j + 1 ≥ limit) := by
        intro hcap
        have hjl : limit - 1 = j := by omega
        rw [hjl] at hinv
        have hlt : eps - 3 * δ < TR - TL - 2 * δ := by linarith [hd.2]
        have := mul_lt_mul_of_pos_right hlt hpow
        exact absurd hinv (not_le.mpr this)
      have hP1 : P (if elev (fp.div (fp.add TL TR) 2) > sd then TL
          else fp.div (fp.add TL TR) 2) := by
        split_ifs
        · exact hPL
        · exact hPm
      have hP2 : P (if elev (fp.div (fp.add TL TR) 2) > sd then fp.div (fp.add TL TR) 2
          else TR) := by
        split_ifs
        · exact hPm
        · exact hPR
      have hb1 : ¬ (elev TL > sd) →
          ¬ (elev (if elev (fp.div (fp.add TL TR) 2) > sd then TL
            else fp.div (fp.add TL TR) 2) > sd) := by
        intro h
        split_ifs with hc
        · exact h
        · exact hc
      have hb2 : elev TR > sd →
          elev (if elev (fp.div (fp.add TL TR) 2) > sd then fp.div (fp.add TL TR) 2
            else TR) > sd := by
        intro h
        split_ifs with hc
        · exact hc
        · exact h
      have hhalf : ((if elev (fp.div (fp.add TL TR) 2) > sd then fp.div (fp.add TL TR) 2
            else TR)
          - (if elev (fp.div (fp.add TL TR) 2) > sd then TL else fp.div (fp.add TL TR) 2)
          - 2 * δ) * 2 ≤ TR - TL - 2 * δ := by
        split_ifs <;> linarith [hm.1, hm.2]
      have hinv1 : ((if elev (fp.div (fp.add TL TR) 2) > sd then fp.div (fp.add TL TR) 2
            else TR)
          - (if elev (fp.div (fp.add TL TR) 2) > sd then TL else fp.div (fp.add TL TR) 2)
          - 2 * δ) * 2 ^ (j + 1) ≤ (eps - 3 * δ) * 2 ^ (limit - 1) := by
        have := mul_le_mul_of_nonneg_right hhalf hpow.le
        rw [pow_succ]
        linarith
      obtain ⟨TLf, TRf, jf, h1, h2, h3, h4, h5, h6, h7⟩ :=
        ih _ _ (j + 1) hP1 hP2 (by omega) (by omega) hinv1
      refine ⟨TLf, TRf, jf, ?_, h2, h3, h4, h5, fun h => h6 (hb1 h), fun h => h7 (hb2 h)⟩
      simp only [FindLandmarkAOS_halving, if_pos hw, hs, if_neg hcap]
      exact h1
    · refine ⟨TL, TR, j, ?_, hj, not_lt.mp hw, hPL, hPR, id, id⟩
      simp only [FindLandmarkAOS_halving, if_neg hw]

/-- Behaviour of the sample scan: started at index `i`, when the samples `i .. k-1` do not
exceed the target and sample `k` does, it leaves the bracket whose right end is the time
of sample `k` and whose left end is the time of sample `k-1`, or the left end it was
entered with when `k = i`. -/
theorem FindLandmarkAOS_sampleScan_spec (sinangAt : K → Option K) (sd : K)
    (table : List (EphemerisData K)) (tm elev : Nat → K) (k : Nat) (hk : k < table.length)
    (habove : elev k > sd) :
    ∀ (d fuel i : Nat) (TL : K), i + d = k → d < fuel →
      (∀ m, i ≤ m → m ≤ k →
        ∃ e, table[m]? = some e ∧ e.GMT = tm m ∧ sinangAt (tm m) = some (elev m)) →
      (∀ m, i ≤ m → m < k → ¬ (elev m > sd)) →
      FindLandmarkAOS_sampleScan sinangAt sd table fuel i TL
        = some (Except.ok (if d = 0 then TL else tm (k - 1), tm k)) := by
  intro d
  induction d with
  | zero =>
    intro fuel i TL hik hf hs _
    obtain ⟨fuel, rfl⟩ : ∃ f, fuel = f + 1 := ⟨fuel - 1, by omega⟩
    obtain rfl : i = k := by omega
    obtain ⟨e, he1, he2, he3⟩ := hs i (le_refl _) (le_refl _)
    simp only [FindLandmarkAOS_sampleScan, he1, he2, he3, if_pos habove, if_true]
  | succ d ih =>
    intro fuel i TL hik hf hs hb
    obtain ⟨fuel, rfl⟩ : ∃ f, fuel = f + 1 := ⟨fuel - 1, by omega⟩
    obtain ⟨e, he1, he2, he3⟩ := hs i (le_refl _) (by omega)
    have hnot := hb i (le_refl _) (by omega)
    have hlen : i + 1 < table.length := by omega
    simp only [FindLandmarkAOS_sampleScan, he1, he2, he3, if_neg hnot, if_pos hlen]
    rw [ih fuel (i + 1) (tm i) (by omega) (by omega)
      (fun m h1 h2 => hs m (by omega) h2) (fun m h1 h2 => hb m (by omega) h2)]
    by_cases hd : d = 0
    · have : k - 1 = i := by omega
      simp [hd, this]
    · simp [hd]

/-- Claim C9, as the code has it: the sample scan of `FindLandmarkAOS` starts at the index
`i0` at which the first scan stopped and examines the ephemeris samples in order; when
samples `i0 .. k-1` do not exceed the target elevation and sample `k` is the first that
does, the interval halving begins with right end `TR` equal to the time of sample `k`,
and with left end `TL` equal to the known crossing time `GMT_start` only if `k = i0`:
otherwise `TL` is the time of sample `k-1`, the last sample not above the target. -/
theorem C9_FindLandmarkAOS_initial_bracket (sinangAt : K → Option K) (sd : K)
    (table : List (EphemerisData K)) (GMT_start : K) (tm elev : Nat → K) (i0 k : Nat)
    (hfirst : FindLandmarkAOS_firstScan table GMT_start table.length 0
      = some (Except.ok i0))
    (hi0 : i0 ≤ k) (hk : k < table.length)
    (hsamp : ∀ m, i0 ≤ m → m ≤ k →
      ∃ e, table[m]? = some e ∧ e.GMT = tm m ∧ sinangAt (tm m) = some (elev m))
    (hbelow : ∀ m, i0 ≤ m → m < k → ¬ (elev m > sd))
    (habove : elev k > sd) :
    FindLandmarkAOS_bracket sinangAt sd table GMT_start
      = some (Except.ok (if k = i0 then GMT_start else tm (k - 1), tm k)) := by
  rw [FindLandmarkAOS_bracket, hfirst]
  simp only
  rw [FindLandmarkAOS_sampleScan_spec sinangAt sd table tm elev k hk habove (k - i0)
    table.length i0 GMT_start (by omega) (by omega) hsamp hbelow]
  by_cases h : k = i0
  · simp [h]
  · have : k - i0 ≠ 0 := by omega
    simp [h, this]


/-- Once the interval halving has returned, `FindLandmarkAOS` is the test of the
counter. -/
theorem FindLandmarkAOS_of_halving (c : Collab K) (ephemeris : EphemerisDataTable2 K)
    (R_S0 : VECTOR3 K) (out : AGOPOutputs K) (station : StationData K)
    (GMT_start ElevationAngle TL TR TLf TRf : K) (jf : Nat)
    (hb : FindLandmarkAOS_bracket (FindLandmarkAOS_sinang c ephemeris station R_S0)
      (c.cm.sin ElevationAngle) ephemeris.table GMT_start = some (Except.ok (TL, TR)))
    (hh : FindLandmarkAOS_halving c.fp (FindLandmarkAOS_sinang c ephemeris station R_S0)
      (c.cm.sin ElevationAngle) 1 100 100 TL TR 0 = some (Except.ok (TLf, TRf, jf))) :
    FindLandmarkAOS c ephemeris R_S0 out station GMT_start ElevationAngle
      = (if jf = 100 then some { out := WriteError out 4, code := 4, GMT_elev := none }
         else some { out := out, code := 0,
                     GMT_elev := some (c.fp.div (c.fp.add TLf TRf) 2) }) := by
  rw [FindLandmarkAOS, hb]
  simp only
  rw [hh]

/-- In arithmetic without rounding, once the bracket is known and every elevation
evaluation inside it succeeds, `FindLandmarkAOS` is the interval halving followed by the
test of the counter. -/
theorem FindLandmarkAOS_of_bracket (c : Collab K) (ephemeris : EphemerisDataTable2 K)
    (R_S0 : VECTOR3 K) (out : AGOPOutputs K) (station : StationData K)
    (GMT_start ElevationAngle TL TR : K) (elev : K → K) (hfp : c.fp = exactArith)
    (hb : FindLandmarkAOS_bracket (FindLandmarkAOS_sinang c ephemeris station R_S0)
      (c.cm.sin ElevationAngle) ephemeris.table GMT_start = some (Except.ok (TL, TR)))
    (helev : ∀ t, TL ≤ t → t ≤ TR →
      FindLandmarkAOS_sinang c ephemeris station R_S0 t = some (elev t)) :
    ∃ TLf TRf jf,
      FindLandmarkAOS_halving c.fp (FindLandmarkAOS_sinang c ephemeris station R_S0)
          (c.cm.sin ElevationAngle) 1 100 100 TL TR 0 = some (Except.ok (TLf, TRf, jf)) ∧
      jf ≤ 100 ∧
      (TRf - TLf) * 2 ^ jf = TR - TL ∧
      (jf < 100 → TRf - TLf ≤ 1) ∧
      (jf = 100 ↔ TR - TL > 2 ^ 99) ∧
      (TL ≤ TR → TL ≤ TLf ∧ TLf ≤ TRf ∧ TRf ≤ TR) ∧
      (¬ (elev TL > c.cm.sin ElevationAngle) → ¬ (elev TLf > c.cm.sin ElevationAngle)) ∧
      (elev TR > c.cm.sin ElevationAngle → elev TRf > c.cm.sin ElevationAngle) ∧
      FindLandmarkAOS c ephemeris R_S0 out station GMT_start ElevationAngle
        = (if jf = 100 then some { out := WriteError out 4, code := 4, GMT_elev := none }
           else some { out := out, code := 0, GMT_elev := some ((TLf + TRf) / 2) }) := by
  obtain ⟨TLf, TRf, jf, h1, _, h3, h4, h5, h6, h7, h8, h9⟩ :=
    FindLandmarkAOS_halving_spec (FindLandmarkAOS_sinang c ephemeris station R_S0) elev
      (c.cm.sin ElevationAngle) 1 100 zero_le_one 100 TL TR 0 helev (by norm_num)
      (by norm_num)
  rw [← hfp] at h1
  refine ⟨TLf, TRf, jf, h1, h3, by simpa using h4, h5, by simpa using h6, h7, h8, h9, ?_⟩
  rw [FindLandmarkAOS_of_halving c ephemeris R_S0 out station GMT_start ElevationAngle TL TR
    TLf TRf jf hb h1, hfp]
  rfl


/-- With the stand-in collaborators over `ℚ` the elevation measure at time `t` is
`t - t0`. -/
theorem ratCollabCrossing_sinang (t0 : ℚ) (eph : EphemerisDataTable2 ℚ) (st : StationData ℚ)
    (R_S0 : VECTOR3 ℚ) (t : ℚ) :
    FindLandmarkAOS_sinang (ratCollabCrossing t0) eph st R_S0 t = some (t - t0) := by
  simp [FindLandmarkAOS_sinang, Interpolation, ratCollabCrossing, ratCollab, ratRTCC, _V]

/-- The bracket computed over `ℚ` for a two-sample ephemeris `[0, T]`, a crossing time
`GMT_start` after the first sample and a target elevation `sd >= 0` that is exceeded at
the second sample. -/
theorem ratCollabCrossing_bracket (T GMT_start sd : ℚ) (st : StationData ℚ)
    (R_S0 : VECTOR3 ℚ) (h0 : 0 < GMT_start) (hsd0 : 0 ≤ sd) (hsdT : sd < T - GMT_start) :
    FindLandmarkAOS_bracket
        (FindLandmarkAOS_sinang (ratCollabCrossing GMT_start) (ratEphemeris 0 T [0, T]) st R_S0)
      sd (ratEphemeris 0 T [0, T]).table GMT_start = some (Except.ok (0, T)) := by
  have hf : ¬ (GMT_start ≤ 0) := not_le.mpr h0
  have h1 : ¬ (sd < -GMT_start) := by rw [not_lt]; linarith
  simp [FindLandmarkAOS_bracket, FindLandmarkAOS_firstScan, FindLandmarkAOS_sampleScan,
    ratCollabCrossing_sinang, ratEphemeris, _V, hf, h1, hsdT]

/-- Witness for C9: samples at times 0, 10, 20, elevation measure `t - 5` at time `t`
(zero at the crossing time 5) and target 10.  The sample scan starts at index 0 and stops
at sample 2. -/
theorem C9_FindLandmarkAOS_initial_bracket_witness :
    FindLandmarkAOS_bracket
        (FindLandmarkAOS_sinang (ratCollabCrossing 5) (ratEphemeris 0 100 [0, 10, 20])
          ratStation (_V 0 0 0)) 10 (ratEphemeris 0 100 [0, 10, 20]).table 5
      = some (Except.ok (if 2 = 0 then 5 else (fun m : ℕ => (10 : ℚ) * m) (2 - 1),
          (fun m : ℕ => (10 : ℚ) * m) 2)) :=
  C9_FindLandmarkAOS_initial_bracket _ 10 (ratEphemeris 0 100 [0, 10, 20]).table 5
    (fun m => (10 : ℚ) * m) (fun m => (10 : ℚ) * m - 5) 0 2
    (by norm_num [FindLandmarkAOS_firstScan, ratEphemeris])
    (by norm_num) (by norm_num [ratEphemeris])
    (by
      intro m _ hm
      interval_cases m <;>
        norm_num [ratEphemeris, ratCollabCrossing_sinang])
    (by
      intro m _ hm
      interval_cases m <;> norm_num)
    (by norm_num)

/-- Counterexample to C9 as stated: a table sorted by increasing time (0, 10, 20),
crossing time `GMT_start = 5`, elevation measure `t - 5` at time `t` and target 10.
The first scan stops at index 0, whose time 0 is before `GMT_start` (the first state
vector after `GMT_start` is index 1), and the interval halving begins with the bracket
`(10, 20)`: its left end is the time of sample 1, not `GMT_start = 5`. -/
theorem C9_counterexample :
    FindLandmarkAOS_firstScan (ratEphemeris 0 100 [0, 10, 20]).table 5 3 0
      = some (Except.ok 0) ∧
    ((ratEphemeris 0 100 [0, 10, 20]).table.map (fun e => e.GMT)) = [0, 10, 20] ∧
    FindLandmarkAOS_bracket
        (FindLandmarkAOS_sinang (ratCollabCrossing 5) (ratEphemeris 0 100 [0, 10, 20])
          ratStation (_V 0 0 0)) 10 (ratEphemeris 0 100 [0, 10, 20]).table 5
      = some (Except.ok (10, 20)) ∧
    (10 : ℚ) ≠ 5 := by
  refine ⟨?_, ?_, ?_, by norm_num⟩
  · norm_num [FindLandmarkAOS_firstScan, ratEphemeris]
  · simp [ratEphemeris]
  · norm_num [FindLandmarkAOS_bracket, FindLandmarkAOS_firstScan, FindLandmarkAOS_sampleScan,
      ratCollabCrossing_sinang, ratEphemeris]

/-- With the stand-in collaborators over `ℚ` in the arithmetic of `double` the elevation
measure at time `t` is `t - t0`. -/
theorem doubleCollabCrossing_sinang (t0 : ℚ) (eph : EphemerisDataTable2 ℚ)
    (st : StationData ℚ) (R_S0 : VECTOR3 ℚ) (t : ℚ) :
    FindLandmarkAOS_sinang (doubleCollabCrossing t0) eph st R_S0 t = some (t - t0) := by
  simp [FindLandmarkAOS_sinang, Interpolation, doubleCollabCrossing, ratCollabCrossing,
    ratCollab, ratRTCC, _V]

/-- The bracket computed in the arithmetic of `double` for a two-sample ephemeris
`[0, T]`, a crossing time `GMT_start` after the first sample and a target elevation
`sd >= 0` that is exceeded at the second sample. -/
theorem doubleCollabCrossing_bracket (T GMT_start sd : ℚ) (st : StationData ℚ)
    (R_S0 : VECTOR3 ℚ) (h0 : 0 < GMT_start) (hsd0 : 0 ≤ sd) (hsdT : sd < T - GMT_start) :
    FindLandmarkAOS_bracket
        (FindLandmarkAOS_sinang (doubleCollabCrossing GMT_start) (ratEphemeris 0 T [0, T])
          st R_S0)
      sd (ratEphemeris 0 T [0, T]).table GMT_start = some (Except.ok (0, T)) := by
  have hf : ¬ (GMT_start ≤ 0) := not_le.mpr h0
  have h1 : ¬ (sd < -GMT_start) := by rw [not_lt]; linarith
  simp [FindLandmarkAOS_bracket, FindLandmarkAOS_firstScan, FindLandmarkAOS_sampleScan,
    doubleCollabCrossing_sinang, ratEphemeris, _V, hf, h1, hsdT]

/-- The interval halving in the arithmetic of `double` on the bracket `(0, 2^k)` with
the crossing at time 1 and target 0, entered with counter `100 - k`: every bracket end is
0 or a power of two and no operation rounds; the loop makes `k` passes, reaches the cap
and is left with the bracket `(1, 2)`. -/
theorem doubleCollabCrossing_halving_cap (eph : EphemerisDataTable2 ℚ) :
    ∀ (k fuel : ℕ), 1 ≤ k → k ≤ 100 → k ≤ fuel →
      FindLandmarkAOS_halving doubleArith
          (FindLandmarkAOS_sinang (doubleCollabCrossing 1) eph ratStation (_V 0 0 0))
          0 1 100 fuel 0 (2 ^ k) (100 - k)
        = some (Except.ok (1, 2, 100)) := by
  have hsub : ∀ k : ℕ, doubleArith.sub ((2 : ℚ) ^ k) 0 = 2 ^ k := by
    intro k
    show roundDouble ((2 : ℚ) ^ k - 0) = 2 ^ k
    rw [sub_zero, roundDouble_two_pow]
  have hmid : ∀ k : ℕ, doubleArith.div (doubleArith.add 0 ((2 : ℚ) ^ (k + 1))) 2 = 2 ^ k := by
    intro k
    show roundDouble (roundDouble (0 + (2 : ℚ) ^ (k + 1)) / 2) = 2 ^ k
    rw [zero_add, roundDouble_two_pow]
    have : (2 : ℚ) ^ (k + 1) / 2 = 2 ^ k := by rw [pow_succ]; field_simp
    rw [this, roundDouble_two_pow]
  intro k
  induction k with
  | zero => intro fuel h1; omega
  | succ k ih =>
    intro fuel _ h100 hfuel
    obtain ⟨fuel, rfl⟩ : ∃ f, fuel = f + 1 := ⟨fuel - 1, by omega⟩
    have hw : doubleArith.sub ((2 : ℚ) ^ (k + 1)) 0 > 1 := by
      rw [hsub]
      exact one_lt_pow₀ (by norm_num) (by omega)
    have hs : FindLandmarkAOS_sinang (doubleCollabCrossing 1) eph ratStation (_V 0 0 0)
        (doubleArith.div (doubleArith.add 0 ((2 : ℚ) ^ (k + 1))) 2) = some (2 ^ k - 1) := by
      rw [hmid, doubleCollabCrossing_sinang]
    by_cases hk : k = 0
    · subst hk
      have hnot : ¬ ((2 : ℚ) ^ 0 - 1 > 0) := by norm_num
      rw [FindLandmarkAOS_halving_last doubleArith _ 0 1 100 (fuel + 1) 0 (2 ^ (0 + 1))
        (100 - (0 + 1)) (2 ^ 0 - 1) (by omega) hw hs (by norm_num)]
      rw [hmid, if_neg hnot, if_neg hnot]
      norm_num
    · have hpos : (2 : ℚ) ^ k - 1 > 0 := by
        have : (1 : ℚ) < 2 ^ k := one_lt_pow₀ (by norm_num) hk
        linarith
      have hj : 100 - (k + 1) + 1 = 100 - k := by omega
      rw [FindLandmarkAOS_halving_step doubleArith _ 0 1 100 (fuel + 1) 0 (2 ^ (k + 1))
        (100 - (k + 1)) (2 ^ k - 1) (by omega) hw hs (by omega)]
      rw [hmid, if_pos hpos, if_pos hpos, hj, Nat.add_sub_cancel]
      exact ih fuel (by omega) (by omega) (by omega)

/-- The interval halving in the arithmetic of `double` on the bracket
`(2^60, 2^60 + 1024)`, where consecutive values of type `double` are 256 apart, with the
crossing at `2^60 + 768`: after two passes the bracket is `(2^60 + 768, 2^60 + 1024)`,
its computed midpoint is its right end, and the loop runs to the cap without narrowing
it. -/
theorem doubleCollabCrossing_halving_stalls (eph : EphemerisDataTable2 ℚ) :
    FindLandmarkAOS_halving doubleArith
        (FindLandmarkAOS_sinang (doubleCollabCrossing (2 ^ 60 + 768)) eph ratStation
          (_V 0 0 0))
        0 1 100 100 (2 ^ 60) (2 ^ 60 + 1024) 0
      = some (Except.ok (2 ^ 60 + 768, 2 ^ 60 + 1024, 100)) := by
  have w1 : doubleArith.sub ((2 : ℚ) ^ 60 + 1024) (2 ^ 60) = 1024 := roundDouble_bracket_1
  have m1 : doubleArith.div (doubleArith.add ((2 : ℚ) ^ 60) (2 ^ 60 + 1024)) 2
      = 2 ^ 60 + 512 := by
    show roundDouble (roundDouble (2 ^ 60 + (2 ^ 60 + 1024)) / 2) = _
    rw [roundDouble_bracket_2, roundDouble_bracket_3]
  have w2 : doubleArith.sub ((2 : ℚ) ^ 60 + 1024) (2 ^ 60 + 512) = 512 :=
    roundDouble_bracket_4
  have m2 : doubleArith.div (doubleArith.add ((2 : ℚ) ^ 60 + 512) (2 ^ 60 + 1024)) 2
      = 2 ^ 60 + 768 := by
    show roundDouble (roundDouble (2 ^ 60 + 512 + (2 ^ 60 + 1024)) / 2) = _
    rw [roundDouble_bracket_5, roundDouble_bracket_6]
  have w3 : doubleArith.sub ((2 : ℚ) ^ 60 + 1024) (2 ^ 60 + 768) = 256 :=
    roundDouble_bracket_7
  have m3 : doubleArith.div (doubleArith.add ((2 : ℚ) ^ 60 + 768) (2 ^ 60 + 1024)) 2
      = 2 ^ 60 + 1024 := by
    show roundDouble (roundDouble (2 ^ 60 + 768 + (2 ^ 60 + 1024)) / 2) = _
    rw [roundDouble_bracket_8, roundDouble_bracket_9]
  rw [FindLandmarkAOS_halving_step doubleArith _ 0 1 100 100 (2 ^ 60) (2 ^ 60 + 1024) 0
    (-256) (by norm_num) (by rw [w1]; norm_num)
    (by rw [m1, doubleCollabCrossing_sinang]; norm_num) (by norm_num)]
  rw [m1, if_neg (by norm_num), if_neg (by norm_num)]
  rw [FindLandmarkAOS_halving_step doubleArith _ 0 1 100 (100 - 1) (2 ^ 60 + 512)
    (2 ^ 60 + 1024) (0 + 1) 0 (by norm_num) (by rw [w2]; norm_num)
    (by rw [m2, doubleCollabCrossing_sinang]; norm_num) (by norm_num)]
  rw [m2, if_neg (by norm_num), if_neg (by norm_num)]
  exact FindLandmarkAOS_halving_stall doubleArith _ 0 1 100 (2 ^ 60 + 768) (2 ^ 60 + 1024)
    256 (by rw [w3]; norm_num) (by rw [m3, doubleCollabCrossing_sinang]; norm_num)
    (Or.inl ⟨by norm_num, m3⟩) _ _ (by norm_num) (by norm_num)

/-- Claim C6, as the code has it: the bracket differences and midpoints are computed in
the arithmetic of `double`.  When the interpolation succeeds at the times the loop meets
(the times with the property `P`), the elevation is a strictly increasing function of
time, the target lies strictly between the elevations at the ends `TL` and `TR` of the
initial bracket, every computed midpoint and width is within `δ` of the exact one, and
`TR - TL - 2 δ <= (1 - 3 δ) * 2^99` (in arithmetic without rounding: `δ = 0` and
`TR - TL <= 2^99`), then the halving stops before the cap (`j < 100`), `FindLandmarkAOS`
returns 0 and leaves the report untouched, and the `GMT_elev` it assigns is the computed
midpoint of a final bracket of computed width at most `eps = 1` (of width at most
`1 + δ`) that contains the crossing time, hence within `(1 + δ) / 2 + δ` of it. -/
theorem C6_FindLandmarkAOS_bisection_converges (c : Collab K)
    (ephemeris : EphemerisDataTable2 K) (R_S0 : VECTOR3 K) (out : AGOPOutputs K)
    (station : StationData K) (GMT_start ElevationAngle TL TR tstar δ : K) (elev : K → K)
    (P : K → Prop)
    (hb : FindLandmarkAOS_bracket (FindLandmarkAOS_sinang c ephemeris station R_S0)
      (c.cm.sin ElevationAngle) ephemeris.table GMT_start = some (Except.ok (TL, TR)))
    (hPL : P TL) (hPR : P TR)
    (hP : ∀ a b, P a → P b → P (c.fp.div (c.fp.add a b) 2))
    (hmid : ∀ a b, P a → P b → |c.fp.div (c.fp.add a b) 2 - (a + b) / 2| ≤ δ)
    (hsub : ∀ a b, P a → P b → |c.fp.sub b a - (b - a)| ≤ δ)
    (helev : ∀ t, P t → FindLandmarkAOS_sinang c ephemeris station R_S0 t = some (elev t))
    (hmono : StrictMono elev)
    (hTL : elev TL < c.cm.sin ElevationAngle) (hTR : c.cm.sin ElevationAngle < elev TR)
    (hw : TR - TL - 2 * δ ≤ (1 - 3 * δ) * 2 ^ 99)
    (hcross : elev tstar = c.cm.sin ElevationAngle) :
    ∃ TLf TRf jf,
      FindLandmarkAOS_halving c.fp (FindLandmarkAOS_sinang c ephemeris station R_S0)
          (c.cm.sin ElevationAngle) 1 100 100 TL TR 0 = some (Except.ok (TLf, TRf, jf)) ∧
      jf < 100 ∧ c.fp.sub TRf TLf ≤ 1 ∧ TRf - TLf ≤ 1 + δ ∧ TLf ≤ tstar ∧ tstar ≤ TRf ∧
      FindLandmarkAOS c ephemeris R_S0 out station GMT_start ElevationAngle
        = some { out := out, code := 0,
                 GMT_elev := some (c.fp.div (c.fp.add TLf TRf) 2) } ∧
      |c.fp.div (c.fp.add TLf TRf) 2 - tstar| ≤ (1 + δ) / 2 + δ := by
  obtain ⟨TLf, TRf, jf, h1, h2, h3, h4, h5, h6, h7⟩ :=
    FindLandmarkAOS_halving_converges c.fp (FindLandmarkAOS_sinang c ephemeris station R_S0)
      elev (c.cm.sin ElevationAngle) 1 δ 100 P hP hmid hsub helev 100 TL TR 0 hPL hPR
      (by norm_num) (by norm_num) (by simpa using hw)
  have hd := abs_le.mp (hsub TLf TRf h4 h5)
  have hm := abs_le.mp (hmid TLf TRf h4 h5)
  have hwid : TRf - TLf ≤ 1 + δ := by linarith [hd.1]
  have hl : TLf ≤ tstar := by
    have : ¬ (elev TLf > c.cm.sin ElevationAngle) := h6 (not_lt.mpr hTL.le)
    rw [← hcross] at this
    exact hmono.le_iff_le.mp (not_lt.mp this)
  have hr : tstar ≤ TRf := by
    have : elev TRf > c.cm.sin ElevationAngle := h7 hTR
    rw [← hcross] at this
    exact (hmono.lt_iff_lt.mp this).le
  refine ⟨TLf, TRf, jf, h1, h2, h3, hwid, hl, hr, ?_, ?_⟩
  · rw [FindLandmarkAOS_of_halving c ephemeris R_S0 out station GMT_start ElevationAngle
      TL TR TLf TRf jf hb h1, if_neg (by omega)]
  · rw [abs_le]
    constructor <;> linarith [hm.1, hm.2]

/-- Witness for C6, in the arithmetic of `double`: samples at times 0 and 64, elevation
measure `t - 1` at time `t` (zero at the crossing time 1) and target 10, reached at time
11.  The times the loop meets are in `[0, 64]`, where every computed midpoint and width
is within `δ = 2^-46` of the exact one. -/
theorem C6_FindLandmarkAOS_bisection_converges_witness :
    ∃ TLf TRf : ℚ,
      FindLandmarkAOS (doubleCollabCrossing 1) (ratEphemeris 0 64 [0, 64]) (_V 0 0 0)
          AGOPOutputs.init ratStation 1 10
        = some { out := AGOPOutputs.init, code := 0,
                 GMT_elev := some (doubleArith.div (doubleArith.add TLf TRf) 2) } ∧
      |doubleArith.div (doubleArith.add TLf TRf) 2 - 11|
        ≤ (1 + 1 / 2 ^ 46) / 2 + 1 / 2 ^ 46 := by
  obtain ⟨TLf, TRf, _, _, _, _, _, _, _, h1, h2⟩ :=
    C6_FindLandmarkAOS_bisection_converges (doubleCollabCrossing 1)
      (ratEphemeris 0 64 [0, 64]) (_V 0 0 0) AGOPOutputs.init ratStation 1 10 0 64 11
      (1 / 2 ^ 46) (fun t => t - 1) (fun x => 0 ≤ x ∧ x ≤ 64)
      (doubleCollabCrossing_bracket 64 1 10 ratStation (_V 0 0 0) (by norm_num)
        (by norm_num) (by norm_num))
      ⟨le_refl _, by norm_num⟩ ⟨by norm_num, le_refl _⟩
      (fun a b ha hb => (doubleArith_midpoint a b ha hb).1)
      (fun a b ha hb => (doubleArith_midpoint a b ha hb).2)
      (fun a b ha hb => doubleArith_width a b ha hb)
      (fun t _ => doubleCollabCrossing_sinang _ _ _ _ t)
      (fun _ _ h => sub_lt_sub_right h 1)
      (by norm_num [doubleCollabCrossing, ratCollabCrossing, ratCollab, ratCMath])
      (by norm_num [doubleCollabCrossing, ratCollabCrossing, ratCollab, ratCMath])
      (by norm_num)
      (by norm_num [doubleCollabCrossing, ratCollabCrossing, ratCollab, ratCMath])
  exact ⟨TLf, TRf, h1, h2⟩

/-- Counterexample to C6 as stated: samples at times `2^60` and `2^60 + 1024`, elevation
measure `t - (2^60 + 768)` at time `t`, a strictly increasing function of time, and
target 0, which lies strictly between the elevations -768 and 256 at the ends of the
bracket `(2^60, 2^60 + 1024)`, of width `1024 <= 2^99`.  Every interpolation succeeds.
In the arithmetic of `double` the midpoint computed for the bracket
`(2^60 + 768, 2^60 + 1024)` is its right end, the halving makes 100 passes and is left
with this bracket of width 256, and `FindLandmarkAOS` returns 4 with
'INTERPOLATION FAILURE' and assigns no `GMT_elev`. -/
theorem C6_counterexample :
    FindLandmarkAOS_bracket
        (FindLandmarkAOS_sinang (doubleCollabCrossing (2 ^ 60 + 768))
          (ratEphemeris (2 ^ 60) (2 ^ 60 + 1024) [2 ^ 60, 2 ^ 60 + 1024]) ratStation (_V 0 0 0))
        ((doubleCollabCrossing (2 ^ 60 + 768)).cm.sin 0)
        (ratEphemeris (2 ^ 60) (2 ^ 60 + 1024) [2 ^ 60, 2 ^ 60 + 1024]).table (2 ^ 60 + 768)
      = some (Except.ok (2 ^ 60, 2 ^ 60 + 1024)) ∧
    (∀ t : ℚ, FindLandmarkAOS_sinang (doubleCollabCrossing (2 ^ 60 + 768))
        (ratEphemeris (2 ^ 60) (2 ^ 60 + 1024) [2 ^ 60, 2 ^ 60 + 1024]) ratStation (_V 0 0 0) t
      = some (t - (2 ^ 60 + 768))) ∧
    StrictMono (fun t : ℚ => t - (2 ^ 60 + 768)) ∧
    ((2 : ℚ) ^ 60 - (2 ^ 60 + 768) < (doubleCollabCrossing (2 ^ 60 + 768)).cm.sin 0 ∧
      (doubleCollabCrossing (2 ^ 60 + 768)).cm.sin 0
        < (2 : ℚ) ^ 60 + 1024 - (2 ^ 60 + 768)) ∧
    ((2 : ℚ) ^ 60 + 1024) - 2 ^ 60 ≤ 2 ^ 99 ∧
    FindLandmarkAOS_halving (doubleCollabCrossing (2 ^ 60 + 768)).fp
        (FindLandmarkAOS_sinang (doubleCollabCrossing (2 ^ 60 + 768))
          (ratEphemeris (2 ^ 60) (2 ^ 60 + 1024) [2 ^ 60, 2 ^ 60 + 1024]) ratStation (_V 0 0 0))
        ((doubleCollabCrossing (2 ^ 60 + 768)).cm.sin 0) 1 100 100 (2 ^ 60)
        (2 ^ 60 + 1024) 0
      = some (Except.ok (2 ^ 60 + 768, 2 ^ 60 + 1024, 100)) ∧
    FindLandmarkAOS (doubleCollabCrossing (2 ^ 60 + 768))
        (ratEphemeris (2 ^ 60) (2 ^ 60 + 1024) [2 ^ 60, 2 ^ 60 + 1024]) (_V 0 0 0)
        AGOPOutputs.init ratStation (2 ^ 60 + 768) 0
      = some { out := { (AGOPOutputs.init : AGOPOutputs ℚ) with
                        errormessage := "INTERPOLATION FAILURE" },
               code := 4, GMT_elev := none } := by
  have hb : FindLandmarkAOS_bracket
        (FindLandmarkAOS_sinang (doubleCollabCrossing (2 ^ 60 + 768))
          (ratEphemeris (2 ^ 60) (2 ^ 60 + 1024) [2 ^ 60, 2 ^ 60 + 1024]) ratStation (_V 0 0 0))
        ((doubleCollabCrossing (2 ^ 60 + 768)).cm.sin 0)
        (ratEphemeris (2 ^ 60) (2 ^ 60 + 1024) [2 ^ 60, 2 ^ 60 + 1024]).table (2 ^ 60 + 768)
      = some (Except.ok (2 ^ 60, 2 ^ 60 + 1024)) := by
    have hsd : (doubleCollabCrossing (2 ^ 60 + 768)).cm.sin 0 = 0 := rfl
    rw [hsd]
    norm_num [FindLandmarkAOS_bracket, FindLandmarkAOS_firstScan,
      FindLandmarkAOS_sampleScan, doubleCollabCrossing_sinang, ratEphemeris]
  have hh := doubleCollabCrossing_halving_stalls
    (ratEphemeris (2 ^ 60) (2 ^ 60 + 1024) [2 ^ 60, 2 ^ 60 + 1024])
  refine ⟨hb, fun t => doubleCollabCrossing_sinang _ _ _ _ t,
    fun _ _ h => sub_lt_sub_right h _, ?_, by norm_num, hh, ?_⟩
  · have hsd : (doubleCollabCrossing (2 ^ 60 + 768)).cm.sin 0 = 0 := rfl
    rw [hsd]
    constructor <;> norm_num
  · rw [FindLandmarkAOS_of_halving (doubleCollabCrossing (2 ^ 60 + 768))
      (ratEphemeris (2 ^ 60) (2 ^ 60 + 1024) [2 ^ 60, 2 ^ 60 + 1024]) (_V 0 0 0)
      AGOPOutputs.init ratStation (2 ^ 60 + 768) 0 (2 ^ 60)
      (2 ^ 60 + 1024) (2 ^ 60 + 768) (2 ^ 60 + 1024) 100 hb hh, if_pos rfl,
      WriteError_four]

/-- Claim C7, as the code has it: provided the scans give a bracket and the interpolation
succeeds at the times the loop meets (the times with the property `P`),
`FindLandmarkAOS` returns 0 and assigns `GMT_elev` (the computed midpoint of the final
bracket) exactly when the halving loop was left after fewer than 100 halvings, in which
case the computed width of the final bracket is at most `eps`; it returns 4, writes
'INTERPOLATION FAILURE' and assigns nothing exactly when 100 halvings were made, whether
or not the 100th halving brought the bracket within `eps`. -/
theorem C7_FindLandmarkAOS_cap_is_failure (c : Collab K)
    (ephemeris : EphemerisDataTable2 K) (R_S0 : VECTOR3 K) (out : AGOPOutputs K)
    (station : StationData K) (GMT_start ElevationAngle TL TR : K) (elev : K → K)
    (P : K → Prop)
    (hb : FindLandmarkAOS_bracket (FindLandmarkAOS_sinang c ephemeris station R_S0)
      (c.cm.sin ElevationAngle) ephemeris.table GMT_start = some (Except.ok (TL, TR)))
    (hPL : P TL) (hPR : P TR)
    (hP : ∀ a b, P a → P b → P (c.fp.div (c.fp.add a b) 2))
    (helev : ∀ t, P t → FindLandmarkAOS_sinang c ephemeris station R_S0 t = some (elev t)) :
    ∃ TLf TRf jf,
      FindLandmarkAOS_halving c.fp (FindLandmarkAOS_sinang c ephemeris station R_S0)
          (c.cm.sin ElevationAngle) 1 100 100 TL TR 0 = some (Except.ok (TLf, TRf, jf)) ∧
      jf ≤ 100 ∧
      (jf < 100 → c.fp.sub TRf TLf ≤ 1) ∧
      (jf < 100 ↔
        FindLandmarkAOS c ephemeris R_S0 out station GMT_start ElevationAngle
          = some { out := out, code := 0,
                   GMT_elev := some (c.fp.div (c.fp.add TLf TRf) 2) }) ∧
      (jf = 100 ↔
        FindLandmarkAOS c ephemeris R_S0 out station GMT_start ElevationAngle
          = some { out := { out with errormessage := "INTERPOLATION FAILURE" }, code := 4,
                   GMT_elev := none }) := by
  obtain ⟨TLf, TRf, jf, h1, _, h3, h4, _, _, _, _⟩ :=
    FindLandmarkAOS_halving_total c.fp (FindLandmarkAOS_sinang c ephemeris station R_S0)
      elev (c.cm.sin ElevationAngle) 1 100 P hP helev 100 TL TR 0 hPL hPR (by norm_num)
      (by norm_num)
  have h9 := FindLandmarkAOS_of_halving c ephemeris R_S0 out station GMT_start
    ElevationAngle TL TR TLf TRf jf hb h1
  refine ⟨TLf, TRf, jf, h1, h3, h4, ?_, ?_⟩
  · constructor
    · intro h
      rw [h9, if_neg (by omega)]
    · intro h
      by_contra hn
      have hj : jf = 100 := by omega
      rw [h9, if_pos hj] at h
      have := congrArg (fun r => r.map AOSResult.code) h
      simp at this
  · constructor
    · intro h
      rw [h9, if_pos h, WriteError_four]
    · intro h
      by_contra hn
      rw [h9, if_neg hn] at h
      have := congrArg (fun r => r.map AOSResult.code) h
      simp at this

/-- Witness for C7, in the arithmetic of `double`: samples at times 0 and 64, elevation
measure `t - 1` at time `t` (zero at the crossing time 1) and target 10. -/
theorem C7_FindLandmarkAOS_cap_is_failure_witness :
    ∃ (TLf TRf : ℚ) (jf : ℕ),
      jf ≤ 100 ∧
      (jf < 100 ↔
        FindLandmarkAOS (doubleCollabCrossing 1) (ratEphemeris 0 64 [0, 64]) (_V 0 0 0)
            AGOPOutputs.init ratStation 1 10
          = some { out := AGOPOutputs.init, code := 0,
                   GMT_elev := some (doubleArith.div (doubleArith.add TLf TRf) 2) }) := by
  obtain ⟨TLf, TRf, jf, _, h2, _, h4, _⟩ :=
    C7_FindLandmarkAOS_cap_is_failure (doubleCollabCrossing 1) (ratEphemeris 0 64 [0, 64])
      (_V 0 0 0) AGOPOutputs.init ratStation 1 10 0 64 (fun t => t - 1) (fun _ => True)
      (doubleCollabCrossing_bracket 64 1 10 ratStation (_V 0 0 0) (by norm_num)
        (by norm_num) (by norm_num))
      trivial trivial (fun _ _ _ _ => trivial)
      (fun t _ => doubleCollabCrossing_sinang _ _ _ _ t)
  exact ⟨TLf, TRf, jf, h2, h4⟩

/-- Counterexample to C7 as stated, in the arithmetic of `double`: samples at times 0 and
`2^100`, elevation measure `t - 1` at time `t` (zero at the crossing time 1) and target
0.  Every bracket end the loop meets is 0 or a power of two, so that no operation
rounds; after 100 halvings the bracket is `(1, 2)`, exactly `eps = 1` wide, so the loop
ends with `TR - TL <= eps`; the function nevertheless returns 4 with
'INTERPOLATION FAILURE' and assigns no `GMT_elev`. -/
theorem C7_counterexample :
    FindLandmarkAOS_halving (doubleCollabCrossing 1).fp
        (FindLandmarkAOS_sinang (doubleCollabCrossing 1)
          (ratEphemeris 0 (2 ^ 100) [0, 2 ^ 100]) ratStation (_V 0 0 0))
        ((doubleCollabCrossing 1).cm.sin 0) 1 100 100 0 (2 ^ 100) 0
      = some (Except.ok (1, 2, 100)) ∧
    (doubleCollabCrossing 1).fp.sub 2 1 ≤ 1 ∧ (2 : ℚ) - 1 ≤ 1 ∧
    FindLandmarkAOS (doubleCollabCrossing 1) (ratEphemeris 0 (2 ^ 100) [0, 2 ^ 100])
        (_V 0 0 0) AGOPOutputs.init ratStation 1 0
      = some { out := { (AGOPOutputs.init : AGOPOutputs ℚ) with
                        errormessage := "INTERPOLATION FAILURE" },
               code := 4, GMT_elev := none } := by
  have hh := doubleCollabCrossing_halving_cap (ratEphemeris 0 (2 ^ 100) [0, 2 ^ 100]) 100
    100 (by norm_num) (by norm_num) (by norm_num)
  have hb := doubleCollabCrossing_bracket (2 ^ 100) 1 0 ratStation (_V 0 0 0) (by norm_num)
    (by norm_num) (by norm_num)
  refine ⟨hh, ?_, by norm_num, ?_⟩
  · show roundDouble (2 - 1) ≤ 1
    have h := roundDouble_two_pow 0
    norm_num at h ⊢
    rw [h]
  · rw [FindLandmarkAOS_of_halving (doubleCollabCrossing 1)
      (ratEphemeris 0 (2 ^ 100) [0, 2 ^ 100]) (_V 0 0 0) AGOPOutputs.init ratStation 1 0 0
      (2 ^ 100) 1 2 100 hb hh, if_pos rfl, WriteError_four]

/-- Whatever makes `FindLandmarkAOS` return a non-zero code, `StarSightingTable` leaves
with the report of the failed search and error 5 written over its error message. -/
theorem StarSightingTable_landmark_of_failure (c : Collab K)
    (ephemeris : EphemerisDataTable2 K) (R_S0 : VECTOR3 K) (inp : AGOPInputs K)
    (out : AGOPOutputs K) (acq : StationContact K) (rest : List (StationContact K))
    (r : AOSResult K)
    (hacq : StarSightingTable_acquisitions c ephemeris inp = (0, acq :: rest))
    (hmax : ¬ (inp.ElevationAngle > acq.MAXELEV))
    (hr : FindLandmarkAOS c ephemeris R_S0 out (StarSightingTable_station c inp) acq.GMTAOS
      inp.ElevationAngle = some r)
    (hcode : r.code ≠ 0) :
    StarSightingTable_landmark c ephemeris R_S0 inp out
      = some (Except.error { r.out with errormessage := "LANDMARK NOT IN SIGHT" }) := by
  rw [StarSightingTable_landmark, hacq]
  simp only [ne_eq, not_true_eq_false, if_false, if_neg hmax, hr, hcode, not_false_eq_true,
    if_true, WriteError_five]

/-- Claim C8, as the code has it: when the landmark elevation search of
`StarSightingTable` (modes 1 and 3) fails because the interval halving of
`FindLandmarkAOS` reached its iteration cap (the halving loop is left with `j = 100`; in
arithmetic without rounding this is the case of an initial bracket wider than
`2^99 * eps`), `FindLandmarkAOS` writes the interpolation-failure error (code 4,
'INTERPOLATION FAILURE') and returns 4, and the error carried by the report of
`StarSightingTable` is the visibility-failure error 'LANDMARK NOT IN SIGHT', as for every
other failure of the search: there is no separate error for root-finder
non-convergence. -/
theorem C8_StarSightingTable_cap_reported_as_not_in_sight (c : Collab K)
    (ephemeris : EphemerisDataTable2 K) (R_S0 : VECTOR3 K) (inp : AGOPInputs K)
    (out : AGOPOutputs K) (acq : StationContact K) (rest : List (StationContact K))
    (TL TR TLf TRf : K)
    (hacq : StarSightingTable_acquisitions c ephemeris inp = (0, acq :: rest))
    (hmax : ¬ (inp.ElevationAngle > acq.MAXELEV))
    (hb : FindLandmarkAOS_bracket
        (FindLandmarkAOS_sinang c ephemeris (StarSightingTable_station c inp) R_S0)
        (c.cm.sin inp.ElevationAngle) ephemeris.table acq.GMTAOS
      = some (Except.ok (TL, TR)))
    (hcap : FindLandmarkAOS_halving c.fp
        (FindLandmarkAOS_sinang c ephemeris (StarSightingTable_station c inp) R_S0)
        (c.cm.sin inp.ElevationAngle) 1 100 100 TL TR 0
      = some (Except.ok (TLf, TRf, 100))) :
    FindLandmarkAOS c ephemeris R_S0 out (StarSightingTable_station c inp) acq.GMTAOS
        inp.ElevationAngle
      = some { out := { out with errormessage := "INTERPOLATION FAILURE" }, code := 4,
               GMT_elev := none } ∧
    StarSightingTable_landmark c ephemeris R_S0 inp out
      = some (Except.error { out with errormessage := "LANDMARK NOT IN SIGHT" }) ∧
    (∀ r : AOSResult K,
      FindLandmarkAOS c ephemeris R_S0 out (StarSightingTable_station c inp) acq.GMTAOS
          inp.ElevationAngle = some r → r.code ≠ 0 →
        StarSightingTable_landmark c ephemeris R_S0 inp out
          = some (Except.error { r.out with errormessage := "LANDMARK NOT IN SIGHT" })) := by
  have hF : FindLandmarkAOS c ephemeris R_S0 out (StarSightingTable_station c inp) acq.GMTAOS
      inp.ElevationAngle
      = some { out := { out with errormessage := "INTERPOLATION FAILURE" }, code := 4,
               GMT_elev := none } := by
    rw [FindLandmarkAOS_of_halving c ephemeris R_S0 out (StarSightingTable_station c inp)
      acq.GMTAOS inp.ElevationAngle TL TR TLf TRf 100 hb hcap, if_pos rfl, WriteError_four]
  refine ⟨hF, ?_, ?_⟩
  · exact StarSightingTable_landmark_of_failure c ephemeris R_S0 inp out acq rest _ hacq hmax
      hF (by norm_num)
  · intro r hr hcode
    exact StarSightingTable_landmark_of_failure c ephemeris R_S0 inp out acq rest r hacq hmax
      hr hcode

/-- Witness for C8: a landmark request over `ℚ` whose ephemeris has samples at times 0 and
`2^100`; the halving reaches its cap. -/
theorem C8_StarSightingTable_cap_reported_as_not_in_sight_witness :
    FindLandmarkAOS (ratCollabCrossing 1) (ratEphemeris 0 (2 ^ 100) [0, 2 ^ 100]) (_V 0 0 0)
        AGOPOutputs.init
        (StarSightingTable_station (ratCollabCrossing 1)
          (ratLandmarkRequest (ratEphemeris 0 (2 ^ 100) [0, 2 ^ 100])))
        1 0
      = some { out := { (AGOPOutputs.init : AGOPOutputs ℚ) with
                        errormessage := "INTERPOLATION FAILURE" },
               code := 4, GMT_elev := none } ∧
    StarSightingTable_landmark (ratCollabCrossing 1)
        (ratEphemeris 0 (2 ^ 100) [0, 2 ^ 100]) (_V 0 0 0)
        (ratLandmarkRequest (ratEphemeris 0 (2 ^ 100) [0, 2 ^ 100]))
        AGOPOutputs.init
      = some (Except.error { (AGOPOutputs.init : AGOPOutputs ℚ) with
                             errormessage := "LANDMARK NOT IN SIGHT" }) := by
  obtain ⟨TLf, TRf, jf, h1, _, _, _, h5, _, _, _, _⟩ :=
    FindLandmarkAOS_of_bracket (ratCollabCrossing 1)
      (ratEphemeris 0 (2 ^ 100) [0, 2 ^ 100]) (_V 0 0 0) AGOPOutputs.init
      (StarSightingTable_station (ratCollabCrossing 1)
        (ratLandmarkRequest (ratEphemeris 0 (2 ^ 100) [0, 2 ^ 100])))
      1 0 0 (2 ^ 100) (fun t => t - 1) rfl
      (ratCollabCrossing_bracket (2 ^ 100) 1 0 _ (_V 0 0 0) (by norm_num) (by norm_num)
        (by norm_num))
      (fun t _ _ => ratCollabCrossing_sinang _ _ _ _ t)
  have hj : jf = 100 := h5.mpr (by norm_num)
  subst hj
  have h := C8_StarSightingTable_cap_reported_as_not_in_sight (ratCollabCrossing 1)
    (ratEphemeris 0 (2 ^ 100) [0, 2 ^ 100]) (_V 0 0 0)
    (ratLandmarkRequest (ratEphemeris 0 (2 ^ 100) [0, 2 ^ 100]))
    AGOPOutputs.init { GMTAOS := 1, GMTEMAX := 2, MAXELEV := 1 } [] 0 (2 ^ 100) TLf TRf
    rfl (by norm_num [ratLandmarkRequest, ratInputs])
    (ratCollabCrossing_bracket (2 ^ 100) 1 0 _ (_V 0 0 0) (by norm_num) (by norm_num) (by norm_num))
    h1
  exact ⟨h.1, h.2.1⟩

/-- Counterexample to C8 as stated: a landmark request (mode 1) over `ℚ` whose ephemeris
has samples at times 0 and `2^101` (elevation equal to the time, target 0, acquisition
at time 1).  The interval halving reaches its cap of 100; `FindLandmarkAOS` writes
'INTERPOLATION FAILURE', the message of an interpolation failure, and the report
`StarSightingTable` returns carries 'LANDMARK NOT IN SIGHT', the visibility-failure
message: no error identifies the non-convergence. -/
theorem C8_counterexample :
    (∃ TLf TRf : ℚ,
      FindLandmarkAOS_halving (ratCollabCrossing 1).fp
          (FindLandmarkAOS_sinang (ratCollabCrossing 1)
            (ratEphemeris 0 (2 ^ 101) [0, 2 ^ 101])
            (StarSightingTable_station (ratCollabCrossing 1)
              (ratLandmarkRequest (ratEphemeris 0 (2 ^ 101) [0, 2 ^ 101])))
            (_V 0 0 0)) 0 1 100 100 0 (2 ^ 101) 0
        = some (Except.ok (TLf, TRf, 100)) ∧ TRf - TLf > 1) ∧
    (FindLandmarkAOS (ratCollabCrossing 1) (ratEphemeris 0 (2 ^ 101) [0, 2 ^ 101]) (_V 0 0 0)
        AGOPOutputs.init
        (StarSightingTable_station (ratCollabCrossing 1)
          (ratLandmarkRequest (ratEphemeris 0 (2 ^ 101) [0, 2 ^ 101])))
        1 0).map (fun r => (r.code, r.out.errormessage))
      = some (4, (WriteError (AGOPOutputs.init : AGOPOutputs ℚ) 4).errormessage) ∧
    (WriteError (AGOPOutputs.init : AGOPOutputs ℚ) 4).errormessage = "INTERPOLATION FAILURE" ∧
    StarSightingTable_landmark (ratCollabCrossing 1)
        (ratEphemeris 0 (2 ^ 101) [0, 2 ^ 101]) (_V 0 0 0)
        (ratLandmarkRequest (ratEphemeris 0 (2 ^ 101) [0, 2 ^ 101]))
        AGOPOutputs.init
      = some (Except.error (WriteError (AGOPOutputs.init : AGOPOutputs ℚ) 5)) ∧
    (WriteError (AGOPOutputs.init : AGOPOutputs ℚ) 5).errormessage
      = "LANDMARK NOT IN SIGHT" := by
  obtain ⟨TLf, TRf, jf, h1, _, h3, _, h5, _, _, _, h9⟩ :=
    FindLandmarkAOS_of_bracket (ratCollabCrossing 1)
      (ratEphemeris 0 (2 ^ 101) [0, 2 ^ 101]) (_V 0 0 0)
      AGOPOutputs.init
      (StarSightingTable_station (ratCollabCrossing 1)
        (ratLandmarkRequest (ratEphemeris 0 (2 ^ 101) [0, 2 ^ 101])))
      1 0 0 (2 ^ 101) (fun t => t - 1) rfl
      (ratCollabCrossing_bracket (2 ^ 101) 1 0 _ (_V 0 0 0) (by norm_num) (by norm_num)
        (by norm_num))
      (fun t _ _ => ratCollabCrossing_sinang _ _ _ _ t)
  have hj : jf = 100 := h5.mpr (by norm_num)
  subst hj
  have hF : FindLandmarkAOS (ratCollabCrossing 1) (ratEphemeris 0 (2 ^ 101) [0, 2 ^ 101]) (_V 0 0 0)
      AGOPOutputs.init
      (StarSightingTable_station (ratCollabCrossing 1)
        (ratLandmarkRequest (ratEphemeris 0 (2 ^ 101) [0, 2 ^ 101])))
      1 0 = some { out := WriteError AGOPOutputs.init 4, code := 4, GMT_elev := none } := by
    rw [h9, if_pos rfl]
  refine ⟨⟨TLf, TRf, h1, ?_⟩, ?_, ?_, ?_, ?_⟩
  · have h2 : (TRf - TLf) * 2 ^ 100 = 2 * 2 ^ 100 := by rw [h3]; norm_num
    have : TRf - TLf = 2 := mul_right_cancel₀ (by positivity) h2
    rw [this]; norm_num
  · rw [hF]; rfl
  · simp [WriteError]
  · have := StarSightingTable_landmark_of_failure (ratCollabCrossing 1)
      (ratEphemeris 0 (2 ^ 101) [0, 2 ^ 101]) (_V 0 0 0)
      (ratLandmarkRequest (ratEphemeris 0 (2 ^ 101) [0, 2 ^ 101]))
      AGOPOutputs.init { GMTAOS := 1, GMTEMAX := 2, MAXELEV := 1 } [] _ rfl
      (by norm_num [ratLandmarkRequest, ratInputs]) hF (by norm_num)
    rw [this, WriteError_five, WriteError_four]
  · simp [WriteError]

end AOS


section PointAOT

variable {K : Type} [LinearOrderedField K]

/-- Claim C20 (roll bias of the second pointing solution in `PointAOTWithCSM`): the loop
makes one call of `ThreeAxisPointing` when the first solution has
`cos (middle gimbal angle) > 0.2` and two calls otherwise, but every call receives
`OMICRON = 0`: the second call does not receive 90 degrees, and the attitude left in
`CSM_Att` is the one computed with `OMICRON = 0`. -/
theorem C20_PointAOTWithCSM_second_call_receives_zero (c : Collab K) (inp : AGOPInputs K)
    (u_ANB u_LOS : VECTOR3 K) (sv : EphemerisData K) (OMICRON0 : K) (CSM_Att0 : VECTOR3 K) :
    (PointAOTWithCSM_loop c inp u_ANB u_LOS sv 2
        { OMICRON := OMICRON0, CSM_Att := CSM_Att0, calls := [] }).calls
      = (if c.cm.cos (c.om.CALCGAR inp.CSM_REFSMMAT
            (ThreeAxisPointing c u_ANB u_LOS sv.R sv.V 0)).z > 1 / 5 then [0] else [0, 0])
    ∧ (PointAOTWithCSM_loop c inp u_ANB u_LOS sv 2
        { OMICRON := OMICRON0, CSM_Att := CSM_Att0, calls := [] }).CSM_Att
      = c.om.CALCGAR inp.CSM_REFSMMAT (ThreeAxisPointing c u_ANB u_LOS sv.R sv.V 0) := by
  by_cases h : c.cm.cos (c.om.CALCGAR inp.CSM_REFSMMAT
      (ThreeAxisPointing c u_ANB u_LOS sv.R sv.V 0)).z > 1 / 5
  · simp only [PointAOTWithCSM_loop, if_pos h, List.nil_append, and_self]
  · simp only [PointAOTWithCSM_loop, if_neg h, List.nil_append, List.singleton_append,
      and_self]

end PointAOT

section Catalog

variable {K : Type} [LinearOrderedField K] [FloorRing K]

/-- Claim C11 (star numbers above 400 in the star catalog mode): with a catalog of 400
entries and a star number above 400, `StarCatalog` reads the catalog at the index
`StarIDs[0] - 1`, outside the entries, while `GetStarUnitVector` resolves the same star
number to the supplied right ascension and declination. -/
theorem C11_StarCatalog_reads_outside_catalog (c : Collab K) (inp : AGOPInputs K)
    (out : AGOPOutputs K) (hlen : inp.startable.length = 400)
    (hid : 400 < inp.StarIDs 0) (h32 : inp.StarIDs 0 < 4294967296) :
    StarCatalog c inp out = none
    ∧ inp.startable[inp.StarIDs 0 - 1]? = none
    ∧ GetStarUnitVector c inp (inp.StarIDs 0)
        = some (c.om.r_from_latlong inp.StarDeclination inp.StarRightAscension) := by
  have hidx : (inp.StarIDs 0 + 4294967296 - 1) % 4294967296 = inp.StarIDs 0 - 1 := by omega
  have hnone : inp.startable[inp.StarIDs 0 - 1]? = none := by
    apply List.getElem?_eq_none
    omega
  refine ⟨?_, hnone, ?_⟩
  · unfold StarCatalog
    rw [hidx, hnone]
  · unfold GetStarUnitVector
    rw [if_neg (by omega)]

/-- Witness for C11: star number 401 with a catalog of 400 entries. -/
theorem C11_StarCatalog_reads_outside_catalog_witness :
    StarCatalog ratCollab (ratInputs 10 (ratEphemeris 0 25 []) ratCatalog (fun _ => 401))
        AGOPOutputs.init = none
    ∧ GetStarUnitVector ratCollab
        (ratInputs 10 (ratEphemeris 0 25 []) ratCatalog (fun _ => 401)) 401
        = some (_V 0 0 0) :=
  ⟨(C11_StarCatalog_reads_outside_catalog ratCollab
      (ratInputs 10 (ratEphemeris 0 25 []) ratCatalog (fun _ => 401)) AGOPOutputs.init
      (by simp only [ratInputs, ratCatalog, List.length_replicate])
      (by simp [ratInputs]) (by simp [ratInputs])).1,
   (C11_StarCatalog_reads_outside_catalog ratCollab
      (ratInputs 10 (ratEphemeris 0 25 []) ratCatalog (fun _ => 401)) AGOPOutputs.init
      (by simp only [ratInputs, ratCatalog, List.length_replicate])
      (by simp [ratInputs]) (by simp [ratInputs])).2.2⟩

end Catalog


section InterpolationFailure

variable {K : Type} [LinearOrderedField K]

theorem PassiveThermalControl_sample_interpolation_failure (c : Collab K)
    (inp : AGOPInputs K) (ephemeris : EphemerisDataTable2 K) (GMT : K)
    (h : (c.rtcc.ELVCTR GMT ephemeris).ErrorCode > 2) :
    PassiveThermalControl_sample c inp ephemeris GMT = Except.error 4 := by
  simp only [PassiveThermalControl_sample, Interpolation, if_pos h]

theorem PassiveThermalControl_loop_failure (c : Collab K) (inp : AGOPInputs K)
    (ephemeris : EphemerisDataTable2 K) (r : ℕ → PTCSample K) (k : ℕ) (hk : k < 10)
    (hspan : ∀ j : ℕ, 1 ≤ j → j ≤ k →
      sampleTime c.fp ephemeris.Header.TL inp.DeltaT j ≤ ephemeris.Header.TR)
    (hok : ∀ j : ℕ, j < k →
      PassiveThermalControl_sample c inp ephemeris
        (sampleTime c.fp ephemeris.Header.TL inp.DeltaT j) = Except.ok (r j))
    (hfail : (c.rtcc.ELVCTR (sampleTime c.fp ephemeris.Header.TL inp.DeltaT k)
      ephemeris).ErrorCode > 2) :
    ∀ (fuel i : ℕ) (out : AGOPOutputs K), i ≤ k → k < fuel + i →
      (PassiveThermalControl_loop c inp ephemeris fuel i
          (sampleTime c.fp ephemeris.Header.TL inp.DeltaT i) out).errormessage
        = "INTERPOLATION FAILURE"
      ∧ (PassiveThermalControl_loop c inp ephemeris fuel i
          (sampleTime c.fp ephemeris.Header.TL inp.DeltaT i) out).output_text
        = out.output_text ++ (List.range' i (k - i)).map (fun j => (r j).line) := by
  intro fuel
  induction fuel with
  | zero => intro i out hi hf; omega
  | succ fuel ih =>
    intro i out hi hf
    by_cases hik : i = k
    · subst hik
      simp only [PassiveThermalControl_loop,
        PassiveThermalControl_sample_interpolation_failure c inp ephemeris _ hfail,
        WriteError_four]
      simp
    · have hlt : i < k := by omega
      have hnext : c.fp.add (sampleTime c.fp ephemeris.Header.TL inp.DeltaT i) inp.DeltaT
          = sampleTime c.fp ephemeris.Header.TL inp.DeltaT (i + 1) := rfl
      have hle := hspan (i + 1) (by omega) (by omega)
      simp only [PassiveThermalControl_loop, hok i hlt]
      rw [hnext, if_neg (not_lt.mpr hle), if_pos (by omega)]
      obtain ⟨h1, h2⟩ := ih (i + 1) _ (by omega) (by omega)
      rw [h1, h2]
      have hn : k - i = (k - (i + 1)) + 1 := by omega
      rw [hn, List.range'_succ]
      simp

/-- Claim C18 (interpolation failure in `PassiveThermalControl`): if the samples
`0 .. k-1` are computed and the ephemeris interpolation returns an error code above 2 at
sample `k` (`k < 10`, the sample times up to sample `k`, as the loop accumulates them by
`GMT = GMT + DeltaT`, lying inside the span), the call ends with the error message
`INTERPOLATION FAILURE` and the report is the text present at entry, the three header
lines and the `k` lines of the samples `0 .. k-1`; nothing is assumed about any later
sample time. -/
theorem C18_PassiveThermalControl_interpolation_failure (c : Collab K) (inp : AGOPInputs K)
    (ephemeris : EphemerisDataTable2 K) (out : AGOPOutputs K) (r : ℕ → PTCSample K) (k : ℕ)
    (hk : k < 10)
    (hspan : ∀ j : ℕ, 1 ≤ j → j ≤ k →
      sampleTime c.fp ephemeris.Header.TL inp.DeltaT j ≤ ephemeris.Header.TR)
    (hok : ∀ j : ℕ, j < k →
      PassiveThermalControl_sample c inp ephemeris
        (sampleTime c.fp ephemeris.Header.TL inp.DeltaT j) = Except.ok (r j))
    (hfail : (c.rtcc.ELVCTR (sampleTime c.fp ephemeris.Header.TL inp.DeltaT k)
      ephemeris).ErrorCode > 2) :
    (PassiveThermalControl c ephemeris inp out).errormessage = "INTERPOLATION FAILURE"
    ∧ (PassiveThermalControl c ephemeris inp out).output_text
      = out.output_text ++ PassiveThermalControl_header ++
        (List.range k).map (fun j => (r j).line) := by
  have h := PassiveThermalControl_loop_failure c inp ephemeris r k hk hspan hok hfail 10 0
    { out with output_text := out.output_text ++ PassiveThermalControl_header }
    (by omega) (by omega)
  simp only [Nat.sub_zero] at h
  unfold PassiveThermalControl
  rw [List.range_eq_range']
  exact h

/-- The sample times of the span `[0, 25]` with step 10, the additions being exact. -/
theorem ratCollabInterpolationFails_sampleTime (t : ℚ) (j : ℕ) :
    sampleTime (ratCollabInterpolationFails t).fp
        (ratEphemeris 0 25 []).Header.TL
        (ratInputs 10 (ratEphemeris 0 25 []) [] (fun _ => 1)).DeltaT j
      = 0 + (j : ℚ) * 10 :=
  sampleTime_exact _ (fun _ _ => rfl) _ _ j

/-- Witness for C18: on the span `[0, 25]` with step 10 the interpolation fails at the
third sample (time 20); the report is the header and the lines of the first two samples. -/
theorem C18_PassiveThermalControl_interpolation_failure_witness :
    (PassiveThermalControl (ratCollabInterpolationFails 20) (ratEphemeris 0 25 [])
        (ratInputs 10 (ratEphemeris 0 25 []) [] (fun _ => 1)) AGOPOutputs.init).errormessage
      = "INTERPOLATION FAILURE"
    ∧ (PassiveThermalControl (ratCollabInterpolationFails 20) (ratEphemeris 0 25 [])
        (ratInputs 10 (ratEphemeris 0 25 []) [] (fun _ => 1)) AGOPOutputs.init).output_text
      = [] ++ PassiveThermalControl_header ++
          (List.range 2).map (fun j => (ratPTCSample j).line) :=
  C18_PassiveThermalControl_interpolation_failure (ratCollabInterpolationFails 20)
    (ratInputs 10 (ratEphemeris 0 25 []) [] (fun _ => 1)) (ratEphemeris 0 25 [])
    AGOPOutputs.init ratPTCSample 2 (by norm_num)
    (by
      intro j h1 h2
      have hj : (j : ℚ) ≤ 2 := by exact_mod_cast h2
      rw [ratCollabInterpolationFails_sampleTime]
      simp only [ratEphemeris]
      linarith)
    (by
      intro j hj
      have hne : ¬ ((j : ℚ) * 10 = 20) := by
        intro h
        have : (j : ℚ) = 2 := by linarith
        have : j = 2 := by exact_mod_cast this
        omega
      rw [ratCollabInterpolationFails_sampleTime]
      simp [ratPTCSample, PassiveThermalControl_sample, Interpolation,
        ratCollabInterpolationFails, ratCollab, ratRTCC, ratInputs, ratEphemeris, hne])
    (by
      rw [ratCollabInterpolationFails_sampleTime]
      simp [ratCollabInterpolationFails, ratCollab, ratRTCC, ratInputs, ratEphemeris]
      norm_num)

end InterpolationFailure


section AntennaConversion

variable {K : Type} [LinearOrderedField K]

theorem AntennaPointing_sample_error (c : Collab K) (inp : AGOPInputs K)
    (ephemeris : EphemerisDataTable2 K) (lat lng alt GMT : K) (e : Int)
    (h : AntennaPointing_sample c inp ephemeris lat lng alt GMT = Except.error e) :
    e = 4 ∨ e = 2 := by
  unfold AntennaPointing_sample at h
  cases hI : Interpolation c ephemeris GMT with
  | none =>
    rw [hI] at h
    left
    injection h with h
    exact h.symm
  | some sv =>
    rw [hI] at h
    simp only at h
    by_cases hc : sv.RBI ≠ Body.BODY_EARTH ∧ (c.rtcc.PLEFEM 4 (sv.GMT / 3600) 0).err = true
    · rw [if_pos hc] at h
      right
      injection h with h
      exact h.symm
    · rw [if_neg hc] at h
      cases h

theorem AntennaPointing_loop_errormessage (c : Collab K) (inp : AGOPInputs K)
    (ephemeris : EphemerisDataTable2 K) (lat lng alt : K) :
    ∀ (fuel i : ℕ) (GMT : K) (out : AGOPOutputs K),
      (AntennaPointing_loop c inp ephemeris lat lng alt fuel i GMT out).errormessage
          = out.errormessage
      ∨ (AntennaPointing_loop c inp ephemeris lat lng alt fuel i GMT out).errormessage
          = "EPHEMERIDES NOT AVAILABLE"
      ∨ (AntennaPointing_loop c inp ephemeris lat lng alt fuel i GMT out).errormessage
          = "INTERPOLATION FAILURE" := by
  intro fuel
  induction fuel with
  | zero => intro i GMT out; left; rfl
  | succ fuel ih =>
    intro i GMT out
    rw [AntennaPointing_loop]
    cases hs : AntennaPointing_sample c inp ephemeris lat lng alt GMT with
    | error e =>
      rcases AntennaPointing_sample_error c inp ephemeris lat lng alt GMT e hs with h | h
      · subst h; right; right; simp [WriteError]
      · subst h; right; left; simp [WriteError]
    | ok s =>
      simp only
      split_ifs
      · left; rfl
      · exact ih _ _ _
      · left; rfl

/-- Claim C19 (frame-conversion failure in `AntennaPointing`): the function never writes
the frame-conversion error: the error message it leaves is the one present at entry,
`GROUND STATION NOT FOUND`, `EPHEMERIDES NOT AVAILABLE` or `INTERPOLATION FAILURE`, for
every collaborator and request.  With a frame converter that fails on every call,
`GetInertialLandmarkVector` returns `true` at the sample times 0, 10 and 20 of the span
`[0, 25]`, yet the call leaves the error message empty and writes the four header lines
and one pointing line for each of the three samples. -/
theorem C19_AntennaPointing_conversion_failure_not_reported :
    (∀ (c : Collab K) (ephemeris : EphemerisDataTable2 K) (inp : AGOPInputs K)
        (out : AGOPOutputs K),
      (AntennaPointing c ephemeris inp out).errormessage = out.errormessage
      ∨ (AntennaPointing c ephemeris inp out).errormessage = "GROUND STATION NOT FOUND"
      ∨ (AntennaPointing c ephemeris inp out).errormessage = "EPHEMERIDES NOT AVAILABLE"
      ∨ (AntennaPointing c ephemeris inp out).errormessage = "INTERPOLATION FAILURE")
    ∧ (∀ t : ℚ, (GetInertialLandmarkVector ratCollabConversionFails 0 0 0 t true).1 = true)
    ∧ (AntennaPointing ratCollabConversionFails (ratEphemeris 0 25 [])
        (ratInputs 10 (ratEphemeris 0 25 []) [] (fun _ => 1)) AGOPOutputs.init).errormessage
      = ""
    ∧ (AntennaPointing ratCollabConversionFails (ratEphemeris 0 25 [])
        (ratInputs 10 (ratEphemeris 0 25 []) [] (fun _ => 1)) AGOPOutputs.init).output_text
      = AntennaPointing_header ratCollabConversionFails
          (ratInputs 10 (ratEphemeris 0 25 []) [] (fun _ => 1)) ++
        ["000:00:0x " ++
          "%03.0lf %03.0lf %03.0lf %03.0lf %03.0lf  %03.0lf %03.0lf %03.0lf %03.0lf %03.0lf",
         "000:00:xx " ++
          "%03.0lf %03.0lf %03.0lf %03.0lf %03.0lf  %03.0lf %03.0lf %03.0lf %03.0lf %03.0lf",
         "000:00:xx " ++
          "%03.0lf %03.0lf %03.0lf %03.0lf %03.0lf  %03.0lf %03.0lf %03.0lf %03.0lf %03.0lf"] := by
  refine ⟨?_, ?_, ?_, ?_⟩
  · intro c ephemeris inp out
    unfold AntennaPointing
    cases hst : AntennaPointing_station c inp with
    | none => right; left; simp [WriteError]
    | some p =>
      obtain ⟨lat, lng, alt⟩ := p
      simp only
      rcases AntennaPointing_loop_errormessage c inp ephemeris lat lng alt 10 0
        ephemeris.Header.TL
        { out with output_text := out.output_text ++ AntennaPointing_header c inp }
        with h | h | h
      · left; exact h
      · right; right; left; exact h
      · right; right; right; exact h
  · intro t
    simp [GetInertialLandmarkVector, ratCollabConversionFails, ratCollab, ratRTCC]
  · simp [AntennaPointing, AntennaPointing_station, AntennaPointing_loop,
      AntennaPointing_sample, Interpolation, ratCollabConversionFails, ratCollab, ratRTCC,
      ratInputs, ratEphemeris, AGOPOutputs.init, exactArith]
    norm_num
  · simp [AntennaPointing, AntennaPointing_station, AntennaPointing_loop,
      AntennaPointing_sample, Interpolation, ratCollabConversionFails, ratCollab, ratRTCC,
      ratInputs, ratEphemeris, AGOPOutputs.init, ratOrbMech, ratFormat, exactArith]
    norm_num
    rfl

end AntennaConversion


section AOTTechnique

variable {K : Type} [LinearOrderedField K]

theorem VECTOR3.add_eq (a b : VECTOR3 K) : a + b = VECTOR3.add a b := rfl

theorem VECTOR3.sub_eq (a b : VECTOR3 K) : a - b = VECTOR3.sub a b := rfl

theorem VECTOR3.neg_eq (a : VECTOR3 K) : -a = VECTOR3.neg a := rfl

theorem GetAOTNBVector_direct (cm : CMath K)
    (hsc : ∀ x : K, cm.sin x * cm.sin x + cm.cos x * cm.cos x = 1) (hsqrt : cm.sqrt 1 = 1)
    (EL AZ : K) (axis : Int) :
    GetAOTNBVector cm EL AZ 0 0 axis
      = _V (cm.sin EL) (cm.cos EL * cm.sin AZ) (cm.cos EL * cm.cos AZ) := by
  have hE := hsc EL
  have hA := hsc AZ
  have hR := hsc (0 - AZ)
  have hlen : (cm.sin EL * cm.sin EL + cm.cos EL * cm.sin AZ * (cm.cos EL * cm.sin AZ)
      + cm.cos EL * cm.cos AZ * (cm.cos EL * cm.cos AZ)) = 1 := by
    linear_combination hE + (cm.cos EL * cm.cos EL) * hA
  have hcross : crossp
      ((crossp (_V 0 (cm.cos AZ) (-(cm.sin AZ)))
          (_V (cm.sin EL) (cm.cos EL * cm.sin AZ) (cm.cos EL * cm.cos AZ))).smul
          (cm.cos (0 - AZ)) + (_V 0 (cm.cos AZ) (-(cm.sin AZ))).smul (cm.sin (0 - AZ)))
      ((-(crossp (_V 0 (cm.cos AZ) (-(cm.sin AZ)))
          (_V (cm.sin EL) (cm.cos EL * cm.sin AZ) (cm.cos EL * cm.cos AZ)))).smul
          (cm.sin (0 - AZ)) + (_V 0 (cm.cos AZ) (-(cm.sin AZ))).smul (cm.cos (0 - AZ)))
      = _V (cm.sin EL) (cm.cos EL * cm.sin AZ) (cm.cos EL * cm.cos AZ) := by
    simp only [VECTOR3.add_eq, VECTOR3.neg_eq, crossp, _V, VECTOR3.smul, VECTOR3.add,
      VECTOR3.neg, VECTOR3.mk.injEq]
    refine ⟨?_, ?_, ?_⟩
    · linear_combination (cm.sin EL * (cm.cos AZ * cm.cos AZ + cm.sin AZ * cm.sin AZ)) * hR
        + cm.sin EL * hA
    · linear_combination
        (cm.cos EL * cm.sin AZ * (cm.cos AZ * cm.cos AZ + cm.sin AZ * cm.sin AZ)) * hR
        + (cm.cos EL * cm.sin AZ) * hA
    · linear_combination
        (cm.cos EL * cm.cos AZ * (cm.cos AZ * cm.cos AZ + cm.sin AZ * cm.sin AZ)) * hR
        + (cm.cos EL * cm.cos AZ) * hA
  rw [GetAOTNBVector]
  simp only [and_self, if_true]
  rw [hcross]
  simp only [unit, length, _V, hlen, hsqrt, VECTOR3.sdiv, div_one]

/-- Claim C16 (technique selection in `GetAOTNBVector`): for a math library with
`sin^2 + cos^2 = 1` and `sqrt 1 = 1`, the result is the detent boresight
`(sin EL, cos EL sin AZ, cos EL cos AZ)` when the reticle angle and the spiral angle are
both exactly zero, for every azimuth, elevation and line ID, and the reticle/spiral
formula of the source for every other pair of angles. -/
theorem C16_GetAOTNBVector_technique_selection (cm : CMath K)
    (hsc : ∀ x : K, cm.sin x * cm.sin x + cm.cos x * cm.cos x = 1) (hsqrt : cm.sqrt 1 = 1)
    (EL AZ ReticleAngle SpiraleAngle : K) (axis : Int) :
    GetAOTNBVector cm EL AZ ReticleAngle SpiraleAngle axis
      = if ReticleAngle = 0 ∧ SpiraleAngle = 0 then
          _V (cm.sin EL) (cm.cos EL * cm.sin AZ) (cm.cos EL * cm.cos AZ)
        else
          let u_OAN := _V (cm.sin EL) (cm.cos EL * cm.sin AZ) (cm.cos EL * cm.cos AZ)
          let u_YPN_apo := _V 0 (cm.cos AZ) (-(cm.sin AZ))
          let u_XPN_apo := crossp u_YPN_apo u_OAN
          let u_XPN := u_XPN_apo.smul (cm.cos (0 - AZ)) + u_YPN_apo.smul (cm.sin (0 - AZ))
          let u_YPN := (-u_XPN_apo).smul (cm.sin (0 - AZ)) + u_YPN_apo.smul (cm.cos (0 - AZ))
          let YROT :=
            if axis = 2 then ReticleAngle + 270 * RAD cm
            else if axis = 3 then ReticleAngle + 180 * RAD cm
            else if axis = 4 then ReticleAngle + 90 * RAD cm
            else ReticleAngle
          let SEP := (PI2 cm + SpiraleAngle - YROT) / 12
          let u_YPN_aapo := (-u_XPN).smul (cm.sin YROT) + u_YPN.smul (cm.cos YROT)
          u_OAN.smul (cm.cos SEP) + (crossp u_YPN_aapo u_OAN).smul (cm.sin SEP) := by
  by_cases h : ReticleAngle = 0 ∧ SpiraleAngle = 0
  · rw [if_pos h]
    obtain ⟨h1, h2⟩ := h
    subst h1
    subst h2
    exact GetAOTNBVector_direct cm hsc hsqrt EL AZ axis
  · rw [if_neg h, GetAOTNBVector, if_neg h]

/-- Witness for C16: with the real elementary functions, elevation `pi/4`, azimuth `pi/3`
and both angles zero, the result is the detent boresight. -/
theorem C16_GetAOTNBVector_technique_selection_witness :
    GetAOTNBVector (⟨Real.sqrt, Real.sin, Real.cos, Real.arcsin, Real.arccos, Real.arctan,
        fun y x => Complex.arg ⟨x, y⟩, Real.pi⟩ : CMath ℝ) (Real.pi / 4) (Real.pi / 3) 0 0 1
      = _V (Real.sin (Real.pi / 4)) (Real.cos (Real.pi / 4) * Real.sin (Real.pi / 3))
          (Real.cos (Real.pi / 4) * Real.cos (Real.pi / 3)) :=
  (C16_GetAOTNBVector_technique_selection
    (⟨Real.sqrt, Real.sin, Real.cos, Real.arcsin, Real.arccos, Real.arctan,
        fun y x => Complex.arg ⟨x, y⟩, Real.pi⟩ : CMath ℝ)
    (fun x => by
      show Real.sin x * Real.sin x + Real.cos x * Real.cos x = 1
      have := Real.sin_sq_add_cos_sq x
      nlinarith [this])
    Real.sqrt_one (Real.pi / 4) (Real.pi / 3) 0 0 1).trans (if_pos ⟨rfl, rfl⟩)

end AOTTechnique


section Steerable

theorem LMSteerableAngles_Z_axis (om : OrbMechLib ℝ) (rtcc : RTCCServices ℝ)
    (fmt : CFormat ℝ) (fp : DoubleArith ℝ) :
    LMSteerableAngles
      ⟨⟨Real.sqrt, Real.sin, Real.cos, Real.arcsin, Real.arccos, Real.arctan,
        fun y x => Complex.arg ⟨x, y⟩, Real.pi⟩, om, rtcc, fmt, fp⟩
      (_V 0 0 1) (_M 1 0 0 0 1 0 0 0 1) (_M 1 0 0 0 1 0 0 0 1) = (0, 0) := by
  simp only [LMSteerableAngles, NBSA, mul, _V, _M, mul_zero, mul_one, add_zero, zero_add,
    zero_mul, one_mul]
  simp only [unit, length, VECTOR3.sdiv, _V, mul_zero, mul_one, add_zero, zero_add,
    Real.sqrt_one, div_one, zero_div, dotp, VECTOR3.smul, VECTOR3.sub_eq, VECTOR3.sub,
    sub_zero, sub_self, Real.sqrt_zero, crossp, zero_mul, one_mul]
  simp

/-- Claim C15 (steerable antenna round trip): the unit LM body vector `(0, 0, 1)`, which is
the Z axis of the steerable-antenna frame, gives `(pitch, yaw) = (0, 0)` in
`LMSteerableAngles` with identity matrices, and `GetBodyFixedSteerableAntennaVector`
maps `(0, 0)` to `(cos 45°, sin 45°, 0)`, whose third component is 0 and not 1: the
round trip does not return the vector. -/
theorem C15_LMSteerable_round_trip_fails (om : OrbMechLib ℝ) (rtcc : RTCCServices ℝ)
    (fmt : CFormat ℝ) (fp : DoubleArith ℝ) :
    LMSteerableAngles
        ⟨⟨Real.sqrt, Real.sin, Real.cos, Real.arcsin, Real.arccos, Real.arctan,
          fun y x => Complex.arg ⟨x, y⟩, Real.pi⟩, om, rtcc, fmt, fp⟩
        (_V 0 0 1) (_M 1 0 0 0 1 0 0 0 1) (_M 1 0 0 0 1 0 0 0 1) = (0, 0)
    ∧ GetBodyFixedSteerableAntennaVector
        ⟨Real.sqrt, Real.sin, Real.cos, Real.arcsin, Real.arccos, Real.arctan,
          fun y x => Complex.arg ⟨x, y⟩, Real.pi⟩ 0 0
      = _V (Real.cos (45 * (Real.pi / 180))) (Real.sin (45 * (Real.pi / 180))) 0
    ∧ GetBodyFixedSteerableAntennaVector
        ⟨Real.sqrt, Real.sin, Real.cos, Real.arcsin, Real.arccos, Real.arctan,
          fun y x => Complex.arg ⟨x, y⟩, Real.pi⟩
        (LMSteerableAngles
          ⟨⟨Real.sqrt, Real.sin, Real.cos, Real.arcsin, Real.arccos, Real.arctan,
            fun y x => Complex.arg ⟨x, y⟩, Real.pi⟩, om, rtcc, fmt, fp⟩
          (_V 0 0 1) (_M 1 0 0 0 1 0 0 0 1) (_M 1 0 0 0 1 0 0 0 1)).1
        (LMSteerableAngles
          ⟨⟨Real.sqrt, Real.sin, Real.cos, Real.arcsin, Real.arccos, Real.arctan,
            fun y x => Complex.arg ⟨x, y⟩, Real.pi⟩, om, rtcc, fmt, fp⟩
          (_V 0 0 1) (_M 1 0 0 0 1 0 0 0 1) (_M 1 0 0 0 1 0 0 0 1)).2
      ≠ _V 0 0 1 := by
  have h2 : GetBodyFixedSteerableAntennaVector
        ⟨Real.sqrt, Real.sin, Real.cos, Real.arcsin, Real.arccos, Real.arctan,
          fun y x => Complex.arg ⟨x, y⟩, Real.pi⟩ 0 0
      = _V (Real.cos (45 * (Real.pi / 180))) (Real.sin (45 * (Real.pi / 180))) 0 := by
    simp [GetBodyFixedSteerableAntennaVector, NBSA, tmul, _V, _M, RAD]
  refine ⟨LMSteerableAngles_Z_axis om rtcc fmt fp, h2, ?_⟩
  rw [LMSteerableAngles_Z_axis om rtcc fmt fp, h2]
  intro h
  have hz := congrArg VECTOR3.z h
  simp [_V] at hz

end Steerable

section AOTBoresight

/-- Claim C17 (AOT scenario at the detent boresight): with detent azimuth and elevation
zero and zero reticle and spiral angles, `GetAOTNBVector` returns the boresight
`(0, 0, 1)` and `InstrumentLimitCheck` accepts it.  In `AOTAngles` the vector
`crossp(u_OAN, u_NB)` is the zero vector whenever `u_NB` is the boresight `u_OAN`, for
every detent azimuth and elevation, so `TS4 = unit(crossp(u_OAN, u_NB))` is a zero vector
divided by a zero length (`NaN` in the arithmetic of `double`).  Reading `0/0` as `0`,
the angles come out as `(pi/2, pi/2)`, and for no bound on the two `while` loops are
they `(0, 0)`. -/
theorem C17_AOTAngles_boresight_not_zero :
    GetNBUnitVectorFromInstrument
        (refCollab ⟨Real.sqrt, Real.sin, Real.cos, Real.arcsin, Real.arccos, Real.arctan,
          fun y x => Complex.arg ⟨x, y⟩, Real.pi⟩)
        { sightingInputs ⟨Real.sqrt, Real.sin, Real.cos, Real.arcsin, Real.arccos,
            Real.arctan, fun y x => Complex.arg ⟨x, y⟩, Real.pi⟩ 0 with Instrument := 2 } 0
      = _V 0 0 1
    ∧ InstrumentLimitCheck
        (refCollab ⟨Real.sqrt, Real.sin, Real.cos, Real.arcsin, Real.arccos, Real.arctan,
          fun y x => Complex.arg ⟨x, y⟩, Real.pi⟩)
        { sightingInputs ⟨Real.sqrt, Real.sin, Real.cos, Real.arcsin, Real.arccos,
            Real.arctan, fun y x => Complex.arg ⟨x, y⟩, Real.pi⟩ 0 with Instrument := 2 }
        (_V 0 0 1) = true
    ∧ (∀ v : VECTOR3 ℝ, crossp v v = _V 0 0 0)
    ∧ length (⟨Real.sqrt, Real.sin, Real.cos, Real.arcsin, Real.arccos, Real.arctan,
          fun y x => Complex.arg ⟨x, y⟩, Real.pi⟩ : CMath ℝ)
        (crossp (_V 0 0 1) (_V 0 0 1)) = 0
    ∧ (∀ fuel : ℕ, AOTAngles
        (refCollab ⟨Real.sqrt, Real.sin, Real.cos, Real.arcsin, Real.arccos, Real.arctan,
          fun y x => Complex.arg ⟨x, y⟩, Real.pi⟩) (fuel + 2) 0 (_V 0 0 1)
        = some (Real.pi / 2, Real.pi / 2))
    ∧ (∀ fuel : ℕ, AOTAngles
        (refCollab ⟨Real.sqrt, Real.sin, Real.cos, Real.arcsin, Real.arccos, Real.arctan,
          fun y x => Complex.arg ⟨x, y⟩, Real.pi⟩) fuel 0 (_V 0 0 1)
        ≠ some (0, 0)) := by
  have hpi := Real.pi_pos
  have hA : ∀ fuel : ℕ, AOTAngles
        (refCollab ⟨Real.sqrt, Real.sin, Real.cos, Real.arcsin, Real.arccos, Real.arctan,
          fun y x => Complex.arg ⟨x, y⟩, Real.pi⟩) (fuel + 2) 0 (_V 0 0 1)
        = some (Real.pi / 2, Real.pi / 2) := by
    intro fuel
    have h0 : (0 : ℝ) ≤ Real.pi / 2 := by linarith
    have h1 : ¬ (2 * Real.pi ≤ Real.pi / 2) := by linarith
    have h2 : (2 * Real.pi + Real.pi / 2 - 2 * Real.pi) = Real.pi / 2 := by ring
    simp [AOTAngles, GetAOTNBAngle, refCollab, refRTCC, unit, length, crossp, dotp, _V,
      VECTOR3.sdiv, PI2, subtractWhileGE, h0, h1, h2]
  refine ⟨?_, ?_, ?_, ?_, hA, ?_⟩
  · simp [GetNBUnitVectorFromInstrument, sightingInputs, GetAOTNBAngle, refCollab, refRTCC,
      GetAOTNBVector, unit, length, crossp, _V, VECTOR3.add_eq, VECTOR3.neg_eq,
      VECTOR3.add, VECTOR3.neg, VECTOR3.smul, VECTOR3.sdiv]
  · simp [InstrumentLimitCheck, sightingInputs, GetAOTNBAngle, refCollab, refRTCC,
      refOrbMech, dotp, _V, RAD]
    positivity
  · intro v
    simp only [crossp, _V, VECTOR3.mk.injEq]
    refine ⟨by ring, by ring, by ring⟩
  · simp [length, crossp, _V]
  · intro fuel
    match fuel with
    | 0 => simp [AOTAngles, subtractWhileGE]
    | 1 =>
      have h0 : (0 : ℝ) ≤ Real.pi / 2 := by linarith
      simp [AOTAngles, GetAOTNBAngle, refCollab, refRTCC, unit, length, crossp, dotp, _V,
        VECTOR3.sdiv, PI2, subtractWhileGE, h0]
    | fuel + 2 =>
      rw [hA fuel]
      intro h
      injection h with h
      have := congrArg Prod.fst h
      simp at this
      linarith

end AOTBoresight


section CSMCOAS

theorem CSMCOAS_round_trip_of_pos (x y z : ℝ) (hx : 0 < x)
    (hu : x * x + y * y + z * z = 1) :
    GetCSMCOASVector ⟨Real.sqrt, Real.sin, Real.cos, Real.arcsin, Real.arccos, Real.arctan,
        fun y x => Complex.arg ⟨x, y⟩, Real.pi⟩ (-(Real.arctan (z / x))) (Real.arcsin y)
      = _V x y (-z) := by
  have hy1 : -1 ≤ y := by nlinarith
  have hy2 : y ≤ 1 := by nlinarith
  have hpos : 0 < x ^ 2 + z ^ 2 := by positivity
  have hr : Real.sqrt (1 - y ^ 2) = Real.sqrt (x ^ 2 + z ^ 2) := by
    congr 1
    linarith
  have hrpos : 0 < Real.sqrt (x ^ 2 + z ^ 2) := Real.sqrt_pos.mpr hpos
  have hs : Real.sqrt (1 + (z / x) ^ 2) = Real.sqrt (x ^ 2 + z ^ 2) / x := by
    have : 1 + (z / x) ^ 2 = (x ^ 2 + z ^ 2) / x ^ 2 := by
      field_simp
    rw [this, Real.sqrt_div hpos.le, Real.sqrt_sq hx.le]
  have hX : Real.cos (-(Real.arctan (z / x))) * Real.cos (Real.arcsin y) = x := by
    rw [Real.cos_neg, Real.cos_arctan, Real.cos_arcsin, hs, hr]
    field_simp
  have hY : Real.sin (Real.arcsin y) = y := Real.sin_arcsin hy1 hy2
  have hZ : Real.sin (-(Real.arctan (z / x))) * Real.cos (Real.arcsin y) = -z := by
    rw [Real.sin_neg, Real.sin_arctan, Real.cos_arcsin, hs, hr]
    field_simp
  have hlen : x * x + y * y + -z * -z = 1 := by linarith
  simp only [GetCSMCOASVector, hX, hY, hZ, unit, length, _V, VECTOR3.sdiv, hlen,
    Real.sqrt_one, div_one]

/-- Claim C12 (CSM COAS round trip): for every unit navigation-base vector `u` accepted
by the CSM COAS limit check, `GetCSMCOASVector` applied to the angles of `CSMCOASAngles`
returns `(u.x, u.y, -u.z)`, the mirror image of `u` in the X-Y plane, and so does not
return `u` when `u.z` is not zero. -/
theorem C12_CSMCOAS_round_trip_mirrors_z (om : OrbMechLib ℝ) (rtcc : RTCCServices ℝ)
    (fmt : CFormat ℝ) (fp : DoubleArith ℝ) (inp : AGOPInputs ℝ) (u : VECTOR3 ℝ)
    (hinst : inp.Instrument = 3)
    (hu : u.x * u.x + u.y * u.y + u.z * u.z = 1)
    (hacc : InstrumentLimitCheck
      ⟨⟨Real.sqrt, Real.sin, Real.cos, Real.arcsin, Real.arccos, Real.arctan,
        fun y x => Complex.arg ⟨x, y⟩, Real.pi⟩, om, rtcc, fmt, fp⟩ inp u = true) :
    GetCSMCOASVector ⟨Real.sqrt, Real.sin, Real.cos, Real.arcsin, Real.arccos, Real.arctan,
        fun y x => Complex.arg ⟨x, y⟩, Real.pi⟩
      (CSMCOASAngles ⟨Real.sqrt, Real.sin, Real.cos, Real.arcsin, Real.arccos, Real.arctan,
        fun y x => Complex.arg ⟨x, y⟩, Real.pi⟩ u).1
      (CSMCOASAngles ⟨Real.sqrt, Real.sin, Real.cos, Real.arcsin, Real.arccos, Real.arctan,
        fun y x => Complex.arg ⟨x, y⟩, Real.pi⟩ u).2
      = _V u.x u.y (-u.z)
    ∧ (u.z ≠ 0 →
      GetCSMCOASVector ⟨Real.sqrt, Real.sin, Real.cos, Real.arcsin, Real.arccos, Real.arctan,
        fun y x => Complex.arg ⟨x, y⟩, Real.pi⟩
      (CSMCOASAngles ⟨Real.sqrt, Real.sin, Real.cos, Real.arcsin, Real.arccos, Real.arctan,
        fun y x => Complex.arg ⟨x, y⟩, Real.pi⟩ u).1
      (CSMCOASAngles ⟨Real.sqrt, Real.sin, Real.cos, Real.arcsin, Real.arccos, Real.arctan,
        fun y x => Complex.arg ⟨x, y⟩, Real.pi⟩ u).2 ≠ u) := by
  have hpi := Real.pi_pos
  have hx : 0 < u.x := by
    apply Real.arccos_lt_pi_div_two.mp
    simp only [InstrumentLimitCheck, hinst, RAD] at hacc
    norm_num at hacc
    split_ifs at hacc <;> linarith
  have h := CSMCOAS_round_trip_of_pos u.x u.y u.z hx hu
  refine ⟨h, ?_⟩
  intro hz heq
  have h2 : GetCSMCOASVector ⟨Real.sqrt, Real.sin, Real.cos, Real.arcsin, Real.arccos,
      Real.arctan, fun y x => Complex.arg ⟨x, y⟩, Real.pi⟩ (-(Real.arctan (u.z / u.x)))
      (Real.arcsin u.y) = u := heq
  rw [h] at h2
  have h3 := congrArg VECTOR3.z h2
  simp only [_V] at h3
  apply hz
  linarith

/-- Witness for C12: the unit vector `(cos 10°, 0, sin 10°)` is accepted by the CSM COAS
limit check, and the round trip returns `(cos 10°, 0, -sin 10°)`, which is not the
vector. -/
theorem C12_CSMCOAS_round_trip_mirrors_z_witness :
    InstrumentLimitCheck
        (refCollab ⟨Real.sqrt, Real.sin, Real.cos, Real.arcsin, Real.arccos, Real.arctan,
          fun y x => Complex.arg ⟨x, y⟩, Real.pi⟩)
        (sightingInputs ⟨Real.sqrt, Real.sin, Real.cos, Real.arcsin, Real.arccos,
          Real.arctan, fun y x => Complex.arg ⟨x, y⟩, Real.pi⟩ 0)
        (_V (Real.cos (Real.pi / 18)) 0 (Real.sin (Real.pi / 18))) = true
    ∧ GetCSMCOASVector ⟨Real.sqrt, Real.sin, Real.cos, Real.arcsin, Real.arccos,
        Real.arctan, fun y x => Complex.arg ⟨x, y⟩, Real.pi⟩
      (CSMCOASAngles ⟨Real.sqrt, Real.sin, Real.cos, Real.arcsin, Real.arccos, Real.arctan,
        fun y x => Complex.arg ⟨x, y⟩, Real.pi⟩
        (_V (Real.cos (Real.pi / 18)) 0 (Real.sin (Real.pi / 18)))).1
      (CSMCOASAngles ⟨Real.sqrt, Real.sin, Real.cos, Real.arcsin, Real.arccos, Real.arctan,
        fun y x => Complex.arg ⟨x, y⟩, Real.pi⟩
        (_V (Real.cos (Real.pi / 18)) 0 (Real.sin (Real.pi / 18)))).2
      ≠ _V (Real.cos (Real.pi / 18)) 0 (Real.sin (Real.pi / 18)) := by
  have hpi := Real.pi_pos
  have hsin : 0 < Real.sin (Real.pi / 18) :=
    Real.sin_pos_of_pos_of_lt_pi (by linarith) (by linarith)
  have hacos : Real.arccos (Real.cos (Real.pi / 18)) = Real.pi / 18 :=
    Real.arccos_cos (by linarith) (by linarith)
  have hacc : InstrumentLimitCheck
        (refCollab ⟨Real.sqrt, Real.sin, Real.cos, Real.arcsin, Real.arccos, Real.arctan,
          fun y x => Complex.arg ⟨x, y⟩, Real.pi⟩)
        (sightingInputs ⟨Real.sqrt, Real.sin, Real.cos, Real.arcsin, Real.arccos,
          Real.arctan, fun y x => Complex.arg ⟨x, y⟩, Real.pi⟩ 0)
        (_V (Real.cos (Real.pi / 18)) 0 (Real.sin (Real.pi / 18))) = true := by
    simp only [InstrumentLimitCheck, sightingInputs, refCollab, RAD, _V, abs_zero,
      Real.arcsin_zero, hacos]
    norm_num
    refine ⟨by positivity, ?_⟩
    rw [if_neg (not_lt.mpr hsin.le)]
    linarith
  exact ⟨hacc,
    (C12_CSMCOAS_round_trip_mirrors_z _ _ _ _ _
      (_V (Real.cos (Real.pi / 18)) 0 (Real.sin (Real.pi / 18))) rfl
      (by
        simp only [_V]
        have := Real.sin_sq_add_cos_sq (Real.pi / 18)
        nlinarith [this])
      hacc).2 (ne_of_gt hsin)⟩

end CSMCOAS


section RendezvousRadar

theorem sin_cos_arg_of_unit (a b : ℝ) (h : a * a + b * b = 1) :
    Real.sin (Complex.arg ⟨a, b⟩) = b ∧ Real.cos (Complex.arg ⟨a, b⟩) = a := by
  have habs : Complex.abs ⟨a, b⟩ = 1 := by
    rw [Complex.abs_apply, Complex.normSq_mk, h, Real.sqrt_one]
  have hne : (⟨a, b⟩ : ℂ) ≠ 0 := by
    intro h0
    rw [h0] at habs
    simp at habs
  constructor
  · rw [Complex.sin_arg, habs, div_one]
  · rw [Complex.cos_arg hne, habs, div_one]

theorem RR_round_trip_components (x y z : ℝ) (hu : x * x + y * y + z * z = 1)
    (hy1 : y ≠ 1) (hy2 : y ≠ -1) :
    GetBodyFixedRRVector ⟨Real.sqrt, Real.sin, Real.cos, Real.arcsin, Real.arccos,
        Real.arctan, fun y x => Complex.arg ⟨x, y⟩, Real.pi⟩
      (RRAngles ⟨Real.sqrt, Real.sin, Real.cos, Real.arcsin, Real.arccos, Real.arctan,
        fun y x => Complex.arg ⟨x, y⟩, Real.pi⟩ (_V x y z)
        (_M 1 0 0 0 1 0 0 0 1) (_M 1 0 0 0 1 0 0 0 1)).1
      (RRAngles ⟨Real.sqrt, Real.sin, Real.cos, Real.arcsin, Real.arccos, Real.arctan,
        fun y x => Complex.arg ⟨x, y⟩, Real.pi⟩ (_V x y z)
        (_M 1 0 0 0 1 0 0 0 1) (_M 1 0 0 0 1 0 0 0 1)).2
      = _V x y z := by
  have hyy : y * y < 1 := by
    have h1 : y * y ≤ 1 := by nlinarith
    rcases lt_or_eq_of_le h1 with h | h
    · exact h
    · exfalso
      have : (y - 1) * (y + 1) = 0 := by linarith
      rcases mul_eq_zero.mp this with h2 | h2
      · exact hy1 (by linarith)
      · exact hy2 (by linarith)
  have hy1 : -1 ≤ y := by nlinarith
  have hy2 : y ≤ 1 := by nlinarith
  have hpos : 0 < x * x + z * z := by linarith
  have hρ : 0 < Real.sqrt (x * x + z * z) := Real.sqrt_pos.mpr hpos
  have hρ2 : Real.sqrt (x * x + z * z) * Real.sqrt (x * x + z * z) = x * x + z * z :=
    Real.mul_self_sqrt hpos.le
  have hcosy : Real.cos (Real.arcsin y) = Real.sqrt (x * x + z * z) := by
    rw [Real.cos_arcsin]
    congr 1
    linarith
  have hsiny : Real.sin (Real.arcsin y) = y := Real.sin_arcsin hy1 hy2
  have hw : z / Real.sqrt (x * x + z * z) * (z / Real.sqrt (x * x + z * z))
      + x / Real.sqrt (x * x + z * z) * (x / Real.sqrt (x * x + z * z)) = 1 := by
    field_simp
    linarith
  obtain ⟨hsa, hca⟩ := sin_cos_arg_of_unit _ _ hw
  simp only [RRAngles, GetBodyFixedRRVector, unit, length, mul, _V, _M, VECTOR3.sdiv, hu,
    Real.sqrt_one, div_one, one_mul, zero_mul, add_zero, zero_add, mul_zero, PI2]
  have hsh : ∀ s : ℝ, Real.sin (if s < 0 then s + 2 * Real.pi else s) = Real.sin s ∧
      Real.cos (if s < 0 then s + 2 * Real.pi else s) = Real.cos s := by
    intro s
    split_ifs
    · exact ⟨Real.sin_add_two_pi s, Real.cos_add_two_pi s⟩
    · exact ⟨rfl, rfl⟩
  have htr : Real.sin (2 * Real.pi - (2 * Real.pi -
        (if -Real.arcsin y < 0 then -Real.arcsin y + 2 * Real.pi else -Real.arcsin y))) = -y
      ∧ Real.cos (2 * Real.pi - (2 * Real.pi -
        (if -Real.arcsin y < 0 then -Real.arcsin y + 2 * Real.pi else -Real.arcsin y)))
        = Real.sqrt (x * x + z * z) := by
    rw [sub_sub_cancel]
    obtain ⟨h1, h2⟩ := hsh (-Real.arcsin y)
    rw [h1, h2, Real.sin_neg, Real.cos_neg, hsiny, hcosy]
    exact ⟨rfl, rfl⟩
  rw [htr.1, htr.2, (hsh _).1, (hsh _).2, hsa, hca]
  simp only [VECTOR3.mk.injEq, neg_neg, and_true, true_and]
  constructor <;> field_simp

/-- Claim C14 (rendezvous radar round trip): with identity `SMNB` and `REFSMMAT`
matrices and the real elementary functions, for every unit vector `u` whose y component
is neither 1 nor -1, `GetBodyFixedRRVector` applied to the trunnion and shaft angles of
`RRAngles` returns `u`. -/
theorem C14_RR_round_trip (u : VECTOR3 ℝ) (hu : u.x * u.x + u.y * u.y + u.z * u.z = 1)
    (hy1 : u.y ≠ 1) (hy2 : u.y ≠ -1) :
    GetBodyFixedRRVector ⟨Real.sqrt, Real.sin, Real.cos, Real.arcsin, Real.arccos,
        Real.arctan, fun y x => Complex.arg ⟨x, y⟩, Real.pi⟩
      (RRAngles ⟨Real.sqrt, Real.sin, Real.cos, Real.arcsin, Real.arccos, Real.arctan,
        fun y x => Complex.arg ⟨x, y⟩, Real.pi⟩ u
        (_M 1 0 0 0 1 0 0 0 1) (_M 1 0 0 0 1 0 0 0 1)).1
      (RRAngles ⟨Real.sqrt, Real.sin, Real.cos, Real.arcsin, Real.arccos, Real.arctan,
        fun y x => Complex.arg ⟨x, y⟩, Real.pi⟩ u
        (_M 1 0 0 0 1 0 0 0 1) (_M 1 0 0 0 1 0 0 0 1)).2
      = u :=
  RR_round_trip_components u.x u.y u.z hu hy1 hy2

/-- Witness for C14: the unit vector `(2/7, 3/7, 6/7)`. -/
theorem C14_RR_round_trip_witness :
    GetBodyFixedRRVector ⟨Real.sqrt, Real.sin, Real.cos, Real.arcsin, Real.arccos,
        Real.arctan, fun y x => Complex.arg ⟨x, y⟩, Real.pi⟩
      (RRAngles ⟨Real.sqrt, Real.sin, Real.cos, Real.arcsin, Real.arccos, Real.arctan,
        fun y x => Complex.arg ⟨x, y⟩, Real.pi⟩ (_V (2 / 7) (3 / 7) (6 / 7))
        (_M 1 0 0 0 1 0 0 0 1) (_M 1 0 0 0 1 0 0 0 1)).1
      (RRAngles ⟨Real.sqrt, Real.sin, Real.cos, Real.arcsin, Real.arccos, Real.arctan,
        fun y x => Complex.arg ⟨x, y⟩, Real.pi⟩ (_V (2 / 7) (3 / 7) (6 / 7))
        (_M 1 0 0 0 1 0 0 0 1) (_M 1 0 0 0 1 0 0 0 1)).2
      = _V (2 / 7) (3 / 7) (6 / 7) :=
  C14_RR_round_trip (_V (2 / 7) (3 / 7) (6 / 7)) (by norm_num [_V]) (by norm_num [_V])
    (by norm_num [_V])

end RendezvousRadar


section LMCOAS

theorem abs_mul_abs_div_le (z a : ℝ) : abs (z * abs (a / z)) ≤ abs a := by
  by_cases hz : z = 0
  · subst hz
    simp
  · rw [abs_mul, abs_abs, abs_div, mul_div_cancel₀ _ (abs_ne_zero.mpr hz)]

theorem abs_signed_le (y s b : ℝ) (h : abs s ≤ b) :
    abs (if y < 0 then -(abs s) else abs s) ≤ b := by
  split_ifs
  · rw [abs_neg, abs_abs]; exact h
  · rw [abs_abs]; exact h

theorem cos_nonneg_of_abs_le (s : ℝ) (h : abs s ≤ Real.pi / 2) : 0 ≤ Real.cos s :=
  Real.cos_nonneg_of_neg_pi_div_two_le_of_le (by linarith [neg_abs_le s]) (by linarith [le_abs_self s])

theorem LMCOAS_X_core (x y z a : ℝ) (hx : 0 ≤ x) (ha : abs a ≤ Real.pi / 2) :
    (0 < z →
      (GetLMCOASVector ⟨Real.sqrt, Real.sin, Real.cos, Real.arcsin, Real.arccos,
        Real.arctan, fun y x => Complex.arg ⟨x, y⟩, Real.pi⟩
        (if z < 0 then abs (z * abs (a / z)) else -(abs (z * abs (a / z))))
        (if y < 0 then -(abs (y * abs (Real.arccos (Real.cos (Real.arccos x)
            / Real.cos (z * abs (a / z))) / y)))
          else abs (y * abs (Real.arccos (Real.cos (Real.arccos x)
            / Real.cos (z * abs (a / z))) / y))) false).z ≤ 0)
    ∧ (z < 0 →
      0 ≤ (GetLMCOASVector ⟨Real.sqrt, Real.sin, Real.cos, Real.arcsin, Real.arccos,
        Real.arctan, fun y x => Complex.arg ⟨x, y⟩, Real.pi⟩
        (if z < 0 then abs (z * abs (a / z)) else -(abs (z * abs (a / z))))
        (if y < 0 then -(abs (y * abs (Real.arccos (Real.cos (Real.arccos x)
            / Real.cos (z * abs (a / z))) / y)))
          else abs (y * abs (Real.arccos (Real.cos (Real.arccos x)
            / Real.cos (z * abs (a / z))) / y))) false).z) := by
  have hpi := Real.pi_pos
  have hR : abs (z * abs (a / z)) ≤ Real.pi / 2 := (abs_mul_abs_div_le z a).trans ha
  have hcR : 0 ≤ Real.cos (z * abs (a / z)) := cos_nonneg_of_abs_le _ hR
  have hcE : 0 ≤ Real.cos (Real.arccos x) :=
    Real.cos_nonneg_of_neg_pi_div_two_le_of_le (by linarith [Real.arccos_nonneg x])
      (Real.arccos_le_pi_div_two.mpr hx)
  have hA3 : 0 ≤ Real.cos (Real.arccos x) / Real.cos (z * abs (a / z)) := div_nonneg hcE hcR
  have hac : abs (Real.arccos (Real.cos (Real.arccos x) / Real.cos (z * abs (a / z))))
      ≤ Real.pi / 2 := by
    rw [abs_of_nonneg (Real.arccos_nonneg _)]
    exact Real.arccos_le_pi_div_two.mpr hA3
  have hS0 : abs (y * abs (Real.arccos (Real.cos (Real.arccos x)
      / Real.cos (z * abs (a / z))) / y)) ≤ Real.pi / 2 := (abs_mul_abs_div_le y _).trans hac
  have hcS := cos_nonneg_of_abs_le _ (abs_signed_le y _ _ hS0)
  constructor
  · intro hz
    rw [if_neg (not_lt.mpr hz.le)]
    have hs : Real.sin (-(abs (z * abs (a / z)))) ≤ 0 :=
      Real.sin_nonpos_of_nonnpos_of_neg_pi_le (by linarith [abs_nonneg (z * abs (a / z))])
        (by linarith)
    simp only [GetLMCOASVector, unit, length, VECTOR3.sdiv, _V, Bool.false_eq_true, if_false]
    exact div_nonpos_of_nonpos_of_nonneg (mul_nonpos_of_nonpos_of_nonneg hs hcS)
      (Real.sqrt_nonneg _)
  · intro hz
    rw [if_pos hz]
    have hs : 0 ≤ Real.sin (abs (z * abs (a / z))) :=
      Real.sin_nonneg_of_nonneg_of_le_pi (abs_nonneg _) (by linarith)
    simp only [GetLMCOASVector, unit, length, VECTOR3.sdiv, _V, Bool.false_eq_true, if_false]
    exact div_nonneg (mul_nonneg hs hcS) (Real.sqrt_nonneg _)

theorem LMCOASAngles_X_generic {K : Type} [LinearOrderedField K] (cm : CMath K)
    (u : VECTOR3 K) :
    LMCOASAngles cm false u
      = (if u.z < 0 then
            abs (u.z * abs (cm.asin (cm.sin (cm.PI / 2 - abs (cm.asin (cm.sin (cm.acos u.z)
              * cm.sin (cm.atan (u.y / u.x)) / cm.sin (cm.acos u.x)))) * cm.sin (cm.acos u.x))
              / u.z))
          else
            -(abs (u.z * abs (cm.asin (cm.sin (cm.PI / 2 - abs (cm.asin (cm.sin (cm.acos u.z)
              * cm.sin (cm.atan (u.y / u.x)) / cm.sin (cm.acos u.x)))) * cm.sin (cm.acos u.x))
              / u.z))),
         if u.y < 0 then
           -(abs (u.y * abs (cm.acos (cm.cos (cm.acos u.x) / cm.cos
              (u.z * abs (cm.asin (cm.sin (cm.PI / 2 - abs (cm.asin (cm.sin (cm.acos u.z)
              * cm.sin (cm.atan (u.y / u.x)) / cm.sin (cm.acos u.x)))) * cm.sin (cm.acos u.x))
              / u.z))) / u.y)))
         else
           abs (u.y * abs (cm.acos (cm.cos (cm.acos u.x) / cm.cos
              (u.z * abs (cm.asin (cm.sin (cm.PI / 2 - abs (cm.asin (cm.sin (cm.acos u.z)
              * cm.sin (cm.atan (u.y / u.x)) / cm.sin (cm.acos u.x)))) * cm.sin (cm.acos u.x))
              / u.z))) / u.y))) := by
  rw [LMCOASAngles]
  simp only [Bool.false_eq_true, if_false, PI05]

theorem LMCOAS_X_round_trip_ne (u : VECTOR3 ℝ) (hx : 0 ≤ u.x) (hz : u.z ≠ 0) :
    GetLMCOASVector ⟨Real.sqrt, Real.sin, Real.cos, Real.arcsin, Real.arccos,
        Real.arctan, fun y x => Complex.arg ⟨x, y⟩, Real.pi⟩
      (LMCOASAngles ⟨Real.sqrt, Real.sin, Real.cos, Real.arcsin, Real.arccos,
        Real.arctan, fun y x => Complex.arg ⟨x, y⟩, Real.pi⟩ false u).1
      (LMCOASAngles ⟨Real.sqrt, Real.sin, Real.cos, Real.arcsin, Real.arccos,
        Real.arctan, fun y x => Complex.arg ⟨x, y⟩, Real.pi⟩ false u).2 false ≠ u := by
  obtain ⟨h1, h2⟩ := LMCOAS_X_core u.x u.y u.z
    (Real.arcsin (Real.sin (Real.pi / 2
        - abs (Real.arcsin (Real.sin (Real.arccos u.z) * Real.sin (Real.arctan (u.y / u.x))
            / Real.sin (Real.arccos u.x)))) * Real.sin (Real.arccos u.x))) hx
    (abs_le.mpr ⟨Real.neg_pi_div_two_le_arcsin _, Real.arcsin_le_pi_div_two _⟩)
  intro heq
  rw [LMCOASAngles_X_generic] at heq
  dsimp only at heq
  rw [heq] at h1 h2
  rcases lt_or_gt_of_ne hz with h | h
  · have := h2 h
    linarith
  · have := h1 h
    linarith

theorem arccos_le_arccos_of_le {a b : ℝ} (h : a ≤ b) : Real.arccos b ≤ Real.arccos a := by
  rw [Real.arccos_eq_pi_div_two_sub_arcsin, Real.arccos_eq_pi_div_two_sub_arcsin]
  linarith [Real.monotone_arcsin h]

theorem LMCOASAngles_Z_generic {K : Type} [LinearOrderedField K] (cm : CMath K)
    (u : VECTOR3 K) :
    LMCOASAngles cm true u
      = ((if u.y < 0 then
            abs (u.y * abs (cm.acos (cm.cos (cm.acos u.z) / cm.cos
              (if u.x < 0 then
                -(abs (u.x * abs (cm.asin (cm.sin (cm.PI / 2 - abs (cm.asin
                  (cm.sin (cm.acos u.x) * cm.sin (cm.atan (cm.sqrt (u.x * u.x + u.y * u.y)
                  / u.z)) / cm.sin (cm.acos u.z)))) * cm.sin (cm.acos u.z)) / u.x)))
               else
                abs (u.x * abs (cm.asin (cm.sin (cm.PI / 2 - abs (cm.asin
                  (cm.sin (cm.acos u.x) * cm.sin (cm.atan (cm.sqrt (u.x * u.x + u.y * u.y)
                  / u.z)) / cm.sin (cm.acos u.z)))) * cm.sin (cm.acos u.z)) / u.x))))
              / u.y))
          else
            -(abs (u.y * abs (cm.acos (cm.cos (cm.acos u.z) / cm.cos
              (if u.x < 0 then
                -(abs (u.x * abs (cm.asin (cm.sin (cm.PI / 2 - abs (cm.asin
                  (cm.sin (cm.acos u.x) * cm.sin (cm.atan (cm.sqrt (u.x * u.x + u.y * u.y)
                  / u.z)) / cm.sin (cm.acos u.z)))) * cm.sin (cm.acos u.z)) / u.x)))
               else
                abs (u.x * abs (cm.asin (cm.sin (cm.PI / 2 - abs (cm.asin
                  (cm.sin (cm.acos u.x) * cm.sin (cm.atan (cm.sqrt (u.x * u.x + u.y * u.y)
                  / u.z)) / cm.sin (cm.acos u.z)))) * cm.sin (cm.acos u.z)) / u.x))))
              / u.y)))) - 30 * (cm.PI / 180),
         if u.x < 0 then
           -(abs (u.x * abs (cm.asin (cm.sin (cm.PI / 2 - abs (cm.asin
             (cm.sin (cm.acos u.x) * cm.sin (cm.atan (cm.sqrt (u.x * u.x + u.y * u.y)
             / u.z)) / cm.sin (cm.acos u.z)))) * cm.sin (cm.acos u.z)) / u.x)))
         else
           abs (u.x * abs (cm.asin (cm.sin (cm.PI / 2 - abs (cm.asin
             (cm.sin (cm.acos u.x) * cm.sin (cm.atan (cm.sqrt (u.x * u.x + u.y * u.y)
             / u.z)) / cm.sin (cm.acos u.z)))) * cm.sin (cm.acos u.z)) / u.x))) := by
  rw [LMCOASAngles]
  simp only [if_true, PI05, RAD]

theorem LMCOAS_Z_core (x y z v : ℝ) (hy : y < 0) (hz : Real.arccos z ≤ Real.pi / 6) :
    0 ≤ (GetLMCOASVector ⟨Real.sqrt, Real.sin, Real.cos, Real.arcsin, Real.arccos,
        Real.arctan, fun y x => Complex.arg ⟨x, y⟩, Real.pi⟩
        ((if y < 0 then
            abs (y * abs (Real.arccos (Real.cos (Real.arccos z) / Real.cos
              (if x < 0 then
                -(abs (x * abs (Real.arcsin (Real.sin v * Real.sin (Real.arccos z)) / x)))
               else abs (x * abs (Real.arcsin (Real.sin v * Real.sin (Real.arccos z)) / x))))
              / y))
          else
            -(abs (y * abs (Real.arccos (Real.cos (Real.arccos z) / Real.cos
              (if x < 0 then
                -(abs (x * abs (Real.arcsin (Real.sin v * Real.sin (Real.arccos z)) / x)))
               else abs (x * abs (Real.arcsin (Real.sin v * Real.sin (Real.arccos z)) / x))))
              / y)))) - 30 * (Real.pi / 180))
        (if x < 0 then
           -(abs (x * abs (Real.arcsin (Real.sin v * Real.sin (Real.arccos z)) / x)))
         else abs (x * abs (Real.arcsin (Real.sin v * Real.sin (Real.arccos z)) / x)))
        true).y := by
  have hpi := Real.pi_pos
  have hpi4 := Real.pi_le_four
  have hE0 := Real.arccos_nonneg z
  have hsE0 : 0 ≤ Real.sin (Real.arccos z) :=
    Real.sin_nonneg_of_nonneg_of_le_pi hE0 (by linarith)
  have hsE1 : Real.sin (Real.arccos z) < 1 := by
    have := Real.sin_le hE0
    linarith
  have ht : abs (Real.sin v * Real.sin (Real.arccos z)) < 1 := by
    rw [abs_mul, abs_of_nonneg hsE0]
    have h1 : abs (Real.sin v) ≤ 1 := Real.abs_sin_le_one v
    have := mul_le_mul h1 (le_refl (Real.sin (Real.arccos z))) hsE0 (by norm_num)
    linarith
  obtain ⟨ht1, ht2⟩ := abs_lt.mp ht
  have hb : abs (Real.arcsin (Real.sin v * Real.sin (Real.arccos z))) < Real.pi / 2 :=
    abs_lt.mpr ⟨Real.neg_pi_div_two_lt_arcsin.mpr ht1, Real.arcsin_lt_pi_div_two.mpr ht2⟩
  have hS : abs (if x < 0 then
           -(abs (x * abs (Real.arcsin (Real.sin v * Real.sin (Real.arccos z)) / x)))
         else abs (x * abs (Real.arcsin (Real.sin v * Real.sin (Real.arccos z)) / x)))
      < Real.pi / 2 :=
    lt_of_le_of_lt (abs_signed_le x _ _ (abs_mul_abs_div_le x _)) hb
  generalize (if x < 0 then
           -(abs (x * abs (Real.arcsin (Real.sin v * Real.sin (Real.arccos z)) / x)))
         else abs (x * abs (Real.arcsin (Real.sin v * Real.sin (Real.arccos z)) / x)))
    = SXP at hS ⊢
  obtain ⟨hS1, hS2⟩ := abs_lt.mp hS
  have hc0 : 0 < Real.cos SXP := Real.cos_pos_of_mem_Ioo ⟨hS1, hS2⟩
  have hc1 : Real.cos SXP ≤ 1 := Real.cos_le_one SXP
  have hcE : 0 ≤ Real.cos (Real.arccos z) :=
    Real.cos_nonneg_of_neg_pi_div_two_le_of_le (by linarith) (by linarith)
  have hw : Real.cos (Real.arccos z) ≤ Real.cos (Real.arccos z) / Real.cos SXP := by
    rw [le_div_iff₀ hc0]
    nlinarith
  have hacw : Real.arccos (Real.cos (Real.arccos z) / Real.cos SXP) ≤ Real.pi / 6 := by
    have h1 := arccos_le_arccos_of_le hw
    rw [Real.arccos_cos hE0 (by linarith)] at h1
    linarith
  have hEL1 : abs (y * abs (Real.arccos (Real.cos (Real.arccos z) / Real.cos SXP) / y))
      ≤ Real.pi / 6 := by
    have := abs_mul_abs_div_le y (Real.arccos (Real.cos (Real.arccos z) / Real.cos SXP))
    rw [abs_of_nonneg (Real.arccos_nonneg _)] at this
    linarith
  rw [if_pos hy]
  have hEL0 := abs_nonneg (y * abs (Real.arccos (Real.cos (Real.arccos z) / Real.cos SXP) / y))
  have hsin : Real.sin (abs (y * abs (Real.arccos (Real.cos (Real.arccos z)
      / Real.cos SXP) / y)) - 30 * (Real.pi / 180)) ≤ 0 :=
    Real.sin_nonpos_of_nonnpos_of_neg_pi_le (by linarith) (by linarith)
  simp only [GetLMCOASVector, unit, length, VECTOR3.sdiv, _V, if_true]
  apply div_nonneg _ (Real.sqrt_nonneg _)
  have : 0 ≤ -Real.sin (abs (y * abs (Real.arccos (Real.cos (Real.arccos z)
      / Real.cos SXP) / y)) - 30 * (Real.pi / 180)) := by linarith
  exact mul_nonneg this hc0.le

theorem LMCOAS_Z_round_trip_ne (u : VECTOR3 ℝ) (hy : u.y < 0)
    (hz : Real.arccos u.z ≤ Real.pi / 6) :
    GetLMCOASVector ⟨Real.sqrt, Real.sin, Real.cos, Real.arcsin, Real.arccos,
        Real.arctan, fun y x => Complex.arg ⟨x, y⟩, Real.pi⟩
      (LMCOASAngles ⟨Real.sqrt, Real.sin, Real.cos, Real.arcsin, Real.arccos,
        Real.arctan, fun y x => Complex.arg ⟨x, y⟩, Real.pi⟩ true u).1
      (LMCOASAngles ⟨Real.sqrt, Real.sin, Real.cos, Real.arcsin, Real.arccos,
        Real.arctan, fun y x => Complex.arg ⟨x, y⟩, Real.pi⟩ true u).2 true ≠ u := by
  have h := LMCOAS_Z_core u.x u.y u.z
    (Real.pi / 2 - abs (Real.arcsin (Real.sin (Real.arccos u.x)
      * Real.sin (Real.arctan (Real.sqrt (u.x * u.x + u.y * u.y) / u.z))
      / Real.sin (Real.arccos u.z)))) hy hz
  intro heq
  rw [LMCOASAngles_Z_generic] at heq
  dsimp only at heq
  rw [heq] at h
  linarith

/-- Claim C13 (LM COAS round trip): for a navigation-base vector `u` accepted by the LM
COAS limit check, `GetLMCOASVector` applied to the angles of `LMCOASAngles` does not
return `u` on the X axis whenever `u.z` is not zero (the z component comes back with the
opposite sign), and does not return `u` on the Z axis whenever `u.y < 0` and `u.z` is
within 30 degrees of the axis (the 30 degrees subtracted from the elevation are not added
back, and the y component comes back non-negative). -/
theorem C13_LMCOAS_round_trip_fails (om : OrbMechLib ℝ) (rtcc : RTCCServices ℝ)
    (fmt : CFormat ℝ) (fp : DoubleArith ℝ) (inp : AGOPInputs ℝ) (u : VECTOR3 ℝ)
    (hinst : inp.Instrument = 1)
    (hacc : InstrumentLimitCheck
      ⟨⟨Real.sqrt, Real.sin, Real.cos, Real.arcsin, Real.arccos, Real.arctan,
        fun y x => Complex.arg ⟨x, y⟩, Real.pi⟩, om, rtcc, fmt, fp⟩ inp u = true) :
    (inp.LMCOASAxis = false → u.z ≠ 0 →
      GetLMCOASVector ⟨Real.sqrt, Real.sin, Real.cos, Real.arcsin, Real.arccos,
          Real.arctan, fun y x => Complex.arg ⟨x, y⟩, Real.pi⟩
        (LMCOASAngles ⟨Real.sqrt, Real.sin, Real.cos, Real.arcsin, Real.arccos,
          Real.arctan, fun y x => Complex.arg ⟨x, y⟩, Real.pi⟩ false u).1
        (LMCOASAngles ⟨Real.sqrt, Real.sin, Real.cos, Real.arcsin, Real.arccos,
          Real.arctan, fun y x => Complex.arg ⟨x, y⟩, Real.pi⟩ false u).2 false ≠ u)
    ∧ (inp.LMCOASAxis = true → u.y < 0 → Real.arccos u.z ≤ Real.pi / 6 →
      GetLMCOASVector ⟨Real.sqrt, Real.sin, Real.cos, Real.arcsin, Real.arccos,
          Real.arctan, fun y x => Complex.arg ⟨x, y⟩, Real.pi⟩
        (LMCOASAngles ⟨Real.sqrt, Real.sin, Real.cos, Real.arcsin, Real.arccos,
          Real.arctan, fun y x => Complex.arg ⟨x, y⟩, Real.pi⟩ true u).1
        (LMCOASAngles ⟨Real.sqrt, Real.sin, Real.cos, Real.arcsin, Real.arccos,
          Real.arctan, fun y x => Complex.arg ⟨x, y⟩, Real.pi⟩ true u).2 true ≠ u) := by
  have hpi := Real.pi_pos
  constructor
  · intro hax hz
    apply LMCOAS_X_round_trip_ne u _ hz
    apply Real.arccos_le_pi_div_two.mp
    simp only [InstrumentLimitCheck, hinst, hax, RAD] at hacc
    norm_num at hacc
    split_ifs at hacc <;> linarith
  · intro _ hy hz
    exact LMCOAS_Z_round_trip_ne u hy hz

theorem LMCOAS_sample_angles :
    0 < Real.sin (Real.pi / 90) ∧ 0 < Real.sin (Real.pi / 18) ∧ 0 < Real.cos (Real.pi / 90)
    ∧ Real.arcsin (Real.sin (Real.pi / 90)) = Real.pi / 90
    ∧ Real.sin (Real.pi / 90) < Real.cos (85 * (Real.pi / 180))
    ∧ Real.arccos (Real.cos (Real.pi / 18) * Real.cos (Real.pi / 90)) ≤ Real.pi / 15 := by
  have hpi := Real.pi_pos
  have h1 : 0 < Real.sin (Real.pi / 90) :=
    Real.sin_pos_of_pos_of_lt_pi (by linarith) (by linarith)
  have h2 : 0 < Real.sin (Real.pi / 18) :=
    Real.sin_pos_of_pos_of_lt_pi (by linarith) (by linarith)
  have h3 : 0 < Real.cos (Real.pi / 90) :=
    Real.cos_pos_of_mem_Ioo ⟨by linarith, by linarith⟩
  refine ⟨h1, h2, h3, Real.arcsin_sin (by linarith) (by linarith), ?_, ?_⟩
  · have : Real.cos (85 * (Real.pi / 180)) = Real.sin (Real.pi / 36) := by
      rw [← Real.sin_pi_div_two_sub]
      congr 1
      ring
    rw [this]
    exact Real.sin_lt_sin_of_lt_of_le_pi_div_two (by linarith) (by linarith) (by linarith)
  · have hadd : Real.cos (Real.pi / 18 + Real.pi / 90)
        ≤ Real.cos (Real.pi / 18) * Real.cos (Real.pi / 90) := by
      rw [Real.cos_add]
      nlinarith [mul_pos h2 h1]
    have h := arccos_le_arccos_of_le hadd
    rw [Real.arccos_cos (by linarith) (by linarith)] at h
    linarith

/-- Witness for C13: the unit vectors `(cos 10° cos 2°, sin 2°, sin 10° cos 2°)` on the
X axis and `(sin 2°, -sin 10° cos 2°, cos 10° cos 2°)` on the Z axis have three non-zero
components and are accepted by the LM COAS limit check, and neither comes back from the
round trip. -/
theorem C13_LMCOAS_round_trip_fails_witness :
    (InstrumentLimitCheck
        (refCollab ⟨Real.sqrt, Real.sin, Real.cos, Real.arcsin, Real.arccos, Real.arctan,
          fun y x => Complex.arg ⟨x, y⟩, Real.pi⟩)
        { sightingInputs ⟨Real.sqrt, Real.sin, Real.cos, Real.arcsin, Real.arccos,
            Real.arctan, fun y x => Complex.arg ⟨x, y⟩, Real.pi⟩ 0 with
          Instrument := 1, LMCOASAxis := false }
        (_V (Real.cos (Real.pi / 18) * Real.cos (Real.pi / 90)) (Real.sin (Real.pi / 90))
          (Real.sin (Real.pi / 18) * Real.cos (Real.pi / 90))) = true
      ∧ GetLMCOASVector ⟨Real.sqrt, Real.sin, Real.cos, Real.arcsin, Real.arccos,
          Real.arctan, fun y x => Complex.arg ⟨x, y⟩, Real.pi⟩
        (LMCOASAngles ⟨Real.sqrt, Real.sin, Real.cos, Real.arcsin, Real.arccos,
          Real.arctan, fun y x => Complex.arg ⟨x, y⟩, Real.pi⟩ false
          (_V (Real.cos (Real.pi / 18) * Real.cos (Real.pi / 90)) (Real.sin (Real.pi / 90))
            (Real.sin (Real.pi / 18) * Real.cos (Real.pi / 90)))).1
        (LMCOASAngles ⟨Real.sqrt, Real.sin, Real.cos, Real.arcsin, Real.arccos,
          Real.arctan, fun y x => Complex.arg ⟨x, y⟩, Real.pi⟩ false
          (_V (Real.cos (Real.pi / 18) * Real.cos (Real.pi / 90)) (Real.sin (Real.pi / 90))
            (Real.sin (Real.pi / 18) * Real.cos (Real.pi / 90)))).2 false
        ≠ _V (Real.cos (Real.pi / 18) * Real.cos (Real.pi / 90)) (Real.sin (Real.pi / 90))
            (Real.sin (Real.pi / 18) * Real.cos (Real.pi / 90)))
    ∧ (InstrumentLimitCheck
        (refCollab ⟨Real.sqrt, Real.sin, Real.cos, Real.arcsin, Real.arccos, Real.arctan,
          fun y x => Complex.arg ⟨x, y⟩, Real.pi⟩)
        { sightingInputs ⟨Real.sqrt, Real.sin, Real.cos, Real.arcsin, Real.arccos,
            Real.arctan, fun y x => Complex.arg ⟨x, y⟩, Real.pi⟩ 0 with
          Instrument := 1, LMCOASAxis := true }
        (_V (Real.sin (Real.pi / 90)) (-(Real.sin (Real.pi / 18) * Real.cos (Real.pi / 90)))
          (Real.cos (Real.pi / 18) * Real.cos (Real.pi / 90))) = true
      ∧ GetLMCOASVector ⟨Real.sqrt, Real.sin, Real.cos, Real.arcsin, Real.arccos,
          Real.arctan, fun y x => Complex.arg ⟨x, y⟩, Real.pi⟩
        (LMCOASAngles ⟨Real.sqrt, Real.sin, Real.cos, Real.arcsin, Real.arccos,
          Real.arctan, fun y x => Complex.arg ⟨x, y⟩, Real.pi⟩ true
          (_V (Real.sin (Real.pi / 90))
            (-(Real.sin (Real.pi / 18) * Real.cos (Real.pi / 90)))
            (Real.cos (Real.pi / 18) * Real.cos (Real.pi / 90)))).1
        (LMCOASAngles ⟨Real.sqrt, Real.sin, Real.cos, Real.arcsin, Real.arccos,
          Real.arctan, fun y x => Complex.arg ⟨x, y⟩, Real.pi⟩ true
          (_V (Real.sin (Real.pi / 90))
            (-(Real.sin (Real.pi / 18) * Real.cos (Real.pi / 90)))
            (Real.cos (Real.pi / 18) * Real.cos (Real.pi / 90)))).2 true
        ≠ _V (Real.sin (Real.pi / 90))
            (-(Real.sin (Real.pi / 18) * Real.cos (Real.pi / 90)))
            (Real.cos (Real.pi / 18) * Real.cos (Real.pi / 90))) := by
  have hpi := Real.pi_pos
  obtain ⟨h1, h2, h3, h4, h5, h6⟩ := LMCOAS_sample_angles
  have hz : 0 < Real.sin (Real.pi / 18) * Real.cos (Real.pi / 90) := mul_pos h2 h3
  have haccX : InstrumentLimitCheck
        (refCollab ⟨Real.sqrt, Real.sin, Real.cos, Real.arcsin, Real.arccos, Real.arctan,
          fun y x => Complex.arg ⟨x, y⟩, Real.pi⟩)
        { sightingInputs ⟨Real.sqrt, Real.sin, Real.cos, Real.arcsin, Real.arccos,
            Real.arctan, fun y x => Complex.arg ⟨x, y⟩, Real.pi⟩ 0 with
          Instrument := 1, LMCOASAxis := false }
        (_V (Real.cos (Real.pi / 18) * Real.cos (Real.pi / 90)) (Real.sin (Real.pi / 90))
          (Real.sin (Real.pi / 18) * Real.cos (Real.pi / 90))) = true := by
    simp only [InstrumentLimitCheck, refCollab, RAD, _V, abs_of_pos h1, h4]
    norm_num
    refine ⟨by linarith, ?_⟩
    rw [if_neg (not_lt.mpr hz.le)]
    linarith
  have haccZ : InstrumentLimitCheck
        (refCollab ⟨Real.sqrt, Real.sin, Real.cos, Real.arcsin, Real.arccos, Real.arctan,
          fun y x => Complex.arg ⟨x, y⟩, Real.pi⟩)
        { sightingInputs ⟨Real.sqrt, Real.sin, Real.cos, Real.arcsin, Real.arccos,
            Real.arctan, fun y x => Complex.arg ⟨x, y⟩, Real.pi⟩ 0 with
          Instrument := 1, LMCOASAxis := true }
        (_V (Real.sin (Real.pi / 90)) (-(Real.sin (Real.pi / 18) * Real.cos (Real.pi / 90)))
          (Real.cos (Real.pi / 18) * Real.cos (Real.pi / 90))) = true := by
    simp only [InstrumentLimitCheck, refCollab, RAD, _V, abs_of_pos h1]
    norm_num
    refine ⟨h5, ?_⟩
    rw [if_pos hz]
    linarith
  exact ⟨⟨haccX, (C13_LMCOAS_round_trip_fails _ _ _ _ _ _ rfl haccX).1 rfl (ne_of_gt hz)⟩,
    ⟨haccZ, (C13_LMCOAS_round_trip_fails _ _ _ _ _ _ rfl haccZ).2 rfl
      (by simp only [_V]; linarith) (by simp only [_V]; linarith)⟩⟩

end LMCOAS


section SteerableOffset

variable {K : Type} [LinearOrderedField K]

/-- Claim C24 (the 45 degree offset of the steerable antenna): for a math library with the
addition formulas at 45 degrees and `sin^2 + cos^2 = 1` there, and every pitch and yaw,
`GetBodyFixedSteerableAntennaVector` is the transpose of `NBSA` applied to
`GetBodyFixedHGAVector`, which is `GetBodyFixedHGAVector` at `yaw + 45°`; and `NBSA`, the
matrix `LMSteerableAngles` applies first, takes the steerable antenna vector back to the
high-gain antenna vector. -/
theorem C24_steerable_is_HGA_with_offset (cm : CMath K)
    (hcos : ∀ y : K, cm.cos (y + 45 * RAD cm)
      = cm.cos y * cm.cos (45 * RAD cm) - cm.sin y * cm.sin (45 * RAD cm))
    (hsin : ∀ y : K, cm.sin (y + 45 * RAD cm)
      = cm.sin y * cm.cos (45 * RAD cm) + cm.cos y * cm.sin (45 * RAD cm))
    (hsc : cm.sin (45 * RAD cm) * cm.sin (45 * RAD cm)
      + cm.cos (45 * RAD cm) * cm.cos (45 * RAD cm) = 1)
    (pitch yaw : K) :
    GetBodyFixedSteerableAntennaVector cm pitch yaw
      = tmul (NBSA cm) (GetBodyFixedHGAVector cm pitch yaw)
    ∧ GetBodyFixedSteerableAntennaVector cm pitch yaw
      = GetBodyFixedHGAVector cm pitch (yaw + 45 * RAD cm)
    ∧ mul (NBSA cm) (GetBodyFixedSteerableAntennaVector cm pitch yaw)
      = GetBodyFixedHGAVector cm pitch yaw := by
  refine ⟨rfl, ?_, ?_⟩
  · simp only [GetBodyFixedSteerableAntennaVector, GetBodyFixedHGAVector, NBSA, tmul, _M, _V,
      hcos, hsin, VECTOR3.mk.injEq]
    refine ⟨by ring, by ring, by ring⟩
  · simp only [GetBodyFixedSteerableAntennaVector, GetBodyFixedHGAVector, NBSA, tmul, mul, _M,
      _V, VECTOR3.mk.injEq]
    refine ⟨?_, ?_, by ring⟩
    · linear_combination (cm.cos yaw * cm.cos pitch) * hsc
    · linear_combination (cm.sin yaw * cm.cos pitch) * hsc

/-- Witness for C24: the real elementary functions, pitch `pi/6` and yaw `pi/3`. -/
theorem C24_steerable_is_HGA_with_offset_witness :
    GetBodyFixedSteerableAntennaVector (⟨Real.sqrt, Real.sin, Real.cos, Real.arcsin,
        Real.arccos, Real.arctan, fun y x => Complex.arg ⟨x, y⟩, Real.pi⟩ : CMath ℝ)
        (Real.pi / 6) (Real.pi / 3)
      = GetBodyFixedHGAVector (⟨Real.sqrt, Real.sin, Real.cos, Real.arcsin,
        Real.arccos, Real.arctan, fun y x => Complex.arg ⟨x, y⟩, Real.pi⟩ : CMath ℝ)
        (Real.pi / 6) (Real.pi / 3 + 45 * (Real.pi / 180)) :=
  (C24_steerable_is_HGA_with_offset
    (⟨Real.sqrt, Real.sin, Real.cos, Real.arcsin, Real.arccos, Real.arctan,
      fun y x => Complex.arg ⟨x, y⟩, Real.pi⟩ : CMath ℝ)
    (fun y => Real.cos_add y _) (fun y => Real.sin_add y _)
    (by
      show Real.sin (45 * (Real.pi / 180)) * Real.sin (45 * (Real.pi / 180))
        + Real.cos (45 * (Real.pi / 180)) * Real.cos (45 * (Real.pi / 180)) = 1
      have := Real.sin_sq_add_cos_sq (45 * (Real.pi / 180))
      nlinarith [this])
    (Real.pi / 6) (Real.pi / 3)).2.1

end SteerableOffset

section Displays

variable {K : Type} [LinearOrderedField K] [FloorRing K]

theorem abs_round_c_eq_natCast (x : K) : ∃ n : ℕ, |round_c x| = (n : K) := by
  unfold round_c
  split_ifs
  · refine ⟨(⌊x + 1 / 2⌋).natAbs, ?_⟩
    rw [← Int.cast_abs, Int.abs_eq_natAbs, Int.cast_natCast]
  · refine ⟨(⌊-x + 1 / 2⌋).natAbs, ?_⟩
    rw [abs_neg, ← Int.cast_abs, Int.abs_eq_natAbs, Int.cast_natCast]

theorem floor_c_natCast_div (n d : ℕ) : floor_c ((n : K) / (d : K)) = ((n / d : ℕ) : K) := by
  unfold floor_c
  have h0 : (0 : K) ≤ (n : K) / (d : K) := by positivity
  rw [← Int.natCast_floor_eq_floor h0, Int.cast_natCast, Nat.floor_div_eq_div]

theorem fmod_c_natCast (n d : ℕ) : fmod_c (n : K) (d : K) = ((n % d : ℕ) : K) := by
  unfold fmod_c
  have h0 : (0 : K) ≤ (n : K) / (d : K) := by positivity
  rw [if_pos h0, ← Int.natCast_floor_eq_floor h0, Int.cast_natCast, Nat.floor_div_eq_div]
  have h := Nat.mod_add_div n d
  have h2 : ((n % d : ℕ) : K) + (d : K) * ((n / d : ℕ) : K) = (n : K) := by
    exact_mod_cast h
  linarith

/-- Claim C29 (the hours/degrees, minutes and seconds fields of the displays): with
`n = |round(3600 * angle)|`, a natural number, both displays print the fields
`n div 3600`, `(n mod 3600) div 60` and `n mod 60`, which add up to `n` with minutes and
seconds at most 59; `RightAscension_Display` uses the format without a sign and
`Declination_Display` the format with `+` exactly when the angle is `>= 0` and the format
with `-` otherwise. -/
theorem C29_displays_decompose (c : Collab K) (angle : K) :
    ∃ n : ℕ, |round_c (angle * 3600)| = (n : K)
      ∧ RightAscension_Display c angle
        = c.fmt.sprintf "%03.0f:%02.0f:%02.0f"
            [((n / 3600 : ℕ) : K), ((n % 3600 / 60 : ℕ) : K), ((n % 60 : ℕ) : K)]
      ∧ Declination_Display c angle
        = c.fmt.sprintf (if angle ≥ 0 then "+%02.0f:%02.0f:%02.0f" else "-%02.0f:%02.0f:%02.0f")
            [((n / 3600 : ℕ) : K), ((n % 3600 / 60 : ℕ) : K), ((n % 60 : ℕ) : K)]
      ∧ 3600 * (n / 3600) + 60 * (n % 3600 / 60) + n % 60 = n
      ∧ n % 3600 / 60 ≤ 59 ∧ n % 60 ≤ 59 := by
  obtain ⟨n, hn⟩ := abs_round_c_eq_natCast (angle * 3600)
  have h3600 : (3600 : K) = ((3600 : ℕ) : K) := by norm_num
  have h60 : (60 : K) = ((60 : ℕ) : K) := by norm_num
  have hD : floor_c ((n : K) / 3600) = ((n / 3600 : ℕ) : K) := by
    rw [h3600, floor_c_natCast_div]
  have hM : floor_c (fmod_c (n : K) 3600 / 60) = ((n % 3600 / 60 : ℕ) : K) := by
    rw [h3600, h60, fmod_c_natCast, floor_c_natCast_div]
  have hS : fmod_c (n : K) 60 = ((n % 60 : ℕ) : K) := by
    rw [h60, fmod_c_natCast]
  refine ⟨n, hn, ?_, ?_, by omega, by omega, by omega⟩
  · simp only [RightAscension_Display, hn, hD, hM, hS]
  · simp only [Declination_Display, hn, hD, hM, hS]
    split_ifs <;> rfl

end Displays


section Frames

variable {K : Type} [LinearOrderedField K]

theorem dotp_self_pos_of_ne (w : VECTOR3 K) (hw : w ≠ _V 0 0 0) : 0 < dotp w w := by
  have h0 : 0 ≤ dotp w w := by
    simp only [dotp]
    nlinarith [mul_self_nonneg w.x, mul_self_nonneg w.y, mul_self_nonneg w.z]
  rcases lt_or_eq_of_le h0 with h | h
  · exact h
  · exfalso
    apply hw
    simp only [dotp] at h
    have hx : w.x = 0 := by nlinarith [mul_self_nonneg w.x, mul_self_nonneg w.y, mul_self_nonneg w.z]
    have hy : w.y = 0 := by nlinarith [mul_self_nonneg w.x, mul_self_nonneg w.y, mul_self_nonneg w.z]
    have hz : w.z = 0 := by nlinarith [mul_self_nonneg w.x, mul_self_nonneg w.y, mul_self_nonneg w.z]
    cases w
    simp only [_V, VECTOR3.mk.injEq]
    exact ⟨hx, hy, hz⟩

theorem length_ne_zero_of_ne (cm : CMath K)
    (hsqrt : ∀ a : K, 0 ≤ a → cm.sqrt a * cm.sqrt a = a) (w : VECTOR3 K)
    (hw : w ≠ _V 0 0 0) :
    length cm w * length cm w = dotp w w ∧ length cm w ≠ 0 := by
  have hpos := dotp_self_pos_of_ne w hw
  have h := hsqrt (dotp w w) hpos.le
  refine ⟨h, ?_⟩
  intro h0
  have h1 : length cm w = cm.sqrt (dotp w w) := rfl
  rw [← h1, h0] at h
  simp only [mul_zero] at h
  exact absurd h.symm (ne_of_gt hpos)

theorem dotp_unit_unit (cm : CMath K)
    (hsqrt : ∀ a : K, 0 ≤ a → cm.sqrt a * cm.sqrt a = a) (w : VECTOR3 K)
    (hw : w ≠ _V 0 0 0) : dotp (unit cm w) (unit cm w) = 1 := by
  obtain ⟨h1, h2⟩ := length_ne_zero_of_ne cm hsqrt w hw
  simp only [unit, VECTOR3.sdiv, _V, dotp] at h1 ⊢
  field_simp
  linarith

theorem dotp_unit_left (cm : CMath K) (w v : VECTOR3 K) :
    dotp (unit cm w) v = dotp w v / length cm w := by
  simp only [unit, VECTOR3.sdiv, _V, dotp]
  ring

theorem unit_zero_vector (cm : CMath K) : unit cm (_V 0 0 0) = _V 0 0 0 := by
  simp [unit, VECTOR3.sdiv, _V]

theorem crossp_zero_left (v : VECTOR3 K) : crossp (_V 0 0 0) v = _V 0 0 0 := by
  simp [crossp, _V]

theorem crossp_zero_right (v : VECTOR3 K) : crossp v (_V 0 0 0) = _V 0 0 0 := by
  simp [crossp, _V]

theorem neg_zero_vector : -(_V (0 : K) 0 0) = _V 0 0 0 := by
  simp [VECTOR3.neg_eq, VECTOR3.neg, _V]

/-- The rows of the passive thermal control matrix built on a unit vector `X`
perpendicular to the unit vector `u`. -/
theorem thermal_frame (X u : VECTOR3 K) (hXX : dotp X X = 1) (hXu : dotp X u = 0)
    (huu : dotp u u = 1) :
    crossp X (-(crossp X u)) = u
    ∧ dotp (-(crossp X u)) (-(crossp X u)) = 1
    ∧ dotp X (-(crossp X u)) = 0
    ∧ dotp (-(crossp X u)) u = 0 := by
  simp only [dotp] at hXX hXu huu
  refine ⟨?_, ?_, ?_, ?_⟩
  · cases u with
    | mk ux uy uz =>
      simp only [crossp, _V, VECTOR3.neg_eq, VECTOR3.neg, VECTOR3.mk.injEq] at hXX hXu huu ⊢
      refine ⟨?_, ?_, ?_⟩
      · linear_combination ux * hXX - X.x * hXu
      · linear_combination uy * hXX - X.y * hXu
      · linear_combination uz * hXX - X.z * hXu
  · simp only [crossp, _V, VECTOR3.neg_eq, VECTOR3.neg, dotp]
    linear_combination (u.x * u.x + u.y * u.y + u.z * u.z) * hXX + huu
      - (X.x * u.x + X.y * u.y + X.z * u.z) * hXu
  · simp only [crossp, _V, VECTOR3.neg_eq, VECTOR3.neg, dotp]
    ring
  · simp only [crossp, _V, VECTOR3.neg_eq, VECTOR3.neg, dotp]
    ring

theorem dotp_crossp_left (a b : VECTOR3 K) : dotp (crossp a b) a = 0 := by
  simp only [crossp, _V, dotp]
  ring

theorem dotp_crossp_right (a b : VECTOR3 K) : dotp (crossp a b) b = 0 := by
  simp only [crossp, _V, dotp]
  ring

theorem ne_zero_of_neg_unit_ne (cm : CMath K) (w u : VECTOR3 K) (hu : u = -(unit cm w))
    (h : u ≠ _V 0 0 0) : w ≠ _V 0 0 0 := by
  intro hw
  apply h
  rw [hu, hw, unit_zero_vector, neg_zero_vector]

theorem ne_zero_of_unit_ne (cm : CMath K) (w u : VECTOR3 K) (hu : u = unit cm w)
    (h : u ≠ _V 0 0 0) : w ≠ _V 0 0 0 := by
  intro hw
  apply h
  rw [hu, hw, unit_zero_vector]

theorem dotp_neg_neg (a b : VECTOR3 K) : dotp (-a) (-b) = dotp a b := by
  simp only [VECTOR3.neg_eq, VECTOR3.neg, _V, dotp]
  ring

theorem mulM_tmat_rows (X Y Z : VECTOR3 K) :
    mulM (_M X.x X.y X.z Y.x Y.y Y.z Z.x Z.y Z.z)
        (tmat (_M X.x X.y X.z Y.x Y.y Y.z Z.x Z.y Z.z))
      = _M (dotp X X) (dotp X Y) (dotp X Z) (dotp Y X) (dotp Y Y) (dotp Y Z)
          (dotp Z X) (dotp Z Y) (dotp Z Z) := by
  simp only [mulM, tmat, _M, dotp]

theorem dotp_comm (a b : VECTOR3 K) : dotp a b = dotp b a := by
  simp only [dotp]
  ring

/-- Claim C30 (the passive thermal control matrix): for a sample whose state vector and
ephemerides are available, with `u_VE` and `u_VS` the vehicle-to-Earth and vehicle-to-Sun
directions of lines 914-915 not parallel (their cross product is not zero, which makes
both of them unit vectors), the sample is computed and the rows `X_NB`, `Y_NB`, `Z_NB` of
its matrix `M_NB` are orthonormal, `X_NB x Y_NB = Z_NB`, `X_NB` is perpendicular to `u_VE`
and to `u_VS`, and `Z_NB = u_VE`; the pass of the loop stores this `M_NB` in
`out.REFSMMAT` with `REFSMMAT_Vehicle = RTCC_MPT_CSM`. -/
theorem C30_PassiveThermalControl_matrix (c : Collab K)
    (hsqrt : ∀ a : K, 0 ≤ a → c.cm.sqrt a * c.cm.sqrt a = a)
    (inp : AGOPInputs K) (ephemeris : EphemerisDataTable2 K) (GMT : K)
    (sv : EphemerisData K) (R_EV u_VE u_VS : VECTOR3 K)
    (hI : Interpolation c ephemeris GMT = some sv)
    (hpl : (c.rtcc.PLEFEM 1 (sv.GMT / 3600) 0).err = false)
    (hEV : R_EV = if sv.RBI = Body.BODY_EARTH then sv.R
      else (c.rtcc.PLEFEM 1 (sv.GMT / 3600) 0).R_EM + sv.R)
    (hVE : u_VE = -(unit c.cm R_EV))
    (hVS : u_VS = unit c.cm ((c.rtcc.PLEFEM 1 (sv.GMT / 3600) 0).R_ES - R_EV))
    (hnp : crossp u_VE u_VS ≠ _V 0 0 0) :
    ∃ s : PTCSample K, PassiveThermalControl_sample c inp ephemeris GMT = Except.ok s
      ∧ mulM s.M_NB (tmat s.M_NB) = _M 1 0 0 0 1 0 0 0 1
      ∧ crossp (_V s.M_NB.m11 s.M_NB.m12 s.M_NB.m13) (_V s.M_NB.m21 s.M_NB.m22 s.M_NB.m23)
          = _V s.M_NB.m31 s.M_NB.m32 s.M_NB.m33
      ∧ dotp (_V s.M_NB.m11 s.M_NB.m12 s.M_NB.m13) u_VE = 0
      ∧ dotp (_V s.M_NB.m11 s.M_NB.m12 s.M_NB.m13) u_VS = 0
      ∧ _V s.M_NB.m31 s.M_NB.m32 s.M_NB.m33 = u_VE
      ∧ ∀ (fuel i : ℕ) (out : AGOPOutputs K),
          PassiveThermalControl_loop c inp ephemeris (fuel + 1) i GMT out
            = if c.fp.add GMT inp.DeltaT > ephemeris.Header.TR then
                { out with IMUAttitude := s.IMUAttitude, REFSMMAT := s.M_NB,
                           REFSMMAT_Vehicle := c.rtcc.RTCC_MPT_CSM,
                           output_text := out.output_text ++ [s.line] }
              else if i + 1 < 10 then
                PassiveThermalControl_loop c inp ephemeris fuel (i + 1)
                  (c.fp.add GMT inp.DeltaT)
                  { out with IMUAttitude := s.IMUAttitude, REFSMMAT := s.M_NB,
                             REFSMMAT_Vehicle := c.rtcc.RTCC_MPT_CSM,
                             output_text := out.output_text ++ [s.line] }
              else
                { out with IMUAttitude := s.IMUAttitude, REFSMMAT := s.M_NB,
                           REFSMMAT_Vehicle := c.rtcc.RTCC_MPT_CSM,
                           output_text := out.output_text ++ [s.line] } := by
  have hVEne : u_VE ≠ _V 0 0 0 := by
    intro h
    apply hnp
    rw [h, crossp_zero_left]
  have hEVne : R_EV ≠ _V 0 0 0 := ne_zero_of_neg_unit_ne c.cm R_EV u_VE hVE hVEne
  have huu : dotp u_VE u_VE = 1 := by
    rw [hVE, dotp_neg_neg]
    exact dotp_unit_unit c.cm hsqrt R_EV hEVne
  have hXX : dotp (unit c.cm (crossp u_VE u_VS)) (unit c.cm (crossp u_VE u_VS)) = 1 :=
    dotp_unit_unit c.cm hsqrt _ hnp
  have hXu : dotp (unit c.cm (crossp u_VE u_VS)) u_VE = 0 := by
    rw [dotp_unit_left, dotp_crossp_left, zero_div]
  have hXv : dotp (unit c.cm (crossp u_VE u_VS)) u_VS = 0 := by
    rw [dotp_unit_left, dotp_crossp_right, zero_div]
  obtain ⟨hZ, hYY, hXY, hYu⟩ := thermal_frame _ u_VE hXX hXu huu
  have hYX : dotp (-(crossp (unit c.cm (crossp u_VE u_VS)) u_VE))
      (unit c.cm (crossp u_VE u_VS)) = 0 := by
    rw [dotp_comm]; exact hXY
  have huX : dotp u_VE (unit c.cm (crossp u_VE u_VS)) = 0 := by
    rw [dotp_comm]; exact hXu
  have huY : dotp u_VE (-(crossp (unit c.cm (crossp u_VE u_VS)) u_VE)) = 0 := by
    rw [dotp_comm]; exact hYu
  have hs : ∃ s : PTCSample K, PassiveThermalControl_sample c inp ephemeris GMT = Except.ok s
      ∧ s.M_NB = _M (unit c.cm (crossp u_VE u_VS)).x (unit c.cm (crossp u_VE u_VS)).y
            (unit c.cm (crossp u_VE u_VS)).z
            (-(crossp (unit c.cm (crossp u_VE u_VS)) u_VE)).x
            (-(crossp (unit c.cm (crossp u_VE u_VS)) u_VE)).y
            (-(crossp (unit c.cm (crossp u_VE u_VS)) u_VE)).z
            (crossp (unit c.cm (crossp u_VE u_VS))
              (-(crossp (unit c.cm (crossp u_VE u_VS)) u_VE))).x
            (crossp (unit c.cm (crossp u_VE u_VS))
              (-(crossp (unit c.cm (crossp u_VE u_VS)) u_VE))).y
            (crossp (unit c.cm (crossp u_VE u_VS))
              (-(crossp (unit c.cm (crossp u_VE u_VS)) u_VE))).z := by
    subst hEV
    subst hVE
    subst hVS
    rw [PassiveThermalControl_sample, hI]
    simp only [hpl, Bool.false_eq_true, if_false]
    exact ⟨_, rfl, rfl⟩
  obtain ⟨s, hs, hM⟩ := hs
  refine ⟨s, hs, ?_, ?_, ?_, ?_, ?_, ?_⟩
  · rw [hM, mulM_tmat_rows, hZ, hXX, hXY, hXu, hYX, hYY, hYu, huX, huY, huu]
  · rw [hM]
    simp only [_M]
    exact rfl
  · rw [hM]
    simp only [_M]
    exact hXu
  · rw [hM]
    simp only [_M]
    exact hXv
  · rw [hM]
    simp only [_M]
    exact hZ
  · intro fuel i out
    simp only [PassiveThermalControl_loop, hs]

theorem refCollab_directions_not_parallel :
    crossp
      (-(unit (⟨Real.sqrt, Real.sin, Real.cos, Real.arcsin, Real.arccos, Real.arctan,
          fun y x => Complex.arg ⟨x, y⟩, Real.pi⟩ : CMath ℝ) (_V 1 0 0)))
      (unit (⟨Real.sqrt, Real.sin, Real.cos, Real.arcsin, Real.arccos, Real.arctan,
          fun y x => Complex.arg ⟨x, y⟩, Real.pi⟩ : CMath ℝ)
        (_V 0 149600000000 0 - _V 1 0 0)) ≠ _V 0 0 0 := by
  intro h
  have hz := congrArg VECTOR3.z h
  simp only [crossp, unit, length, VECTOR3.sdiv, VECTOR3.neg_eq, VECTOR3.neg, VECTOR3.sub_eq,
    VECTOR3.sub, _V] at hz
  have hL : (0 : ℝ) < Real.sqrt ((0 - 1) * (0 - 1) + (149600000000 - 0) * (149600000000 - 0)
      + (0 - 0) * (0 - 0)) := Real.sqrt_pos.mpr (by norm_num)
  have h1 : Real.sqrt (1 * 1 + 0 * 0 + 0 * 0) = 1 := by norm_num
  rw [h1] at hz
  field_simp at hz

/-- Witness for C30: the reference collaborators over the reals at sample time 1: the
vehicle is at `(1, 0, 0)` from the Earth and the Sun at `(0, 149600000000, 0)`. -/
theorem C30_PassiveThermalControl_matrix_witness :
    ∃ s : PTCSample ℝ,
      PassiveThermalControl_sample
          (refCollab ⟨Real.sqrt, Real.sin, Real.cos, Real.arcsin, Real.arccos, Real.arctan,
            fun y x => Complex.arg ⟨x, y⟩, Real.pi⟩)
          (sightingInputs ⟨Real.sqrt, Real.sin, Real.cos, Real.arcsin, Real.arccos,
            Real.arctan, fun y x => Complex.arg ⟨x, y⟩, Real.pi⟩ 0)
          { Header := { CSI := 0, TL := 0, TR := 0 }, table := [] } 1 = Except.ok s
      ∧ mulM s.M_NB (tmat s.M_NB) = _M 1 0 0 0 1 0 0 0 1 := by
  obtain ⟨s, h1, h2, _⟩ := C30_PassiveThermalControl_matrix
    (refCollab ⟨Real.sqrt, Real.sin, Real.cos, Real.arcsin, Real.arccos, Real.arctan,
      fun y x => Complex.arg ⟨x, y⟩, Real.pi⟩)
    (fun a ha => Real.mul_self_sqrt ha)
    (sightingInputs ⟨Real.sqrt, Real.sin, Real.cos, Real.arcsin, Real.arccos,
      Real.arctan, fun y x => Complex.arg ⟨x, y⟩, Real.pi⟩ 0)
    { Header := { CSI := 0, TL := 0, TR := 0 }, table := [] } 1
    { R := _V 1 0 0, V := _V 0 1 0, GMT := 1, RBI := Body.BODY_EARTH }
    (_V 1 0 0) _ _
    (by simp [Interpolation, refCollab, refRTCC])
    rfl (by simp) rfl rfl refCollab_directions_not_parallel
  exact ⟨s, h1, h2⟩

end Frames

section LVLH
variable {K : Type} [LinearOrderedField K]

/-- The local-vertical frame `X_P = Y_P x Z_P` built on two perpendicular unit vectors is
orthonormal and right-handed. -/
theorem local_vertical_frame (y z : VECTOR3 K) (hyy : dotp y y = 1) (hzz : dotp z z = 1)
    (hyz : dotp y z = 0) :
    dotp (crossp y z) (crossp y z) = 1 ∧ dotp (crossp y z) y = 0
    ∧ dotp (crossp y z) z = 0 := by
  refine ⟨?_, dotp_crossp_left y z, dotp_crossp_right y z⟩
  simp only [dotp] at hyy hzz hyz
  simp only [dotp, crossp, _V]
  linear_combination (z.x * z.x + z.y * z.y + z.z * z.z) * hyy + hzz
    - (y.x * z.x + y.y * z.y + y.z * z.z) * hyz

/-- Body axes that are combinations of an orthonormal right-handed frame with the
coefficients of the roll, pitch, yaw rotation are again orthonormal and right-handed. -/
theorem lvlh_frame (X Y Z : VECTOR3 K) (hXX : dotp X X = 1) (hYY : dotp Y Y = 1)
    (hZZ : dotp Z Z = 1) (hXY : dotp X Y = 0) (hXZ : dotp X Z = 0) (hYZ : dotp Y Z = 0)
    (hT : dotp X (crossp Y Z) = 1) (sp cp sy cy sr cr : K) (hp : sp * sp + cp * cp = 1)
    (hy : sy * sy + cy * cy = 1) (hr : sr * sr + cr * cr = 1) :
    dotp (X.smul (cy * cp) + Y.smul (sy * cp) + Z.smul (-sp))
        (X.smul (cy * cp) + Y.smul (sy * cp) + Z.smul (-sp)) = 1
    ∧ dotp (X.smul (cy * cp) + Y.smul (sy * cp) + Z.smul (-sp))
        (X.smul (sp * sr * cy - sy * cr) + Y.smul (sp * sr * sy + cy * cr) + Z.smul (cp * sr)) = 0
    ∧ dotp (X.smul (cy * cp) + Y.smul (sy * cp) + Z.smul (-sp))
        (X.smul (sp * cr * cy + sy * sr) + Y.smul (sp * cr * sy - cy * sr) + Z.smul (cp * cr)) = 0
    ∧ dotp (X.smul (sp * sr * cy - sy * cr) + Y.smul (sp * sr * sy + cy * cr) + Z.smul (cp * sr))
        (X.smul (cy * cp) + Y.smul (sy * cp) + Z.smul (-sp)) = 0
    ∧ dotp (X.smul (sp * sr * cy - sy * cr) + Y.smul (sp * sr * sy + cy * cr) + Z.smul (cp * sr))
        (X.smul (sp * sr * cy - sy * cr) + Y.smul (sp * sr * sy + cy * cr) + Z.smul (cp * sr)) = 1
    ∧ dotp (X.smul (sp * sr * cy - sy * cr) + Y.smul (sp * sr * sy + cy * cr) + Z.smul (cp * sr))
        (X.smul (sp * cr * cy + sy * sr) + Y.smul (sp * cr * sy - cy * sr) + Z.smul (cp * cr)) = 0
    ∧ dotp (X.smul (sp * cr * cy + sy * sr) + Y.smul (sp * cr * sy - cy * sr) + Z.smul (cp * cr))
        (X.smul (cy * cp) + Y.smul (sy * cp) + Z.smul (-sp)) = 0
    ∧ dotp (X.smul (sp * cr * cy + sy * sr) + Y.smul (sp * cr * sy - cy * sr) + Z.smul (cp * cr))
        (X.smul (sp * sr * cy - sy * cr) + Y.smul (sp * sr * sy + cy * cr) + Z.smul (cp * sr)) = 0
    ∧ dotp (X.smul (sp * cr * cy + sy * sr) + Y.smul (sp * cr * sy - cy * sr) + Z.smul (cp * cr))
        (X.smul (sp * cr * cy + sy * sr) + Y.smul (sp * cr * sy - cy * sr) + Z.smul (cp * cr)) = 1
    ∧ dotp (X.smul (cy * cp) + Y.smul (sy * cp) + Z.smul (-sp))
        (crossp (X.smul (sp * sr * cy - sy * cr) + Y.smul (sp * sr * sy + cy * cr) + Z.smul (cp * sr))
          (X.smul (sp * cr * cy + sy * sr) + Y.smul (sp * cr * sy - cy * sr) + Z.smul (cp * cr))) = 1 := by
  simp only [dotp] at hXX hYY hZZ hXY hXZ hYZ
  simp only [dotp, crossp, _V] at hT
  refine ⟨?_, ?_, ?_, ?_, ?_, ?_, ?_, ?_, ?_, ?_⟩
  · simp only [dotp, VECTOR3.add_eq, VECTOR3.add, VECTOR3.smul, _V]
    linear_combination (cy * cp) * (cy * cp) * hXX + (sy * cp) * (sy * cp) * hYY + (-sp) * (-sp) * hZZ + ((cy * cp) * (sy * cp) + (sy * cp) * (cy * cp)) * hXY + ((cy * cp) * (-sp) + (-sp) * (cy * cp)) * hXZ + ((sy * cp) * (-sp) + (-sp) * (sy * cp)) * hYZ + cp * cp * hy + hp
  · simp only [dotp, VECTOR3.add_eq, VECTOR3.add, VECTOR3.smul, _V]
    linear_combination (cy * cp) * (sp * sr * cy - sy * cr) * hXX + (sy * cp) * (sp * sr * sy + cy * cr) * hYY + (-sp) * (cp * sr) * hZZ + ((cy * cp) * (sp * sr * sy + cy * cr) + (sy * cp) * (sp * sr * cy - sy * cr)) * hXY + ((cy * cp) * (cp * sr) + (-sp) * (sp * sr * cy - sy * cr)) * hXZ + ((sy * cp) * (cp * sr) + (-sp) * (sp * sr * sy + cy * cr)) * hYZ + cp * sp * sr * hy
  · simp only [dotp, VECTOR3.add_eq, VECTOR3.add, VECTOR3.smul, _V]
    linear_combination (cy * cp) * (sp * cr * cy + sy * sr) * hXX + (sy * cp) * (sp * cr * sy - cy * sr) * hYY + (-sp) * (cp * cr) * hZZ + ((cy * cp) * (sp * cr * sy - cy * sr) + (sy * cp) * (sp * cr * cy + sy * sr)) * hXY + ((cy * cp) * (cp * cr) + (-sp) * (sp * cr * cy + sy * sr)) * hXZ + ((sy * cp) * (cp * cr) + (-sp) * (sp * cr * sy - cy * sr)) * hYZ + cp * sp * cr * hy
  · simp only [dotp, VECTOR3.add_eq, VECTOR3.add, VECTOR3.smul, _V]
    linear_combination (sp * sr * cy - sy * cr) * (cy * cp) * hXX + (sp * sr * sy + cy * cr) * (sy * cp) * hYY + (cp * sr) * (-sp) * hZZ + ((sp * sr * cy - sy * cr) * (sy * cp) + (sp * sr * sy + cy * cr) * (cy * cp)) * hXY + ((sp * sr * cy - sy * cr) * (-sp) + (cp * sr) * (cy * cp)) * hXZ + ((sp * sr * sy + cy * cr) * (-sp) + (cp * sr) * (sy * cp)) * hYZ + cp * sp * sr * hy
  · simp only [dotp, VECTOR3.add_eq, VECTOR3.add, VECTOR3.smul, _V]
    linear_combination (sp * sr * cy - sy * cr) * (sp * sr * cy - sy * cr) * hXX + (sp * sr * sy + cy * cr) * (sp * sr * sy + cy * cr) * hYY + (cp * sr) * (cp * sr) * hZZ + ((sp * sr * cy - sy * cr) * (sp * sr * sy + cy * cr) + (sp * sr * sy + cy * cr) * (sp * sr * cy - sy * cr)) * hXY + ((sp * sr * cy - sy * cr) * (cp * sr) + (cp * sr) * (sp * sr * cy - sy * cr)) * hXZ + ((sp * sr * sy + cy * cr) * (cp * sr) + (cp * sr) * (sp * sr * sy + cy * cr)) * hYZ + (sp * sp * sr * sr + cr * cr) * hy + sr * sr * hp + hr
  · simp only [dotp, VECTOR3.add_eq, VECTOR3.add, VECTOR3.smul, _V]
    linear_combination (sp * sr * cy - sy * cr) * (sp * cr * cy + sy * sr) * hXX + (sp * sr * sy + cy * cr) * (sp * cr * sy - cy * sr) * hYY + (cp * sr) * (cp * cr) * hZZ + ((sp * sr * cy - sy * cr) * (sp * cr * sy - cy * sr) + (sp * sr * sy + cy * cr) * (sp * cr * cy + sy * sr)) * hXY + ((sp * sr * cy - sy * cr) * (cp * cr) + (cp * sr) * (sp * cr * cy + sy * sr)) * hXZ + ((sp * sr * sy + cy * cr) * (cp * cr) + (cp * sr) * (sp * cr * sy - cy * sr)) * hYZ + sr * cr * (sp * sp - 1) * hy + sr * cr * hp
  · simp only [dotp, VECTOR3.add_eq, VECTOR3.add, VECTOR3.smul, _V]
    linear_combination (sp * cr * cy + sy * sr) * (cy * cp) * hXX + (sp * cr * sy - cy * sr) * (sy * cp) * hYY + (cp * cr) * (-sp) * hZZ + ((sp * cr * cy + sy * sr) * (sy * cp) + (sp * cr * sy - cy * sr) * (cy * cp)) * hXY + ((sp * cr * cy + sy * sr) * (-sp) + (cp * cr) * (cy * cp)) * hXZ + ((sp * cr * sy - cy * sr) * (-sp) + (cp * cr) * (sy * cp)) * hYZ + cp * sp * cr * hy
  · simp only [dotp, VECTOR3.add_eq, VECTOR3.add, VECTOR3.smul, _V]
    linear_combination (sp * cr * cy + sy * sr) * (sp * sr * cy - sy * cr) * hXX + (sp * cr * sy - cy * sr) * (sp * sr * sy + cy * cr) * hYY + (cp * cr) * (cp * sr) * hZZ + ((sp * cr * cy + sy * sr) * (sp * sr * sy + cy * cr) + (sp * cr * sy - cy * sr) * (sp * sr * cy - sy * cr)) * hXY + ((sp * cr * cy + sy * sr) * (cp * sr) + (cp * cr) * (sp * sr * cy - sy * cr)) * hXZ + ((sp * cr * sy - cy * sr) * (cp * sr) + (cp * cr) * (sp * sr * sy + cy * cr)) * hYZ + sr * cr * (sp * sp - 1) * hy + sr * cr * hp
  · simp only [dotp, VECTOR3.add_eq, VECTOR3.add, VECTOR3.smul, _V]
    linear_combination (sp * cr * cy + sy * sr) * (sp * cr * cy + sy * sr) * hXX + (sp * cr * sy - cy * sr) * (sp * cr * sy - cy * sr) * hYY + (cp * cr) * (cp * cr) * hZZ + ((sp * cr * cy + sy * sr) * (sp * cr * sy - cy * sr) + (sp * cr * sy - cy * sr) * (sp * cr * cy + sy * sr)) * hXY + ((sp * cr * cy + sy * sr) * (cp * cr) + (cp * cr) * (sp * cr * cy + sy * sr)) * hXZ + ((sp * cr * sy - cy * sr) * (cp * cr) + (cp * cr) * (sp * cr * sy - cy * sr)) * hYZ + (sp * sp * cr * cr + sr * sr) * hy + cr * cr * hp + hr
  · simp only [dotp, crossp, VECTOR3.add_eq, VECTOR3.add, VECTOR3.smul, _V]
    linear_combination ((cy * cp) * ((sp * sr * sy + cy * cr) * (cp * cr) - (cp * sr) * (sp * cr * sy - cy * sr)) + (sy * cp) * ((cp * sr) * (sp * cr * cy + sy * sr) - (sp * sr * cy - sy * cr) * (cp * cr)) + (-sp) * ((sp * sr * cy - sy * cr) * (sp * cr * sy - cy * sr) - (sp * sr * sy + cy * cr) * (sp * cr * cy + sy * sr))) * hT
      + (sy * sy + cy * cy) * (sp * sp + cp * cp) * hr + (sp * sp + cp * cp) * hy + hp

/-- Claim C25 (`LVLHAttitude` preserves orthonormality): for every attitude triple and
every position `R` and velocity `V` that are non-zero and not parallel (equivalently
`R x V` is not the zero vector), the matrix returned by `LVLHAttitude` has orthonormal
rows (`M * M^T = I`) and determinant `+1`; and for the attitude `(0, 0, 0)` its rows are
the local-vertical axes `X_P = Y_P x Z_P`, `Y_P = -unit(R x V)`, `Z_P = -unit(R)`. The
mathematical library is taken with `sqrt(a)^2 = a` for `a >= 0`,
`sin^2 + cos^2 = 1`, `sin 0 = 0` and `cos 0 = 1`. -/
theorem C25_LVLHAttitude_orthonormal (cm : CMath K)
    (hsqrt : ∀ a : K, 0 ≤ a → cm.sqrt a * cm.sqrt a = a)
    (hsc : ∀ x : K, cm.sin x * cm.sin x + cm.cos x * cm.cos x = 1)
    (hsin0 : cm.sin 0 = 0) (hcos0 : cm.cos 0 = 1)
    (LVLHAtt R V : VECTOR3 K) (hRV : crossp R V ≠ _V 0 0 0) :
    mulM (LVLHAttitude cm LVLHAtt R V) (tmat (LVLHAttitude cm LVLHAtt R V))
        = _M 1 0 0 0 1 0 0 0 1
    ∧ (LVLHAttitude cm LVLHAtt R V).m11
          * ((LVLHAttitude cm LVLHAtt R V).m22 * (LVLHAttitude cm LVLHAtt R V).m33
            - (LVLHAttitude cm LVLHAtt R V).m23 * (LVLHAttitude cm LVLHAtt R V).m32)
        - (LVLHAttitude cm LVLHAtt R V).m12
          * ((LVLHAttitude cm LVLHAtt R V).m21 * (LVLHAttitude cm LVLHAtt R V).m33
            - (LVLHAttitude cm LVLHAtt R V).m23 * (LVLHAttitude cm LVLHAtt R V).m31)
        + (LVLHAttitude cm LVLHAtt R V).m13
          * ((LVLHAttitude cm LVLHAtt R V).m21 * (LVLHAttitude cm LVLHAtt R V).m32
            - (LVLHAttitude cm LVLHAtt R V).m22 * (LVLHAttitude cm LVLHAtt R V).m31) = 1
    ∧ LVLHAttitude cm (_V 0 0 0) R V
        = _M (crossp (-(unit cm (crossp R V))) (-(unit cm R))).x
            (crossp (-(unit cm (crossp R V))) (-(unit cm R))).y
            (crossp (-(unit cm (crossp R V))) (-(unit cm R))).z
            (-(unit cm (crossp R V))).x (-(unit cm (crossp R V))).y
            (-(unit cm (crossp R V))).z
            (-(unit cm R)).x (-(unit cm R)).y (-(unit cm R)).z := by
  have hR : R ≠ _V 0 0 0 := by
    intro h
    exact hRV (by rw [h, crossp_zero_left])
  have hyy : dotp (-(unit cm (crossp R V))) (-(unit cm (crossp R V))) = 1 := by
    rw [dotp_neg_neg]
    exact dotp_unit_unit cm hsqrt _ hRV
  have hzz : dotp (-(unit cm R)) (-(unit cm R)) = 1 := by
    rw [dotp_neg_neg]
    exact dotp_unit_unit cm hsqrt _ hR
  have hyz : dotp (-(unit cm (crossp R V))) (-(unit cm R)) = 0 := by
    rw [dotp_neg_neg, dotp_unit_left, dotp_comm, dotp_unit_left, dotp_comm,
      dotp_crossp_left]
    simp
  obtain ⟨hXX, hXY, hXZ⟩ := local_vertical_frame _ _ hyy hzz hyz
  have hF := lvlh_frame _ _ _ hXX hyy hzz hXY hXZ hyz hXX
    (cm.sin LVLHAtt.y) (cm.cos LVLHAtt.y) (cm.sin LVLHAtt.z) (cm.cos LVLHAtt.z)
    (cm.sin LVLHAtt.x) (cm.cos LVLHAtt.x) (hsc _) (hsc _) (hsc _)
  obtain ⟨h11, h12, h13, h21, h22, h23, h31, h32, h33, hT⟩ := hF
  refine ⟨?_, ?_, ?_⟩
  · simp only [LVLHAttitude]
    rw [mulM_tmat_rows, h11, h12, h13, h21, h22, h23, h31, h32, h33]
  · simp only [dotp, crossp, _V] at hT
    simp only [LVLHAttitude, _M, crossp, _V]
    linear_combination hT
  · simp only [LVLHAttitude, _V, hsin0, hcos0, _M, MATRIX3.mk.injEq, VECTOR3.add_eq,
      VECTOR3.add, VECTOR3.smul]
    refine ⟨?_, ?_, ?_, ?_, ?_, ?_, ?_, ?_, ?_⟩ <;> ring

theorem C25_LVLHAttitude_orthonormal_witness :
    mulM (LVLHAttitude (⟨Real.sqrt, Real.sin, Real.cos, Real.arcsin, Real.arccos,
          Real.arctan, fun y x => Complex.arg ⟨x, y⟩, Real.pi⟩ : CMath ℝ)
          (_V (Real.pi / 6) (Real.pi / 3) (Real.pi / 4)) (_V 1 0 0) (_V 0 1 0))
        (tmat (LVLHAttitude (⟨Real.sqrt, Real.sin, Real.cos, Real.arcsin, Real.arccos,
          Real.arctan, fun y x => Complex.arg ⟨x, y⟩, Real.pi⟩ : CMath ℝ)
          (_V (Real.pi / 6) (Real.pi / 3) (Real.pi / 4)) (_V 1 0 0) (_V 0 1 0)))
      = _M 1 0 0 0 1 0 0 0 1 :=
  (C25_LVLHAttitude_orthonormal
    (⟨Real.sqrt, Real.sin, Real.cos, Real.arcsin, Real.arccos, Real.arctan,
      fun y x => Complex.arg ⟨x, y⟩, Real.pi⟩ : CMath ℝ)
    (fun a ha => Real.mul_self_sqrt ha)
    (fun x => by
      show Real.sin x * Real.sin x + Real.cos x * Real.cos x = 1
      have := Real.sin_sq_add_cos_sq x
      nlinarith [this])
    Real.sin_zero Real.cos_zero
    (_V (Real.pi / 6) (Real.pi / 3) (Real.pi / 4)) (_V 1 0 0) (_V 0 1 0)
    (by simp [crossp, _V])).1

end LVLH

section ReferenceBody
variable {K : Type} [LinearOrderedField K]

theorem ReferenceBodyComputation_u_mode2 (c : Collab K) (inp : AGOPInputs K)
    (sv : EphemerisData K) (R_EM R_ES : VECTOR3 K) (h : inp.Mode = 2) :
    ReferenceBodyComputation_u c inp sv R_EM R_ES
      = Except.ok (-(unit c.cm (if sv.RBI = Body.BODY_EARTH then sv.R else sv.R + R_EM))) := by
  simp only [ReferenceBodyComputation_u, if_pos h]

theorem ReferenceBodyComputation_u_mode3 (c : Collab K) (inp : AGOPInputs K)
    (sv : EphemerisData K) (R_EM R_ES : VECTOR3 K) (h : inp.Mode = 3) :
    ReferenceBodyComputation_u c inp sv R_EM R_ES
      = Except.ok (unit c.cm (if sv.RBI = Body.BODY_EARTH then R_EM - sv.R else -sv.R)) := by
  have h2 : ¬ inp.Mode = 2 := by omega
  simp only [ReferenceBodyComputation_u, if_neg h2, if_pos h]

theorem ReferenceBodyComputation_u_mode4 (c : Collab K) (inp : AGOPInputs K)
    (sv : EphemerisData K) (R_EM R_ES : VECTOR3 K) (h : inp.Mode = 4) :
    ReferenceBodyComputation_u c inp sv R_EM R_ES
      = Except.ok (unit c.cm
          (if sv.RBI = Body.BODY_EARTH then R_ES - sv.R else R_ES - (sv.R + R_EM))) := by
  have h2 : ¬ inp.Mode = 2 := by omega
  have h3 : ¬ inp.Mode = 3 := by omega
  simp only [ReferenceBodyComputation_u, if_neg h2, if_neg h3, if_pos h]

/-- For an Earth-referenced state vector the vehicle-to-Earth, vehicle-to-Moon and
vehicle-to-Sun unit vectors of mode 1 are the unit vectors of modes 2, 3 and 4. -/
theorem ReferenceBodyComputation_mode1_earth (c : Collab K) (inp2 inp3 inp4 : AGOPInputs K)
    (sv : EphemerisData K) (R_EM R_ES : VECTOR3 K) (h2 : inp2.Mode = 2)
    (h3 : inp3.Mode = 3) (h4 : inp4.Mode = 4) (hE : sv.RBI = Body.BODY_EARTH) :
    ReferenceBodyComputation_u c inp2 sv R_EM R_ES
        = Except.ok (ReferenceBodyComputation_mode1 c.cm sv R_EM R_ES).u_VE
    ∧ ReferenceBodyComputation_u c inp3 sv R_EM R_ES
        = Except.ok (ReferenceBodyComputation_mode1 c.cm sv R_EM R_ES).u_VM
    ∧ ReferenceBodyComputation_u c inp4 sv R_EM R_ES
        = Except.ok (ReferenceBodyComputation_mode1 c.cm sv R_EM R_ES).u_VS := by
  rw [ReferenceBodyComputation_u_mode2 c inp2 sv R_EM R_ES h2,
    ReferenceBodyComputation_u_mode3 c inp3 sv R_EM R_ES h3,
    ReferenceBodyComputation_u_mode4 c inp4 sv R_EM R_ES h4]
  simp only [if_pos hE, ReferenceBodyComputation_mode1, and_self]

theorem unit_of_length (cm : CMath K) (v : VECTOR3 K) (l : K)
    (h : cm.sqrt (v.x * v.x + v.y * v.y + v.z * v.z) = l) :
    unit cm v = _V (v.x / l) (v.y / l) (v.z / l) := by
  simp only [unit, length, h, VECTOR3.sdiv]

theorem real_sqrt_of_sq (a l : ℝ) (hl : 0 ≤ l) (h : a = l * l) : Real.sqrt a = l := by
  rw [h]
  exact Real.sqrt_mul_self hl

/-- Claim C26 (mode 1 of `ReferenceBodyComputation` on a Moon-referenced state vector):
for the state vector 3 units from the Moon along x with the Moon at `R_EM = (0, 4, 0)`
and the Sun at `R_ES = (6, 4, 0)`, mode 1 takes the vehicle-to-Earth, vehicle-to-Moon and
vehicle-to-Sun directions as `(-1, 0, 0)`, `(-3/5, 4/5, 0)` and `(3/5, 4/5, 0)`, while
modes 2, 3 and 4 compute `(-3/5, -4/5, 0)`, `(-1, 0, 0)` and `(1, 0, 0)` for the same
state vector. -/
theorem C26_mode1_moon_referenced :
    (ReferenceBodyComputation_mode1 (⟨Real.sqrt, Real.sin, Real.cos, Real.arcsin,
        Real.arccos, Real.arctan, fun y x => Complex.arg ⟨x, y⟩, Real.pi⟩ : CMath ℝ)
        moonReferencedState (_V 0 4 0) (_V 6 4 0)).u_VE = _V (-1) 0 0
    ∧ ReferenceBodyComputation_u (refCollab (⟨Real.sqrt, Real.sin, Real.cos, Real.arcsin,
        Real.arccos, Real.arctan, fun y x => Complex.arg ⟨x, y⟩, Real.pi⟩ : CMath ℝ))
        { sightingInputs (⟨Real.sqrt, Real.sin, Real.cos, Real.arcsin,
            Real.arccos, Real.arctan, fun y x => Complex.arg ⟨x, y⟩, Real.pi⟩ : CMath ℝ) 0
          with Mode := 2 }
        moonReferencedState (_V 0 4 0) (_V 6 4 0) = Except.ok (_V (-(3 / 5)) (-(4 / 5)) 0)
    ∧ (ReferenceBodyComputation_mode1 (⟨Real.sqrt, Real.sin, Real.cos, Real.arcsin,
        Real.arccos, Real.arctan, fun y x => Complex.arg ⟨x, y⟩, Real.pi⟩ : CMath ℝ)
        moonReferencedState (_V 0 4 0) (_V 6 4 0)).u_VM = _V (-(3 / 5)) (4 / 5) 0
    ∧ ReferenceBodyComputation_u (refCollab (⟨Real.sqrt, Real.sin, Real.cos, Real.arcsin,
        Real.arccos, Real.arctan, fun y x => Complex.arg ⟨x, y⟩, Real.pi⟩ : CMath ℝ))
        { sightingInputs (⟨Real.sqrt, Real.sin, Real.cos, Real.arcsin,
            Real.arccos, Real.arctan, fun y x => Complex.arg ⟨x, y⟩, Real.pi⟩ : CMath ℝ) 0
          with Mode := 3 }
        moonReferencedState (_V 0 4 0) (_V 6 4 0) = Except.ok (_V (-1) 0 0)
    ∧ (ReferenceBodyComputation_mode1 (⟨Real.sqrt, Real.sin, Real.cos, Real.arcsin,
        Real.arccos, Real.arctan, fun y x => Complex.arg ⟨x, y⟩, Real.pi⟩ : CMath ℝ)
        moonReferencedState (_V 0 4 0) (_V 6 4 0)).u_VS = _V (3 / 5) (4 / 5) 0
    ∧ ReferenceBodyComputation_u (refCollab (⟨Real.sqrt, Real.sin, Real.cos, Real.arcsin,
        Real.arccos, Real.arctan, fun y x => Complex.arg ⟨x, y⟩, Real.pi⟩ : CMath ℝ))
        { sightingInputs (⟨Real.sqrt, Real.sin, Real.cos, Real.arcsin,
            Real.arccos, Real.arctan, fun y x => Complex.arg ⟨x, y⟩, Real.pi⟩ : CMath ℝ) 0
          with Mode := 4 }
        moonReferencedState (_V 0 4 0) (_V 6 4 0) = Except.ok (_V 1 0 0) := by
  refine ⟨?_, ?_, ?_, ?_, ?_, ?_⟩
  · simp only [ReferenceBodyComputation_mode1]
    rw [unit_of_length _ _ 3 (real_sqrt_of_sq _ 3 (by norm_num)
      (by simp only [moonReferencedState, _V]; norm_num))]
    simp only [moonReferencedState, _V, VECTOR3.neg_eq, VECTOR3.neg, VECTOR3.mk.injEq]
    norm_num
  · rw [ReferenceBodyComputation_u_mode2 _ _ _ _ _ rfl]
    have hM : ¬ (moonReferencedState : EphemerisData ℝ).RBI = Body.BODY_EARTH := by
      simp [moonReferencedState]
    rw [if_neg hM]
    rw [unit_of_length _ _ 5 (real_sqrt_of_sq _ 5 (by norm_num)
      (by simp only [moonReferencedState, _V, VECTOR3.add_eq, VECTOR3.add]; norm_num))]
    simp only [moonReferencedState, _V, VECTOR3.neg_eq, VECTOR3.neg, VECTOR3.add_eq,
      VECTOR3.add, Except.ok.injEq, VECTOR3.mk.injEq]
    norm_num
  · simp only [ReferenceBodyComputation_mode1]
    rw [unit_of_length _ _ 5 (real_sqrt_of_sq _ 5 (by norm_num)
      (by simp only [moonReferencedState, _V, VECTOR3.sub_eq, VECTOR3.sub]; norm_num))]
    simp only [moonReferencedState, _V, VECTOR3.sub_eq, VECTOR3.sub, VECTOR3.mk.injEq]
    norm_num
  · rw [ReferenceBodyComputation_u_mode3 _ _ _ _ _ rfl]
    have hM : ¬ (moonReferencedState : EphemerisData ℝ).RBI = Body.BODY_EARTH := by
      simp [moonReferencedState]
    rw [if_neg hM]
    rw [unit_of_length _ _ 3 (real_sqrt_of_sq _ 3 (by norm_num)
      (by simp only [moonReferencedState, _V, VECTOR3.neg_eq, VECTOR3.neg]; norm_num))]
    simp only [moonReferencedState, _V, VECTOR3.neg_eq, VECTOR3.neg, Except.ok.injEq,
      VECTOR3.mk.injEq]
    norm_num
  · simp only [ReferenceBodyComputation_mode1]
    rw [unit_of_length _ _ 5 (real_sqrt_of_sq _ 5 (by norm_num)
      (by simp only [moonReferencedState, _V, VECTOR3.sub_eq, VECTOR3.sub]; norm_num))]
    simp only [moonReferencedState, _V, VECTOR3.sub_eq, VECTOR3.sub, VECTOR3.mk.injEq]
    norm_num
  · rw [ReferenceBodyComputation_u_mode4 _ _ _ _ _ rfl]
    have hM : ¬ (moonReferencedState : EphemerisData ℝ).RBI = Body.BODY_EARTH := by
      simp [moonReferencedState]
    rw [if_neg hM]
    rw [unit_of_length _ _ 3 (real_sqrt_of_sq _ 3 (by norm_num)
      (by simp only [moonReferencedState, _V, VECTOR3.sub_eq, VECTOR3.sub, VECTOR3.add_eq,
        VECTOR3.add]; norm_num))]
    simp only [moonReferencedState, _V, VECTOR3.sub_eq, VECTOR3.sub, VECTOR3.add_eq,
      VECTOR3.add, Except.ok.injEq, VECTOR3.mk.injEq]
    norm_num

end ReferenceBody

section Docked
variable {K : Type} [LinearOrderedField K]

theorem mulM_assoc (A B C : MATRIX3 K) : mulM (mulM A B) C = mulM A (mulM B C) := by
  simp only [mulM, _M, MATRIX3.mk.injEq]
  refine ⟨?_, ?_, ?_, ?_, ?_, ?_, ?_, ?_, ?_⟩ <;> ring

theorem identity_mulM (A : MATRIX3 K) : mulM (_M 1 0 0 0 1 0 0 0 1) A = A := by
  cases A
  simp only [mulM, _M, MATRIX3.mk.injEq]
  refine ⟨?_, ?_, ?_, ?_, ?_, ?_, ?_, ?_, ?_⟩ <;> ring

theorem mulM_identity (A : MATRIX3 K) : mulM A (_M 1 0 0 0 1 0 0 0 1) = A := by
  cases A
  simp only [mulM, _M, MATRIX3.mk.injEq]
  refine ⟨?_, ?_, ?_, ?_, ?_, ?_, ?_, ?_, ?_⟩ <;> ring

/-- A square matrix with orthonormal rows has orthonormal columns. -/
theorem orthonormal_comm (A : MATRIX3 K) (hA : mulM A (tmat A) = _M 1 0 0 0 1 0 0 0 1) :
    mulM (tmat A) A = _M 1 0 0 0 1 0 0 0 1 := by
  cases A with
  | mk a b c d e f g h i =>
    have key : (!![a, b, c; d, e, f; g, h, i] : Matrix (Fin 3) (Fin 3) K)
        * !![a, d, g; b, e, h; c, f, i] = 1 := by
      simp only [mulM, tmat, _M, MATRIX3.mk.injEq] at hA
      obtain ⟨h1, h2, h3, h4, h5, h6, h7, h8, h9⟩ := hA
      ext p q
      fin_cases p <;> fin_cases q <;>
        simp [Matrix.mul_apply, Fin.sum_univ_three, *]
    have key2 := (Matrix.mul_eq_one_comm).mp key
    simp only [mulM, tmat, _M, MATRIX3.mk.injEq]
    have e := fun p q => congrFun (congrFun key2 p) q
    have e00 := e 0 0
    have e01 := e 0 1
    have e02 := e 0 2
    have e10 := e 1 0
    have e11 := e 1 1
    have e12 := e 1 2
    have e20 := e 2 0
    have e21 := e 2 1
    have e22 := e 2 2
    simp [Matrix.mul_apply, Fin.sum_univ_three] at e00 e01 e02 e10 e11 e12 e20 e21 e22
    exact ⟨e00, e01, e02, e10, e11, e12, e20, e21, e22⟩

/-- Claim C21 (docked gimbal-angle conversion, both directions): let `Rc`, `Rl` be
orthonormal CSM and LM REFSMMATs (`R * R^T = I`), `D = CSMBodyToLMBody(d)` an orthonormal
docking rotation (`D * D^T = I`), and let `CALCGAR` recover the angles of the matrix
built by `CALCSMSC` relative to an orthonormal REFSMMAT for every gimbal-angle triple
that is away from the middle-gimbal singularity (`ok`).  For CSM angles `a` away from the
singularity whose docked LM platform attitude is away from it as well (the matrix
`D * CALCSMSC(a) * Rc` is `CALCSMSC(b) * Rl` for some admissible `b`),
`LMIMUtoCMIMUAngles(Rc, Rl, CSMIMUtoLMIMUAngles(Rc, Rl, a, d), d) = a`, and the
BRCS-to-LM-navigation-base matrix of the converted LM angles is
`D * CALCSMSC(a) * Rc`. -/
theorem C21_docked_angles_round_trip (c : Collab K) (ok : VECTOR3 K → Prop)
    (hGAR : ∀ (R : MATRIX3 K) (a : VECTOR3 K), mulM R (tmat R) = _M 1 0 0 0 1 0 0 0 1 →
      ok a → c.om.CALCGAR R (mulM (c.om.CALCSMSC a) R) = a)
    (Rc Rl : MATRIX3 K) (a : VECTOR3 K) (d : K)
    (hRc : mulM Rc (tmat Rc) = _M 1 0 0 0 1 0 0 0 1)
    (hRl : mulM Rl (tmat Rl) = _M 1 0 0 0 1 0 0 0 1)
    (hD : mulM (c.om.CSMBodyToLMBody d) (tmat (c.om.CSMBodyToLMBody d))
      = _M 1 0 0 0 1 0 0 0 1)
    (ha : ok a)
    (hb : ∃ b : VECTOR3 K, ok b ∧ mulM (c.om.CALCSMSC b) Rl
      = mulM (mulM (c.om.CSMBodyToLMBody d) (c.om.CALCSMSC a)) Rc) :
    LMIMUtoCMIMUAngles c Rc Rl (CSMIMUtoLMIMUAngles c Rc Rl a d) d = a
    ∧ mulM (c.om.CALCSMSC (CSMIMUtoLMIMUAngles c Rc Rl a d)) Rl
        = mulM (mulM (c.om.CSMBodyToLMBody d) (c.om.CALCSMSC a)) Rc := by
  obtain ⟨b, hbok, hbeq⟩ := hb
  have h1 : CSMIMUtoLMIMUAngles c Rc Rl a d = b := by
    simp only [CSMIMUtoLMIMUAngles]
    rw [← hbeq]
    exact hGAR Rl b hRl hbok
  rw [h1]
  refine ⟨?_, hbeq⟩
  simp only [LMIMUtoCMIMUAngles]
  rw [hbeq, mulM_assoc (c.om.CSMBodyToLMBody d), ← mulM_assoc, orthonormal_comm _ hD,
    identity_mulM]
  exact hGAR Rc a hRc ha

theorem planarRotation_orthonormal (t : ℚ) :
    mulM (planarRotation t) (tmat (planarRotation t)) = _M 1 0 0 0 1 0 0 0 1
    ∧ mulM (tmat (planarRotation t)) (planarRotation t) = _M 1 0 0 0 1 0 0 0 1 := by
  have h : (1 : ℚ) + t * t ≠ 0 := by nlinarith [mul_self_nonneg t]
  constructor
  · simp only [planarRotation, mulM, tmat, _M, MATRIX3.mk.injEq]
    refine ⟨?_, ?_, ?_, ?_, ?_, ?_, ?_, ?_, ?_⟩ <;> field_simp <;> ring
  · simp only [planarRotation, mulM, tmat, _M, MATRIX3.mk.injEq]
    refine ⟨?_, ?_, ?_, ?_, ?_, ?_, ?_, ?_, ?_⟩ <;> field_simp <;> ring

theorem planarCollab_CALCGAR (R : MATRIX3 ℚ) (a : VECTOR3 ℚ)
    (hR : mulM R (tmat R) = _M 1 0 0 0 1 0 0 0 1) (ha : a.x = 0 ∧ a.y = 0) :
    planarCollab.om.CALCGAR R (mulM (planarCollab.om.CALCSMSC a) R) = a := by
  have h : (1 : ℚ) + a.z * a.z ≠ 0 := by nlinarith [mul_self_nonneg a.z]
  show _V 0 0 ((mulM (mulM (planarRotation a.z) R) (tmat R)).m12
    / (1 + (mulM (mulM (planarRotation a.z) R) (tmat R)).m11)) = a
  rw [mulM_assoc, hR, mulM_identity]
  cases a with
  | mk x y z =>
    simp only at ha h
    simp only [planarRotation, _M, _V, VECTOR3.mk.injEq]
    refine ⟨ha.1.symm, ha.2.symm, ?_⟩
    field_simp
    ring

theorem C21_docked_angles_round_trip_witness :
    LMIMUtoCMIMUAngles planarCollab (planarRotation 2) (planarRotation 2)
        (CSMIMUtoLMIMUAngles planarCollab (planarRotation 2) (planarRotation 2)
          (_V 0 0 (1 / 2)) (1 / 3)) (1 / 3) = _V 0 0 (1 / 2)
    ∧ mulM (planarCollab.om.CALCSMSC
          (CSMIMUtoLMIMUAngles planarCollab (planarRotation 2) (planarRotation 2)
            (_V 0 0 (1 / 2)) (1 / 3))) (planarRotation 2)
        = mulM (mulM (planarCollab.om.CSMBodyToLMBody (1 / 3))
            (planarCollab.om.CALCSMSC (_V 0 0 (1 / 2)))) (planarRotation 2) :=
  C21_docked_angles_round_trip planarCollab (fun a => a.x = 0 ∧ a.y = 0)
    planarCollab_CALCGAR (planarRotation 2) (planarRotation 2) (_V 0 0 (1 / 2)) (1 / 3)
    (planarRotation_orthonormal 2).1 (planarRotation_orthonormal 2).1
    (planarRotation_orthonormal (1 / 3)).1 ⟨rfl, rfl⟩
    ⟨_V 0 0 1, ⟨rfl, rfl⟩, by
      show mulM (planarRotation 1) (planarRotation 2)
        = mulM (mulM (planarRotation (1 / 3)) (planarRotation (1 / 2))) (planarRotation 2)
      simp only [planarRotation, mulM, _M, MATRIX3.mk.injEq]
      norm_num⟩

theorem DockingAlignment_option0 (c : Collab K) (inp : AGOPInputs K) (out : AGOPOutputs K)
    (h0 : inp.AdditionalOption = 0) :
    (DockingAlignment c inp out).REFSMMAT
        = mulM (tmat (c.om.CALCSMSC (if inp.AttIsFDAI then
              c.rtcc.EMMGFDAI (inp.IMUAttitude 1) false else inp.IMUAttitude 1)))
            (mulM (c.om.CSMBodyToLMBody inp.DockingAngle)
              (mulM (c.om.CALCSMSC (inp.IMUAttitude 0)) inp.CSM_REFSMMAT))
    ∧ (DockingAlignment c inp out).REFSMMAT_Vehicle = c.rtcc.RTCC_MPT_LM := by
  simp only [DockingAlignment, h0, if_true, true_or, and_self]

theorem DockingAlignment_option3 (c : Collab K) (inp : AGOPInputs K) (out : AGOPOutputs K)
    (h3 : inp.AdditionalOption = 3) :
    (DockingAlignment c inp out).REFSMMAT
        = mulM (tmat (c.om.CALCSMSC (inp.IMUAttitude 0)))
            (mulM (tmat (c.om.CSMBodyToLMBody inp.DockingAngle))
              (mulM (c.om.CALCSMSC (if inp.AttIsFDAI then
                  c.rtcc.EMMGFDAI (inp.IMUAttitude 1) false else inp.IMUAttitude 1))
                inp.LM_REFSMMAT))
    ∧ (DockingAlignment c inp out).REFSMMAT_Vehicle = c.rtcc.RTCC_MPT_CSM := by
  have h30 : ¬ ((3 : Int) = 0) := by decide
  have h31 : ¬ ((3 : Int) = 1) := by decide
  have h32 : ¬ ((3 : Int) = 2) := by decide
  simp only [DockingAlignment, h3, h30, h31, h32, if_false, or_true, if_true, and_self]

/-- Claim C22 (`DockingAlignment` solves consistently for either unknown REFSMMAT): let
`S_csm = CALCSMSC(IMUAttitude[0])`, `S_lm = CALCSMSC(GA_LM)` (with `GA_LM` the LM gimbal
angles `IMUAttitude[1]`, converted from FDAI angles when `AttIsFDAI`) and
`D = CSMBodyToLMBody(DockingAngle)` be orthonormal (`M * M^T = I`).  With
`AdditionalOption = 0` the call returns the LM REFSMMAT
`R_lm = S_lm^T * D * S_csm * R_csm` tagged `RTCC_MPT_LM`, so that
`S_lm * R_lm = D * S_csm * R_csm`; and the call with `AdditionalOption = 3` on that `R_lm`
as LM REFSMMAT, with the same angles and docking angle, returns the CSM REFSMMAT `R_csm`
tagged `RTCC_MPT_CSM`. -/
theorem C22_DockingAlignment_consistent (c : Collab K) (inp : AGOPInputs K)
    (out out2 : AGOPOutputs K) (h0 : inp.AdditionalOption = 0)
    (hSc : mulM (c.om.CALCSMSC (inp.IMUAttitude 0)) (tmat (c.om.CALCSMSC (inp.IMUAttitude 0)))
      = _M 1 0 0 0 1 0 0 0 1)
    (hSl : mulM
        (c.om.CALCSMSC (if inp.AttIsFDAI then c.rtcc.EMMGFDAI (inp.IMUAttitude 1) false
          else inp.IMUAttitude 1))
        (tmat (c.om.CALCSMSC (if inp.AttIsFDAI then c.rtcc.EMMGFDAI (inp.IMUAttitude 1) false
          else inp.IMUAttitude 1)))
      = _M 1 0 0 0 1 0 0 0 1)
    (hD : mulM (c.om.CSMBodyToLMBody inp.DockingAngle)
        (tmat (c.om.CSMBodyToLMBody inp.DockingAngle)) = _M 1 0 0 0 1 0 0 0 1) :
    (DockingAlignment c inp out).REFSMMAT
        = mulM (tmat (c.om.CALCSMSC (if inp.AttIsFDAI then
              c.rtcc.EMMGFDAI (inp.IMUAttitude 1) false else inp.IMUAttitude 1)))
            (mulM (c.om.CSMBodyToLMBody inp.DockingAngle)
              (mulM (c.om.CALCSMSC (inp.IMUAttitude 0)) inp.CSM_REFSMMAT))
    ∧ (DockingAlignment c inp out).REFSMMAT_Vehicle = c.rtcc.RTCC_MPT_LM
    ∧ mulM (c.om.CALCSMSC (if inp.AttIsFDAI then
              c.rtcc.EMMGFDAI (inp.IMUAttitude 1) false else inp.IMUAttitude 1))
          (DockingAlignment c inp out).REFSMMAT
        = mulM (c.om.CSMBodyToLMBody inp.DockingAngle)
            (mulM (c.om.CALCSMSC (inp.IMUAttitude 0)) inp.CSM_REFSMMAT)
    ∧ (DockingAlignment c
          { inp with AdditionalOption := 3,
                     LM_REFSMMAT := (DockingAlignment c inp out).REFSMMAT } out2).REFSMMAT
        = inp.CSM_REFSMMAT
    ∧ (DockingAlignment c
          { inp with AdditionalOption := 3,
                     LM_REFSMMAT := (DockingAlignment c inp out).REFSMMAT }
          out2).REFSMMAT_Vehicle = c.rtcc.RTCC_MPT_CSM := by
  obtain ⟨e0, v0⟩ := DockingAlignment_option0 c inp out h0
  have e1 : mulM (c.om.CALCSMSC (if inp.AttIsFDAI then
            c.rtcc.EMMGFDAI (inp.IMUAttitude 1) false else inp.IMUAttitude 1))
          (DockingAlignment c inp out).REFSMMAT
        = mulM (c.om.CSMBodyToLMBody inp.DockingAngle)
            (mulM (c.om.CALCSMSC (inp.IMUAttitude 0)) inp.CSM_REFSMMAT) := by
    rw [e0, ← mulM_assoc, hSl, identity_mulM]
  obtain ⟨e3, v3⟩ := DockingAlignment_option3 c
    { inp with AdditionalOption := 3,
               LM_REFSMMAT := (DockingAlignment c inp out).REFSMMAT } out2 rfl
  refine ⟨e0, v0, e1, ?_, v3⟩
  rw [e3]
  dsimp only
  rw [e1, ← mulM_assoc (tmat (c.om.CSMBodyToLMBody inp.DockingAngle)),
    orthonormal_comm _ hD, identity_mulM, ← mulM_assoc, orthonormal_comm _ hSc,
    identity_mulM]

theorem C22_DockingAlignment_consistent_witness :
    (DockingAlignment planarCollab
        { dockedInputs with
          AdditionalOption := 3,
          LM_REFSMMAT :=
            (DockingAlignment planarCollab dockedInputs AGOPOutputs.init).REFSMMAT }
        AGOPOutputs.init).REFSMMAT = planarRotation 2 :=
  (C22_DockingAlignment_consistent planarCollab dockedInputs AGOPOutputs.init
    AGOPOutputs.init rfl (planarRotation_orthonormal _).1 (planarRotation_orthonormal _).1
    (planarRotation_orthonormal _).1).2.2.2.1

end Docked

section SecondSighting
variable {K : Type} [LinearOrderedField K]

theorem GetNBUnitVectorFromInstrument_set (c : Collab K) (inp : AGOPInputs K) (set : Nat)
    (h0 : ¬ inp.Instrument = 0) :
    GetNBUnitVectorFromInstrument c inp set = GetNBUnitVectorFromInstrument c inp 0 := by
  simp only [GetNBUnitVectorFromInstrument, if_neg h0]

/-- The direction measured with the CSM COAS at `SPA = 0`, `SXP = 4.0*RAD`: the vector
`(cos SXP, sin SXP, 0)` divided by its computed length `1 - 2^-53`. -/
theorem coasInputs_direction :
    GetNBUnitVectorFromInstrument coasCollab coasInputs 0
      = _V (4492629085028347 / 4503599627370496 / (9007199254740991 / 9007199254740992))
          (628310458321445 / 9007199254740992 / (9007199254740991 / 9007199254740992))
          (0 / (9007199254740991 / 9007199254740992)) := by
  have h3 : ¬ ((3 : Int) = 0) := by decide
  have h1 : ¬ ((3 : Int) = 1) := by decide
  have h2 : ¬ ((3 : Int) = 2) := by decide
  simp only [GetNBUnitVectorFromInstrument, coasInputs, ratInputs, if_neg h3, if_neg h1,
    if_neg h2, GetCSMCOASVector, coasCollab, coasCMath, unit, length, VECTOR3.sdiv, _V]
  norm_num

/-- The four directions of the two-sighting request `coasInputs`: the two stars, and
twice the direction measured with the COAS. -/
theorem coasInputs_vectors :
    OSTComputeREFSMMAT_vectors coasCollab coasInputs
      = some { U_CBA := _V 1 0 0, U_CBB := _V 0 1 0,
               U_CBA_apo := GetNBUnitVectorFromInstrument coasCollab coasInputs 0,
               U_CBB_apo := GetNBUnitVectorFromInstrument coasCollab coasInputs 0 } := by
  have hA : GetStarUnitVector coasCollab coasInputs (coasInputs.StarIDs 0)
      = some (_V 1 0 0) := by
    simp only [GetStarUnitVector, coasInputs, ratInputs]
    norm_num
  have hB : GetStarUnitVector coasCollab coasInputs (coasInputs.StarIDs 1)
      = some (_V 0 1 0) := by
    simp only [GetStarUnitVector, coasInputs, ratInputs]
    norm_num
  have hset := GetNBUnitVectorFromInstrument_set coasCollab coasInputs 1
    (by simp [coasInputs])
  rw [OSTComputeREFSMMAT_vectors, hA, hB]
  simp only [hset]
  rw [coasInputs_direction]
  simp [PointInstrumentOfOtherVehicle, coasInputs, ratInputs, coasCollab, ratCollab,
    ratOrbMech, tmul, _V, _M]

/-- Claim C28, evaluated at a request the claim covers: the CSM COAS (`Instrument = 3`)
at `SPA = 0`, `SXP = 4.0*RAD`, two perpendicular catalog stars, and
`IMUAttitude[0] = IMUAttitude[1]` with the identity as `CALCSMSC` matrix.  As the claim
says, `GetNBUnitVectorFromInstrument` returns the same vector `U` for `set = 0` and
`set = 1` and the two measured directions of `OSTComputeREFSMMAT` are both `U`.  But `U`
is `(cos SXP, sin SXP, 0)` divided by its computed length, `cos SXP`, `sin SXP` and the
length being values of type `double`, and `dotp U U` is above 1: `acos` of it is not
below `eps` (it is NaN in C), the test `arc1 < eps || arc2 < eps` is false, and the call
does not end with error 7: it stores the matrix that `AXISGEN` makes of the two equal
measured directions and writes the seven lines of the table, with no error message. -/
theorem C28_identical_directions_escape_check :
    coasInputs.Instrument = 3
    ∧ coasInputs.IMUAttitude 0 = coasInputs.IMUAttitude 1
    ∧ mulM (coasCollab.om.CALCSMSC (coasInputs.IMUAttitude 0))
        (tmat (coasCollab.om.CALCSMSC (coasInputs.IMUAttitude 0))) = _M 1 0 0 0 1 0 0 0 1
    ∧ GetNBUnitVectorFromInstrument coasCollab coasInputs 1
      = GetNBUnitVectorFromInstrument coasCollab coasInputs 0
    ∧ (OSTComputeREFSMMAT_vectors coasCollab coasInputs).map
        (fun v => (v.U_CBA_apo, v.U_CBB_apo))
      = some (GetNBUnitVectorFromInstrument coasCollab coasInputs 0,
          GetNBUnitVectorFromInstrument coasCollab coasInputs 0)
    ∧ dotp (GetNBUnitVectorFromInstrument coasCollab coasInputs 0)
        (GetNBUnitVectorFromInstrument coasCollab coasInputs 0) > 1
    ∧ ¬ (coasCollab.cm.acos (dotp (GetNBUnitVectorFromInstrument coasCollab coasInputs 0)
        (GetNBUnitVectorFromInstrument coasCollab coasInputs 0))
          < OSTComputeREFSMMAT_eps coasCollab.cm)
    ∧ (OSTComputeREFSMMAT coasCollab coasInputs AGOPOutputs.init).map
        (fun o => (o.errormessage, o.REFSMMAT, o.output_text.length))
      = some ("", coasCollab.om.AXISGEN
          (GetNBUnitVectorFromInstrument coasCollab coasInputs 0)
          (GetNBUnitVectorFromInstrument coasCollab coasInputs 0) (_V 1 0 0) (_V 0 1 0), 7)
    ∧ OSTComputeREFSMMAT coasCollab coasInputs AGOPOutputs.init
      ≠ some (WriteError AGOPOutputs.init 7) := by
  have hd : dotp (GetNBUnitVectorFromInstrument coasCollab coasInputs 0)
      (GetNBUnitVectorFromInstrument coasCollab coasInputs 0) > 1 := by
    rw [coasInputs_direction]
    simp only [dotp, _V]
    norm_num
  have harc2 : ¬ (coasCollab.cm.acos
      (dotp (GetNBUnitVectorFromInstrument coasCollab coasInputs 0)
        (GetNBUnitVectorFromInstrument coasCollab coasInputs 0))
        < OSTComputeREFSMMAT_eps coasCollab.cm) := by
    have h : coasCollab.cm.acos
        (dotp (GetNBUnitVectorFromInstrument coasCollab coasInputs 0)
          (GetNBUnitVectorFromInstrument coasCollab coasInputs 0)) = 1 := by
      show (if _ > 1 then (1 : ℚ) else _) = 1
      rw [if_pos hd]
    rw [h]
    simp only [OSTComputeREFSMMAT_eps, RAD, coasCollab, coasCMath]
    norm_num
  have harc1 : ¬ (coasCollab.cm.acos (dotp (_V (1 : ℚ) 0 0) (_V 0 1 0))
      < OSTComputeREFSMMAT_eps coasCollab.cm) := by
    simp only [OSTComputeREFSMMAT_eps, RAD, coasCollab, coasCMath, dotp, _V]
    norm_num
  have hO := OSTComputeREFSMMAT_of_vectors coasCollab coasInputs AGOPOutputs.init _
    coasInputs_vectors
  rw [if_neg (by
    intro h
    rcases h with h | h
    · exact harc1 h
    · exact harc2 h)] at hO
  refine ⟨rfl, rfl, ?_, ?_, ?_, hd, harc2, ?_, ?_⟩
  · simp [coasCollab, ratCollab, ratOrbMech, mulM, tmat, _M]
  · exact GetNBUnitVectorFromInstrument_set coasCollab coasInputs 1 (by simp [coasInputs])
  · rw [coasInputs_vectors]
    rfl
  · rw [hO]
    simp [AGOPOutputs.init]
  · rw [hO]
    intro h
    have := congrArg (fun r => r.map AGOPOutputs.errormessage) h
    simp [WriteError, AGOPOutputs.init] at this

end SecondSighting

section StarSearchAdvance

variable {K : Type}

/-- After a pass the search either stops with the state of the pass or, with fewer than
ten lines written, goes on from that state. -/
theorem star_search_advance (b0 : Prop) [Decidable b0] (star search : ℕ) (next : ℕ → ℕ)
    (st1 r : StarSearchState K)
    (L : ℕ → ℕ → StarSearchState K → Option (StarSearchState K))
    (h : (if b0 then
          (if (star + 1) % 4294967296 > 400 then some st1
           else if st1.num < 10 then L ((star + 1) % 4294967296) search st1
           else some st1)
        else
          (if (search + 1) % 4294967296 > 10 then some st1
           else if st1.num < 10 then
            L (next ((search + 1) % 4294967296 - 1)) ((search + 1) % 4294967296) st1
           else some st1)) = some r) :
    r = st1 ∨ (st1.num < 10 ∧ ∃ a b : ℕ, L a b st1 = some r) := by
  split_ifs at h with h1 h2 h3 h4 h5
  · exact Or.inl (Option.some.inj h).symm
  · exact Or.inr ⟨h3, _, _, h⟩
  · exact Or.inl (Option.some.inj h).symm
  · exact Or.inl (Option.some.inj h).symm
  · exact Or.inr ⟨h5, _, _, h⟩
  · exact Or.inl (Option.some.inj h).symm

end StarSearchAdvance

section StarSearchSteps
variable {K : Type} [LinearOrderedField K]

/-- The loop `while (x >= PI2) x -= PI2;` ends once the bound on its passes exceeds the
number of times `PI2` fits in `x`, and its result does not depend on the bound. -/
theorem subtractWhileGE_stable (P : K) :
    ∀ (k : ℕ) (x : K), x < (k : K) * P + P →
      ∃ y : K, ∀ n : ℕ, k + 1 ≤ n → subtractWhileGE P n x = some y := by
  intro k
  induction k with
  | zero =>
    intro x hx
    refine ⟨x, ?_⟩
    intro n hn
    obtain ⟨m, rfl⟩ : ∃ m, n = m + 1 := ⟨n - 1, by omega⟩
    have hlt : ¬ x ≥ P := by
      simp only [Nat.cast_zero, zero_mul, zero_add] at hx
      exact not_le.mpr hx
    simp only [subtractWhileGE, if_neg hlt]
  | succ k ih =>
    intro x hx
    by_cases hge : x ≥ P
    · have hx1 : x - P < (k : K) * P + P := by
        push_cast at hx
        linarith
      obtain ⟨y, hy⟩ := ih (x - P) hx1
      refine ⟨y, ?_⟩
      intro n hn
      obtain ⟨m, rfl⟩ : ∃ m, n = m + 1 := ⟨n - 1, by omega⟩
      simp only [subtractWhileGE, if_pos hge]
      exact hy m (by omega)
    · refine ⟨x, ?_⟩
      intro n hn
      obtain ⟨m, rfl⟩ : ∃ m, n = m + 1 := ⟨n - 1, by omega⟩
      simp only [subtractWhileGE, if_neg hge]

/-- A line is written for a star only when the star is in the catalog, the instrument
limit check accepts its navigation-base direction and the AOS search returns an error
code of at most 1. -/
theorem OSTAlignmentManeuverCheck_star_line (c : Collab K) (n : ℕ)
    (ephemeris : EphemerisDataTable2 K) (inp : AGOPInputs K) (M : MATRIX3 K) (star : Nat)
    (text : String)
    (h : OSTAlignmentManeuverCheck_star c n ephemeris inp M star
      = some (StarPass.line text)) :
    ∃ u : VECTOR3 K, GetStarUnitVector c inp star = some u
      ∧ InstrumentLimitCheck c inp (mul M u) = true
      ∧ (c.rtcc.EMMENV ephemeris
          { GMT := inp.ephem.Header.TL, option := 2, terminator := false, present := true,
            u_vec := u }).err ≤ 1 := by
  cases hg : GetStarUnitVector c inp star with
  | none =>
    simp only [OSTAlignmentManeuverCheck_star, hg] at h
    cases h
  | some u =>
    refine ⟨u, rfl, ?_⟩
    by_cases hl : InstrumentLimitCheck c inp (mul M u) = true
    · refine ⟨hl, ?_⟩
      by_contra he
      simp only [OSTAlignmentManeuverCheck_star, hg, hl, if_true, if_neg he] at h
      cases h
    · simp only [OSTAlignmentManeuverCheck_star, hg, hl] at h
      cases h

/-- One pass of the star search loop that reads outside the catalog stops the search. -/
theorem OSTAlignmentManeuverCheck_loop_outside (c : Collab K) (fuelA : ℕ)
    (ephemeris : EphemerisDataTable2 K) (inp : AGOPInputs K) (M : MATRIX3 K)
    (fuel star search : ℕ) (st : StarSearchState K)
    (hp : OSTAlignmentManeuverCheck_star c fuelA ephemeris inp M star
      = some StarPass.outside) :
    OSTAlignmentManeuverCheck_loop c fuelA ephemeris inp M (fuel + 1) star search st
      = some { st with examined := st.examined ++ [star], outside := true } := by
  rw [OSTAlignmentManeuverCheck_loop, hp]

/-- One pass of the star search loop that writes no line, followed by the advance to the
next star. -/
theorem OSTAlignmentManeuverCheck_loop_skipped (c : Collab K) (fuelA : ℕ)
    (ephemeris : EphemerisDataTable2 K) (inp : AGOPInputs K) (M : MATRIX3 K)
    (fuel star search : ℕ) (st st1 : StarSearchState K)
    (hp : OSTAlignmentManeuverCheck_star c fuelA ephemeris inp M star
      = some StarPass.skipped)
    (hst1 : st1 = { st with examined := st.examined ++ [star] }) :
    OSTAlignmentManeuverCheck_loop c fuelA ephemeris inp M (fuel + 1) star search st
      = if inp.AdditionalOption = 0 then
          (if (star + 1) % 4294967296 > 400 then some st1
           else if st1.num < 10 then
            OSTAlignmentManeuverCheck_loop c fuelA ephemeris inp M fuel
              ((star + 1) % 4294967296) search st1
           else some st1)
        else
          (if (search + 1) % 4294967296 > 10 then some st1
           else if st1.num < 10 then
            OSTAlignmentManeuverCheck_loop c fuelA ephemeris inp M fuel
              (inp.StarIDs ((search + 1) % 4294967296 - 1)) ((search + 1) % 4294967296) st1
           else some st1) := by
  rw [OSTAlignmentManeuverCheck_loop, hp, hst1]

/-- One pass of the star search loop that writes a line, followed by the advance to the
next star. -/
theorem OSTAlignmentManeuverCheck_loop_line (c : Collab K) (fuelA : ℕ)
    (ephemeris : EphemerisDataTable2 K) (inp : AGOPInputs K) (M : MATRIX3 K)
    (fuel star search : ℕ) (st st1 : StarSearchState K) (text : String)
    (hp : OSTAlignmentManeuverCheck_star c fuelA ephemeris inp M star
      = some (StarPass.line text))
    (hst1 : st1 = { st with
        out := { st.out with output_text := st.out.output_text ++ [text] },
        num := st.num + 1,
        examined := st.examined ++ [star],
        written := st.written ++ [star] }) :
    OSTAlignmentManeuverCheck_loop c fuelA ephemeris inp M (fuel + 1) star search st
      = if inp.AdditionalOption = 0 then
          (if (star + 1) % 4294967296 > 400 then some st1
           else if st1.num < 10 then
            OSTAlignmentManeuverCheck_loop c fuelA ephemeris inp M fuel
              ((star + 1) % 4294967296) search st1
           else some st1)
        else
          (if (search + 1) % 4294967296 > 10 then some st1
           else if st1.num < 10 then
            OSTAlignmentManeuverCheck_loop c fuelA ephemeris inp M fuel
              (inp.StarIDs ((search + 1) % 4294967296 - 1)) ((search + 1) % 4294967296) st1
           else some st1) := by
  rw [OSTAlignmentManeuverCheck_loop, hp, hst1]

/-- What the star search loop adds to its state: the stars written and their lines, one
line for each, the counter `num` advanced by their number and never past 10, and every
star written accepted by the instrument limit check and the AOS search. -/
theorem OSTAlignmentManeuverCheck_loop_written (c : Collab K) (fuelA : ℕ)
    (ephemeris : EphemerisDataTable2 K) (inp : AGOPInputs K) (M : MATRIX3 K) :
    ∀ (fuel star search : ℕ) (st r : StarSearchState K),
      OSTAlignmentManeuverCheck_loop c fuelA ephemeris inp M fuel star search st = some r →
      ∃ (W : List ℕ) (T : List String),
        r.written = st.written ++ W ∧ r.out.output_text = st.out.output_text ++ T
        ∧ T.length = W.length ∧ r.num = st.num + W.length ∧ (st.num < 10 → r.num ≤ 10)
        ∧ ∀ s ∈ W, ∃ u : VECTOR3 K, GetStarUnitVector c inp s = some u
            ∧ InstrumentLimitCheck c inp (mul M u) = true
            ∧ (c.rtcc.EMMENV ephemeris
                { GMT := inp.ephem.Header.TL, option := 2, terminator := false,
                  present := true, u_vec := u }).err ≤ 1 := by
  intro fuel
  induction fuel with
  | zero =>
    intro star search st r h
    simp only [OSTAlignmentManeuverCheck_loop] at h
    cases h
  | succ fuel ih =>
    intro star search st r h
    cases hp : OSTAlignmentManeuverCheck_star c fuelA ephemeris inp M star with
    | none =>
      rw [OSTAlignmentManeuverCheck_loop, hp] at h
      cases h
    | some p =>
      cases p with
      | outside =>
        rw [OSTAlignmentManeuverCheck_loop_outside c fuelA ephemeris inp M fuel star search
          st hp] at h
        have hr := (Option.some.inj h).symm
        refine ⟨[], [], ?_, ?_, rfl, ?_, ?_, ?_⟩
        · rw [hr, List.append_nil]
        · rw [hr, List.append_nil]
        · rw [hr]; rfl
        · intro hn
          rw [hr]
          exact le_of_lt hn
        · intro s hs
          cases hs
      | skipped =>
        rw [OSTAlignmentManeuverCheck_loop_skipped c fuelA ephemeris inp M fuel star search
          st _ hp rfl] at h
        rcases star_search_advance _ _ _ _ _ _ _ h with hr | ⟨hn1, a, b, hrec⟩
        · refine ⟨[], [], ?_, ?_, rfl, ?_, ?_, ?_⟩
          · rw [hr, List.append_nil]
          · rw [hr, List.append_nil]
          · rw [hr]; rfl
          · intro hn
            rw [hr]
            exact le_of_lt hn
          · intro s hs
            cases hs
        · obtain ⟨W, T, h1, h2, h3, h4, h5, h6⟩ := ih a b _ r hrec
          exact ⟨W, T, h1, h2, h3, h4, fun _ => h5 hn1, h6⟩
      | line text =>
        obtain ⟨u, hu1, hu2, hu3⟩ :=
          OSTAlignmentManeuverCheck_star_line c fuelA ephemeris inp M star text hp
        rw [OSTAlignmentManeuverCheck_loop_line c fuelA ephemeris inp M fuel star search
          st _ text hp rfl] at h
        rcases star_search_advance _ _ _ _ _ _ _ h with hr | ⟨hn1, a, b, hrec⟩
        · refine ⟨[star], [text], ?_, ?_, rfl, ?_, ?_, ?_⟩
          · rw [hr]
          · rw [hr]
          · rw [hr]; rfl
          · intro hn
            rw [hr]
            exact hn
          · intro s hs
            rw [List.mem_singleton] at hs
            rw [hs]
            exact ⟨u, hu1, hu2, hu3⟩
        · obtain ⟨W, T, h1, h2, h3, h4, h5, h6⟩ := ih a b _ r hrec
          refine ⟨star :: W, text :: T, ?_, ?_, ?_, ?_, fun _ => h5 hn1, ?_⟩
          · rw [h1]
            simp only [List.append_assoc, List.singleton_append]
          · rw [h2]
            simp only [List.append_assoc, List.singleton_append]
          · simp only [List.length_cons, h3]
          · rw [h4]
            simp only [List.length_cons]
            omega
          · intro s hs
            rcases List.mem_cons.mp hs with hs | hs
            · rw [hs]
              exact ⟨u, hu1, hu2, hu3⟩
            · exact h6 s hs

theorem consecutive_cons (star : ℕ) (E : List ℕ)
    (hE : E = (List.range E.length).map
      (fun j => ((star + 1) % 4294967296 + 1 + j) % 4294967296)) :
    ((star + 1) % 4294967296) :: E
      = (List.range (((star + 1) % 4294967296) :: E).length).map
          (fun j => (star + 1 + j) % 4294967296) := by
  rw [List.length_cons, List.range_succ_eq_map, List.map_cons, List.map_map]
  congr 1
  conv_lhs => rw [hE]
  apply List.map_congr_left
  intro j _
  simp only [Function.comp]
  omega

theorem listed_cons (ids : ℕ → ℕ) (search : ℕ) (E : List ℕ)
    (hE : E = (List.range E.length).map (fun j => ids (search + 1 + j))) :
    ids search :: E
      = (List.range (ids search :: E).length).map (fun j => ids (search + j)) := by
  rw [List.length_cons, List.range_succ_eq_map, List.map_cons, List.map_map]
  congr 1
  conv_lhs => rw [hE]
  apply List.map_congr_left
  intro j _
  simp only [Function.comp]
  congr 1
  omega

theorem consecutive_head (star : ℕ) (hstar : star < 4294967296) (E : List ℕ)
    (hE : E = (List.range E.length).map (fun j => (star + 1 + j) % 4294967296)) :
    star :: E
      = (List.range (star :: E).length).map (fun j => (star + j) % 4294967296) := by
  rw [List.length_cons, List.range_succ_eq_map, List.map_cons, List.map_map]
  congr 1
  · simp only [add_zero]
    omega
  · conv_lhs => rw [hE]
    apply List.map_congr_left
    intro j _
    simp only [Function.comp]
    omega

theorem listed_head (ids : ℕ → ℕ) (E : List ℕ)
    (hE : E = (List.range E.length).map (fun j => ids (1 + j))) :
    ids 0 :: E = (List.range (ids 0 :: E).length).map ids := by
  rw [List.length_cons, List.range_succ_eq_map, List.map_cons, List.map_map]
  congr 1
  conv_lhs => rw [hE]
  apply List.map_congr_left
  intro j _
  simp only [Function.comp]
  congr 1
  omega

end StarSearchSteps

section StarSearch
variable {K : Type} [LinearOrderedField K] [FloorRing K]

theorem subtractWhileGE_terminates (P : K) (hP : 0 < P) (x : K) :
    ∃ (n0 : ℕ) (y : K), ∀ n : ℕ, n0 ≤ n → subtractWhileGE P n x = some y := by
  obtain ⟨k, hk⟩ := exists_nat_gt (x / P)
  have hx : x < (k : K) * P + P := by
    have := (div_lt_iff₀ hP).mp hk
    linarith
  obtain ⟨y, hy⟩ := subtractWhileGE_stable P k x hx
  exact ⟨k + 1, y, hy⟩

/-- Two bounded loops in a row, the second entered with a value computed from the
result of the first, end for every large enough bound. -/
theorem subtractWhileGE_twice (P : K) (hP : 0 < P) (x : K) (f : K → K) :
    ∃ (n0 : ℕ) (r : K × K), ∀ n : ℕ, n0 ≤ n →
      (match subtractWhileGE P n x with
        | none => none
        | some YROT =>
          match subtractWhileGE P n (f YROT) with
          | none => none
          | some SROT => some (YROT, SROT)) = some r := by
  obtain ⟨n1, y, hy⟩ := subtractWhileGE_terminates P hP x
  obtain ⟨n2, z, hz⟩ := subtractWhileGE_terminates P hP (f y)
  refine ⟨max n1 n2, (y, z), ?_⟩
  intro n hn
  rw [hy n (le_trans (le_max_left _ _) hn)]
  simp only
  rw [hz n (le_trans (le_max_right _ _) hn)]

theorem AOTAngles_terminates (c : Collab K) (hPI : 0 < c.cm.PI) (Detent : Nat)
    (u_NB : VECTOR3 K) :
    ∃ (n0 : ℕ) (r : K × K), ∀ n : ℕ, n0 ≤ n → AOTAngles c n Detent u_NB = some r := by
  have hP : 0 < PI2 c.cm := by
    simp only [PI2]
    linarith
  exact subtractWhileGE_twice (PI2 c.cm) hP _
    (fun YROT => YROT + 12 * c.cm.acos (dotp
      (_V (c.cm.sin (GetAOTNBAngle c Detent).2)
        (c.cm.cos (GetAOTNBAngle c Detent).2 * c.cm.sin (GetAOTNBAngle c Detent).1)
        (c.cm.cos (GetAOTNBAngle c Detent).2 * c.cm.cos (GetAOTNBAngle c Detent).1)) u_NB))

theorem InstrumentAngles_terminates (c : Collab K) (hPI : 0 < c.cm.PI) (u_NB : VECTOR3 K)
    (Instrument : Int) (AOTDetent : Nat) (LMCOASAxis : Bool) :
    ∃ (n0 : ℕ) (r : K × K), ∀ n : ℕ, n0 ≤ n →
      InstrumentAngles c n u_NB Instrument AOTDetent LMCOASAxis = some r := by
  by_cases h0 : Instrument = 0
  · exact ⟨0, SextantAngles c u_NB, fun n _ => by simp only [InstrumentAngles, if_pos h0]⟩
  by_cases h1 : Instrument = 1
  · exact ⟨0, LMCOASAngles c.cm LMCOASAxis u_NB, fun n _ => by
      simp only [InstrumentAngles, if_neg h0, if_pos h1]⟩
  by_cases h2 : Instrument = 2
  · obtain ⟨n0, r, hr⟩ := AOTAngles_terminates c hPI AOTDetent u_NB
    exact ⟨n0, r, fun n hn => by
      simp only [InstrumentAngles, if_neg h0, if_neg h1, if_pos h2]
      exact hr n hn⟩
  · exact ⟨0, CSMCOASAngles c.cm u_NB, fun n _ => by
      simp only [InstrumentAngles, if_neg h0, if_neg h1, if_neg h2]⟩

/-- The body of the star search loop gives its result for every large enough bound on
the loops of `AOTAngles`. -/
theorem OSTAlignmentManeuverCheck_star_terminates (c : Collab K) (hPI : 0 < c.cm.PI)
    (ephemeris : EphemerisDataTable2 K) (inp : AGOPInputs K) (M : MATRIX3 K) (star : Nat) :
    ∃ (n0 : ℕ) (p : StarPass), ∀ n : ℕ, n0 ≤ n →
      OSTAlignmentManeuverCheck_star c n ephemeris inp M star = some p := by
  cases hg : GetStarUnitVector c inp star with
  | none =>
    exact ⟨0, StarPass.outside, fun n _ => by
      simp only [OSTAlignmentManeuverCheck_star, hg]⟩
  | some u =>
    by_cases hl : InstrumentLimitCheck c inp (mul M u) = true
    · by_cases he : (c.rtcc.EMMENV ephemeris
          { GMT := inp.ephem.Header.TL, option := 2, terminator := false, present := true,
            u_vec := u }).err ≤ 1
      · obtain ⟨n0, r, hr⟩ := InstrumentAngles_terminates c hPI (mul M u) inp.Instrument
          inp.AOTDetent inp.LMCOASAxis
        refine ⟨n0, ?_⟩
        apply Exists.intro
        intro n hn
        simp only [OSTAlignmentManeuverCheck_star, hg, hl, if_true, if_pos he, hr n hn]
        rfl
      · exact ⟨0, StarPass.skipped, fun n _ => by
          simp only [OSTAlignmentManeuverCheck_star, hg, hl, if_true, if_neg he]⟩
    · exact ⟨0, StarPass.skipped, fun n _ => by
        simp only [OSTAlignmentManeuverCheck_star, hg, hl]
        rfl⟩

/-- With `AdditionalOption = 0` the star search loop ends for every large enough bound on
the loops of `AOTAngles`, having examined consecutive star numbers of which only the
first can exceed 400. -/
theorem OSTAlignmentManeuverCheck_loop_consecutive (c : Collab K) (hPI : 0 < c.cm.PI)
    (ephemeris : EphemerisDataTable2 K) (inp : AGOPInputs K) (M : MATRIX3 K)
    (h0 : inp.AdditionalOption = 0) :
    ∀ (fuel star search : ℕ) (st : StarSearchState K),
      star < 4294967296 → (star ≤ 400 → 401 ≤ fuel + star) → 1 ≤ fuel →
      (star = 4294967295 → 402 ≤ fuel) →
      ∃ (n0 : ℕ) (r : StarSearchState K) (E : List ℕ),
        (∀ n : ℕ, n0 ≤ n →
          OSTAlignmentManeuverCheck_loop c n ephemeris inp M fuel star search st = some r)
        ∧ r.examined = st.examined ++ star :: E
        ∧ E = (List.range E.length).map (fun j => (star + 1 + j) % 4294967296)
        ∧ ∀ e ∈ E, e ≤ 400 := by
  intro fuel
  induction fuel with
  | zero =>
    intro star search st _ _ h1 _
    omega
  | succ fuel ih =>
    intro star search st hlt hle _ hwrap
    have advance : ∀ st1 : StarSearchState K,
        ∃ (n2 : ℕ) (r : StarSearchState K) (E : List ℕ),
          (∀ n : ℕ, n2 ≤ n →
            (if (star + 1) % 4294967296 > 400 then some st1
             else if st1.num < 10 then
              OSTAlignmentManeuverCheck_loop c n ephemeris inp M fuel
                ((star + 1) % 4294967296) search st1
             else some st1) = some r)
          ∧ r.examined = st1.examined ++ E
          ∧ E = (List.range E.length).map (fun j => (star + 1 + j) % 4294967296)
          ∧ ∀ e ∈ E, e ≤ 400 := by
      intro st1
      by_cases hs : (star + 1) % 4294967296 > 400
      · refine ⟨0, st1, [], fun n _ => by rw [if_pos hs], by rw [List.append_nil], rfl, ?_⟩
        intro e he
        cases he
      · by_cases hnum : st1.num < 10
        · obtain ⟨n2, r, E, hr, hex, hE, h400⟩ := ih ((star + 1) % 4294967296) search st1
            (by omega) (by omega) (by omega) (by omega)
          refine ⟨n2, r, ((star + 1) % 4294967296) :: E,
            fun n hn => by rw [if_neg hs, if_pos hnum]; exact hr n hn, hex,
            consecutive_cons star E hE, ?_⟩
          intro e he
          rcases List.mem_cons.mp he with he | he
          · rw [he]
            omega
          · exact h400 e he
        · refine ⟨0, st1, [], fun n _ => by rw [if_neg hs, if_neg hnum],
            by rw [List.append_nil], rfl, ?_⟩
          intro e he
          cases he
    obtain ⟨n1, p, hp⟩ := OSTAlignmentManeuverCheck_star_terminates c hPI ephemeris inp M star
    cases p with
    | outside =>
      refine ⟨n1, { st with examined := st.examined ++ [star], outside := true }, [],
        fun n hn => OSTAlignmentManeuverCheck_loop_outside c n ephemeris inp M fuel star
          search st (hp n hn), rfl, rfl, ?_⟩
      intro e he
      cases he
    | skipped =>
      obtain ⟨n2, r, E, hr, hex, hE, h400⟩ :=
        advance { st with examined := st.examined ++ [star] }
      refine ⟨max n1 n2, r, E, ?_, ?_, hE, h400⟩
      · intro n hn
        rw [OSTAlignmentManeuverCheck_loop_skipped c n ephemeris inp M fuel star search st _
          (hp n (le_trans (le_max_left _ _) hn)) rfl, if_pos h0]
        exact hr n (le_trans (le_max_right _ _) hn)
      · rw [hex]
        simp only [List.append_assoc, List.singleton_append]
    | line text =>
      obtain ⟨n2, r, E, hr, hex, hE, h400⟩ :=
        advance { st with
          out := { st.out with output_text := st.out.output_text ++ [text] },
          num := st.num + 1,
          examined := st.examined ++ [star],
          written := st.written ++ [star] }
      refine ⟨max n1 n2, r, E, ?_, ?_, hE, h400⟩
      · intro n hn
        rw [OSTAlignmentManeuverCheck_loop_line c n ephemeris inp M fuel star search st _
          text (hp n (le_trans (le_max_left _ _) hn)) rfl, if_pos h0]
        exact hr n (le_trans (le_max_right _ _) hn)
      · rw [hex]
        simp only [List.append_assoc, List.singleton_append]

/-- With `AdditionalOption` other than 0 the star search loop ends for every large enough
bound on the loops of `AOTAngles`, having examined input star numbers in order, none
past `StarIDs[9]`. -/
theorem OSTAlignmentManeuverCheck_loop_listed (c : Collab K) (hPI : 0 < c.cm.PI)
    (ephemeris : EphemerisDataTable2 K) (inp : AGOPInputs K) (M : MATRIX3 K)
    (h0 : ¬ inp.AdditionalOption = 0) :
    ∀ (fuel star search : ℕ) (st : StarSearchState K),
      1 ≤ search → search ≤ 10 → 11 ≤ fuel + search →
      ∃ (n0 : ℕ) (r : StarSearchState K) (E : List ℕ),
        (∀ n : ℕ, n0 ≤ n →
          OSTAlignmentManeuverCheck_loop c n ephemeris inp M fuel star search st = some r)
        ∧ r.examined = st.examined ++ star :: E
        ∧ E = (List.range E.length).map (fun j => inp.StarIDs (search + j))
        ∧ search + E.length ≤ 10 := by
  intro fuel
  induction fuel with
  | zero =>
    intro star search st _ h1 h2
    omega
  | succ fuel ih =>
    intro star search st hs1 hs10 hfuel
    have hsearch : (search + 1) % 4294967296 = search + 1 := by omega
    have advance : ∀ st1 : StarSearchState K,
        ∃ (n2 : ℕ) (r : StarSearchState K) (E : List ℕ),
          (∀ n : ℕ, n2 ≤ n →
            (if (search + 1) % 4294967296 > 10 then some st1
             else if st1.num < 10 then
              OSTAlignmentManeuverCheck_loop c n ephemeris inp M fuel
                (inp.StarIDs ((search + 1) % 4294967296 - 1)) ((search + 1) % 4294967296) st1
             else some st1) = some r)
          ∧ r.examined = st1.examined ++ E
          ∧ E = (List.range E.length).map (fun j => inp.StarIDs (search + j))
          ∧ search + E.length ≤ 10 := by
      intro st1
      rw [hsearch]
      by_cases hs : search + 1 > 10
      · exact ⟨0, st1, [], fun n _ => by rw [if_pos hs], by rw [List.append_nil], rfl,
          by simpa using hs10⟩
      · by_cases hnum : st1.num < 10
        · obtain ⟨n2, r, E, hr, hex, hE, hlen⟩ := ih (inp.StarIDs (search + 1 - 1))
            (search + 1) st1 (by omega) (by omega) (by omega)
          have hidx : search + 1 - 1 = search := by omega
          rw [hidx] at hr hex
          refine ⟨n2, r, inp.StarIDs search :: E,
            fun n hn => by rw [if_neg hs, if_pos hnum, hidx]; exact hr n hn, hex,
            listed_cons inp.StarIDs search E hE, ?_⟩
          simp only [List.length_cons]
          omega
        · exact ⟨0, st1, [], fun n _ => by rw [if_neg hs, if_neg hnum],
            by rw [List.append_nil], rfl, by simpa using hs10⟩
    obtain ⟨n1, p, hp⟩ := OSTAlignmentManeuverCheck_star_terminates c hPI ephemeris inp M star
    cases p with
    | outside =>
      exact ⟨n1, { st with examined := st.examined ++ [star], outside := true }, [],
        fun n hn => OSTAlignmentManeuverCheck_loop_outside c n ephemeris inp M fuel star
          search st (hp n hn), rfl, rfl, by simpa using hs10⟩
    | skipped =>
      obtain ⟨n2, r, E, hr, hex, hE, hlen⟩ :=
        advance { st with examined := st.examined ++ [star] }
      refine ⟨max n1 n2, r, E, ?_, ?_, hE, hlen⟩
      · intro n hn
        rw [OSTAlignmentManeuverCheck_loop_skipped c n ephemeris inp M fuel star search st _
          (hp n (le_trans (le_max_left _ _) hn)) rfl, if_neg h0]
        exact hr n (le_trans (le_max_right _ _) hn)
      · rw [hex]
        simp only [List.append_assoc, List.singleton_append]
    | line text =>
      obtain ⟨n2, r, E, hr, hex, hE, hlen⟩ :=
        advance { st with
          out := { st.out with output_text := st.out.output_text ++ [text] },
          num := st.num + 1,
          examined := st.examined ++ [star],
          written := st.written ++ [star] }
      refine ⟨max n1 n2, r, E, ?_, ?_, hE, hlen⟩
      · intro n hn
        rw [OSTAlignmentManeuverCheck_loop_line c n ephemeris inp M fuel star search st _
          text (hp n (le_trans (le_max_left _ _) hn)) rfl, if_neg h0]
        exact hr n (le_trans (le_max_right _ _) hn)
      · rw [hex]
        simp only [List.append_assoc, List.singleton_append]

/-- Claim C27 (the star search of `OSTAlignmentManeuverCheck` searches for up to 10 stars
and always terminates): with `PI > 0` and the `unsigned` starting star below `2^32`, the
search loop, bounded by 402 passes, returns for every large enough bound on the loops of
`AOTAngles`, and always the same state `r`.  It has written `r.num <= 10` star lines, one
for each star of `r.written`; every star written is in the catalog, was accepted by
`InstrumentLimitCheck` in the navigation base and had an AOS search error code `<= 1`.
With `AdditionalOption = 0` the stars examined are the consecutive numbers
`StartingStar, StartingStar + 1, ...` (modulo `2^32`), none but the first above 400;
otherwise they are the input numbers `StarIDs[0], StarIDs[1], ...` in order, at most 10 of
them.  A pass whose star number reads outside the catalog ends the search, recorded in
`r.outside`. -/
theorem C27_star_search_terminates (c : Collab K) (hPI : 0 < c.cm.PI)
    (ephemeris : EphemerisDataTable2 K) (inp : AGOPInputs K) (out : AGOPOutputs K)
    (hS : inp.StartingStar < 4294967296) :
    ∃ (fuelA0 : ℕ) (r : StarSearchState K) (T : List String),
      (∀ fuelA : ℕ, fuelA0 ≤ fuelA →
        OSTAlignmentManeuverCheck_search c fuelA 402 ephemeris inp out = some r)
      ∧ r.num ≤ 10 ∧ r.written.length = r.num ∧ T.length = r.num
      ∧ r.out.output_text = out.output_text ++ T
      ∧ (∀ s ∈ r.written, ∃ u : VECTOR3 K, GetStarUnitVector c inp s = some u
          ∧ InstrumentLimitCheck c inp (mul (BRCStoNBMatrix c inp 0) u) = true
          ∧ (c.rtcc.EMMENV ephemeris
              { GMT := inp.ephem.Header.TL, option := 2, terminator := false,
                present := true, u_vec := u }).err ≤ 1)
      ∧ (inp.AdditionalOption = 0 →
          r.examined = (List.range r.examined.length).map
            (fun j => (inp.StartingStar + j) % 4294967296)
          ∧ r.examined ≠ [] ∧ ∀ e ∈ r.examined.tail, e ≤ 400)
      ∧ (¬ inp.AdditionalOption = 0 →
          r.examined = (List.range r.examined.length).map inp.StarIDs
          ∧ r.examined ≠ [] ∧ r.examined.length ≤ 10) := by
  by_cases h0 : inp.AdditionalOption = 0
  · obtain ⟨n0, r, E, hr, hex, hE, h400⟩ :=
      OSTAlignmentManeuverCheck_loop_consecutive c hPI ephemeris inp (BRCStoNBMatrix c inp 0)
        h0 402 inp.StartingStar 1
        { out := out, num := 0, examined := [], written := [], outside := false }
        hS (by omega) (by omega) (by omega)
    obtain ⟨W, T, h1, h2, h3, h4, h5, h6⟩ :=
      OSTAlignmentManeuverCheck_loop_written c n0 ephemeris inp (BRCStoNBMatrix c inp 0)
        402 inp.StartingStar 1 _ r (hr n0 le_rfl)
    simp only [List.nil_append, zero_add] at h1 h2 h4 hex
    refine ⟨n0, r, T, ?_, ?_, ?_, ?_, h2, ?_, ?_, ?_⟩
    · intro n hn
      simp only [OSTAlignmentManeuverCheck_search, if_pos h0]
      exact hr n hn
    · exact h5 (by norm_num)
    · rw [h1, h4]
    · rw [h3, h4]
    · intro s hs
      rw [h1] at hs
      exact h6 s hs
    · intro _
      refine ⟨?_, ?_, ?_⟩
      · rw [hex]
        exact consecutive_head inp.StartingStar hS E hE
      · rw [hex]
        exact List.cons_ne_nil _ _
      · rw [hex]
        exact h400
    · intro h
      exact absurd h0 h
  · obtain ⟨n0, r, E, hr, hex, hE, hlen⟩ :=
      OSTAlignmentManeuverCheck_loop_listed c hPI ephemeris inp (BRCStoNBMatrix c inp 0)
        h0 402 (inp.StarIDs 0) 1
        { out := out, num := 0, examined := [], written := [], outside := false }
        (by omega) (by omega) (by omega)
    obtain ⟨W, T, h1, h2, h3, h4, h5, h6⟩ :=
      OSTAlignmentManeuverCheck_loop_written c n0 ephemeris inp (BRCStoNBMatrix c inp 0)
        402 (inp.StarIDs 0) 1 _ r (hr n0 le_rfl)
    simp only [List.nil_append, zero_add] at h1 h2 h4 hex
    refine ⟨n0, r, T, ?_, ?_, ?_, ?_, h2, ?_, ?_, ?_⟩
    · intro n hn
      simp only [OSTAlignmentManeuverCheck_search, if_neg h0]
      exact hr n hn
    · exact h5 (by norm_num)
    · rw [h1, h4]
    · rw [h3, h4]
    · intro s hs
      rw [h1] at hs
      exact h6 s hs
    · intro h
      exact absurd h h0
    · intro _
      refine ⟨?_, ?_, ?_⟩
      · rw [hex]
        exact listed_head inp.StarIDs E hE
      · rw [hex]
        exact List.cons_ne_nil _ _
      · rw [hex, List.length_cons]
        omega

theorem C27_star_search_terminates_witness :
    ∃ (fuelA0 : ℕ) (r : StarSearchState ℚ),
      (∀ fuelA : ℕ, fuelA0 ≤ fuelA →
        OSTAlignmentManeuverCheck_search ratCollab fuelA 402 (ratEphemeris 0 10 [0, 10])
          (ratInputs 1 (ratEphemeris 0 10 [0, 10]) ratCatalog (fun _ => 1))
          AGOPOutputs.init = some r)
      ∧ r.num ≤ 10 := by
  obtain ⟨n0, r, T, h1, h2, _⟩ := C27_star_search_terminates ratCollab
    (by norm_num [ratCollab, ratCMath]) (ratEphemeris 0 10 [0, 10])
    (ratInputs 1 (ratEphemeris 0 10 [0, 10]) ratCatalog (fun _ => 1))
    AGOPOutputs.init (by norm_num [ratInputs])
  exact ⟨n0, r, h1, h2⟩

end StarSearch

section ReportParts

variable {K : Type}

theorem AGOPOutputs_report_iff (o1 o2 : AGOPOutputs K) :
    o1.report = o2.report
      ↔ o1.output_text = o2.output_text ∧ o1.errormessage = o2.errormessage := by
  simp only [AGOPOutputs.report, Prod.mk.injEq]

theorem StarSearchState_report_iff (s1 s2 : StarSearchState K) :
    s1.report = s2.report
      ↔ s1.out.output_text = s2.out.output_text ∧ s1.out.errormessage = s2.out.errormessage
        ∧ s1.num = s2.num ∧ s1.examined = s2.examined ∧ s1.written = s2.written
        ∧ s1.outside = s2.outside := by
  simp only [StarSearchState.report, AGOPOutputs.report, Prod.mk.injEq, and_assoc]

theorem AOSResult_report_iff (r1 r2 : AOSResult K) :
    r1.report = r2.report
      ↔ r1.out.report = r2.out.report ∧ r1.code = r2.code ∧ r1.GMT_elev = r2.GMT_elev := by
  simp only [AOSResult.report, Prod.mk.injEq]

theorem WriteError_report (o1 o2 : AGOPOutputs K) (e : Int) (h : o1.report = o2.report) :
    (WriteError o1 e).report = (WriteError o2 e).report := by
  rw [AGOPOutputs_report_iff] at h ⊢
  simp only [WriteError]
  split_ifs <;> exact ⟨h.1, by first | rfl | exact h.2⟩

theorem star_search_advance_report (b0 : Prop) [Decidable b0] (star search : ℕ)
    (next : ℕ → ℕ) (s1 s2 : StarSearchState K)
    (L : ℕ → ℕ → StarSearchState K → Option (StarSearchState K))
    (hk : s1.report = s2.report)
    (hL : ∀ a b : ℕ, Option.map StarSearchState.report (L a b s1)
      = Option.map StarSearchState.report (L a b s2)) :
    Option.map StarSearchState.report
        (if b0 then
          (if (star + 1) % 4294967296 > 400 then some s1
           else if s1.num < 10 then L ((star + 1) % 4294967296) search s1
           else some s1)
        else
          (if (search + 1) % 4294967296 > 10 then some s1
           else if s1.num < 10 then
            L (next ((search + 1) % 4294967296 - 1)) ((search + 1) % 4294967296) s1
           else some s1))
      = Option.map StarSearchState.report
        (if b0 then
          (if (star + 1) % 4294967296 > 400 then some s2
           else if s2.num < 10 then L ((star + 1) % 4294967296) search s2
           else some s2)
        else
          (if (search + 1) % 4294967296 > 10 then some s2
           else if s2.num < 10 then
            L (next ((search + 1) % 4294967296 - 1)) ((search + 1) % 4294967296) s2
           else some s2)) := by
  have hnum : s1.num = s2.num := ((StarSearchState_report_iff s1 s2).mp hk).2.2.1
  rw [hnum]
  split_ifs
  · simp only [Option.map_some', hk]
  · exact hL _ _
  · simp only [Option.map_some', hk]
  · simp only [Option.map_some', hk]
  · exact hL _ _
  · simp only [Option.map_some', hk]

end ReportParts

section FreshReport
variable {K : Type} [LinearOrderedField K]

theorem PassiveThermalControl_loop_report (c : Collab K) (inp : AGOPInputs K)
    (ephemeris : EphemerisDataTable2 K) :
    ∀ (fuel i : ℕ) (GMT : K) (o1 o2 : AGOPOutputs K), o1.report = o2.report →
      (PassiveThermalControl_loop c inp ephemeris fuel i GMT o1).report
        = (PassiveThermalControl_loop c inp ephemeris fuel i GMT o2).report := by
  intro fuel
  induction fuel with
  | zero =>
    intro i GMT o1 o2 h
    simpa only [PassiveThermalControl_loop] using h
  | succ fuel ih =>
    intro i GMT o1 o2 h
    simp only [PassiveThermalControl_loop]
    cases hs : PassiveThermalControl_sample c inp ephemeris GMT with
    | error e => exact WriteError_report o1 o2 e h
    | ok s =>
      have h1 := (AGOPOutputs_report_iff o1 o2).mp h
      simp only
      split_ifs
      · simp only [AGOPOutputs.report, h1.1, h1.2]
      · apply ih
        simp only [AGOPOutputs.report, h1.1, h1.2]
      · simp only [AGOPOutputs.report, h1.1, h1.2]

theorem PassiveThermalControl_report (c : Collab K) (inp : AGOPInputs K)
    (ephemeris : EphemerisDataTable2 K) (o1 o2 : AGOPOutputs K) (h : o1.report = o2.report) :
    (PassiveThermalControl c ephemeris inp o1).report
      = (PassiveThermalControl c ephemeris inp o2).report := by
  have h1 := (AGOPOutputs_report_iff o1 o2).mp h
  simp only [PassiveThermalControl]
  apply PassiveThermalControl_loop_report
  simp only [AGOPOutputs.report, h1.1, h1.2]

theorem HorizonAngles_loop_report (c : Collab K) (inp : AGOPInputs K)
    (ephemeris : EphemerisDataTable2 K) :
    ∀ (fuel i : ℕ) (GMT : K) (o1 o2 : AGOPOutputs K), o1.report = o2.report →
      (HorizonAngles_loop c inp ephemeris fuel i GMT o1).report
        = (HorizonAngles_loop c inp ephemeris fuel i GMT o2).report := by
  intro fuel
  induction fuel with
  | zero =>
    intro i GMT o1 o2 h
    simpa only [HorizonAngles_loop] using h
  | succ fuel ih =>
    intro i GMT o1 o2 h
    simp only [HorizonAngles_loop]
    cases hs : HorizonAngles_sample c inp ephemeris GMT with
    | error e => exact WriteError_report o1 o2 e h
    | ok s =>
      have h1 := (AGOPOutputs_report_iff o1 o2).mp h
      simp only
      split_ifs
      · simp only [AGOPOutputs.report, h1.1, h1.2]
      · apply ih
        simp only [AGOPOutputs.report, h1.1, h1.2]
      · simp only [AGOPOutputs.report, h1.1, h1.2]

theorem HorizonAngles_report (c : Collab K) (inp : AGOPInputs K)
    (ephemeris : EphemerisDataTable2 K) (o1 o2 : AGOPOutputs K) (h : o1.report = o2.report) :
    (HorizonAngles c ephemeris inp o1).report = (HorizonAngles c ephemeris inp o2).report := by
  have h1 := (AGOPOutputs_report_iff o1 o2).mp h
  simp only [HorizonAngles]
  apply HorizonAngles_loop_report
  simp only [AGOPOutputs.report, h1.1, h1.2]

theorem AntennaPointing_loop_report (c : Collab K) (inp : AGOPInputs K)
    (ephemeris : EphemerisDataTable2 K) (lat lng alt : K) :
    ∀ (fuel i : ℕ) (GMT : K) (o1 o2 : AGOPOutputs K), o1.report = o2.report →
      (AntennaPointing_loop c inp ephemeris lat lng alt fuel i GMT o1).report
        = (AntennaPointing_loop c inp ephemeris lat lng alt fuel i GMT o2).report := by
  intro fuel
  induction fuel with
  | zero =>
    intro i GMT o1 o2 h
    simpa only [AntennaPointing_loop] using h
  | succ fuel ih =>
    intro i GMT o1 o2 h
    simp only [AntennaPointing_loop]
    cases hs : AntennaPointing_sample c inp ephemeris lat lng alt GMT with
    | error e => exact WriteError_report o1 o2 e h
    | ok s =>
      have h1 := (AGOPOutputs_report_iff o1 o2).mp h
      simp only
      split_ifs
      · simp only [AGOPOutputs.report, h1.1, h1.2]
      · apply ih
        simp only [AGOPOutputs.report, h1.1, h1.2]
      · simp only [AGOPOutputs.report, h1.1, h1.2]

theorem AntennaPointing_report (c : Collab K) (inp : AGOPInputs K)
    (ephemeris : EphemerisDataTable2 K) (o1 o2 : AGOPOutputs K) (h : o1.report = o2.report) :
    (AntennaPointing c ephemeris inp o1).report
      = (AntennaPointing c ephemeris inp o2).report := by
  have h1 := (AGOPOutputs_report_iff o1 o2).mp h
  simp only [AntennaPointing]
  cases hst : AntennaPointing_station c inp with
  | none =>
    apply WriteError_report
    simp only [AGOPOutputs.report, h1.1, h1.2]
  | some s =>
    obtain ⟨lat, lng, alt⟩ := s
    apply AntennaPointing_loop_report
    simp only [AGOPOutputs.report, h1.1, h1.2]

/-- The sample of `CislunarNavigation` does not depend on the near-horizon flag found in
the report at entry: the flag is printed in modes 1 and 2 only, which set it first. -/
theorem CislunarNavigation_sample_flag (c : Collab K) (inp : AGOPInputs K)
    (ephemeris : EphemerisDataTable2 K) (U_S : VECTOR3 K) (b1 b2 : Bool) (GMT : K) :
    CislunarNavigation_sample c inp ephemeris U_S b1 GMT
      = CislunarNavigation_sample c inp ephemeris U_S b2 GMT := by
  simp only [CislunarNavigation_sample]
  split
  · rfl
  · by_cases hm : inp.Mode = 1 ∨ inp.Mode = 2
    · simp only [if_pos hm]
    · simp only [if_neg hm]

theorem CislunarNavigation_loop_report (c : Collab K) (inp : AGOPInputs K)
    (ephemeris : EphemerisDataTable2 K) (U_S : VECTOR3 K) :
    ∀ (fuel i : ℕ) (GMT : K) (o1 o2 : AGOPOutputs K), o1.report = o2.report →
      (CislunarNavigation_loop c inp ephemeris U_S fuel i GMT o1).report
        = (CislunarNavigation_loop c inp ephemeris U_S fuel i GMT o2).report := by
  intro fuel
  induction fuel with
  | zero =>
    intro i GMT o1 o2 h
    simpa only [CislunarNavigation_loop] using h
  | succ fuel ih =>
    intro i GMT o1 o2 h
    simp only [CislunarNavigation_loop]
    rw [CislunarNavigation_sample_flag c inp ephemeris U_S o1.bIsNearHorizon
      o2.bIsNearHorizon GMT]
    cases hs : CislunarNavigation_sample c inp ephemeris U_S o2.bIsNearHorizon GMT with
    | error e => exact WriteError_report o1 o2 e h
    | ok s =>
      have h1 := (AGOPOutputs_report_iff o1 o2).mp h
      simp only
      split_ifs
      · simp only [AGOPOutputs.report, h1.1, h1.2]
      · apply ih
        simp only [AGOPOutputs.report, h1.1, h1.2]
      · simp only [AGOPOutputs.report, h1.1, h1.2]

theorem CislunarNavigation_report (c : Collab K) (inp : AGOPInputs K)
    (ephemeris : EphemerisDataTable2 K) (o1 o2 : AGOPOutputs K) (h : o1.report = o2.report) :
    Option.map AGOPOutputs.report (CislunarNavigation c ephemeris inp o1)
      = Option.map AGOPOutputs.report (CislunarNavigation c ephemeris inp o2) := by
  have h1 := (AGOPOutputs_report_iff o1 o2).mp h
  simp only [CislunarNavigation]
  split
  · rfl
  · simp only [Option.map_some', Option.some.injEq]
    apply CislunarNavigation_loop_report
    simp only [AGOPOutputs.report, h1.1, h1.2]

theorem LMHorizonCheck_report (c : Collab K) (inp : AGOPInputs K)
    (ephemeris : EphemerisDataTable2 K) (o1 o2 : AGOPOutputs K) (h : o1.report = o2.report) :
    Option.map AGOPOutputs.report (LMHorizonCheck c ephemeris inp o1)
      = Option.map AGOPOutputs.report (LMHorizonCheck c ephemeris inp o2) := by
  have h1 := (AGOPOutputs_report_iff o1 o2).mp h
  simp only [LMHorizonCheck]
  split
  · rfl
  · simp only [Option.map_some', AGOPOutputs.report, h1.1, h1.2]

theorem OSTComputeREFSMMAT_report (c : Collab K) (inp : AGOPInputs K)
    (o1 o2 : AGOPOutputs K) (h : o1.report = o2.report) :
    Option.map AGOPOutputs.report (OSTComputeREFSMMAT c inp o1)
      = Option.map AGOPOutputs.report (OSTComputeREFSMMAT c inp o2) := by
  have h1 := (AGOPOutputs_report_iff o1 o2).mp h
  cases hv : OSTComputeREFSMMAT_vectors c inp with
  | none =>
    rw [OSTComputeREFSMMAT, OSTComputeREFSMMAT, hv]
  | some v =>
    rw [OSTComputeREFSMMAT_of_vectors c inp o1 v hv,
      OSTComputeREFSMMAT_of_vectors c inp o2 v hv]
    by_cases hc : c.cm.acos (dotp v.U_CBA v.U_CBB) < OSTComputeREFSMMAT_eps c.cm ∨
        c.cm.acos (dotp v.U_CBA_apo v.U_CBB_apo) < OSTComputeREFSMMAT_eps c.cm
    · rw [if_pos hc, if_pos hc]
      simp only [Option.map_some', Option.some.injEq]
      exact WriteError_report o1 o2 7 h
    · rw [if_neg hc, if_neg hc]
      simp only [Option.map_some', AGOPOutputs.report, h1.1, h1.2]

theorem DockingAlignment_report (c : Collab K) (inp : AGOPInputs K)
    (o1 o2 : AGOPOutputs K) (h : o1.report = o2.report) :
    (DockingAlignment c inp o1).report = (DockingAlignment c inp o2).report := by
  have h1 := (AGOPOutputs_report_iff o1 o2).mp h
  by_cases a0 : inp.AdditionalOption = 0
  · simp only [DockingAlignment, a0, if_true, true_or, AGOPOutputs.report, h1.1, h1.2]
  · by_cases a1 : inp.AdditionalOption = 1
    · have e0 : ¬ ((1 : Int) = 0) := by decide
      have e3 : ¬ ((1 : Int) = 3) := by decide
      simp only [DockingAlignment, a1, e0, e3, if_false, if_true, or_self,
        AGOPOutputs.report, h1.1, h1.2]
    · by_cases a2 : inp.AdditionalOption = 2
      · have e0 : ¬ ((2 : Int) = 0) := by decide
        have e1 : ¬ ((2 : Int) = 1) := by decide
        have e3 : ¬ ((2 : Int) = 3) := by decide
        simp only [DockingAlignment, a2, e0, e1, e3, if_false, if_true, or_self,
          AGOPOutputs.report, h1.1, h1.2]
      · by_cases a3 : inp.AdditionalOption = 3
        · have e0 : ¬ ((3 : Int) = 0) := by decide
          have e1 : ¬ ((3 : Int) = 1) := by decide
          have e2 : ¬ ((3 : Int) = 2) := by decide
          simp only [DockingAlignment, a3, e0, e1, e2, if_false, or_true, if_true,
            AGOPOutputs.report, h1.1, h1.2]
        · simp only [DockingAlignment, if_neg a0, if_neg a1, if_neg a2, a0, a3, or_self,
            if_false, AGOPOutputs.report, h1.1, h1.2]

theorem PointAOTWithCSM_report (c : Collab K) (inp : AGOPInputs K)
    (ephemeris : EphemerisDataTable2 K) (OMICRON0 : K) (CSM_Att0 : VECTOR3 K)
    (o1 o2 : AGOPOutputs K) (h : o1.report = o2.report) :
    Option.map AGOPOutputs.report (PointAOTWithCSM c ephemeris inp OMICRON0 CSM_Att0 o1)
      = Option.map AGOPOutputs.report
          (PointAOTWithCSM c ephemeris inp OMICRON0 CSM_Att0 o2) := by
  have h1 := (AGOPOutputs_report_iff o1 o2).mp h
  simp only [PointAOTWithCSM]
  split
  · rfl
  · simp only [Option.map_some', AGOPOutputs.report, h1.1, h1.2]

theorem REFSMMAT2REFSMMAT_report (c : Collab K) (inp : AGOPInputs K)
    (o1 o2 : AGOPOutputs K) (h : o1.report = o2.report) :
    (REFSMMAT2REFSMMAT c inp o1).report = (REFSMMAT2REFSMMAT c inp o2).report := by
  have h1 := (AGOPOutputs_report_iff o1 o2).mp h
  simp only [REFSMMAT2REFSMMAT, AGOPOutputs.report, h1.1, h1.2]

theorem LunarSurfaceAlignmentDisplay_report (c : Collab K) (inp : AGOPInputs K)
    (o1 o2 : AGOPOutputs K) (h : o1.report = o2.report) :
    Option.map AGOPOutputs.report (LunarSurfaceAlignmentDisplay c inp o1)
      = Option.map AGOPOutputs.report (LunarSurfaceAlignmentDisplay c inp o2) := by
  have h1 := (AGOPOutputs_report_iff o1 o2).mp h
  simp only [LunarSurfaceAlignmentDisplay]
  split
  · rfl
  · simp only [Option.map_some', AGOPOutputs.report, h1.1, h1.2]

theorem OSTAlignmentManeuverCheck_loop_report (c : Collab K) (fuelA : ℕ)
    (ephemeris : EphemerisDataTable2 K) (inp : AGOPInputs K) (M : MATRIX3 K) :
    ∀ (fuel star search : ℕ) (s1 s2 : StarSearchState K), s1.report = s2.report →
      Option.map StarSearchState.report
          (OSTAlignmentManeuverCheck_loop c fuelA ephemeris inp M fuel star search s1)
        = Option.map StarSearchState.report
          (OSTAlignmentManeuverCheck_loop c fuelA ephemeris inp M fuel star search s2) := by
  intro fuel
  induction fuel with
  | zero =>
    intro star search s1 s2 _
    simp only [OSTAlignmentManeuverCheck_loop]
  | succ fuel ih =>
    intro star search s1 s2 hk
    have hk1 := (StarSearchState_report_iff s1 s2).mp hk
    cases hp : OSTAlignmentManeuverCheck_star c fuelA ephemeris inp M star with
    | none =>
      rw [OSTAlignmentManeuverCheck_loop, OSTAlignmentManeuverCheck_loop, hp]
    | some p =>
      cases p with
      | outside =>
        rw [OSTAlignmentManeuverCheck_loop_outside c fuelA ephemeris inp M fuel star search
            s1 hp,
          OSTAlignmentManeuverCheck_loop_outside c fuelA ephemeris inp M fuel star search
            s2 hp]
        simp only [Option.map_some', StarSearchState.report, AGOPOutputs.report, hk1.1,
          hk1.2.1, hk1.2.2.1, hk1.2.2.2.1, hk1.2.2.2.2.1]
      | skipped =>
        rw [OSTAlignmentManeuverCheck_loop_skipped c fuelA ephemeris inp M fuel star search
            s1 _ hp rfl,
          OSTAlignmentManeuverCheck_loop_skipped c fuelA ephemeris inp M fuel star search
            s2 _ hp rfl]
        apply star_search_advance_report
        · simp only [StarSearchState.report, AGOPOutputs.report, hk1.1,
            hk1.2.1, hk1.2.2.1, hk1.2.2.2.1, hk1.2.2.2.2.1, hk1.2.2.2.2.2]
        · intro a b
          apply ih
          simp only [StarSearchState.report, AGOPOutputs.report, hk1.1,
            hk1.2.1, hk1.2.2.1, hk1.2.2.2.1, hk1.2.2.2.2.1, hk1.2.2.2.2.2]
      | line text =>
        rw [OSTAlignmentManeuverCheck_loop_line c fuelA ephemeris inp M fuel star search
            s1 _ text hp rfl,
          OSTAlignmentManeuverCheck_loop_line c fuelA ephemeris inp M fuel star search
            s2 _ text hp rfl]
        apply star_search_advance_report
        · simp only [StarSearchState.report, AGOPOutputs.report, hk1.1,
            hk1.2.1, hk1.2.2.1, hk1.2.2.2.1, hk1.2.2.2.2.1, hk1.2.2.2.2.2]
        · intro a b
          apply ih
          simp only [StarSearchState.report, AGOPOutputs.report, hk1.1,
            hk1.2.1, hk1.2.2.1, hk1.2.2.2.1, hk1.2.2.2.2.1, hk1.2.2.2.2.2]

theorem OSTAlignmentManeuverCheck_report (c : Collab K) (fuelA fuel : ℕ)
    (ephemeris : EphemerisDataTable2 K) (inp : AGOPInputs K) (o1 o2 : AGOPOutputs K)
    (h : o1.report = o2.report) :
    Option.map AGOPOutputs.report (OSTAlignmentManeuverCheck c fuelA fuel ephemeris inp o1)
      = Option.map AGOPOutputs.report
          (OSTAlignmentManeuverCheck c fuelA fuel ephemeris inp o2) := by
  have h1 := (AGOPOutputs_report_iff o1 o2).mp h
  have hl := OSTAlignmentManeuverCheck_loop_report c fuelA ephemeris inp
    (BRCStoNBMatrix c inp 0) fuel
    (if inp.AdditionalOption = 0 then inp.StartingStar else inp.StarIDs 0) 1
    { out := { o1 with
        output_text := o1.output_text ++ OSTAlignmentManeuverCheck_header c inp },
      num := 0, examined := [], written := [], outside := false }
    { out := { o2 with
        output_text := o2.output_text ++ OSTAlignmentManeuverCheck_header c inp },
      num := 0, examined := [], written := [], outside := false }
    (by simp only [StarSearchState.report, AGOPOutputs.report, h1.1, h1.2])
  simp only [OSTAlignmentManeuverCheck, OSTAlignmentManeuverCheck_search]
  cases hr1 : OSTAlignmentManeuverCheck_loop c fuelA ephemeris inp (BRCStoNBMatrix c inp 0)
      fuel (if inp.AdditionalOption = 0 then inp.StartingStar else inp.StarIDs 0) 1
      { out := { o1 with
          output_text := o1.output_text ++ OSTAlignmentManeuverCheck_header c inp },
        num := 0, examined := [], written := [], outside := false } with
  | none =>
    rw [hr1] at hl
    cases hr2 : OSTAlignmentManeuverCheck_loop c fuelA ephemeris inp (BRCStoNBMatrix c inp 0)
        fuel (if inp.AdditionalOption = 0 then inp.StartingStar else inp.StarIDs 0) 1
        { out := { o2 with
            output_text := o2.output_text ++ OSTAlignmentManeuverCheck_header c inp },
          num := 0, examined := [], written := [], outside := false } with
    | none => rfl
    | some r2 =>
      rw [hr2] at hl
      cases hl
  | some r1 =>
    rw [hr1] at hl
    cases hr2 : OSTAlignmentManeuverCheck_loop c fuelA ephemeris inp (BRCStoNBMatrix c inp 0)
        fuel (if inp.AdditionalOption = 0 then inp.StartingStar else inp.StarIDs 0) 1
        { out := { o2 with
            output_text := o2.output_text ++ OSTAlignmentManeuverCheck_header c inp },
          num := 0, examined := [], written := [], outside := false } with
    | none =>
      rw [hr2] at hl
      cases hl
    | some r2 =>
      rw [hr2] at hl
      simp only [Option.map_some', Option.some.injEq] at hl
      have hk := (StarSearchState_report_iff r1 r2).mp hl
      simp only [hk.2.2.2.2.2]
      split_ifs
      · rfl
      · simp only [Option.map_some', AGOPOutputs.report, hk.1, hk.2.1]

theorem OpticalSupportTable_report (c : Collab K) (u : Uninitialised K) (fuelA : ℕ)
    (ephemeris : EphemerisDataTable2 K) (inp : AGOPInputs K) (o1 o2 : AGOPOutputs K)
    (h : o1.report = o2.report) :
    Option.map AGOPOutputs.report (OpticalSupportTable c u fuelA ephemeris inp o1)
      = Option.map AGOPOutputs.report (OpticalSupportTable c u fuelA ephemeris inp o2) := by
  simp only [OpticalSupportTable]
  split_ifs
  · exact LMHorizonCheck_report c inp ephemeris o1 o2 h
  · exact OSTAlignmentManeuverCheck_report c fuelA 402 ephemeris inp o1 o2 h
  · exact OSTComputeREFSMMAT_report c inp o1 o2 h
  · simp only [Option.map_some', Option.some.injEq]
    exact DockingAlignment_report c inp o1 o2 h
  · exact PointAOTWithCSM_report c inp ephemeris u.OMICRON u.CSM_Att o1 o2 h
  · simp only [Option.map_some', Option.some.injEq]
    exact REFSMMAT2REFSMMAT_report c inp o1 o2 h
  · simp only [Option.map_some', Option.some.injEq]
    exact h

theorem FindLandmarkAOS_report (c : Collab K) (ephemeris : EphemerisDataTable2 K)
    (R_S0 : VECTOR3 K) (station : StationData K) (GMT_start ElevationAngle : K)
    (o1 o2 : AGOPOutputs K) (h : o1.report = o2.report) :
    Option.map AOSResult.report
        (FindLandmarkAOS c ephemeris R_S0 o1 station GMT_start ElevationAngle)
      = Option.map AOSResult.report
        (FindLandmarkAOS c ephemeris R_S0 o2 station GMT_start ElevationAngle) := by
  have hw := WriteError_report o1 o2 4 h
  simp only [FindLandmarkAOS]
  split
  · rfl
  · split_ifs
    · simp only [Option.map_some', AOSResult.report, hw]
    · simp only [Option.map_some', AOSResult.report, h]
  · split
    · rfl
    · simp only [Option.map_some', AOSResult.report, hw]
    · split_ifs
      · simp only [Option.map_some', AOSResult.report, hw]
      · simp only [Option.map_some', AOSResult.report, h]

theorem StarSightingTable_landmark_report (c : Collab K) (ephemeris : EphemerisDataTable2 K)
    (R_S0 : VECTOR3 K) (inp : AGOPInputs K) (o1 o2 : AGOPOutputs K)
    (h : o1.report = o2.report) :
    Option.map reportOfStep (StarSightingTable_landmark c ephemeris R_S0 inp o1)
      = Option.map reportOfStep (StarSightingTable_landmark c ephemeris R_S0 inp o2) := by
  have hw := WriteError_report o1 o2 5 h
  simp only [StarSightingTable_landmark]
  split
  · simp only [Option.map_some', reportOfStep, hw]
  · rename_i acquisition rest hacq
    split_ifs
    · simp only [Option.map_some', reportOfStep, hw]
    · simp only [Option.map_some', reportOfStep, hw]
    · have hF := FindLandmarkAOS_report c ephemeris R_S0 (StarSightingTable_station c inp)
        acquisition.GMTAOS inp.ElevationAngle o1 o2 h
      cases hr1 : FindLandmarkAOS c ephemeris R_S0 o1 (StarSightingTable_station c inp)
          acquisition.GMTAOS inp.ElevationAngle with
      | none =>
        rw [hr1] at hF
        cases hr2 : FindLandmarkAOS c ephemeris R_S0 o2 (StarSightingTable_station c inp)
            acquisition.GMTAOS inp.ElevationAngle with
        | none => rfl
        | some r2 =>
          rw [hr2] at hF
          cases hF
      | some r1 =>
        rw [hr1] at hF
        cases hr2 : FindLandmarkAOS c ephemeris R_S0 o2 (StarSightingTable_station c inp)
            acquisition.GMTAOS inp.ElevationAngle with
        | none =>
          rw [hr2] at hF
          cases hF
        | some r2 =>
          rw [hr2] at hF
          simp only [Option.map_some', Option.some.injEq] at hF
          obtain ⟨ho, hc, hg⟩ := (AOSResult_report_iff r1 r2).mp hF
          have hw5 := WriteError_report r1.out r2.out 5 ho
          simp only [hc, hg]
          split_ifs
          · simp only [Option.map_some', reportOfStep, hw5]
          · split
            · simp only [Option.map_some', reportOfStep, ho]
            · rfl

theorem StarSightingTable_target_report (c : Collab K) (u : Uninitialised K)
    (ephemeris : EphemerisDataTable2 K) (inp : AGOPInputs K) (o1 o2 : AGOPOutputs K)
    (h : o1.report = o2.report) :
    Option.map reportOfStep (StarSightingTable_target c u ephemeris inp o1)
      = Option.map reportOfStep (StarSightingTable_target c u ephemeris inp o2) := by
  have hw := WriteError_report o1 o2 6 h
  simp only [StarSightingTable_target]
  by_cases m13 : inp.Mode = 1 ∨ inp.Mode = 3
  · rw [if_pos m13, if_pos m13]
    have hL := StarSightingTable_landmark_report c ephemeris u.R_S inp o1 o2 h
    cases hr1 : StarSightingTable_landmark c ephemeris u.R_S inp o1 with
    | none =>
      rw [hr1] at hL
      cases hr2 : StarSightingTable_landmark c ephemeris u.R_S inp o2 with
      | none => rfl
      | some r2 =>
        rw [hr2] at hL
        cases hL
    | some r1 =>
      rw [hr1] at hL
      cases hr2 : StarSightingTable_landmark c ephemeris u.R_S inp o2 with
      | none =>
        rw [hr2] at hL
        cases hL
      | some r2 =>
        rw [hr2] at hL
        simp only [Option.map_some', Option.some.injEq] at hL
        cases r1 with
        | error a =>
          cases r2 with
          | error b =>
            simp only [reportOfStep, Except.error.injEq] at hL
            simp only [Option.map_some', reportOfStep, hL]
          | ok b =>
            simp only [reportOfStep] at hL
            cases hL
        | ok a =>
          cases r2 with
          | error b =>
            simp only [reportOfStep] at hL
            cases hL
          | ok b =>
            simp only [reportOfStep, Except.ok.injEq, Prod.mk.injEq] at hL
            simp only [Option.map_some', reportOfStep, hL.1]
  · rw [if_neg m13, if_neg m13]
    by_cases m24 : inp.Mode = 2 ∨ inp.Mode = 4
    · rw [if_pos m24, if_pos m24]
      cases hg : GetStarUnitVector c inp (inp.StarIDs 0) with
      | none => rfl
      | some u_star =>
        simp only
        by_cases he : (c.rtcc.EMMENV ephemeris
            { GMT := ephemeris.Header.TL, option := 2, terminator := false, present := true,
              u_vec := c.rtcc.EMMENVInputTable_u_vec }).err > 1
        · rw [if_pos he, if_pos he]
          simp only [Option.map_some', reportOfStep, hw]
        · rw [if_neg he, if_neg he]
          simp only [Option.map_some', reportOfStep, h]
    · rw [if_neg m24, if_neg m24]
      simp only [Option.map_some', reportOfStep, h]

end FreshReport

section FreshReportDisplays
variable {K : Type} [LinearOrderedField K] [FloorRing K]

theorem ReferenceBodyComputation_loop_report (c : Collab K) (inp : AGOPInputs K)
    (ephemeris : EphemerisDataTable2 K) :
    ∀ (fuel i : ℕ) (GMT : K) (o1 o2 : AGOPOutputs K), o1.report = o2.report →
      (ReferenceBodyComputation_loop c inp ephemeris fuel i GMT o1).report
        = (ReferenceBodyComputation_loop c inp ephemeris fuel i GMT o2).report := by
  intro fuel
  induction fuel with
  | zero =>
    intro i GMT o1 o2 h
    simpa only [ReferenceBodyComputation_loop] using h
  | succ fuel ih =>
    intro i GMT o1 o2 h
    simp only [ReferenceBodyComputation_loop]
    cases hs : ReferenceBodyComputation_sample c inp ephemeris GMT with
    | error e => exact WriteError_report o1 o2 e h
    | ok s =>
      have h1 := (AGOPOutputs_report_iff o1 o2).mp h
      simp only
      split_ifs
      · simp only [AGOPOutputs.report, h1.1, h1.2]
      · simp only [AGOPOutputs.report, h1.1, h1.2]
      · apply ih
        simp only [AGOPOutputs.report, h1.1, h1.2]
      · simp only [AGOPOutputs.report, h1.1, h1.2]

theorem ReferenceBodyComputation_report (c : Collab K) (inp : AGOPInputs K)
    (ephemeris : EphemerisDataTable2 K) (o1 o2 : AGOPOutputs K) (h : o1.report = o2.report) :
    (ReferenceBodyComputation c ephemeris inp o1).report
      = (ReferenceBodyComputation c ephemeris inp o2).report := by
  have h1 := (AGOPOutputs_report_iff o1 o2).mp h
  simp only [ReferenceBodyComputation]
  apply ReferenceBodyComputation_loop_report
  simp only [AGOPOutputs.report, h1.1, h1.2]

theorem StarCatalog_report (c : Collab K) (inp : AGOPInputs K) (o1 o2 : AGOPOutputs K)
    (h : o1.report = o2.report) :
    Option.map AGOPOutputs.report (StarCatalog c inp o1)
      = Option.map AGOPOutputs.report (StarCatalog c inp o2) := by
  have h1 := (AGOPOutputs_report_iff o1 o2).mp h
  simp only [StarCatalog]
  split
  · rfl
  · simp only [Option.map_some', AGOPOutputs.report, h1.1, h1.2]

theorem StarSightingTable_report (c : Collab K) (u : Uninitialised K)
    (ephemeris : EphemerisDataTable2 K) (inp : AGOPInputs K) (o1 o2 : AGOPOutputs K)
    (h : o1.report = o2.report) :
    Option.map AGOPOutputs.report (StarSightingTable c u ephemeris inp o1)
      = Option.map AGOPOutputs.report (StarSightingTable c u ephemeris inp o2) := by
  have hT := StarSightingTable_target_report c u ephemeris inp o1 o2 h
  simp only [StarSightingTable]
  cases hr1 : StarSightingTable_target c u ephemeris inp o1 with
  | none =>
    rw [hr1] at hT
    cases hr2 : StarSightingTable_target c u ephemeris inp o2 with
    | none => rfl
    | some r2 =>
      rw [hr2] at hT
      cases hT
  | some r1 =>
    rw [hr1] at hT
    cases hr2 : StarSightingTable_target c u ephemeris inp o2 with
    | none =>
      rw [hr2] at hT
      cases hT
    | some r2 =>
      rw [hr2] at hT
      simp only [Option.map_some', Option.some.injEq] at hT
      cases r1 with
      | error a =>
        cases r2 with
        | error b =>
          simp only [reportOfStep, Except.error.injEq] at hT
          simp only [Option.map_some', hT]
        | ok b =>
          simp only [reportOfStep] at hT
          cases hT
      | ok a =>
        cases r2 with
        | error b =>
          simp only [reportOfStep] at hT
          cases hT
        | ok b =>
          obtain ⟨oa, GAa, ua⟩ := a
          obtain ⟨ob, GAb, ub⟩ := b
          simp only [reportOfStep, Except.ok.injEq, Prod.mk.injEq] at hT
          obtain ⟨ho, hGA, hu⟩ := hT
          have ho1 := (AGOPOutputs_report_iff oa ob).mp ho
          simp only [Option.map_some', AGOPOutputs.report, ho1.1, ho1.2, hGA, hu]

/-- The text part of the report of `Calc` does not depend on the prior contents of the
report object. -/
theorem Calc_report (c : Collab K) (u : Uninitialised K) (fuelA : ℕ) (inp : AGOPInputs K)
    (o1 o2 : AGOPOutputs K) :
    Option.map AGOPOutputs.report (Calc c u fuelA inp o1)
      = Option.map AGOPOutputs.report (Calc c u fuelA inp o2) := by
  have h : ({ o1 with output_text := [], errormessage := "" } : AGOPOutputs K).report
      = ({ o2 with output_text := [], errormessage := "" } : AGOPOutputs K).report := by
    simp only [AGOPOutputs.report]
  rw [Calc, Calc]
  by_cases h1 : inp.Option = 1
  · rw [if_pos h1, if_pos h1]
    exact CislunarNavigation_report c inp inp.ephem _ _ h
  rw [if_neg h1, if_neg h1]
  by_cases h2 : inp.Option = 2
  · rw [if_pos h2, if_pos h2, Option.map_some', Option.map_some']
    exact congrArg some (ReferenceBodyComputation_report c inp inp.ephem _ _ h)
  rw [if_neg h2, if_neg h2]
  by_cases h3 : inp.Option = 3
  · rw [if_pos h3, if_pos h3]
    exact StarCatalog_report c inp _ _ h
  rw [if_neg h3, if_neg h3]
  by_cases h4 : inp.Option = 4
  · rw [if_pos h4, if_pos h4, Option.map_some', Option.map_some']
    exact congrArg some (AntennaPointing_report c inp inp.ephem _ _ h)
  rw [if_neg h4, if_neg h4]
  by_cases h5 : inp.Option = 5
  · rw [if_pos h5, if_pos h5, Option.map_some', Option.map_some']
    exact congrArg some (PassiveThermalControl_report c inp inp.ephem _ _ h)
  rw [if_neg h5, if_neg h5]
  by_cases h6 : inp.Option = 6
  · rw [if_pos h6, if_pos h6, Option.map_some', Option.map_some']
    exact congrArg some (HorizonAngles_report c inp inp.ephem _ _ h)
  rw [if_neg h6, if_neg h6]
  by_cases h7 : inp.Option = 7
  · rw [if_pos h7, if_pos h7]
    exact OpticalSupportTable_report c u fuelA inp.ephem inp _ _ h
  rw [if_neg h7, if_neg h7]
  by_cases h8 : inp.Option = 8
  · rw [if_pos h8, if_pos h8]
    exact StarSightingTable_report c u inp.ephem inp _ _ h
  rw [if_neg h8, if_neg h8]
  by_cases h9 : inp.Option = 9
  · rw [if_pos h9, if_pos h9]
    exact LunarSurfaceAlignmentDisplay_report c inp _ _ h
  rw [if_neg h9, if_neg h9, Option.map_some', Option.map_some']
  exact congrArg some h

theorem Calc_option3 (c : Collab K) (u : Uninitialised K) (fuelA : ℕ) (inp : AGOPInputs K)
    (out : AGOPOutputs K) (h : inp.Option = 3) :
    Calc c u fuelA inp out
      = StarCatalog c inp { out with output_text := [], errormessage := "" } := by
  have h1 : ¬ inp.Option = 1 := by omega
  have h2 : ¬ inp.Option = 2 := by omega
  rw [Calc]
  simp only [if_neg h1, if_neg h2, if_pos h]

/-- The star catalog mode writes lines only: the six numeric fields of the report are
returned as they were. -/
theorem StarCatalog_fields (c : Collab K) (inp : AGOPInputs K) (out r : AGOPOutputs K)
    (h : StarCatalog c inp out = some r) :
    r.REFSMMAT = out.REFSMMAT ∧ r.REFSMMAT_Vehicle = out.REFSMMAT_Vehicle
    ∧ r.IMUAttitude = out.IMUAttitude ∧ r.pitch = out.pitch ∧ r.yaw = out.yaw
    ∧ r.bIsNearHorizon = out.bIsNearHorizon := by
  simp only [StarCatalog] at h
  split at h
  · cases h
  · have hr := (Option.some.inj h).symm
    rw [hr]
    exact ⟨rfl, rfl, rfl, rfl, rfl, rfl⟩

theorem starCatalogRequest_some (out : AGOPOutputs ℚ) :
    ∃ r : AGOPOutputs ℚ, Calc ratCollab ratUninitialised 0 starCatalogRequest out = some r := by
  rw [Calc_option3 ratCollab ratUninitialised 0 starCatalogRequest out rfl]
  have e : (starCatalogRequest.StarIDs 0 + 4294967296 - 1) % 4294967296 = 0 := by
    show (1 + 4294967296 - 1) % 4294967296 = 0
    norm_num
  have hidx : starCatalogRequest.startable[(starCatalogRequest.StarIDs 0 + 4294967296 - 1)
      % 4294967296]? = some (_V 1 0 0) := by
    rw [e]
    show (List.replicate 400 (_V (1 : ℚ) 0 0))[0]? = some (_V 1 0 0)
    simp only [List.getElem?_replicate]
    rfl
  simp only [StarCatalog, hidx]
  exact ⟨_, rfl⟩

end FreshReportDisplays

section MatrixParts

variable {K : Type}

theorem WriteError_matrix (o : AGOPOutputs K) (e : Int) :
    (WriteError o e).matrix = o.matrix := by
  simp only [WriteError]
  split_ifs <;> rfl

end MatrixParts

section LeftoverMatrix
variable {K : Type} [LinearOrderedField K]

theorem CislunarNavigation_loop_matrix (c : Collab K) (inp : AGOPInputs K)
    (ephemeris : EphemerisDataTable2 K) (U_S : VECTOR3 K) :
    ∀ (fuel i : ℕ) (GMT : K) (o : AGOPOutputs K),
      (CislunarNavigation_loop c inp ephemeris U_S fuel i GMT o).matrix = o.matrix := by
  intro fuel
  induction fuel with
  | zero =>
    intro i GMT o
    simp only [CislunarNavigation_loop]
  | succ fuel ih =>
    intro i GMT o
    simp only [CislunarNavigation_loop]
    cases hs : CislunarNavigation_sample c inp ephemeris U_S o.bIsNearHorizon GMT with
    | error e => exact WriteError_matrix o e
    | ok s =>
      simp only
      split_ifs
      · rfl
      · exact (ih _ _ _).trans rfl
      · rfl

theorem CislunarNavigation_matrix (c : Collab K) (inp : AGOPInputs K)
    (ephemeris : EphemerisDataTable2 K) (o r : AGOPOutputs K)
    (h : CislunarNavigation c ephemeris inp o = some r) : r.matrix = o.matrix := by
  simp only [CislunarNavigation] at h
  split at h
  · cases h
  · rw [← Option.some.inj h]
    exact (CislunarNavigation_loop_matrix c inp ephemeris _ _ _ _ _).trans rfl

theorem AntennaPointing_loop_matrix (c : Collab K) (inp : AGOPInputs K)
    (ephemeris : EphemerisDataTable2 K) (lat lng alt : K) :
    ∀ (fuel i : ℕ) (GMT : K) (o : AGOPOutputs K),
      (AntennaPointing_loop c inp ephemeris lat lng alt fuel i GMT o).matrix = o.matrix := by
  intro fuel
  induction fuel with
  | zero =>
    intro i GMT o
    simp only [AntennaPointing_loop]
  | succ fuel ih =>
    intro i GMT o
    simp only [AntennaPointing_loop]
    cases hs : AntennaPointing_sample c inp ephemeris lat lng alt GMT with
    | error e => exact WriteError_matrix o e
    | ok s =>
      simp only
      split_ifs
      · rfl
      · exact (ih _ _ _).trans rfl
      · rfl

theorem AntennaPointing_matrix (c : Collab K) (inp : AGOPInputs K)
    (ephemeris : EphemerisDataTable2 K) (o : AGOPOutputs K) :
    (AntennaPointing c ephemeris inp o).matrix = o.matrix := by
  simp only [AntennaPointing]
  cases hst : AntennaPointing_station c inp with
  | none => exact (WriteError_matrix _ 3).trans rfl
  | some s =>
    obtain ⟨lat, lng, alt⟩ := s
    exact (AntennaPointing_loop_matrix c inp ephemeris lat lng alt _ _ _ _).trans rfl

theorem HorizonAngles_loop_matrix (c : Collab K) (inp : AGOPInputs K)
    (ephemeris : EphemerisDataTable2 K) :
    ∀ (fuel i : ℕ) (GMT : K) (o : AGOPOutputs K),
      (HorizonAngles_loop c inp ephemeris fuel i GMT o).matrix = o.matrix := by
  intro fuel
  induction fuel with
  | zero =>
    intro i GMT o
    simp only [HorizonAngles_loop]
  | succ fuel ih =>
    intro i GMT o
    simp only [HorizonAngles_loop]
    cases hs : HorizonAngles_sample c inp ephemeris GMT with
    | error e => exact WriteError_matrix o e
    | ok s =>
      simp only
      split_ifs
      · rfl
      · exact (ih _ _ _).trans rfl
      · rfl

theorem HorizonAngles_matrix (c : Collab K) (inp : AGOPInputs K)
    (ephemeris : EphemerisDataTable2 K) (o : AGOPOutputs K) :
    (HorizonAngles c ephemeris inp o).matrix = o.matrix := by
  simp only [HorizonAngles]
  exact (HorizonAngles_loop_matrix c inp ephemeris _ _ _ _).trans rfl

theorem LMHorizonCheck_matrix (c : Collab K) (inp : AGOPInputs K)
    (ephemeris : EphemerisDataTable2 K) (o r : AGOPOutputs K)
    (h : LMHorizonCheck c ephemeris inp o = some r) : r.matrix = o.matrix := by
  simp only [LMHorizonCheck] at h
  split at h
  · cases h
  · rw [← Option.some.inj h]
    rfl

theorem OSTAlignmentManeuverCheck_loop_matrix (c : Collab K) (fuelA : ℕ)
    (ephemeris : EphemerisDataTable2 K) (inp : AGOPInputs K) (M : MATRIX3 K) :
    ∀ (fuel star search : ℕ) (st r : StarSearchState K),
      OSTAlignmentManeuverCheck_loop c fuelA ephemeris inp M fuel star search st = some r →
      r.out.matrix = st.out.matrix := by
  intro fuel
  induction fuel with
  | zero =>
    intro star search st r h
    simp only [OSTAlignmentManeuverCheck_loop] at h
    cases h
  | succ fuel ih =>
    intro star search st r h
    cases hp : OSTAlignmentManeuverCheck_star c fuelA ephemeris inp M star with
    | none =>
      rw [OSTAlignmentManeuverCheck_loop, hp] at h
      cases h
    | some p =>
      cases p with
      | outside =>
        rw [OSTAlignmentManeuverCheck_loop_outside c fuelA ephemeris inp M fuel star search
          st hp] at h
        rw [← Option.some.inj h]
      | skipped =>
        rw [OSTAlignmentManeuverCheck_loop_skipped c fuelA ephemeris inp M fuel star search
          st _ hp rfl] at h
        rcases star_search_advance _ _ _ _ _ _ _ h with hr | ⟨_, a, b, hrec⟩
        · rw [hr]
        · exact (ih a b _ r hrec).trans rfl
      | line text =>
        rw [OSTAlignmentManeuverCheck_loop_line c fuelA ephemeris inp M fuel star search
          st _ text hp rfl] at h
        rcases star_search_advance _ _ _ _ _ _ _ h with hr | ⟨_, a, b, hrec⟩
        · rw [hr]
          rfl
        · exact (ih a b _ r hrec).trans rfl

theorem OSTAlignmentManeuverCheck_matrix (c : Collab K) (fuelA fuel : ℕ)
    (ephemeris : EphemerisDataTable2 K) (inp : AGOPInputs K) (o r : AGOPOutputs K)
    (h : OSTAlignmentManeuverCheck c fuelA fuel ephemeris inp o = some r) :
    r.matrix = o.matrix := by
  simp only [OSTAlignmentManeuverCheck, OSTAlignmentManeuverCheck_search] at h
  split at h
  · cases h
  · rename_i st hst
    split_ifs at h
    rw [← Option.some.inj h]
    exact (OSTAlignmentManeuverCheck_loop_matrix c fuelA ephemeris inp _ _ _ _ _ st
      hst).trans rfl

theorem PointAOTWithCSM_matrix (c : Collab K) (inp : AGOPInputs K)
    (ephemeris : EphemerisDataTable2 K) (OMICRON0 : K) (CSM_Att0 : VECTOR3 K)
    (o r : AGOPOutputs K)
    (h : PointAOTWithCSM c ephemeris inp OMICRON0 CSM_Att0 o = some r) :
    r.matrix = o.matrix := by
  simp only [PointAOTWithCSM] at h
  split at h
  · cases h
  · rw [← Option.some.inj h]
    rfl

theorem REFSMMAT2REFSMMAT_matrix (c : Collab K) (inp : AGOPInputs K) (o : AGOPOutputs K) :
    (REFSMMAT2REFSMMAT c inp o).matrix = o.matrix := by
  simp only [REFSMMAT2REFSMMAT, AGOPOutputs.matrix]

/-- Options 1 and 2 of `DockingAlignment` compute gimbal angles and leave the matrix. -/
theorem DockingAlignment_matrix (c : Collab K) (inp : AGOPInputs K) (o : AGOPOutputs K)
    (h : inp.AdditionalOption = 1 ∨ inp.AdditionalOption = 2) :
    (DockingAlignment c inp o).matrix = o.matrix := by
  rcases h with a1 | a2
  · have e0 : ¬ ((1 : Int) = 0) := by decide
    have e3 : ¬ ((1 : Int) = 3) := by decide
    simp only [DockingAlignment, a1, e0, e3, if_false, if_true, or_self,
      AGOPOutputs.matrix]
  · have e0 : ¬ ((2 : Int) = 0) := by decide
    have e1 : ¬ ((2 : Int) = 1) := by decide
    have e3 : ¬ ((2 : Int) = 3) := by decide
    simp only [DockingAlignment, a2, e0, e1, e3, if_false, if_true, or_self,
      AGOPOutputs.matrix]

/-- The two-sighting computation leaves the matrix when it ends with an error. -/
theorem OSTComputeREFSMMAT_matrix_of_error (c : Collab K) (inp : AGOPInputs K)
    (o : AGOPOutputs K) (e : Int) (h : OSTComputeREFSMMAT c inp o = some (WriteError o e)) :
    ∀ r : AGOPOutputs K, OSTComputeREFSMMAT c inp o = some r → r.matrix = o.matrix := by
  intro r hr
  rw [h] at hr
  rw [← Option.some.inj hr]
  exact WriteError_matrix o e

theorem FindLandmarkAOS_matrix (c : Collab K) (ephemeris : EphemerisDataTable2 K)
    (R_S0 : VECTOR3 K) (station : StationData K) (GMT_start ElevationAngle : K)
    (o : AGOPOutputs K) (r : AOSResult K)
    (h : FindLandmarkAOS c ephemeris R_S0 o station GMT_start ElevationAngle = some r) :
    r.out.matrix = o.matrix := by
  have hw := WriteError_matrix o 4
  simp only [FindLandmarkAOS] at h
  split at h
  · cases h
  · split_ifs at h
    · rw [← Option.some.inj h]
      exact hw
    · rw [← Option.some.inj h]
  · split at h
    · cases h
    · rw [← Option.some.inj h]
      exact hw
    · split_ifs at h
      · rw [← Option.some.inj h]
        exact hw
      · rw [← Option.some.inj h]

theorem StarSightingTable_landmark_matrix (c : Collab K) (ephemeris : EphemerisDataTable2 K)
    (R_S0 : VECTOR3 K) (inp : AGOPInputs K) (o : AGOPOutputs K)
    (x : Except (AGOPOutputs K) (AGOPOutputs K × K))
    (h : StarSightingTable_landmark c ephemeris R_S0 inp o = some x) :
    (outputsOfStep x).matrix = o.matrix := by
  have hw := WriteError_matrix o 5
  simp only [StarSightingTable_landmark] at h
  split at h
  · rw [← Option.some.inj h]
    exact hw
  · split_ifs at h
    · rw [← Option.some.inj h]
      exact hw
    · rw [← Option.some.inj h]
      exact hw
    · split at h
      · cases h
      · rename_i r hr
        have hm := FindLandmarkAOS_matrix c ephemeris R_S0 _ _ _ o r hr
        split_ifs at h
        · rw [← Option.some.inj h]
          exact (WriteError_matrix r.out 5).trans hm
        · split at h
          · rw [← Option.some.inj h]
            exact hm
          · cases h

theorem StarSightingTable_target_matrix (c : Collab K) (u : Uninitialised K)
    (ephemeris : EphemerisDataTable2 K) (inp : AGOPInputs K) (o : AGOPOutputs K)
    (x : Except (AGOPOutputs K) (AGOPOutputs K × VECTOR3 K × Option (VECTOR3 K)))
    (h : StarSightingTable_target c u ephemeris inp o = some x) :
    (outputsOfStep x).matrix = o.matrix := by
  simp only [StarSightingTable_target] at h
  by_cases m13 : inp.Mode = 1 ∨ inp.Mode = 3
  · rw [if_pos m13] at h
    cases hl : StarSightingTable_landmark c ephemeris u.R_S inp o with
    | none =>
      rw [hl] at h
      cases h
    | some y =>
      have hm := StarSightingTable_landmark_matrix c ephemeris u.R_S inp o y hl
      rw [hl] at h
      cases y with
      | error a =>
        simp only [Option.some.injEq] at h
        rw [← h]
        exact hm
      | ok a =>
        simp only [Option.some.injEq] at h
        rw [← h]
        exact hm
  · rw [if_neg m13] at h
    by_cases m24 : inp.Mode = 2 ∨ inp.Mode = 4
    · rw [if_pos m24] at h
      split at h
      · cases h
      · split_ifs at h
        · rw [← Option.some.inj h]
          exact WriteError_matrix o 6
        · rw [← Option.some.inj h]
          rfl
    · rw [if_neg m24] at h
      rw [← Option.some.inj h]
      rfl

theorem LunarSurfaceAlignmentDisplay_matrix_kept (c : Collab K) (inp : AGOPInputs K)
    (o r : AGOPOutputs K) (h : LunarSurfaceAlignmentDisplay c inp o = some r) :
    r.matrix = o.matrix := by
  simp only [LunarSurfaceAlignmentDisplay] at h
  split at h
  · cases h
  · rw [← Option.some.inj h]
    rfl

/-- The modes of the optical support table that derive no reference matrix (all but
mode 3 and options 0 and 3 of mode 4) return the matrix as it was. -/
theorem OpticalSupportTable_matrix (c : Collab K) (u : Uninitialised K) (fuelA : ℕ)
    (ephemeris : EphemerisDataTable2 K) (inp : AGOPInputs K) (o r : AGOPOutputs K)
    (h3 : ¬ inp.Mode = 3)
    (h4 : inp.Mode = 4 → inp.AdditionalOption = 1 ∨ inp.AdditionalOption = 2)
    (h : OpticalSupportTable c u fuelA ephemeris inp o = some r) : r.matrix = o.matrix := by
  simp only [OpticalSupportTable] at h
  by_cases m1 : inp.Mode = 1
  · rw [if_pos m1] at h
    exact LMHorizonCheck_matrix c inp ephemeris o r h
  rw [if_neg m1] at h
  by_cases m2 : inp.Mode = 2
  · rw [if_pos m2] at h
    exact OSTAlignmentManeuverCheck_matrix c fuelA 402 ephemeris inp o r h
  rw [if_neg m2, if_neg h3] at h
  by_cases m4 : inp.Mode = 4
  · rw [if_pos m4] at h
    rw [← Option.some.inj h]
    exact DockingAlignment_matrix c inp o (h4 m4)
  rw [if_neg m4] at h
  by_cases m5 : inp.Mode = 5
  · rw [if_pos m5] at h
    exact PointAOTWithCSM_matrix c inp ephemeris u.OMICRON u.CSM_Att o r h
  rw [if_neg m5] at h
  by_cases m6 : inp.Mode = 6
  · rw [if_pos m6] at h
    rw [← Option.some.inj h]
    exact REFSMMAT2REFSMMAT_matrix c inp o
  rw [if_neg m6] at h
  rw [← Option.some.inj h]

end LeftoverMatrix

section LeftoverMatrixDisplays
variable {K : Type} [LinearOrderedField K] [FloorRing K]

theorem ReferenceBodyComputation_loop_matrix (c : Collab K) (inp : AGOPInputs K)
    (ephemeris : EphemerisDataTable2 K) :
    ∀ (fuel i : ℕ) (GMT : K) (o : AGOPOutputs K),
      (ReferenceBodyComputation_loop c inp ephemeris fuel i GMT o).matrix = o.matrix := by
  intro fuel
  induction fuel with
  | zero =>
    intro i GMT o
    simp only [ReferenceBodyComputation_loop]
  | succ fuel ih =>
    intro i GMT o
    simp only [ReferenceBodyComputation_loop]
    cases hs : ReferenceBodyComputation_sample c inp ephemeris GMT with
    | error e => exact WriteError_matrix o e
    | ok s =>
      simp only
      split_ifs
      · rfl
      · rfl
      · exact (ih _ _ _).trans rfl
      · rfl

theorem ReferenceBodyComputation_matrix (c : Collab K) (inp : AGOPInputs K)
    (ephemeris : EphemerisDataTable2 K) (o : AGOPOutputs K) :
    (ReferenceBodyComputation c ephemeris inp o).matrix = o.matrix := by
  simp only [ReferenceBodyComputation]
  exact (ReferenceBodyComputation_loop_matrix c inp ephemeris _ _ _ _).trans rfl

theorem StarSightingTable_matrix (c : Collab K) (u : Uninitialised K)
    (ephemeris : EphemerisDataTable2 K) (inp : AGOPInputs K) (o r : AGOPOutputs K)
    (h : StarSightingTable c u ephemeris inp o = some r) : r.matrix = o.matrix := by
  simp only [StarSightingTable] at h
  cases ht : StarSightingTable_target c u ephemeris inp o with
  | none =>
    rw [ht] at h
    cases h
  | some x =>
    have hm := StarSightingTable_target_matrix c u ephemeris inp o x ht
    rw [ht] at h
    cases x with
    | error a =>
      simp only [Option.some.injEq] at h
      rw [← h]
      exact hm
    | ok a =>
      obtain ⟨oa, GA, us⟩ := a
      simp only [Option.some.injEq] at h
      rw [← h]
      exact hm

/-- Every mode of `Calc` that derives no reference matrix (every mode but passive thermal
control, and mode 3 and options 0 and 3 of mode 4 of the optical support table) returns
the matrix and its vehicle tag as the report object held them before the call. -/
theorem Calc_matrix (c : Collab K) (u : Uninitialised K) (fuelA : ℕ) (inp : AGOPInputs K)
    (o r : AGOPOutputs K) (h5 : ¬ inp.Option = 5)
    (h7 : inp.Option = 7 → ¬ inp.Mode = 3
      ∧ (inp.Mode = 4 → inp.AdditionalOption = 1 ∨ inp.AdditionalOption = 2))
    (h : Calc c u fuelA inp o = some r) : r.matrix = o.matrix := by
  rw [Calc] at h
  by_cases o1 : inp.Option = 1
  · rw [if_pos o1] at h
    exact (CislunarNavigation_matrix c inp inp.ephem _ r h).trans rfl
  rw [if_neg o1] at h
  by_cases o2 : inp.Option = 2
  · rw [if_pos o2] at h
    rw [← Option.some.inj h]
    exact (ReferenceBodyComputation_matrix c inp inp.ephem _).trans rfl
  rw [if_neg o2] at h
  by_cases o3 : inp.Option = 3
  · rw [if_pos o3] at h
    have hf := StarCatalog_fields c inp _ r h
    exact Prod.ext hf.1 hf.2.1
  rw [if_neg o3] at h
  by_cases o4 : inp.Option = 4
  · rw [if_pos o4] at h
    rw [← Option.some.inj h]
    exact (AntennaPointing_matrix c inp inp.ephem _).trans rfl
  rw [if_neg o4, if_neg h5] at h
  by_cases o6 : inp.Option = 6
  · rw [if_pos o6] at h
    rw [← Option.some.inj h]
    exact (HorizonAngles_matrix c inp inp.ephem _).trans rfl
  rw [if_neg o6] at h
  by_cases o7 : inp.Option = 7
  · rw [if_pos o7] at h
    exact (OpticalSupportTable_matrix c u fuelA inp.ephem inp _ r (h7 o7).1 (h7 o7).2
      h).trans rfl
  rw [if_neg o7] at h
  by_cases o8 : inp.Option = 8
  · rw [if_pos o8] at h
    exact (StarSightingTable_matrix c u inp.ephem inp _ r h).trans rfl
  rw [if_neg o8] at h
  by_cases o9 : inp.Option = 9
  · rw [if_pos o9] at h
    exact (LunarSurfaceAlignmentDisplay_matrix_kept c inp _ r h).trans rfl
  rw [if_neg o9] at h
  rw [← Option.some.inj h]
  rfl

end LeftoverMatrixDisplays

section FreshReportClaim

variable {K : Type} [LinearOrderedField K] [FloorRing K]

/-- Claim C23 as stated fails on the code: for the star catalog request, which derives no
reference matrix, the call of `Calc` on a fresh report object returns the identity
matrix tagged for vehicle 0, and the same call on a report object left by an earlier
call returns the matrix, the vehicle tag, the gimbal angles, the antenna angles and the
near-horizon flag of that earlier call. -/
theorem C23_counterexample :
    ∃ r1 r2 : AGOPOutputs ℚ,
      Calc ratCollab ratUninitialised 0 starCatalogRequest AGOPOutputs.init = some r1
      ∧ Calc ratCollab ratUninitialised 0 starCatalogRequest staleOutputs = some r2
      ∧ r1.REFSMMAT = _M 1 0 0 0 1 0 0 0 1 ∧ r2.REFSMMAT = _M 0 1 0 (-1) 0 0 0 0 1
      ∧ r1.REFSMMAT ≠ r2.REFSMMAT
      ∧ r1.REFSMMAT_Vehicle = 0 ∧ r2.REFSMMAT_Vehicle = 3
      ∧ r1.IMUAttitude = _V 0 0 0 ∧ r2.IMUAttitude = _V 1 2 3
      ∧ r1.pitch = 0 ∧ r2.pitch = 4 ∧ r1.yaw = 0 ∧ r2.yaw = 5
      ∧ r1.bIsNearHorizon = false ∧ r2.bIsNearHorizon = true := by
  obtain ⟨r1, h1⟩ := starCatalogRequest_some AGOPOutputs.init
  obtain ⟨r2, h2⟩ := starCatalogRequest_some staleOutputs
  have f1 := h1
  have f2 := h2
  rw [Calc_option3 ratCollab ratUninitialised 0 starCatalogRequest _ rfl] at f1 f2
  obtain ⟨a1, a2, a3, a4, a5, a6⟩ := StarCatalog_fields _ _ _ _ f1
  obtain ⟨b1, b2, b3, b4, b5, b6⟩ := StarCatalog_fields _ _ _ _ f2
  have a1' : r1.REFSMMAT = _M 1 0 0 0 1 0 0 0 1 := a1
  have b1' : r2.REFSMMAT = _M 0 1 0 (-1) 0 0 0 0 1 := b1
  refine ⟨r1, r2, h1, h2, a1', b1', ?_, a2, b2, a3, b3, a4, b4, a5, b5, a6, b6⟩
  rw [a1', b1']
  simp [_M]

/-- Claim C23, as the code has it: `Calc` clears the lines and the error message of the
report object and nothing else.  For every request, two calls of `Calc` with the same
inputs but different prior contents of the report object yield the same `output_text`
and the same `errormessage` (and succeed or fail alike).  The fields `REFSMMAT`,
`REFSMMAT_Vehicle`, `IMUAttitude`, `pitch`, `yaw` and `bIsNearHorizon` are not reset:
every mode that derives no reference matrix (every mode but passive thermal control,
`Option = 5`, and, in the optical support table, `Option = 7`, mode 3 and mode 4 with an
`AdditionalOption` other than 1 and 2) returns `REFSMMAT` and `REFSMMAT_Vehicle` as they
were before the call, and the star catalog mode (`Option = 3`) returns all six fields as
they were before the call. -/
theorem C23_Calc_text_fresh (c : Collab K) (u : Uninitialised K) (fuelA : ℕ)
    (inp : AGOPInputs K) (o1 o2 : AGOPOutputs K) :
    Option.map AGOPOutputs.report (Calc c u fuelA inp o1)
        = Option.map AGOPOutputs.report (Calc c u fuelA inp o2)
    ∧ (¬ inp.Option = 5 →
        (inp.Option = 7 → ¬ inp.Mode = 3
          ∧ (inp.Mode = 4 → inp.AdditionalOption = 1 ∨ inp.AdditionalOption = 2)) →
        ∀ r : AGOPOutputs K, Calc c u fuelA inp o1 = some r →
          r.REFSMMAT = o1.REFSMMAT ∧ r.REFSMMAT_Vehicle = o1.REFSMMAT_Vehicle)
    ∧ (inp.Option = 3 → ∀ r : AGOPOutputs K, Calc c u fuelA inp o1 = some r →
        r.REFSMMAT = o1.REFSMMAT ∧ r.REFSMMAT_Vehicle = o1.REFSMMAT_Vehicle
        ∧ r.IMUAttitude = o1.IMUAttitude ∧ r.pitch = o1.pitch ∧ r.yaw = o1.yaw
        ∧ r.bIsNearHorizon = o1.bIsNearHorizon) := by
  refine ⟨Calc_report c u fuelA inp o1 o2, ?_, ?_⟩
  · intro h5 h7 r hr
    have hm := Calc_matrix c u fuelA inp o1 r h5 h7 hr
    simp only [AGOPOutputs.matrix, Prod.mk.injEq] at hm
    exact hm
  · intro h3 r hr
    rw [Calc_option3 c u fuelA inp o1 h3] at hr
    have hf := StarCatalog_fields c inp { o1 with output_text := [], errormessage := "" } r hr
    exact hf

theorem C23_Calc_text_fresh_witness :
    Option.map AGOPOutputs.report
        (Calc ratCollab ratUninitialised 0 starCatalogRequest AGOPOutputs.init)
      = Option.map AGOPOutputs.report
        (Calc ratCollab ratUninitialised 0 starCatalogRequest staleOutputs)
    ∧ (∀ r : AGOPOutputs ℚ,
        Calc ratCollab ratUninitialised 0 starCatalogRequest staleOutputs = some r →
        r.REFSMMAT = staleOutputs.REFSMMAT ∧ r.REFSMMAT_Vehicle = staleOutputs.REFSMMAT_Vehicle)
    ∧ ∀ r : AGOPOutputs ℚ,
        Calc ratCollab ratUninitialised 0 starCatalogRequest staleOutputs = some r →
        r.IMUAttitude = staleOutputs.IMUAttitude :=
  ⟨(C23_Calc_text_fresh ratCollab ratUninitialised 0 starCatalogRequest AGOPOutputs.init
      staleOutputs).1,
   (C23_Calc_text_fresh ratCollab ratUninitialised 0 starCatalogRequest staleOutputs
      AGOPOutputs.init).2.1 (by decide) (fun h => absurd h (by decide)),
   fun r hr => ((C23_Calc_text_fresh ratCollab ratUninitialised 0 starCatalogRequest
      staleOutputs AGOPOutputs.init).2.2 rfl r hr).2.2.1⟩

end FreshReportClaim

end AGOP
